import Mathlib

/-!
# Physics and game-state core of `code.cpp`

A shallow embedding of the simulation core of the game (`set_canon_position`,
`set_object_position`, `checkcollision`, the state-changing part of `draw`, and
the body of the loop in `main`), followed by theorems about it.

Conventions of the embedding.

* The C++ `double` and `float` globals are values of an arbitrary linearly
  ordered field `α` (exact arithmetic: rounding, infinities and NaN are not
  modelled; a division by zero has the value `0` as in any Lean field).
* The global variables are the fields of `World`.  The `int` globals are `Int`.
  The never-assigned loop bounds `no_of_objects`, `no_of_fixed_objects`,
  `no_of_coins`, `no_of_piggy` and `no_of_collisions_allowed` are constants.
  The camera globals (`in1`, `xmousePos1`, `screen_shift`, `camera_zoom`, ...)
  and every draw call only feed the renderer and are left out.
* The arrays `objects`, `fixe`, `coins`, `piggy_pos` are functions of two
  indices, written with `set2`.
* `Env` holds what the program takes from outside: the functions of `<cmath>`,
  `M_PI`, and the clock `glfwGetTime()`.  `World.reads` counts the calls of
  `glfwGetTime()` made so far; the `k`-th call returns `E.glfwGetTime k`.
* `Uninit` holds the indeterminate values that `checkcollision` reads from
  locals it never assigned (`u2y` always; `valx`, `valy` when no branch of the
  quadrant test fires).
-/

namespace AngryBirds

/-- Functions and values the program obtains from its environment. -/
structure Env (α : Type) where
  sqrt : α → α
  sin : α → α
  cos : α → α
  tan : α → α
  atan : α → α
  atan2 : α → α → α
  M_PI : α
  glfwGetTime : Nat → α

/-- Indeterminate contents of the locals `u2y`, `valx`, `valy` of the two
contact blocks of `checkcollision`: `c_*` at the contact of the projectile with
body `i`, the others at the contact of body `i` with body `i1`. -/
structure Uninit (α : Type) where
  c_u2y : Nat → α
  c_valx : Nat → Int
  c_valy : Nat → Int
  u2y : Nat → Nat → α
  valx : Nat → Nat → Int
  valy : Nat → Nat → Int

/-- The global variables of the program that the simulation reads or writes. -/
structure World (α : Type) where
  gravity : α
  air_friction : α
  angle_c : α
  speed_of_canon_intial : α
  a_pressed : Int
  w_pressed : Int
  s_pressed : Int
  d_pressed : Int
  c_pressed : Int
  xmousePos : α
  ymousePos : α
  score : α
  left_button_Pressed : Int
  right_button_Pressed : Int
  canon_out : Int
  canon_x_position : α
  canon_y_position : α
  canon_start_time : α
  canon_velocity : α
  canon_theta : α
  radius_of_canon : α
  canon_x_initial_position : α
  canon_y_initial_position : α
  canon_x_velocity : α
  canon_y_velocity : α
  canon_x_direction : Int
  width : α
  coefficient_of_collision_with_walls : α
  e : α
  friction : α
  objects : Nat → Nat → α
  fixe : Nat → Nat → α
  coins : Nat → Nat → α
  piggy_pos : Nat → Nat → α
  radius_of_piggy : α
  no_of_piggy_hit : α
  reads : Nat

/-- Loop bound `no_of_objects`. -/
def no_of_objects : Nat := 3

/-- Loop bound `no_of_fixed_objects`. -/
def no_of_fixed_objects : Nat := 9

/-- Loop bound `no_of_coins`. -/
def no_of_coins : Nat := 4

/-- Loop bound and target count `no_of_piggy`. -/
def no_of_piggy : Nat := 3

/-- Collision limit `no_of_collisions_allowed`. -/
def no_of_collisions_allowed : Nat := 60

section Embedding

variable {α : Type} [LinearOrderedField α]

/-- Assignment `a[i][j] = v` to a two-dimensional array. -/
def set2 (a : Nat → Nat → α) (i j : Nat) (v : α) : Nat → Nat → α :=
  fun i' j' => if i' = i ∧ j' = j then v else a i' j'

/-- Assignment `objects[i][j] = v`. -/
def set_obj (i j : Nat) (v : α) (w : World α) : World α :=
  { w with objects := set2 w.objects i j v }

/-- A C `for (int i = lo; i < hi; i++) body` loop over the state. -/
def forLoop {σ : Type} (lo hi : Nat) (body : Nat → σ → σ) (w : σ) : σ :=
  ((List.range (hi - lo)).map (fun k => lo + k)).foldl (fun s i => body i s) w

/-- Source function `distance`. -/
def distance (E : Env α) (x1 y1 x2 y2 : α) : α :=
  let var := (x2 - x1) * (x2 - x1) + (y2 - y1) * (y2 - y1)
  E.sqrt var

/-- Source function `set_canon_position`; the parameter `velocity` is unused
there as well. -/
def set_canon_position (E : Env α) (x y thetay thetax : α) (direction : Int)
    (_velocity u2x u2y : α) (w : World α) : World α :=
  { w with
    canon_x_direction := if direction ≠ 0 then direction else w.canon_x_direction
    canon_theta := E.atan2 thetay thetax
    canon_start_time := E.glfwGetTime w.reads
    reads := w.reads + 1
    canon_x_initial_position := x
    canon_y_initial_position := y
    canon_x_position := x
    canon_y_position := y
    canon_velocity := E.sqrt (u2x * u2x + u2y * u2y)
    canon_x_velocity := u2x
    canon_y_velocity := u2y }

/-- Source function `set_object_position`. -/
def set_object_position (E : Env α) (x y thetay thetax : α) (direction : Int)
    (_velocity u2x u2y : α) (i : Nat) (w : World α) : World α :=
  let o0 := if direction ≠ 0 then set2 w.objects i 14 (direction : α) else w.objects
  let o1 := set2 o0 i 12 (E.atan2 thetay thetax)
  let o2 := set2 o1 i 8 (E.glfwGetTime w.reads)
  let o3 := set2 o2 i 9 x
  let o4 := set2 o3 i 10 y
  let o5 := set2 o4 i 11 (E.sqrt (u2x * u2x + u2y * u2y))
  let o6 := set2 o5 i 2 u2x
  let o7 := set2 o6 i 3 u2y
  let o8 := if o7 i 15 = 1 then set2 o7 i 13 1 else o7
  let o9 := set2 o8 i 16 (o8 i 16 + 1)
  { w with objects := o9, reads := w.reads + 1 }

/-- The quadrant test that chooses the push-apart offsets `valx`, `valy` in both
contact blocks of `checkcollision`; when no branch fires (equal `x` or equal
`y`) the locals keep their indeterminate contents `jx`, `jy`. -/
def quadrant (x y ox oy : α) (jx jy : Int) : Int × Int :=
  if x > ox ∧ y > oy then (4, 4)
  else if x > ox ∧ y < oy then (4, -4)
  else if x < ox ∧ y > oy then (-4, 4)
  else if x < ox ∧ y < oy then (-4, -4)
  else (jx, jy)

/-- Right-wall test of the projectile, `checkcollision` line 614. -/
def canon_wall_right (E : Env α) (velocity : α) (w : World α) : World α :=
  if w.canon_x_position ≥ 1350 - 15 then
    set_canon_position E (1350 - 15) w.canon_y_position w.canon_y_velocity
      (-1 * w.canon_x_velocity) (-1) velocity
      (-1 * w.canon_x_velocity * w.coefficient_of_collision_with_walls)
      (w.canon_y_velocity * w.friction) w
  else w

/-- Top-wall test of the projectile, `checkcollision` line 616. -/
def canon_wall_top (E : Env α) (velocity : α) (w : World α) : World α :=
  if w.canon_y_position + w.radius_of_canon ≥ 650 then
    set_canon_position E w.canon_x_position (650 - w.radius_of_canon)
      (-1 * w.canon_y_velocity) w.canon_x_velocity 0 velocity
      (w.canon_x_velocity * w.friction)
      (-1 * w.canon_y_velocity * w.coefficient_of_collision_with_walls) w
  else w

/-- Ground test of the projectile, `checkcollision` line 618. -/
def canon_wall_ground (E : Env α) (velocity : α) (w : World α) : World α :=
  if w.canon_y_position ≤ 50 then
    set_canon_position E w.canon_x_position 50
      (-1 * w.canon_y_velocity) w.canon_x_velocity 0 velocity
      (w.canon_x_velocity * w.friction)
      (-1 * w.canon_y_velocity * w.coefficient_of_collision_with_walls) w
  else w

/-- Left-wall test of the projectile, `checkcollision` line 620. -/
def canon_wall_left (E : Env α) (velocity : α) (w : World α) : World α :=
  if w.canon_x_position ≤ 11 + 15 ∧ w.canon_out = 1 then
    set_canon_position E 26 w.canon_y_position w.canon_y_velocity
      (-1 * w.canon_x_velocity) 1 velocity
      (-1 * w.canon_x_velocity * w.coefficient_of_collision_with_walls)
      (w.canon_y_velocity * w.friction) w
  else w

/-- The four wall tests of the projectile, `checkcollision` lines 613-621. -/
def canon_walls (E : Env α) (w : World α) : World α :=
  let velocity := E.sqrt (w.canon_x_velocity * w.canon_x_velocity
    + w.canon_y_velocity * w.canon_y_velocity)
  canon_wall_left E velocity (canon_wall_ground E velocity
    (canon_wall_top E velocity (canon_wall_right E velocity w)))

/-- Re-launch of free body `i` after a contact with the projectile, the block of
`checkcollision` lines 664-682, with the body's new velocity `(v2x, v2y)`. -/
def canon_object_relaunch (E : Env α) (i : Nat) (v2x v2y : α) (w : World α) : World α :=
  let w2 := set_obj i 9 (w.objects i 0) w
  let w3 := set_obj i 10 (w2.objects i 1) w2
  if w3.objects i 15 = 1 then
    let w4 := set_obj i 13 1 w3
    let dir1 : Int := if v2x < 0 then -1 else 1
    set_object_position E (w4.objects i 0) (w4.objects i 1) v2y v2x dir1 0 v2x v2y i w4
  else w3

/-- Response to a contact of the projectile with free body `i`, the block of
`checkcollision` lines 627-683. -/
def canon_object_response (E : Env α) (U : Uninit α) (i : Nat) (w : World α) : World α :=
  let w0 := { w with score := w.score + 10 }
  let m := w.objects i 5 / (2 * w.radius_of_canon)
  let u1x := w.canon_x_velocity
  let u1y := w.canon_y_velocity
  let v1x := w.objects i 2
  let v1y := w.objects i 3
  let v2x := (w.e * (u1x - v1x) + u1x + v1x) / (1 + m)
  let _u2x := u1x + m * v1x - m * v2x
  let v2y := (w.e * (u1y - v1y) + u1y + v1y) / (1 + m)
  let u2x := u1y + m * v1y - m * v2y
  let u2y := U.c_u2y i
  let dir : Int := if u2x < 0 then -1 else 1
  let x := w.canon_x_position
  let y := w.canon_y_position
  let val := quadrant x y (w.objects i 0) (w.objects i 1) (U.c_valx i) (U.c_valy i)
  let w1 := set_canon_position E (x + (val.1 : α)) (y + (val.2 : α)) u2y u2x dir
    (E.sqrt (u2x * u2x + u2y * u2y)) u2x u2y w0
  canon_object_relaunch E i v2x v2y w1

/-- Contact of the projectile with free body `i`, `checkcollision` lines
625-683. -/
def canon_object_contact (E : Env α) (U : Uninit α) (i : Nat) (w : World α) : World α :=
  let dist := distance E w.canon_x_position w.canon_y_position (w.objects i 0) (w.objects i 1)
  if dist ≤ 10 + w.objects i 5 ∧ w.objects i 16 ≤ (no_of_collisions_allowed : α) then
    canon_object_response E U i w
  else w

/-- Right-wall test of free body `i`, `checkcollision` line 685. -/
def object_wall_right (E : Env α) (velocity1 : α) (i : Nat) (w : World α) : World α :=
  if w.objects i 0 ≥ 1350 - 15 then
    set_object_position E (1350 - 15) (w.objects i 1) (w.objects i 3) (-1 * w.objects i 2) (-1)
      (velocity1 * w.coefficient_of_collision_with_walls)
      (-1 * w.objects i 2 * w.coefficient_of_collision_with_walls)
      (w.objects i 3 * w.friction) i w
  else w

/-- Top-wall test of free body `i`, `checkcollision` line 687. -/
def object_wall_top (E : Env α) (velocity1 : α) (i : Nat) (w : World α) : World α :=
  if w.objects i 1 ≥ 650 - 15 then
    set_object_position E (w.objects i 0) (650 - 20) (-1 * w.objects i 3) (w.objects i 2) 0
      (velocity1 * w.coefficient_of_collision_with_walls)
      (w.objects i 2 * w.friction)
      (w.objects i 3 * -1 * w.coefficient_of_collision_with_walls) i w
  else w

/-- Ground test of free body `i`, `checkcollision` line 689. -/
def object_wall_ground (E : Env α) (velocity1 : α) (i : Nat) (w : World α) : World α :=
  if w.objects i 1 < 50 then
    set_object_position E (w.objects i 0) 50 (-1 * w.objects i 3) (w.objects i 2) 0
      (velocity1 * w.coefficient_of_collision_with_walls)
      (w.objects i 2 * w.friction)
      (-1 * w.objects i 3 * w.coefficient_of_collision_with_walls) i w
  else w

/-- Left-wall test of free body `i`, `checkcollision` line 691. -/
def object_wall_left (E : Env α) (velocity1 : α) (i : Nat) (w : World α) : World α :=
  if w.objects i 0 ≤ 11 + 15 then
    set_object_position E 26 (w.objects i 1) (w.objects i 3) (-1 * w.objects i 2) 1
      (velocity1 * w.coefficient_of_collision_with_walls)
      (-1 * w.objects i 2 * w.coefficient_of_collision_with_walls)
      (w.objects i 3 * w.friction) i w
  else w

/-- The four wall tests of free body `i`, `checkcollision` lines 684-692. -/
def object_walls (E : Env α) (i : Nat) (w : World α) : World α :=
  let velocity1 := E.sqrt (w.objects i 2 * w.objects i 2 + w.objects i 3 * w.objects i 3)
  object_wall_left E velocity1 i (object_wall_ground E velocity1 i
    (object_wall_top E velocity1 i (object_wall_right E velocity1 i w)))

/-- Contact of free body `i` with free body `i1`, body of the loop of
`checkcollision` lines 693-771. -/
def object_object_contact (E : Env α) (U : Uninit α) (i i1 : Nat) (w : World α) : World α :=
  if i ≠ i1 then
    let dist := distance E (w.objects i 0) (w.objects i 1) (w.objects i1 0) (w.objects i1 1)
    if dist ≤ w.objects i 5 + w.objects i1 5 then
      let m := w.objects i1 5 / w.objects i 5
      let u1x := w.objects i 2
      let u1y := w.objects i 3
      let v1x := w.objects i1 2
      let v1y := w.objects i1 3
      let v2x := (w.e * (u1x - v1x) + u1x + v1x) / (1 + m)
      let _u2x := u1x + m * v1x - m * v2x
      let v2y := (w.e * (u1y - v1y) + u1y + v1y) / (1 + m)
      let u2x := u1y + m * v1y - m * v2y
      let u2y := U.u2y i i1
      let dir : Int := if u2x < 0 then -1 else 1
      let x := w.objects i 0
      let y := w.objects i 1
      let val := quadrant x y (w.objects i1 0) (w.objects i1 1) (U.valx i i1) (U.valy i i1)
      let w1 := set_object_position E (w.objects i 0 + (val.1 : α)) (w.objects i 1 + (val.2 : α))
        u2y u2x dir (E.sqrt (u2x * u2x + u2y * u2y)) u2x u2y i w
      let dir1 : Int := if v2x < 0 then -1 else 1
      set_object_position E (w1.objects i1 0 - (val.1 : α)) (w1.objects i1 1 - (val.2 : α))
        v2y v2x dir1 (E.sqrt (v2x * v2x + v2y * v2y)) v2x v2y i1 w1
    else w
  else w

/-- Landing test of free body `i` on an obstacle, `checkcollision` lines 778-779;
`y` is the gap between the body's bottom edge and the obstacle's top edge. -/
def object_obstacle_land (E : Env α) (i : Nat) (y : α) (w : World α) : World α :=
  if y ≤ 5 ∧ y ≥ 0 then
    set_object_position E (w.objects i 0) (w.objects i 1) (-1 * w.objects i 3)
      (w.objects i 2) 0 0 (w.objects i 2 * w.friction)
      (w.objects i 3 * -1 * w.coefficient_of_collision_with_walls) i w
  else w

/-- Second test of the first block, `checkcollision` lines 780-782. -/
def object_obstacle_under (E : Env α) (i i1 : Nat) (w : World α) : World α :=
  let y := w.objects i 0 - w.fixe i1 1
  if y ≥ 0 ∧ y ≤ 10 then
    set_object_position E (w.objects i 0) (w.objects i 1 - 5) (-1 * w.objects i 3)
      (w.objects i 2) 0 0 (w.objects i 2 * w.friction)
      (w.objects i 3 * -1 * w.coefficient_of_collision_with_walls) i w
  else w

/-- First block of the tests of free body `i` against obstacle `i1`,
`checkcollision` lines 774-783. -/
def object_obstacle_top (E : Env α) (i i1 : Nat) (w : World α) : World α :=
  let y := w.objects i 1 - w.objects i 5 - (w.fixe i1 1 + w.fixe i1 3)
  let x := w.objects i 0 - w.fixe i1 0
  if x ≤ w.fixe i1 2 ∧ x ≥ 0 then
    object_obstacle_under E i i1 (object_obstacle_land E i y w)
  else w

/-- Side test with the body's right edge, `checkcollision` lines 790-791. -/
def object_obstacle_left (E : Env α) (i : Nat) (x : α) (w : World α) : World α :=
  if x ≥ 0 ∧ x ≤ 10 then
    set_object_position E (w.objects i 0 - 3) (w.objects i 1) (w.objects i 3)
      (-1 * w.objects i 2) 0 0
      (w.objects i 2 * w.coefficient_of_collision_with_walls * -1)
      (w.objects i 3 * w.friction) i w
  else w

/-- Side test with the body's left edge, `checkcollision` lines 792-793. -/
def object_obstacle_right (E : Env α) (i : Nat) (x1 : α) (w : World α) : World α :=
  if x1 ≥ 0 ∧ x1 ≤ 5 then
    set_object_position E (w.objects i 0 + 3) (w.objects i 1) (w.objects i 3)
      (-1 * w.objects i 2) 0 0
      (w.objects i 2 * w.coefficient_of_collision_with_walls * -1)
      (w.objects i 3 * w.friction) i w
  else w

/-- Second block of the tests of free body `i` against obstacle `i1`,
`checkcollision` lines 784-794. -/
def object_obstacle_side (E : Env α) (i i1 : Nat) (w : World α) : World α :=
  let y1 := w.objects i 1 - w.objects i 5 - w.fixe i1 1
  let x1 := w.objects i 0 - w.objects i 5 - w.fixe i1 0
  let y := w.objects i 1 + w.objects i 5 - w.fixe i1 1
  let x := w.objects i 0 + w.objects i 5 - w.fixe i1 0
  if (y ≤ w.fixe i1 3 ∧ y ≥ 0) ∨ (y1 ≤ w.fixe i1 3 ∧ y1 ≥ 0) then
    object_obstacle_right E i x1 (object_obstacle_left E i x w)
  else w

/-- Tests of free body `i` against obstacle `i1`, body of the loop of
`checkcollision` lines 772-795. -/
def object_obstacle (E : Env α) (i i1 : Nat) (w : World α) : World α :=
  object_obstacle_side E i i1 (object_obstacle_top E i i1 w)

/-- Body of the loop over the free bodies, `checkcollision` lines 623-796. -/
def object_loop_body (E : Env α) (U : Uninit α) (i : Nat) (w : World α) : World α :=
  let w1 := canon_object_contact E U i w
  let w2 := object_walls E i w1
  let w3 := forLoop 0 no_of_objects (fun i1 s => object_object_contact E U i i1 s) w2
  forLoop 6 9 (fun i1 s => object_obstacle E i i1 s) w3

/-- Landing test of the projectile on an obstacle, `checkcollision` lines
804-805; `y` is the gap between its bottom edge and the obstacle's top edge. -/
def canon_obstacle_land (E : Env α) (y : α) (w : World α) : World α :=
  if y ≤ 5 ∧ y ≥ 0 then
    set_canon_position E w.canon_x_position w.canon_y_position (-1 * w.canon_y_velocity)
      w.canon_x_velocity 0 0 (w.canon_x_velocity * w.friction)
      (w.canon_y_velocity * -1 * w.coefficient_of_collision_with_walls) w
  else w

/-- Test of the projectile against the underside of obstacle `i`,
`checkcollision` lines 806-808. -/
def canon_obstacle_under (E : Env α) (i : Nat) (w : World α) : World α :=
  let y := w.canon_y_position + w.radius_of_canon - w.fixe i 1
  if y ≥ 0 ∧ y ≤ 10 then
    set_canon_position E w.canon_x_position (w.canon_y_position - 10)
      (-1 * w.canon_y_velocity) w.canon_x_velocity 0 0 (w.canon_x_velocity * w.friction)
      (w.canon_y_velocity * -1 * w.coefficient_of_collision_with_walls) w
  else w

/-- First block of the tests of the projectile against obstacle `i`,
`checkcollision` lines 800-810. -/
def canon_obstacle_top (E : Env α) (i : Nat) (w : World α) : World α :=
  let y := w.canon_y_position - w.radius_of_canon - (w.fixe i 1 + w.fixe i 3)
  let x := w.canon_x_position - w.radius_of_canon - w.fixe i 0
  if x ≤ w.fixe i 2 ∧ x ≥ 0 then
    canon_obstacle_under E i (canon_obstacle_land E y w)
  else w

/-- Side test with the projectile's right edge, `checkcollision` lines 817-818. -/
def canon_obstacle_left (E : Env α) (x : α) (w : World α) : World α :=
  if x ≥ 0 ∧ x ≤ 10 then
    set_canon_position E (w.canon_x_position - 6) w.canon_y_position w.canon_y_velocity
      (-1 * w.canon_x_velocity) 1 (-1)
      (-1 * w.canon_x_velocity * w.coefficient_of_collision_with_walls)
      (w.canon_y_velocity * w.friction) w
  else w

/-- Side test with the projectile's left edge, `checkcollision` lines 819-820. -/
def canon_obstacle_right (E : Env α) (x1 : α) (w : World α) : World α :=
  if x1 ≥ 0 ∧ x1 ≤ 5 then
    set_canon_position E (w.canon_x_position + 6) w.canon_y_position w.canon_y_velocity
      (-1 * w.canon_x_velocity) (-1) 1
      (-1 * w.canon_x_velocity * w.coefficient_of_collision_with_walls)
      (w.canon_y_velocity * w.friction) w
  else w

/-- Second block of the tests of the projectile against obstacle `i`,
`checkcollision` lines 811-821. -/
def canon_obstacle_side (E : Env α) (i : Nat) (w : World α) : World α :=
  let y1 := w.canon_y_position - w.radius_of_canon - w.fixe i 1
  let x1 := w.canon_x_position - w.radius_of_canon - w.fixe i 0 - w.fixe i 2
  let y := w.canon_y_position + w.radius_of_canon - w.fixe i 1
  let x := w.canon_x_position + w.radius_of_canon - w.fixe i 0
  if (y ≤ w.fixe i 3 ∧ y ≥ 0) ∨ (y1 ≤ w.fixe i 3 ∧ y1 ≥ 0) then
    canon_obstacle_right E x1 (canon_obstacle_left E x w)
  else w

/-- Tests of the projectile against obstacle `i`, body of the loop of
`checkcollision` lines 797-822. -/
def canon_obstacle (E : Env α) (i : Nat) (w : World α) : World α :=
  canon_obstacle_side E i (canon_obstacle_top E i w)

/-- Body of the loop over the collectibles, `checkcollision` lines 823-835. -/
def coin_step (E : Env α) (i : Nat) (w : World α) : World α :=
  let dist := distance E w.canon_x_position w.canon_y_position (w.coins i 0) (w.coins i 1)
  if dist ≤ w.radius_of_canon + w.coins i 2 ∧ w.coins i 3 = 1 then
    let w1 := set_canon_position E 0 0 0 1 1 0 0 0 w
    let w2 := { w1 with canon_x_position := 0 }
    let w3 := { w2 with canon_y_position := 0 }
    let w4 := { w3 with canon_out := 0 }
    let w5 := { w4 with coins := set2 w4.coins i 3 0 }
    { w5 with score := w5.score + 10 }
  else w

/-- Body of the loop over the targets, `checkcollision` lines 836-848. -/
def piggy_step (E : Env α) (i : Nat) (w : World α) : World α :=
  let dist := distance E w.canon_x_position w.canon_y_position (w.piggy_pos i 0) (w.piggy_pos i 1)
  if dist ≤ w.radius_of_canon + w.radius_of_piggy ∧ w.piggy_pos i 2 ≠ 3 then
    let w1 := set_canon_position E 0 0 0 1 1 0 0 0 w
    let w2 := { w1 with canon_x_position := 0 }
    let w3 := { w2 with canon_y_position := 0 }
    let w4 := { w3 with canon_out := 0 }
    let w5 := { w4 with piggy_pos := set2 w4.piggy_pos i 2 (w4.piggy_pos i 2 + 1) }
    { w5 with score := w5.score + w5.piggy_pos i 2 * 10 }
  else w

/-- Source function `checkcollision`. -/
def checkcollision (E : Env α) (U : Uninit α) (w : World α) : World α :=
  let w1 := canon_walls E w
  let w2 := forLoop 0 no_of_objects (fun i s => object_loop_body E U i s) w1
  let w3 := forLoop 0 no_of_fixed_objects (fun i s => canon_obstacle E i s) w2
  let w4 := forLoop 0 no_of_coins (fun i s => coin_step E i s) w3
  forLoop 0 no_of_piggy (fun i s => piggy_step E i s) w4

/-- Aim-up key, `draw` lines 1165-1170. -/
def draw_key_w (w : World α) : World α :=
  if w.w_pressed = 1 then
    let a := w.angle_c + 5
    { w with angle_c := if a ≥ 90 then 90 else a }
  else w

/-- Aim-down key, `draw` lines 1171-1176. -/
def draw_key_s (w : World α) : World α :=
  if w.s_pressed = 1 then
    let a := w.angle_c - 5
    { w with angle_c := if a < 10 then 10 else a }
  else w

/-- Power keys, `draw` lines 1177-1188. -/
def draw_key_dc (w : World α) : World α :=
  if w.d_pressed = 1 then
    let p := w.speed_of_canon_intial + 5
    { w with speed_of_canon_intial := if p > w.width then w.width else p }
  else if w.c_pressed = 1 then
    let p := w.speed_of_canon_intial - 5
    { w with speed_of_canon_intial := if p ≤ 0 then 0 else p }
  else w

/-- Aim and power keys at the top of `draw`, lines 1165-1188. -/
def draw_keys (w : World α) : World α :=
  draw_key_dc (draw_key_s (draw_key_w w))

/-- Power set by the pointer while only the right button is held, `draw` lines
1214-1219. -/
def draw_pointer_power (E : Env α) (w : World α) : World α :=
  if w.left_button_Pressed = 0 ∧ w.right_button_Pressed = 1 then
    let p := E.sqrt ((w.xmousePos - 55) * (w.xmousePos - 55)
      + (720 - w.ymousePos) * (720 - w.ymousePos))
    { w with speed_of_canon_intial := if p ≥ w.width then w.width else p }
  else w

/-- Position update of free body `i`, body of the loop of `draw` lines
1288-1312 (the draw calls left out). -/
def draw_object (E : Env α) (i : Nat) (w : World α) : World α :=
  if w.objects i 13 = 1 then
    let tim := E.glfwGetTime w.reads - w.objects i 8
    let w0 := { w with reads := w.reads + 1 }
    let x := w0.objects i 9
      + (w0.objects i 11 * E.cos (w0.objects i 12) * tim * w0.objects i 14) * 10
    let w1 := set_obj i 0 x w0
    let y := w1.objects i 10
      + (w1.objects i 11 * E.sin (w1.objects i 12) * tim - (9.8 * tim * tim) / 2) * 10
    let w2 := set_obj i 1 y w1
    let vy := w2.objects i 11 * E.sin (w2.objects i 12) - 9.8 * tim
    let w3 := set_obj i 3 vy w2
    if w3.objects i 1 < 51 ∧ w3.objects i 2 = 0 then set_obj i 13 0 w3 else w3
  else w

/-- The value of `atan (y / x)` in `double` arithmetic, as the pointer launch
of `draw` computes it (line 1316).  For `x = 0` the quotient of the doubles is
`+inf` when `y > 0` and `-inf` when `y < 0`, and `atan` returns `π/2` and
`-π/2`; elsewhere it is the arc tangent of the quotient.  For `x = 0` and
`y = 0` the quotient of the doubles is NaN, which has no counterpart in exact
arithmetic: the value taken there is `atan 0`. -/
def atan_div (E : Env α) (y x : α) : α :=
  if x = 0 ∧ 0 < y then E.M_PI / 2
  else if x = 0 ∧ y < 0 then -(E.M_PI / 2)
  else E.atan (y / x)

/-- Launch step of `draw`, lines 1313-1326: the pointer launch, else the
keyboard launch. -/
def draw_launch (E : Env α) (w : World α) : World α :=
  if w.left_button_Pressed = 1 ∧ w.right_button_Pressed = 1 ∧ w.canon_out = 0 then
    let w1 := { w with canon_out := 1 }
    let theta := atan_div E (720 - w1.ymousePos) w1.xmousePos
    let v := E.sqrt ((w1.xmousePos - 55) * (w1.xmousePos - 55)
      + (720 - w1.ymousePos) * (720 - w1.ymousePos))
    set_canon_position E (55 + 100 * E.cos theta) (60 + 100 * E.sin theta)
      (720 - w1.ymousePos) w1.xmousePos 1 (v / 10)
      ((v / 10) * E.cos theta) ((v / 10) * E.sin theta) w1
  else if w.a_pressed = 1 ∧ w.canon_out = 0 then
    let w1 := { w with canon_out := 1 }
    let s := w1.angle_c * E.M_PI / 180
    set_canon_position E (55 + 100 * E.cos s) (60 + 100 * E.sin s) (E.tan s) 1 1
      (w1.speed_of_canon_intial / 10)
      ((w1.speed_of_canon_intial / 10) * E.cos s)
      ((w1.speed_of_canon_intial / 10) * E.sin s) w1
  else w

/-- Trajectory update of the projectile in `draw`, lines 1327-1344.  The four
assignments (vertical velocity, direction, `y`, `x`) read only globals that none
of them writes, so they are made in one step. -/
def draw_canon_update (E : Env α) (w : World α) : World α :=
  if w.canon_out = 1 then
    let tim := E.glfwGetTime w.reads - w.canon_start_time
    let vy := w.canon_velocity * E.sin w.canon_theta - w.gravity * tim
    let dir : Int := if w.canon_x_velocity < 0 then -1 else 1
    let y := w.canon_y_initial_position
      + ((w.canon_velocity * E.sin w.canon_theta) * tim - (w.gravity * tim * tim) / 2) * 10
    let x := w.canon_x_initial_position + ((w.canon_velocity * E.cos w.canon_theta) * tim) * 10
    let w4 := { w with
      reads := w.reads + 1
      canon_y_velocity := vy
      canon_x_direction := dir
      canon_y_position := y
      canon_x_position := x }
    if w4.canon_x_velocity ≤ 1 ∧ w4.canon_x_velocity ≥ -1 ∧ w4.canon_y_velocity ≤ 1
        ∧ w4.canon_y_velocity ≥ -1 then
      { w4 with canon_out := 0 }
    else w4
  else w

/-- Cap on the stored horizontal velocity, `draw` lines 1345-1349. -/
def draw_cap (w : World α) : World α :=
  if w.canon_x_velocity > 70 then { w with canon_x_velocity := 70 } else w

/-- Air-friction re-launch at the top of `draw`, line 1157. -/
def draw_air (E : Env α) (w : World α) : World α :=
  set_canon_position E w.canon_x_position w.canon_y_position
    (w.canon_y_velocity * w.air_friction) (w.canon_x_velocity * w.air_friction) 0 0
    (w.canon_x_velocity * w.air_friction) (w.canon_y_velocity * w.air_friction) w

/-- Source function `draw`, restricted to its effect on the simulation state. -/
def draw (E : Env α) (w : World α) : World α :=
  let w1 := draw_air E w
  let w2 := draw_keys w1
  let w3 := draw_pointer_power E w2
  let w4 := forLoop 0 no_of_objects (fun i s => draw_object E i s) w3
  let w5 := draw_launch E w4
  let w6 := draw_canon_update E w5
  draw_cap w6

/-- Values the main loop receives in one iteration: the cursor position read by
`glfwGetCursorPos` before `draw`, and the key and button flags as the callbacks
leave them in `glfwPollEvents` after `checkcollision`. -/
structure Input (α : Type) where
  xmousePos : α
  ymousePos : α
  a_pressed : Int
  w_pressed : Int
  s_pressed : Int
  d_pressed : Int
  c_pressed : Int
  left_button_Pressed : Int
  right_button_Pressed : Int

/-- Recount of the targets with `hitCount == 3`, `main` lines 1582-1585. -/
def count_piggy_hit (w : World α) : World α :=
  forLoop 0 no_of_piggy
    (fun i s => if s.piggy_pos i 2 = 3 then { s with no_of_piggy_hit := s.no_of_piggy_hit + 1 }
      else s)
    { w with no_of_piggy_hit := 0 }

/-- Game-over test of `main`, line 1586, on the recomputed count. -/
def game_over (w : World α) : Bool :=
  decide ((count_piggy_hit w).no_of_piggy_hit = (no_of_piggy : α))

/-- One iteration of the loop of `main`, lines 1571-1585, up to the game-over
test. -/
def main_iter (E : Env α) (U : Uninit α) (inp : Input α) (w : World α) : World α :=
  let w1 := { w with xmousePos := inp.xmousePos, ymousePos := inp.ymousePos }
  let w2 := draw E w1
  let w3 := checkcollision E U w2
  let w4 := { w3 with
    a_pressed := inp.a_pressed
    w_pressed := inp.w_pressed
    s_pressed := inp.s_pressed
    d_pressed := inp.d_pressed
    c_pressed := inp.c_pressed
    left_button_Pressed := inp.left_button_Pressed
    right_button_Pressed := inp.right_button_Pressed }
  let w5 := { w4 with reads := w4.reads + 1 }
  count_piggy_hit w5

/-- The loop of `main` over a finite sequence of iterations: it stops when the
game-over test holds (`quit`) or when the sequence ends (window closed). -/
def main_loop (E : Env α) : List (Uninit α × Input α) → World α → World α
  | [], w => w
  | t :: ts, w =>
    let w1 := main_iter E t.1 t.2 w
    if w1.no_of_piggy_hit = (no_of_piggy : α) then w1 else main_loop E ts w1

/-- Initial values of the globals, `code.cpp` lines 344-374. -/
def initial_globals : World α :=
  { gravity := 18
    air_friction := 1 - 0.000005
    angle_c := 10
    speed_of_canon_intial := 0
    a_pressed := 0
    w_pressed := 0
    s_pressed := 0
    d_pressed := 0
    c_pressed := 0
    xmousePos := 0
    ymousePos := 0
    score := 0
    left_button_Pressed := 0
    right_button_Pressed := 0
    canon_out := 0
    canon_x_position := 0
    canon_y_position := 51
    canon_start_time := 0
    canon_velocity := 0
    canon_theta := 0
    radius_of_canon := 10
    canon_x_initial_position := 0
    canon_y_initial_position := 0
    canon_x_velocity := 0
    canon_y_velocity := 0
    canon_x_direction := 1
    width := 1350
    coefficient_of_collision_with_walls := 0.4
    e := 0.5
    friction := 0.7
    objects := fun _ _ => 0
    fixe := fun _ _ => 0
    coins := fun _ _ => 0
    piggy_pos := fun _ _ => 0
    radius_of_piggy := 30
    no_of_piggy_hit := 0
    reads := 0 }

/-- Assignment of a whole row `a[i][0..] = vs`. -/
def setRow (a : Nat → Nat → α) (i : Nat) (vs : List α) : Nat → Nat → α :=
  fun i' j' => if i' = i ∧ j' < vs.length then vs.getD j' 0 else a i' j'

/-- Loop of `intialize_objects` over the free bodies, lines 866-885. -/
def intialize_object (i : Nat) (w : World α) : World α :=
  let o := w.objects
  let o := set2 o i 0 (300 + (i : α) * 50)
  let o := set2 o i 1 500
  let o := set2 o i 2 0
  let o := set2 o i 3 0
  let o := set2 o i 4 0
  let o := set2 o i 6 30
  let o := set2 o i 7 30
  let o := set2 o i 5 (o i 6 / 2)
  let o := set2 o i 8 0
  let o := set2 o i 9 (o i 0)
  let o := set2 o i 10 (o i 1)
  let o := set2 o i 11 0
  let o := set2 o i 12 0
  let o := set2 o i 13 0
  let o := set2 o i 14 0
  let o := set2 o i 15 1
  let o := set2 o i 16 0
  { w with objects := o }

/-- Source function `intialize_objects`. -/
def intialize_objects (w : World α) : World α :=
  let w1 := forLoop 0 no_of_objects (fun i s => intialize_object i s) w
  let o := w1.objects
  let o := set2 o 0 0 400
  let o := set2 o 0 1 100
  let o := set2 o 1 0 1200
  let o := set2 o 1 1 150
  let o := set2 o 2 0 1000
  let o := set2 o 2 1 200
  let f := w1.fixe
  let f := setRow f 0 [300, 400, 100, 30]
  let f := setRow f 1 [400, 370, 100, 30]
  let f := setRow f 2 [500, 400, 100, 30]
  let f := setRow f 3 [1265, 500, 70, 30]
  let f := setRow f 4 [1235, 500, 30, 100]
  let f := setRow f 5 [150, 500, 100, 30]
  let f := setRow f 6 [850, 145, 100, 30]
  let f := setRow f 7 [1050, 45, 30, 100]
  let f := setRow f 8 [850, 45, 30, 100]
  let c := w1.coins
  let c := setRow c 0 [350, 445, 15, 1]
  let c := setRow c 1 [550, 445, 15, 1]
  let c := setRow c 2 [990, 55, 15, 1]
  let c := setRow c 3 [900, 190, 15, 1]
  let p := w1.piggy_pos
  let p := setRow p 0 [450, 430, 0]
  let p := setRow p 1 [1300, 560, 0]
  let p := setRow p 2 [200, 560, 0]
  { w1 with objects := o, fixe := f, coins := c, piggy_pos := p }

/-- State in which `main` enters its loop: the initial globals, after
`intialize_objects` and the first clock read (`last_update_time`). -/
def initial_world : World α :=
  let w := intialize_objects (initial_globals : World α)
  { w with reads := w.reads + 1 }

end Embedding

/-- The environment over the real numbers: the real functions behind `<cmath>`
(`atan2 y x` is the argument of `x + y i`), `M_PI` is `π`, and `clock k` is the
value of the `k`-th call of `glfwGetTime()`.  The tangent has poles where the
cosine vanishes; the program reaches one at the aim of 90 degrees, where
`tan (M_PI / 2)` returns the double `16331239353195370` (`M_PI / 2` lies just
below `π/2`), and that value is taken at the poles. -/
noncomputable def realEnv (clock : Nat → ℝ) : Env ℝ :=
  { sqrt := Real.sqrt
    sin := Real.sin
    cos := Real.cos
    tan := fun x => if Real.cos x = 0 then 16331239353195370 else Real.tan x
    atan := Real.arctan
    atan2 := fun y x => Complex.arg ⟨x, y⟩
    M_PI := Real.pi
    glfwGetTime := clock }

/-- Some contents for the unassigned locals, used in examples. -/
def zeroUninit (α : Type) [Zero α] : Uninit α :=
  { c_u2y := fun _ => 0
    c_valx := fun _ => 0
    c_valy := fun _ => 0
    u2y := fun _ _ => 0
    valx := fun _ _ => 0
    valy := fun _ _ => 0 }

/-- A state for examples: the initial world with the projectile moved to
`(x, y)`. -/
def world_at {α : Type} [LinearOrderedField α] (x y : α) : World α :=
  { (initial_world : World α) with canon_x_position := x, canon_y_position := y }

/-- A state for examples: the projectile in flight at `(200, 300)` with stored
velocity `(3, 4)`, while the launch key and both mouse buttons are held. -/
def flying_world {α : Type} [LinearOrderedField α] : World α :=
  { (world_at 200 300 : World α) with
    canon_out := 1
    canon_x_velocity := 3
    canon_y_velocity := 4
    a_pressed := 1
    left_button_Pressed := 1
    right_button_Pressed := 1 }

/-- Every target's hitCount is one of 0, 1, 2, 3. -/
def HitOK {α : Type} [LinearOrderedField α] (w : World α) : Prop :=
  ∀ i, i < no_of_piggy →
    w.piggy_pos i 2 = 0 ∨ w.piggy_pos i 2 = 1 ∨ w.piggy_pos i 2 = 2 ∨ w.piggy_pos i 2 = 3

/-- Relation between the states before and after a step that leaves the
collectibles and targets as they are and does not lower the score. -/
def Mono {α : Type} [LinearOrderedField α] (w w' : World α) : Prop :=
  w'.coins = w.coins ∧ w'.piggy_pos = w.piggy_pos ∧ w.score ≤ w'.score

/-- Relation between the states before and after a step that leaves the
collectibles, the targets and the score as they are. -/
def Same {α : Type} [LinearOrderedField α] (w w' : World α) : Prop :=
  w'.coins = w.coins ∧ w'.piggy_pos = w.piggy_pos ∧ w'.score = w.score

/-- Relation between the states before and after a step of a tick: if every
hitCount was one of 0, 1, 2, 3 then this still holds and the score has not gone
down; and a collectible that was consumed (flag 0) is still consumed. -/
def Step {α : Type} [LinearOrderedField α] (w w' : World α) : Prop :=
  (HitOK w → HitOK w' ∧ w.score ≤ w'.score) ∧ (∀ i, w.coins i 3 = 0 → w'.coins i 3 = 0)

/-- A state for examples: the initial world with the launch key held, the aim at
45 degrees and the power at 100. -/
def launch_world {α : Type} [LinearOrderedField α] : World α :=
  { (initial_world : World α) with
    a_pressed := 1
    angle_c := 45
    speed_of_canon_intial := 100 }

/-- A state for examples: the initial world with free body 0 in motion
(`objects[0][13] = 1`); its launch frame is the one `intialize_objects` left:
launch position `(300, 500)`, launch speed 0, launch time 0. -/
def falling_world {α : Type} [LinearOrderedField α] : World α :=
  set_obj 0 13 1 (initial_world : World α)

/-- A clock for the range-time scenario: the reads up to the launch return 0,
the later ones `2 * 10 * sin (45 π / 180) / 18`. -/
noncomputable def range_clock (k : Nat) : ℝ :=
  if k ≤ 1 then 0 else 2 * 10 * Real.sin (45 * Real.pi / 180) / 18

/-- Relation between two states with the same physical parameters and obstacle
table (the globals that no function assigns). -/
def Par {α : Type} [LinearOrderedField α] (w w' : World α) : Prop :=
  w'.gravity = w.gravity ∧ w'.air_friction = w.air_friction
  ∧ w'.radius_of_canon = w.radius_of_canon ∧ w'.width = w.width
  ∧ w'.coefficient_of_collision_with_walls = w.coefficient_of_collision_with_walls
  ∧ w'.e = w.e ∧ w'.friction = w.friction ∧ w'.radius_of_piggy = w.radius_of_piggy
  ∧ w'.fixe = w.fixe

/-- Relation between two states with the same aim, power, key and button flags
and cursor position. -/
def Aim {α : Type} [LinearOrderedField α] (w w' : World α) : Prop :=
  w'.angle_c = w.angle_c ∧ w'.speed_of_canon_intial = w.speed_of_canon_intial
  ∧ w'.a_pressed = w.a_pressed ∧ w'.w_pressed = w.w_pressed ∧ w'.s_pressed = w.s_pressed
  ∧ w'.d_pressed = w.d_pressed ∧ w'.c_pressed = w.c_pressed
  ∧ w'.left_button_Pressed = w.left_button_Pressed
  ∧ w'.right_button_Pressed = w.right_button_Pressed
  ∧ w'.xmousePos = w.xmousePos ∧ w'.ymousePos = w.ymousePos

/-- Relation between the states before and after a step of `checkcollision`
before the collectible loop, on the globals other than the free bodies:
parameters, aim, flags and `canon_out` are the same. -/
def Scal {α : Type} [LinearOrderedField α] (w w' : World α) : Prop :=
  Par w w' ∧ Aim w w' ∧ w'.canon_out = w.canon_out

/-- Relation between the states before and after any step of `checkcollision`,
on the globals other than the free bodies: parameters, aim and flags are the
same, and a resting projectile is still resting. -/
def Scal0 {α : Type} [LinearOrderedField α] (w w' : World α) : Prop :=
  Par w w' ∧ Aim w w' ∧ (w.canon_out = 0 → w'.canon_out = 0)

/-- Relation between the states before and after a step of `checkcollision`, on
the free bodies: position, radius and mobility of every body are the same, its
collision count has not gone down, and its in-motion flag is the same unless
the collision count went up. -/
def ObjFrame {α : Type} [LinearOrderedField α] (w w' : World α) : Prop :=
  ∀ i, w'.objects i 0 = w.objects i 0 ∧ w'.objects i 1 = w.objects i 1
    ∧ w'.objects i 5 = w.objects i 5 ∧ w'.objects i 15 = w.objects i 15
    ∧ w.objects i 16 ≤ w'.objects i 16
    ∧ (w'.objects i 13 = w.objects i 13 ∨ w.objects i 16 < w'.objects i 16)

/-- The frame of a step of `checkcollision` before the collectible loop: `Scal`
and `ObjFrame` together. -/
def Fr {α : Type} [LinearOrderedField α] (w w' : World α) : Prop :=
  Scal w w' ∧ ObjFrame w w'

/-- The frame of any step of `checkcollision`: `Scal0` and `ObjFrame` together. -/
def Fr0 {α : Type} [LinearOrderedField α] (w w' : World α) : Prop :=
  Scal0 w w' ∧ ObjFrame w w'

/-- The steps of `draw` between the air-friction re-launch and the launch step:
keys, pointer power and the position update of the free bodies. -/
def draw_mid {α : Type} [LinearOrderedField α] (E : Env α) (w : World α) : World α :=
  forLoop 0 no_of_objects (fun i s => draw_object E i s) (draw_pointer_power E (draw_keys w))

/-- Relation between two states that differ at most in aim angle, power, free
bodies and number of clock reads. -/
def Mid {α : Type} [LinearOrderedField α] (w w' : World α) : Prop :=
  Par w w' ∧ w'.a_pressed = w.a_pressed ∧ w'.w_pressed = w.w_pressed
  ∧ w'.s_pressed = w.s_pressed ∧ w'.d_pressed = w.d_pressed ∧ w'.c_pressed = w.c_pressed
  ∧ w'.left_button_Pressed = w.left_button_Pressed
  ∧ w'.right_button_Pressed = w.right_button_Pressed
  ∧ w'.xmousePos = w.xmousePos ∧ w'.ymousePos = w.ymousePos
  ∧ w'.canon_out = w.canon_out
  ∧ w'.canon_x_position = w.canon_x_position ∧ w'.canon_y_position = w.canon_y_position
  ∧ w'.canon_start_time = w.canon_start_time ∧ w'.canon_velocity = w.canon_velocity
  ∧ w'.canon_theta = w.canon_theta
  ∧ w'.canon_x_initial_position = w.canon_x_initial_position
  ∧ w'.canon_y_initial_position = w.canon_y_initial_position
  ∧ w'.canon_x_velocity = w.canon_x_velocity ∧ w'.canon_y_velocity = w.canon_y_velocity
  ∧ w'.canon_x_direction = w.canon_x_direction

/-- Relation between the states before and after a step of `draw`, on the
in-motion flags of the free bodies: each flag is as before or 0. -/
def FlagDown {α : Type} [LinearOrderedField α] (w w' : World α) : Prop :=
  ∀ i, w'.objects i 13 = w.objects i 13 ∨ w'.objects i 13 = 0

/-- The state in which `draw` reaches the trajectory update of the projectile
(line 1327): after the air-friction re-launch, the keys, the pointer power, the
update of the free bodies and the launch step. -/
def draw_to_update {α : Type} [LinearOrderedField α] (E : Env α) (w : World α) : World α :=
  draw_launch E (draw_mid E (draw_air E w))

/-- A state for examples: the initial layout with the projectile in flight on
the centre of free body 0 (at `(400, 100)`, radius 15, at rest, mobile), with
stored velocity `(7, 0)`. -/
def contact_world {α : Type} [LinearOrderedField α] : World α :=
  { (world_at 400 100 : World α) with
    canon_out := 1
    canon_x_velocity := 7 }

/-- A state for examples: the initial layout with free body 0 below ground level
(`y = 40`) and past the collision limit (collision count 61). -/
def ghost_world {α : Type} [LinearOrderedField α] : World α :=
  set_obj 0 16 61 (set_obj 0 1 40 (initial_world : World α))

/-- A state for examples: the initial layout with free body 0 at rest one unit
below ground level (`y = 49`). -/
def sunk_world {α : Type} [LinearOrderedField α] : World α :=
  set_obj 0 1 49 (initial_world : World α)

/-- The cursor position read by `glfwGetCursorPos` at the head of an iteration of
the main loop. -/
def set_cursor {α : Type} [LinearOrderedField α] (x y : α) (w : World α) : World α :=
  { w with xmousePos := x, ymousePos := y }

/-- Input of an iteration in which the launch key goes down: the cursor at
`(0, 0)`, `a_pressed = 1`, every other key and button flag 0. -/
def launch_input {α : Type} [LinearOrderedField α] : Input α :=
  { xmousePos := 0
    ymousePos := 0
    a_pressed := 1
    w_pressed := 0
    s_pressed := 0
    d_pressed := 0
    c_pressed := 0
    left_button_Pressed := 0
    right_button_Pressed := 0 }

/-- The state of the program after `draw` of the second iteration of the main
loop, when the launch key went down during the first iteration: one full
iteration from the initial state, then the cursor read and `draw`. -/
def settle_state {α : Type} [LinearOrderedField α] (E : Env α) (U : Uninit α) : World α :=
  draw E (set_cursor 0 0 (main_iter E U launch_input (initial_world : World α)))

/-- A clock that advances by one hundredth of a second at every read. -/
noncomputable def E1 : Env ℝ := realEnv (fun k => (k : ℝ) / 100)

/-- Free body `i` is in no contact with obstacle `i1`: wherever one of the two
outer tests of `checkcollision` lines 774-794 holds, none of its inner tests
does. -/
def ObstacleQuiet {α : Type} [LinearOrderedField α] (i i1 : Nat) (w : World α) : Prop :=
  ((w.objects i 0 - w.fixe i1 0 ≤ w.fixe i1 2 ∧ w.objects i 0 - w.fixe i1 0 ≥ 0) →
      ¬ (w.objects i 1 - w.objects i 5 - (w.fixe i1 1 + w.fixe i1 3) ≤ 5
          ∧ w.objects i 1 - w.objects i 5 - (w.fixe i1 1 + w.fixe i1 3) ≥ 0)
      ∧ ¬ (w.objects i 0 - w.fixe i1 1 ≥ 0 ∧ w.objects i 0 - w.fixe i1 1 ≤ 10))
  ∧ (((w.objects i 1 + w.objects i 5 - w.fixe i1 1 ≤ w.fixe i1 3
          ∧ w.objects i 1 + w.objects i 5 - w.fixe i1 1 ≥ 0)
        ∨ (w.objects i 1 - w.objects i 5 - w.fixe i1 1 ≤ w.fixe i1 3
          ∧ w.objects i 1 - w.objects i 5 - w.fixe i1 1 ≥ 0)) →
      ¬ (w.objects i 0 + w.objects i 5 - w.fixe i1 0 ≥ 0
          ∧ w.objects i 0 + w.objects i 5 - w.fixe i1 0 ≤ 10)
      ∧ ¬ (w.objects i 0 - w.objects i 5 - w.fixe i1 0 ≥ 0
          ∧ w.objects i 0 - w.objects i 5 - w.fixe i1 0 ≤ 5))

/-- Free body `i` is in no contact other than with the ground, and the
projectile is in no contact with a wall or a free body: none of the tests of
`checkcollision` on the projectile's walls, on a projectile-body contact, on the
side walls of body `i`, on a contact of body `i` with another body, or on a
contact of body `i` with one of the obstacles 6..8 holds. -/
def Quiet {α : Type} [LinearOrderedField α] (E : Env α) (i : Nat) (w : World α) : Prop :=
  ¬ (w.canon_x_position ≥ 1350 - 15)
  ∧ ¬ (w.canon_y_position + w.radius_of_canon ≥ 650)
  ∧ ¬ (w.canon_y_position ≤ 50)
  ∧ ¬ (w.canon_x_position ≤ 11 + 15 ∧ w.canon_out = 1)
  ∧ (∀ j, j < no_of_objects →
      ¬ (distance E w.canon_x_position w.canon_y_position (w.objects j 0) (w.objects j 1)
          ≤ 10 + w.objects j 5))
  ∧ ¬ (w.objects i 0 ≥ 1350 - 15)
  ∧ ¬ (w.objects i 0 ≤ 11 + 15)
  ∧ (∀ j, j < no_of_objects → j ≠ i →
      ¬ (distance E (w.objects i 0) (w.objects i 1) (w.objects j 0) (w.objects j 1)
          ≤ w.objects i 5 + w.objects j 5)
      ∧ ¬ (distance E (w.objects j 0) (w.objects j 1) (w.objects i 0) (w.objects i 1)
          ≤ w.objects j 5 + w.objects i 5))
  ∧ (∀ i1, 6 ≤ i1 → i1 < 9 → ObstacleQuiet i i1 w)

/-- Relation between the states before and after a step of `checkcollision` that
leaves the projectile where it is (and satisfies the frame `Fr`). -/
def Near {α : Type} [LinearOrderedField α] (w w' : World α) : Prop :=
  Fr w w' ∧ w'.canon_x_position = w.canon_x_position
  ∧ w'.canon_y_position = w.canon_y_position

/-- Relation between the states before and after a step of `checkcollision` that
leaves the projectile where it is and every field of free body `i` as it is. -/
def Keep {α : Type} [LinearOrderedField α] (i : Nat) (w w' : World α) : Prop :=
  Near w w' ∧ w'.objects i = w.objects i

/-- A state for examples: the initial layout with free body 0 one unit below
ground level (`y = 49`), falling with vertical velocity `-5`. -/
def sinking_world {α : Type} [LinearOrderedField α] : World α :=
  set_obj 0 3 (-5) (set_obj 0 1 49 (initial_world : World α))

/-- The projectile is in no contact with obstacle `i`: wherever one of the two
outer tests of `checkcollision` lines 797-822 holds, none of its inner tests
does. -/
def CanonObstacleQuiet {α : Type} [LinearOrderedField α] (i : Nat) (w : World α) : Prop :=
  ((w.canon_x_position - w.radius_of_canon - w.fixe i 0 ≤ w.fixe i 2
        ∧ w.canon_x_position - w.radius_of_canon - w.fixe i 0 ≥ 0) →
      ¬ (w.canon_y_position - w.radius_of_canon - (w.fixe i 1 + w.fixe i 3) ≤ 5
          ∧ w.canon_y_position - w.radius_of_canon - (w.fixe i 1 + w.fixe i 3) ≥ 0)
      ∧ ¬ (w.canon_y_position + w.radius_of_canon - w.fixe i 1 ≥ 0
          ∧ w.canon_y_position + w.radius_of_canon - w.fixe i 1 ≤ 10))
  ∧ (((w.canon_y_position + w.radius_of_canon - w.fixe i 1 ≤ w.fixe i 3
          ∧ w.canon_y_position + w.radius_of_canon - w.fixe i 1 ≥ 0)
        ∨ (w.canon_y_position - w.radius_of_canon - w.fixe i 1 ≤ w.fixe i 3
          ∧ w.canon_y_position - w.radius_of_canon - w.fixe i 1 ≥ 0)) →
      ¬ (w.canon_x_position + w.radius_of_canon - w.fixe i 0 ≥ 0
          ∧ w.canon_x_position + w.radius_of_canon - w.fixe i 0 ≤ 10)
      ∧ ¬ (w.canon_x_position - w.radius_of_canon - w.fixe i 0 - w.fixe i 2 ≥ 0
          ∧ w.canon_x_position - w.radius_of_canon - w.fixe i 0 - w.fixe i 2 ≤ 5))

/-- None of the tests of `checkcollision` before the collectible loop holds:
every free body is in no contact at all (`Quiet`, and neither its top-wall nor
its ground test holds), and the projectile is in no contact with a wall, a
free body or one of the 9 obstacles. -/
def Calm {α : Type} [LinearOrderedField α] (E : Env α) (w : World α) : Prop :=
  (∀ i, i < no_of_objects →
    Quiet E i w ∧ ¬ (w.objects i 1 ≥ 650 - 15) ∧ ¬ (w.objects i 1 < 50))
  ∧ (∀ i, i < no_of_fixed_objects → CanonObstacleQuiet i w)

/-- The test of the collectible loop of `checkcollision` on collectible `i`. -/
def CoinContact {α : Type} [LinearOrderedField α] (E : Env α) (i : Nat) (w : World α) : Prop :=
  distance E w.canon_x_position w.canon_y_position (w.coins i 0) (w.coins i 1)
      ≤ w.radius_of_canon + w.coins i 2
    ∧ w.coins i 3 = 1

/-- The test of the target loop of `checkcollision` on target `i`. -/
def PiggyContact {α : Type} [LinearOrderedField α] (E : Env α) (i : Nat) (w : World α) : Prop :=
  distance E w.canon_x_position w.canon_y_position (w.piggy_pos i 0) (w.piggy_pos i 1)
      ≤ w.radius_of_canon + w.radius_of_piggy
    ∧ w.piggy_pos i 2 ≠ 3

/-- The projectile is in no contact with a wall or a free body: none of the
tests of `checkcollision` lines 614-626 on the projectile holds. -/
def CanonQuiet {α : Type} [LinearOrderedField α] (E : Env α) (w : World α) : Prop :=
  ¬ (w.canon_x_position ≥ 1350 - 15)
  ∧ ¬ (w.canon_y_position + w.radius_of_canon ≥ 650)
  ∧ ¬ (w.canon_y_position ≤ 50)
  ∧ ¬ (w.canon_x_position ≤ 11 + 15 ∧ w.canon_out = 1)
  ∧ (∀ j, j < no_of_objects →
      ¬ (distance E w.canon_x_position w.canon_y_position (w.objects j 0) (w.objects j 1)
          ≤ 10 + w.objects j 5))

/-- The projectile is brought back onto target 0, at `(450, 430)`; stands for
the flight between two contacts with that target. -/
def rehit {α : Type} [LinearOrderedField α] (w : World α) : World α :=
  { w with canon_x_position := 450, canon_y_position := 430 }

/-- One contact with target 0: the projectile comes back onto the target and a
`checkcollision` pass runs. -/
def hit_pass {α : Type} [LinearOrderedField α] (E : Env α) (U : Uninit α) (w : World α) :
    World α :=
  checkcollision E U (rehit w)

/-- The only contact of a `checkcollision` pass over `w` is the one of the
projectile with target `k`: no test before the collectible loop holds, no
collectible and no target before `k` is in contact, target `k` is within range,
and the targets after `k` are out of range of `(0, 0)`, where the contact puts
the projectile. -/
def TargetContact {α : Type} [LinearOrderedField α] (E : Env α) (k : Nat) (w : World α) :
    Prop :=
  Calm E w
  ∧ (∀ i, i < no_of_coins → ¬ CoinContact E i w)
  ∧ (∀ j, j < k → ¬ PiggyContact E j w)
  ∧ distance E w.canon_x_position w.canon_y_position (w.piggy_pos k 0) (w.piggy_pos k 1)
      ≤ w.radius_of_canon + w.radius_of_piggy
  ∧ (∀ j, k < j → j < no_of_piggy →
      ¬ (distance E 0 0 (w.piggy_pos j 0) (w.piggy_pos j 1)
          ≤ w.radius_of_canon + w.radius_of_piggy))

/-- The state `w` has the fixed layout of free bodies, obstacles, collectibles
and targets, projectile radius 10 and target radius 30, and the projectile is
at `(x, y)`. -/
def AtLayout {α : Type} [LinearOrderedField α] (x y : α) (w : World α) : Prop :=
  w.objects = (initial_world : World α).objects
  ∧ w.fixe = (initial_world : World α).fixe
  ∧ w.coins = (initial_world : World α).coins
  ∧ (∀ j, w.piggy_pos j 0 = (initial_world : World α).piggy_pos j 0
      ∧ w.piggy_pos j 1 = (initial_world : World α).piggy_pos j 1)
  ∧ w.canon_x_position = x ∧ w.canon_y_position = y
  ∧ w.radius_of_canon = 10 ∧ w.radius_of_piggy = 30

/-- The local `m` of the body-body response of `checkcollision` (line 700) for
the pair `(i, i1)`. -/
def oo_m {α : Type} [LinearOrderedField α] (i i1 : Nat) (w : World α) : α :=
  w.objects i1 5 / w.objects i 5

/-- The local `v2x` of the body-body response (line 706). -/
def oo_v2x {α : Type} [LinearOrderedField α] (i i1 : Nat) (w : World α) : α :=
  (w.e * (w.objects i 2 - w.objects i1 2) + w.objects i 2 + w.objects i1 2) / (1 + oo_m i i1 w)

/-- The local `v2y` of the body-body response (line 708). -/
def oo_v2y {α : Type} [LinearOrderedField α] (i i1 : Nat) (w : World α) : α :=
  (w.e * (w.objects i 3 - w.objects i1 3) + w.objects i 3 + w.objects i1 3) / (1 + oo_m i i1 w)

/-- The value the local `u2x` of the body-body response holds after its second
assignment (line 709). -/
def oo_u2x {α : Type} [LinearOrderedField α] (i i1 : Nat) (w : World α) : α :=
  w.objects i 3 + oo_m i i1 w * w.objects i1 3 - oo_m i i1 w * oo_v2y i i1 w

/-- The locals `(valx, valy)` of the body-body response (lines 713-733). -/
def oo_val {α : Type} [LinearOrderedField α] (U : Uninit α) (i i1 : Nat) (w : World α) :
    Int × Int :=
  quadrant (w.objects i 0) (w.objects i 1) (w.objects i1 0) (w.objects i1 1) (U.valx i i1)
    (U.valy i i1)

/-- The test of the body-body contact of `checkcollision` (line 698) on the
pair `(i, i1)`. -/
def Touch {α : Type} [LinearOrderedField α] (E : Env α) (i i1 : Nat) (w : World α) : Prop :=
  distance E (w.objects i 0) (w.objects i 1) (w.objects i1 0) (w.objects i1 1)
    ≤ w.objects i 5 + w.objects i1 5

/-- A state for examples: the initial layout with free body 1 moved to
`(410, 110)`, where it overlaps free body 0 (at `(400, 100)`, both of radius
15), and free body 0 moving with velocity `(2, -3)`. -/
def overlap_world {α : Type} [LinearOrderedField α] : World α :=
  set_obj 0 3 (-3) (set_obj 0 2 2 (set_obj 1 1 110 (set_obj 1 0 410 (initial_world : World α))))

/-- The launch frame of free body `i` in state `v` is the one
`set_object_position` writes for the resulting velocity `(wx, vy)`: launch speed
`sqrt (wx^2 + vy^2)`, launch angle `atan2 (vy, wx)`, direction `-1` when
`wx < 0` and `+1` otherwise; and the body is in motion. -/
def Relaunched {α : Type} [LinearOrderedField α] (E : Env α) (i : Nat) (wx vy : α)
    (v : World α) : Prop :=
  v.objects i 11 = E.sqrt (wx * wx + vy * vy)
  ∧ v.objects i 12 = E.atan2 vy wx
  ∧ v.objects i 14 = (if wx < 0 then -1 else 1)
  ∧ v.objects i 13 = 1

/-- Number of times the body-body test of the pair `(j, i1)` fires when `a` and
`b` are the only two bodies in contact: 1 for the pair taken in either order. -/
def pair_hits (a b j i1 : Nat) : Nat :=
  if (j = a ∧ i1 = b) ∨ (j = b ∧ i1 = a) then 1 else 0

/-- Free bodies `a` and `b` overlap and nothing else is in contact: the
projectile touches no wall and no free body, no free body touches a wall or
one of the obstacles 6..8, and no other pair of free bodies overlaps. -/
def PairOnly {α : Type} [LinearOrderedField α] (E : Env α) (a b : Nat) (w : World α) : Prop :=
  CanonQuiet E w
  ∧ (∀ j, j < no_of_objects →
      ¬ (w.objects j 0 ≥ 1350 - 15) ∧ ¬ (w.objects j 1 ≥ 650 - 15) ∧ ¬ (w.objects j 1 < 50)
      ∧ ¬ (w.objects j 0 ≤ 11 + 15) ∧ (∀ i1, 6 ≤ i1 → i1 < 9 → ObstacleQuiet j i1 w))
  ∧ Touch E a b w ∧ Touch E b a w
  ∧ (∀ i j, i < no_of_objects → j < no_of_objects → i ≠ j →
      ¬ ((i = a ∧ j = b) ∨ (i = b ∧ j = a)) → ¬ Touch E i j w)

/-- Relation between the states before and after steps of `checkcollision` that
leave the projectile where it is and raise the collision counts of free bodies
`a` and `b` by `n` each. -/
def Counted {α : Type} [LinearOrderedField α] (a b n : Nat) (w w' : World α) : Prop :=
  Near w w' ∧ w'.objects a 16 = w.objects a 16 + (n : α)
  ∧ w'.objects b 16 = w.objects b 16 + (n : α)

/-- A state for examples: the initial layout with free body 0 moved to
`(350, 447)`, two units above the top edge (`y = 430`) of obstacle 0 and within
its horizontal span, moving with velocity `(2, -5)`. -/
def perched_world {α : Type} [LinearOrderedField α] : World α :=
  set_obj 0 3 (-5) (set_obj 0 2 2 (set_obj 0 1 447 (set_obj 0 0 350 (initial_world : World α))))

/-- A state for examples: the initial layout with free body 2 moved to
`(900, 192)`, two units above the top edge (`y = 175`) of obstacle 6 and within
its horizontal span, moving with velocity `(2, -5)`. -/
def landed_world {α : Type} [LinearOrderedField α] : World α :=
  set_obj 2 3 (-5) (set_obj 2 2 2 (set_obj 2 1 192 (set_obj 2 0 900 (initial_world : World α))))

/-- The state in which `draw` reaches the position update of free body `i`
(line 1290): after the air-friction re-launch, the keys, the pointer power and
the updates of the bodies before `i`. -/
def draw_to_object {α : Type} [LinearOrderedField α] (E : Env α) (i : Nat) (w : World α) :
    World α :=
  forLoop 0 i (fun j s => draw_object E j s) (draw_pointer_power E (draw_keys (draw_air E w)))

/-- The state `w` has the fixed layout of the 4 collectibles (position and
radius) and of the 3 targets (position), projectile radius 10 and target
radius 30; the collectible flags and the hit counts are free. -/
def Targets {α : Type} [LinearOrderedField α] (w : World α) : Prop :=
  (∀ i, i < no_of_coins →
    w.coins i 0 = (initial_world : World α).coins i 0
    ∧ w.coins i 1 = (initial_world : World α).coins i 1
    ∧ w.coins i 2 = (initial_world : World α).coins i 2)
  ∧ (∀ k, k < no_of_piggy →
    w.piggy_pos k 0 = (initial_world : World α).piggy_pos k 0
    ∧ w.piggy_pos k 1 = (initial_world : World α).piggy_pos k 1)
  ∧ w.radius_of_canon = 10 ∧ w.radius_of_piggy = 30

/-- The state `r` differs from `w` by exactly one resolved contact of the
collectible and target loops: one available collectible `j` consumed (flag 1 to
0, 10 added to the score, the targets as before), or one target `k` hit (hit
count not 3 raised by 1, the new hit count times 10 added to the score, the
collectibles as before). -/
def OneContact {α : Type} [LinearOrderedField α] (w r : World α) : Prop :=
  (∃ j, j < no_of_coins ∧ w.coins j 3 = 1 ∧ r.coins = set2 w.coins j 3 0
    ∧ r.piggy_pos = w.piggy_pos ∧ r.score = w.score + 10)
  ∨ (∃ k, k < no_of_piggy ∧ w.piggy_pos k 2 ≠ 3
    ∧ r.piggy_pos = set2 w.piggy_pos k 2 (w.piggy_pos k 2 + 1)
    ∧ r.coins = w.coins ∧ r.score = w.score + (w.piggy_pos k 2 + 1) * 10)

/-- The state has the fixed layout and the projectile is at `(0, 0)`, where a
contact of the collectible or target loop puts it. -/
def Home {α : Type} [LinearOrderedField α] (w : World α) : Prop :=
  Targets w ∧ w.canon_x_position = 0 ∧ w.canon_y_position = 0

/-- Relation between the states before and after steps of the collectible and
target loops, from a state with the fixed layout: a state with the projectile
at `(0, 0)` is left as it is, and the steps resolve no contact or exactly one,
which puts the projectile at `(0, 0)`. -/
def AtMostOne {α : Type} [LinearOrderedField α] (w r : World α) : Prop :=
  Targets w → (Home w → r = w) ∧ (r = w ∨ (Home r ∧ OneContact w r))

/-- The state in which a `checkcollision` pass over `w` reaches the iteration of
the loop over the free bodies for body `i` (line 625): after the four wall
tests of the projectile and the iterations of the bodies before `i`. -/
def pass_to_body {α : Type} [LinearOrderedField α] (E : Env α) (U : Uninit α) (i : Nat)
    (w : World α) : World α :=
  forLoop 0 i (fun j s => object_loop_body E U j s) (canon_walls E w)

/-- The test of the projectile-body contact of `checkcollision` (line 626) on
free body `i`: the projectile is within reach of the body, and the body's
collision count is within the limit. -/
def CanonTouch {α : Type} [LinearOrderedField α] (E : Env α) (i : Nat) (w : World α) : Prop :=
  distance E w.canon_x_position w.canon_y_position (w.objects i 0) (w.objects i 1)
      ≤ 10 + w.objects i 5
    ∧ w.objects i 16 ≤ (no_of_collisions_allowed : α)

/-- Free body `i` overlaps no other free body: the body-body test of
`checkcollision` (line 698) fails for every pair with `i` in it, in either
order. -/
def Apart {α : Type} [LinearOrderedField α] (E : Env α) (i : Nat) (w : World α) : Prop :=
  ∀ j, j < no_of_objects → j ≠ i → ¬ Touch E i j w ∧ ¬ Touch E j i w

/-- Free body `i` touches no side wall, no other free body and none of the
obstacles 6..8: the tests of `checkcollision` on the right and left wall of
body `i`, on a contact of body `i` with another body, and on a contact of body
`i` with one of the obstacles 6..8 all fail.  Nothing is asked of the
projectile. -/
def BodyQuiet {α : Type} [LinearOrderedField α] (E : Env α) (i : Nat) (w : World α) : Prop :=
  ¬ (w.objects i 0 ≥ 1350 - 15)
  ∧ ¬ (w.objects i 0 ≤ 11 + 15)
  ∧ Apart E i w
  ∧ (∀ i1, 6 ≤ i1 → i1 < 9 → ObstacleQuiet i i1 w)

/-- Relation between the states before and after a step of `checkcollision` that
leaves every field of free body `i` as it is (and satisfies the frame `Fr`);
the projectile may have moved. -/
def RowKeep {α : Type} [LinearOrderedField α] (i : Nat) (w w' : World α) : Prop :=
  Fr w w' ∧ w'.objects i = w.objects i

/-- A state for examples: `sinking_world` (free body 0 at `y = 49`, falling with
vertical velocity `-5`) with the projectile resting at `(0, 0)`, where a
collectible or target hit leaves it. -/
def sinking_home_world {α : Type} [LinearOrderedField α] : World α :=
  { (sinking_world : World α) with canon_x_position := 0, canon_y_position := 0 }
/-- Free body `i` is in no contact other than its landing on obstacle `i1`: it
touches no wall and not the ground, overlaps no other free body, touches none
of the other obstacles of 6..8, and of the tests against obstacle `i1` itself
neither the second test of the first block (lines 780-782) nor a side test
(lines 784-794) holds.  Nothing is asked of the projectile. -/
def LandQuiet {α : Type} [LinearOrderedField α] (E : Env α) (i i1 : Nat) (w : World α) : Prop :=
  ¬ (w.objects i 0 ≥ 1350 - 15)
  ∧ ¬ (w.objects i 1 ≥ 650 - 15)
  ∧ ¬ (w.objects i 1 < 50)
  ∧ ¬ (w.objects i 0 ≤ 11 + 15)
  ∧ Apart E i w
  ∧ (∀ k, 6 ≤ k → k < 9 → k ≠ i1 → ObstacleQuiet i k w)
  ∧ ¬ (w.objects i 0 - w.fixe i1 1 ≥ 0 ∧ w.objects i 0 - w.fixe i1 1 ≤ 10)
  ∧ (((w.objects i 1 + w.objects i 5 - w.fixe i1 1 ≤ w.fixe i1 3
          ∧ w.objects i 1 + w.objects i 5 - w.fixe i1 1 ≥ 0)
        ∨ (w.objects i 1 - w.objects i 5 - w.fixe i1 1 ≤ w.fixe i1 3
          ∧ w.objects i 1 - w.objects i 5 - w.fixe i1 1 ≥ 0)) →
      ¬ (w.objects i 0 + w.objects i 5 - w.fixe i1 0 ≥ 0
          ∧ w.objects i 0 + w.objects i 5 - w.fixe i1 0 ≤ 10)
      ∧ ¬ (w.objects i 0 - w.objects i 5 - w.fixe i1 0 ≥ 0
          ∧ w.objects i 0 - w.objects i 5 - w.fixe i1 0 ≤ 5))

/-- A state for examples: the initial layout with free body 2 moved to
`(866, 190)`, its bottom edge on the top edge (`y = 175`) of obstacle 6 and its
left edge one unit inside the obstacle's left edge (`x = 850`), moving with
velocity `(2, -5)`. -/
def onedge_world {α : Type} [LinearOrderedField α] : World α :=
  set_obj 2 3 (-5) (set_obj 2 2 2 (set_obj 2 1 190 (set_obj 2 0 866 (initial_world : World α))))
/-- Each component of the projectile's stored velocity is within `[-1, 1]`, the
bounds of the settle rule of `draw`. -/
def SlowCanon {α : Type} [LinearOrderedField α] (w : World α) : Prop :=
  -1 ≤ w.canon_x_velocity ∧ w.canon_x_velocity ≤ 1
  ∧ -1 ≤ w.canon_y_velocity ∧ w.canon_y_velocity ≤ 1

/-- A resting projectile (`canon_out = 0`) has each component of its stored
velocity within `[-1, 1]`. -/
def RestBound {α : Type} [LinearOrderedField α] (w : World α) : Prop :=
  w.canon_out = 0 → SlowCanon w

/-- The air friction, the wall coefficient and the friction are factors between
0 and 1 (they are 0.999995, 0.4 and 0.7, and no function assigns them). -/
def Damped {α : Type} [LinearOrderedField α] (w : World α) : Prop :=
  0 ≤ w.air_friction ∧ w.air_friction ≤ 1
  ∧ 0 ≤ w.coefficient_of_collision_with_walls ∧ w.coefficient_of_collision_with_walls ≤ 1
  ∧ 0 ≤ w.friction ∧ w.friction ≤ 1

/-- Relation between the states before and after steps of `checkcollision` that
keep the physical parameters and keep the projectile's stored velocity within
`[-1, 1]` when it was. -/
def Tame {α : Type} [LinearOrderedField α] (w w' : World α) : Prop :=
  Par w w' ∧ (Damped w → SlowCanon w → SlowCanon w')

/-- In the `checkcollision` pass over `w` no free body hits a resting
projectile: if the projectile is resting, the test of the projectile-body
contact (line 626) fails for every free body when the pass comes to it. -/
def NoRestHit {α : Type} [LinearOrderedField α] (E : Env α) (U : Uninit α) (w : World α) :
    Prop :=
  w.canon_out = 0 → ∀ i, i < no_of_objects → ¬ CanonTouch E i (pass_to_body E U i w)

/-- Along the iterations `ts` of the main loop from the state `w`, no free body
hits a resting projectile: `NoRestHit` holds of the `checkcollision` pass of
every iteration the loop runs. -/
def Gentle {α : Type} [LinearOrderedField α] (E : Env α) :
    List (Uninit α × Input α) → World α → Prop
  | [], _ => True
  | t :: ts, w =>
    NoRestHit E t.1 (draw E (set_cursor t.2.xmousePos t.2.ymousePos w))
    ∧ ((main_iter E t.1 t.2 w).no_of_piggy_hit ≠ (no_of_piggy : α) →
        Gentle E ts (main_iter E t.1 t.2 w))

/-- No free body is in contact with a wall, the ground, another free body or
one of the obstacles 6..8.  Nothing is asked of the projectile. -/
def BodiesCalm {α : Type} [LinearOrderedField α] (E : Env α) (w : World α) : Prop :=
  ∀ j, j < no_of_objects →
    BodyQuiet E j w ∧ ¬ (w.objects j 1 ≥ 650 - 15) ∧ ¬ (w.objects j 1 < 50)

/-- The key and button flags as `glfwPollEvents` leaves them at the end of an
iteration of the loop of `main`, and the clock read of the loop condition: the
part of `main_iter` between `checkcollision` and the recount of the targets. -/
def poll_events {α : Type} [LinearOrderedField α] (inp : Input α) (w : World α) : World α :=
  { { w with
      a_pressed := inp.a_pressed
      w_pressed := inp.w_pressed
      s_pressed := inp.s_pressed
      d_pressed := inp.d_pressed
      c_pressed := inp.c_pressed
      left_button_Pressed := inp.left_button_Pressed
      right_button_Pressed := inp.right_button_Pressed } with
    reads := w.reads + 1 }

/-- A clock for examples: successive reads are a thousandth of a second apart,
but for a pause of 719 thousandths between read 4 and read 5. -/
def strike_clock {α : Type} [LinearOrderedField α] (k : Nat) : α :=
  if 5 ≤ k then (k : α) / 1000 + 719 / 1000 else (k : α) / 1000

/-- Input of an iteration with the cursor at `(406.2744, 601.5033)` during which
both mouse buttons go down; no key is held. -/
def hold_input {α : Type} [LinearOrderedField α] : Input α :=
  { xmousePos := 406.2744
    ymousePos := 601.5033
    a_pressed := 0
    w_pressed := 0
    s_pressed := 0
    d_pressed := 0
    c_pressed := 0
    left_button_Pressed := 1
    right_button_Pressed := 1 }

/-- Input of an iteration with the cursor at `(406.2744, 601.5033)` during which
the mouse buttons are released; no key is held. -/
def fire_input {α : Type} [LinearOrderedField α] : Input α :=
  { xmousePos := 406.2744
    ymousePos := 601.5033
    a_pressed := 0
    w_pressed := 0
    s_pressed := 0
    d_pressed := 0
    c_pressed := 0
    left_button_Pressed := 0
    right_button_Pressed := 0 }

/-- What no step of the example run changes: the obstacles, collectibles and
targets as laid out, the radii, the restitution, gravity and air friction, and
the free bodies 1 and 2 as laid out. -/
def Arena {α : Type} [LinearOrderedField α] (w : World α) : Prop :=
  w.fixe = (initial_world : World α).fixe
  ∧ w.coins = (initial_world : World α).coins
  ∧ w.piggy_pos = (initial_world : World α).piggy_pos
  ∧ w.radius_of_canon = 10 ∧ w.radius_of_piggy = 30 ∧ w.e = 0.5 ∧ w.gravity = 18
  ∧ w.air_friction = 1 - 0.000005
  ∧ w.objects 1 = (initial_world : World α).objects 1
  ∧ w.objects 2 = (initial_world : World α).objects 2

/-- The state of the example run after the `draw` of its second iteration: the
projectile in flight at `(407.243392, 116.081656)` with stored velocity
`(35.58936, -2.57977)`, free body 0 still as laid out. -/
def Flown {α : Type} [LinearOrderedField α] (w : World α) : Prop :=
  Arena w ∧ w.canon_out = 1
  ∧ w.canon_x_position = 407.243392 ∧ w.canon_y_position = 116.081656
  ∧ w.canon_x_velocity = 35.58936 ∧ w.canon_y_velocity = -2.57977
  ∧ w.reads = 6
  ∧ w.objects 0 = (initial_world : World α).objects 0

/-- The state of the example run after the `checkcollision` pass of its second
iteration, in which the projectile hit free body 0: the projectile in flight
with stored velocity `(-257977/280000, 0)`, the body re-launched from
`(400, 100)` at clock read 7 with velocity `(1334601/43750, -773931/350000)`. -/
def Bounced {α : Type} [LinearOrderedField α] (E : Env α) (w : World α) : Prop :=
  Arena w ∧ w.canon_out = 1
  ∧ w.canon_x_position = 411.243392 ∧ w.canon_y_position = 120.081656
  ∧ w.canon_x_velocity = -(257977 / 280000) ∧ w.canon_y_velocity = 0
  ∧ w.reads = 8
  ∧ w.objects 0 0 = 400 ∧ w.objects 0 1 = 100 ∧ w.objects 0 5 = 30 / 2
  ∧ w.objects 0 2 = 1334601 / 43750 ∧ w.objects 0 3 = -(773931 / 350000)
  ∧ w.objects 0 8 = E.glfwGetTime 7 ∧ w.objects 0 9 = 400 ∧ w.objects 0 10 = 100
  ∧ w.objects 0 11 = E.sqrt (w.objects 0 2 * w.objects 0 2 + w.objects 0 3 * w.objects 0 3)
  ∧ w.objects 0 12 = E.atan2 (w.objects 0 3) (w.objects 0 2)
  ∧ w.objects 0 13 = 1 ∧ w.objects 0 14 = 1 ∧ w.objects 0 16 = 1

/-- The state of the example run after the `draw` of its third iteration: the
projectile put to rest by the settle rule near `(411.22, 120.08)` with stored
vertical velocity `-0.036`, free body 0 falling past it near
`(400.92, 99.93)` with vertical velocity `-784221/350000`. -/
def Settled {α : Type} [LinearOrderedField α] (w : World α) : Prop :=
  Arena w ∧ w.canon_out = 0
  ∧ 411.2 ≤ w.canon_x_position ∧ w.canon_x_position ≤ 411.3
  ∧ 120 ≤ w.canon_y_position ∧ w.canon_y_position ≤ 120.1
  ∧ -1 ≤ w.canon_x_velocity ∧ w.canon_x_velocity ≤ 1 ∧ w.canon_y_velocity = -0.036
  ∧ 400.9 ≤ w.objects 0 0 ∧ w.objects 0 0 ≤ 401
  ∧ 99.9 ≤ w.objects 0 1 ∧ w.objects 0 1 ≤ 100
  ∧ w.objects 0 3 = -(784221 / 350000) ∧ w.objects 0 5 = 30 / 2 ∧ w.objects 0 16 = 1

/-- The iterations of the example run: both mouse buttons go down with the
cursor at `(406.2744, 601.5033)`, then they are released, then nothing
changes. -/
def strike_run {α : Type} [LinearOrderedField α] : List (Uninit α × Input α) :=
  [(zeroUninit α, hold_input), (zeroUninit α, fire_input), (zeroUninit α, fire_input)]

/-- The environment of the example run: the real functions and `strike_clock`. -/
noncomputable def E2 : Env ℝ := realEnv strike_clock

/-- The clock used in examples: the `k`-th read returns `k`. -/
noncomputable def E0 : Env ℝ := realEnv (fun k => (k : ℝ))

section Theorems

set_option linter.unusedSectionVars false

variable {α : Type} [LinearOrderedField α]

/-! ### Evaluation lemmas -/

theorem forLoop_zero_three {σ : Type} (body : Nat → σ → σ) (w : σ) :
    forLoop 0 3 body w = body 2 (body 1 (body 0 w)) := rfl

theorem forLoop_zero_four {σ : Type} (body : Nat → σ → σ) (w : σ) :
    forLoop 0 4 body w = body 3 (body 2 (body 1 (body 0 w))) := rfl

theorem forall_lt_three (P : Nat → Prop) : (∀ i, i < 3 → P i) ↔ P 0 ∧ P 1 ∧ P 2 := by
  constructor
  · intro h
    exact ⟨h 0 (by norm_num), h 1 (by norm_num), h 2 (by norm_num)⟩
  · rintro ⟨h0, h1, h2⟩ i hi
    interval_cases i
    · exact h0
    · exact h1
    · exact h2

theorem initial_world_scalars :
    (initial_world : World α) = { (initial_globals : World α) with
      objects := (initial_world : World α).objects
      fixe := (initial_world : World α).fixe
      coins := (initial_world : World α).coins
      piggy_pos := (initial_world : World α).piggy_pos
      reads := 1 } := rfl

theorem initial_world_piggy_pos :
    (initial_world : World α).piggy_pos =
      setRow (setRow (setRow (fun _ _ => 0) 0 [450, 430, 0]) 1 [1300, 560, 0]) 2 [200, 560, 0] :=
  rfl

theorem initial_world_coins :
    (initial_world : World α).coins =
      setRow (setRow (setRow (setRow (fun _ _ => 0) 0 [350, 445, 15, 1]) 1 [550, 445, 15, 1])
        2 [990, 55, 15, 1]) 3 [900, 190, 15, 1] :=
  rfl

theorem world_at_eq (x y : α) :
    world_at x y = { (initial_globals : World α) with
      canon_x_position := x
      canon_y_position := y
      objects := (initial_world : World α).objects
      fixe := (initial_world : World α).fixe
      coins := (initial_world : World α).coins
      piggy_pos := (initial_world : World α).piggy_pos
      reads := 1 } := rfl

/-! ### Frame lemmas -/

theorem forLoop_rel {σ : Type} (R : σ → σ → Prop) (hrefl : ∀ s, R s s)
    (htrans : ∀ a b c, R a b → R b c → R a c) (lo hi : Nat) (body : Nat → σ → σ)
    (hbody : ∀ i s, R s (body i s)) (w : σ) : R w (forLoop lo hi body w) := by
  unfold forLoop
  generalize (List.range (hi - lo)).map (fun k => lo + k) = l
  induction l generalizing w with
  | nil => exact hrefl w
  | cons i l ih => exact htrans _ _ _ (hbody i w) (ih (body i w))

theorem Mono.refl_mono (w : World α) : Mono w w := ⟨rfl, rfl, le_refl _⟩

theorem Mono.trans_mono {a b c : World α} (h1 : Mono a b) (h2 : Mono b c) : Mono a c :=
  ⟨h2.1.trans h1.1, h2.2.1.trans h1.2.1, le_trans h1.2.2 h2.2.2⟩

theorem Same.refl_same (w : World α) : Same w w := ⟨rfl, rfl, rfl⟩

theorem Same.trans_same {a b c : World α} (h1 : Same a b) (h2 : Same b c) : Same a c :=
  ⟨h2.1.trans h1.1, h2.2.1.trans h1.2.1, h2.2.2.trans h1.2.2⟩

theorem Same.to_mono {a b : World α} (h : Same a b) : Mono a b := ⟨h.1, h.2.1, le_of_eq h.2.2.symm⟩

theorem forLoop_mono (lo hi : Nat) (body : Nat → World α → World α)
    (hbody : ∀ i s, Mono s (body i s)) (w : World α) : Mono w (forLoop lo hi body w) :=
  forLoop_rel Mono Mono.refl_mono (fun _ _ _ h1 h2 => h1.trans_mono h2) lo hi body hbody w

theorem forLoop_same (lo hi : Nat) (body : Nat → World α → World α)
    (hbody : ∀ i s, Same s (body i s)) (w : World α) : Same w (forLoop lo hi body w) :=
  forLoop_rel Same Same.refl_same (fun _ _ _ h1 h2 => h1.trans_same h2) lo hi body hbody w

theorem set_canon_position_same (E : Env α) (x y ty tx : α) (d : Int) (v ux uy : α)
    (w : World α) : Same w (set_canon_position E x y ty tx d v ux uy w) :=
  ⟨rfl, rfl, rfl⟩

theorem set_object_position_same (E : Env α) (x y ty tx : α) (d : Int) (v ux uy : α) (i : Nat)
    (w : World α) : Same w (set_object_position E x y ty tx d v ux uy i w) :=
  ⟨rfl, rfl, rfl⟩

theorem canon_wall_right_same (E : Env α) (v : α) (w : World α) :
    Same w (canon_wall_right E v w) := by
  unfold canon_wall_right
  split_ifs
  · exact set_canon_position_same ..
  · exact Same.refl_same _

theorem canon_wall_top_same (E : Env α) (v : α) (w : World α) :
    Same w (canon_wall_top E v w) := by
  unfold canon_wall_top
  split_ifs
  · exact set_canon_position_same ..
  · exact Same.refl_same _

theorem canon_wall_ground_same (E : Env α) (v : α) (w : World α) :
    Same w (canon_wall_ground E v w) := by
  unfold canon_wall_ground
  split_ifs
  · exact set_canon_position_same ..
  · exact Same.refl_same _

theorem canon_wall_left_same (E : Env α) (v : α) (w : World α) :
    Same w (canon_wall_left E v w) := by
  unfold canon_wall_left
  split_ifs
  · exact set_canon_position_same ..
  · exact Same.refl_same _

theorem canon_walls_same (E : Env α) (w : World α) : Same w (canon_walls E w) :=
  Same.trans_same (Same.trans_same (Same.trans_same (canon_wall_right_same E _ w) (canon_wall_top_same E _ _))
    (canon_wall_ground_same E _ _)) (canon_wall_left_same E _ _)

theorem canon_object_relaunch_same (E : Env α) (i : Nat) (v2x v2y : α) (w : World α) :
    Same w (canon_object_relaunch E i v2x v2y w) := by
  unfold canon_object_relaunch Same
  simp only []
  split_ifs <;> simp [set_obj, set_object_position]

theorem canon_object_response_mono (E : Env α) (U : Uninit α) (i : Nat) (w : World α) :
    Mono w (canon_object_response E U i w) := by
  unfold canon_object_response
  simp only []
  refine Mono.trans_mono ?_ (canon_object_relaunch_same E i _ _ _).to_mono
  refine ⟨rfl, rfl, ?_⟩
  simp [set_canon_position]

theorem canon_object_contact_mono (E : Env α) (U : Uninit α) (i : Nat) (w : World α) :
    Mono w (canon_object_contact E U i w) := by
  unfold canon_object_contact
  dsimp only
  split_ifs
  · exact canon_object_response_mono E U i w
  · exact Mono.refl_mono _

theorem object_wall_right_same (E : Env α) (v : α) (i : Nat) (w : World α) :
    Same w (object_wall_right E v i w) := by
  unfold object_wall_right
  split_ifs
  · exact set_object_position_same ..
  · exact Same.refl_same _

theorem object_wall_top_same (E : Env α) (v : α) (i : Nat) (w : World α) :
    Same w (object_wall_top E v i w) := by
  unfold object_wall_top
  split_ifs
  · exact set_object_position_same ..
  · exact Same.refl_same _

theorem object_wall_ground_same (E : Env α) (v : α) (i : Nat) (w : World α) :
    Same w (object_wall_ground E v i w) := by
  unfold object_wall_ground
  split_ifs
  · exact set_object_position_same ..
  · exact Same.refl_same _

theorem object_wall_left_same (E : Env α) (v : α) (i : Nat) (w : World α) :
    Same w (object_wall_left E v i w) := by
  unfold object_wall_left
  split_ifs
  · exact set_object_position_same ..
  · exact Same.refl_same _

theorem object_walls_same (E : Env α) (i : Nat) (w : World α) : Same w (object_walls E i w) :=
  Same.trans_same (Same.trans_same (Same.trans_same (object_wall_right_same E _ i w)
    (object_wall_top_same E _ i _)) (object_wall_ground_same E _ i _))
    (object_wall_left_same E _ i _)

theorem object_object_contact_same (E : Env α) (U : Uninit α) (i i1 : Nat) (w : World α) :
    Same w (object_object_contact E U i i1 w) := by
  unfold object_object_contact
  dsimp only
  split_ifs <;> exact ⟨rfl, rfl, rfl⟩

theorem object_obstacle_top_same (E : Env α) (i i1 : Nat) (w : World α) :
    Same w (object_obstacle_top E i i1 w) := by
  have h1 : ∀ y v, Same v (object_obstacle_land E i y v) := by
    intro y v
    unfold object_obstacle_land
    split_ifs
    · exact set_object_position_same ..
    · exact Same.refl_same _
  have h2 : ∀ v, Same v (object_obstacle_under E i i1 v) := by
    intro v
    unfold object_obstacle_under
    simp only []
    split_ifs
    · exact set_object_position_same ..
    · exact Same.refl_same _
  unfold object_obstacle_top
  simp only []
  split_ifs
  · exact (h1 _ _).trans_same (h2 _)
  · exact Same.refl_same _

theorem object_obstacle_side_same (E : Env α) (i i1 : Nat) (w : World α) :
    Same w (object_obstacle_side E i i1 w) := by
  have h1 : ∀ x v, Same v (object_obstacle_left E i x v) := by
    intro x v
    unfold object_obstacle_left
    split_ifs
    · exact set_object_position_same ..
    · exact Same.refl_same _
  have h2 : ∀ x v, Same v (object_obstacle_right E i x v) := by
    intro x v
    unfold object_obstacle_right
    split_ifs
    · exact set_object_position_same ..
    · exact Same.refl_same _
  unfold object_obstacle_side
  simp only []
  split_ifs
  · exact (h1 _ _).trans_same (h2 _ _)
  · exact Same.refl_same _

theorem object_obstacle_same (E : Env α) (i i1 : Nat) (w : World α) :
    Same w (object_obstacle E i i1 w) :=
  (object_obstacle_top_same E i i1 w).trans_same (object_obstacle_side_same E i i1 _)

theorem canon_obstacle_top_same (E : Env α) (i : Nat) (w : World α) :
    Same w (canon_obstacle_top E i w) := by
  have h1 : ∀ y v, Same v (canon_obstacle_land E y v) := by
    intro y v
    unfold canon_obstacle_land
    split_ifs
    · exact set_canon_position_same ..
    · exact Same.refl_same _
  have h2 : ∀ v, Same v (canon_obstacle_under E i v) := by
    intro v
    unfold canon_obstacle_under
    simp only []
    split_ifs
    · exact set_canon_position_same ..
    · exact Same.refl_same _
  unfold canon_obstacle_top
  simp only []
  split_ifs
  · exact (h1 _ _).trans_same (h2 _)
  · exact Same.refl_same _

theorem canon_obstacle_side_same (E : Env α) (i : Nat) (w : World α) :
    Same w (canon_obstacle_side E i w) := by
  have h1 : ∀ x v, Same v (canon_obstacle_left E x v) := by
    intro x v
    unfold canon_obstacle_left
    split_ifs
    · exact set_canon_position_same ..
    · exact Same.refl_same _
  have h2 : ∀ x v, Same v (canon_obstacle_right E x v) := by
    intro x v
    unfold canon_obstacle_right
    split_ifs
    · exact set_canon_position_same ..
    · exact Same.refl_same _
  unfold canon_obstacle_side
  simp only []
  split_ifs
  · exact (h1 _ _).trans_same (h2 _ _)
  · exact Same.refl_same _

theorem canon_obstacle_same (E : Env α) (i : Nat) (w : World α) :
    Same w (canon_obstacle E i w) :=
  (canon_obstacle_top_same E i w).trans_same (canon_obstacle_side_same E i _)

theorem object_loop_body_mono (E : Env α) (U : Uninit α) (i : Nat) (w : World α) :
    Mono w (object_loop_body E U i w) := by
  unfold object_loop_body
  dsimp only
  refine Mono.trans_mono (canon_object_contact_mono E U i w) (Mono.trans_mono (object_walls_same E i _).to_mono
    (Mono.trans_mono (forLoop_mono _ _ _ (fun i1 s => (object_object_contact_same E U i i1 s).to_mono) _)
      (forLoop_mono _ _ _ (fun i1 s => (object_obstacle_same E i i1 s).to_mono) _)))

/-- The part of `checkcollision` before the collectible loop leaves collectibles
and targets as they are and does not lower the score. -/
theorem physics_mono (E : Env α) (U : Uninit α) (w : World α) :
    Mono w (forLoop 0 no_of_fixed_objects (fun i s => canon_obstacle E i s)
      (forLoop 0 no_of_objects (fun i s => object_loop_body E U i s) (canon_walls E w))) :=
  Mono.trans_mono (canon_walls_same E w).to_mono
    (Mono.trans_mono (forLoop_mono _ _ _ (fun i s => object_loop_body_mono E U i s) _)
      (forLoop_mono _ _ _ (fun i s => (canon_obstacle_same E i s).to_mono) _))

/-! ### Collectible and target iterations -/

/-- C1. One iteration of the target loop of `checkcollision`: if target `i` has
hitCount `h ≠ 3` and its centre is within `radius_of_canon + radius_of_piggy`
of the projectile, the iteration puts the projectile at `(0,0)` with
`canon_out = 0` and zero velocity, sets the hitCount to `h + 1` and adds
`(h + 1) * 10` to the score; if the trigger is false the iteration changes
nothing at all (so neither the target nor the score). -/
theorem C1_piggy_step (E : Env α) (w : World α) (i : Nat) (h : α) (hh : w.piggy_pos i 2 = h) :
    (distance E w.canon_x_position w.canon_y_position (w.piggy_pos i 0) (w.piggy_pos i 1)
          ≤ w.radius_of_canon + w.radius_of_piggy → h ≠ 3 →
        (piggy_step E i w).canon_x_position = 0 ∧ (piggy_step E i w).canon_y_position = 0
        ∧ (piggy_step E i w).canon_out = 0
        ∧ (piggy_step E i w).canon_x_velocity = 0 ∧ (piggy_step E i w).canon_y_velocity = 0
        ∧ (piggy_step E i w).piggy_pos i 2 = h + 1
        ∧ (piggy_step E i w).score = w.score + (h + 1) * 10)
    ∧ (¬ (distance E w.canon_x_position w.canon_y_position (w.piggy_pos i 0) (w.piggy_pos i 1)
          ≤ w.radius_of_canon + w.radius_of_piggy ∧ h ≠ 3) →
        piggy_step E i w = w) := by
  subst hh
  constructor
  · intro hd h3
    simp [piggy_step, hd, h3, set_canon_position, set2]
  · intro hn
    simp only [piggy_step]
    rw [if_neg hn]

/-- Witness of C1: in the initial layout with the projectile on the centre of
target 0 (hitCount 0), the iteration for target 0 sets its hitCount to 1 and
the score to 10. -/
theorem C1_piggy_step_witness :
    (world_at (450 : ℝ) 430).piggy_pos 0 2 = 0
    ∧ (piggy_step E0 0 (world_at 450 430)).canon_out = 0
    ∧ (piggy_step E0 0 (world_at 450 430)).piggy_pos 0 2 = 0 + 1
    ∧ (piggy_step E0 0 (world_at 450 430)).score = (world_at (450 : ℝ) 430).score + (0 + 1) * 10 := by
  have hp : (world_at (450 : ℝ) 430).piggy_pos 0 2 = 0 := by
    simp [world_at_eq, initial_world_piggy_pos, setRow]
  have hd : distance E0 (world_at (450 : ℝ) 430).canon_x_position
      (world_at (450 : ℝ) 430).canon_y_position ((world_at (450 : ℝ) 430).piggy_pos 0 0)
      ((world_at (450 : ℝ) 430).piggy_pos 0 1)
      ≤ (world_at (450 : ℝ) 430).radius_of_canon + (world_at (450 : ℝ) 430).radius_of_piggy := by
    simp [world_at_eq, initial_world_piggy_pos, setRow, distance, E0, realEnv, initial_globals]
    norm_num
  have h := (C1_piggy_step E0 (world_at 450 430) 0 0 hp).1 hd (by norm_num)
  exact ⟨hp, h.2.2.1, h.2.2.2.2.2.1, h.2.2.2.2.2.2⟩

/-- C2. One iteration of the collectible loop of `checkcollision`: if
collectible `i` is available (flag 1) and its centre is at distance at most
`radius_of_canon` plus its radius from the projectile (equality included),
the iteration marks it consumed (flag 0), adds exactly 10 to the score and
puts the projectile at `(0,0)`, resting, with zero velocity; otherwise the
iteration changes nothing. -/
theorem C2_coin_step (E : Env α) (w : World α) (i : Nat) :
    (distance E w.canon_x_position w.canon_y_position (w.coins i 0) (w.coins i 1)
          ≤ w.radius_of_canon + w.coins i 2 → w.coins i 3 = 1 →
        (coin_step E i w).coins i 3 = 0
        ∧ (coin_step E i w).score = w.score + 10
        ∧ (coin_step E i w).canon_x_position = 0 ∧ (coin_step E i w).canon_y_position = 0
        ∧ (coin_step E i w).canon_out = 0
        ∧ (coin_step E i w).canon_x_velocity = 0 ∧ (coin_step E i w).canon_y_velocity = 0)
    ∧ (¬ (distance E w.canon_x_position w.canon_y_position (w.coins i 0) (w.coins i 1)
          ≤ w.radius_of_canon + w.coins i 2 ∧ w.coins i 3 = 1) →
        coin_step E i w = w) := by
  constructor
  · intro hd h1
    simp [coin_step, hd, h1, set_canon_position, set2]
  · intro hn
    simp only [coin_step]
    rw [if_neg hn]

/-- Witness of C2, the scenario of the specification: the projectile at
`(375, 445)` is at distance exactly `25 = 10 + 15` from the fresh collectible 0
at `(350, 445)`; the iteration consumes it, adds 10 and resets the projectile. -/
theorem C2_coin_step_witness :
    distance E0 (world_at (375 : ℝ) 445).canon_x_position (world_at (375 : ℝ) 445).canon_y_position
        ((world_at (375 : ℝ) 445).coins 0 0) ((world_at (375 : ℝ) 445).coins 0 1)
      = (world_at (375 : ℝ) 445).radius_of_canon + (world_at (375 : ℝ) 445).coins 0 2
    ∧ (coin_step E0 0 (world_at 375 445)).coins 0 3 = 0
    ∧ (coin_step E0 0 (world_at 375 445)).score = (world_at (375 : ℝ) 445).score + 10
    ∧ (coin_step E0 0 (world_at 375 445)).canon_x_position = 0
    ∧ (coin_step E0 0 (world_at 375 445)).canon_y_position = 0
    ∧ (coin_step E0 0 (world_at 375 445)).canon_out = 0 := by
  have hd : distance E0 (world_at (375 : ℝ) 445).canon_x_position
      (world_at (375 : ℝ) 445).canon_y_position
      ((world_at (375 : ℝ) 445).coins 0 0) ((world_at (375 : ℝ) 445).coins 0 1)
      = (world_at (375 : ℝ) 445).radius_of_canon + (world_at (375 : ℝ) 445).coins 0 2 := by
    simp only [world_at_eq, initial_world_coins, setRow, distance, E0, realEnv, initial_globals]
    norm_num
    rw [show (625 : ℝ) = 25 * 25 by norm_num, Real.sqrt_mul_self (by norm_num)]
  have h1 : (world_at (375 : ℝ) 445).coins 0 3 = 1 := by
    simp [world_at_eq, initial_world_coins, setRow]
  have h := (C2_coin_step E0 (world_at 375 445) 0).1 (le_of_eq hd) h1
  exact ⟨hd, h.1, h.2.1, h.2.2.1, h.2.2.2.1, h.2.2.2.2.1⟩

/-! ### Game-over test -/

/-- C3. The game-over test of the main loop (the recomputed count
`no_of_piggy_hit` equals `no_of_piggy`) holds if and only if every one of the
`no_of_piggy` targets has `hitCount == 3`; the recount leaves the targets as
they are, and the loop of `main` tests the count that `main_iter` ends with. -/
theorem C3_game_over_iff (E : Env α) (U : Uninit α) (inp : Input α) (w : World α) :
    ((count_piggy_hit w).no_of_piggy_hit = (no_of_piggy : α)
        ↔ ∀ i, i < no_of_piggy → w.piggy_pos i 2 = 3)
    ∧ (count_piggy_hit w).piggy_pos = w.piggy_pos
    ∧ (game_over w = true ↔ ∀ i, i < no_of_piggy → w.piggy_pos i 2 = 3)
    ∧ ((main_iter E U inp w).no_of_piggy_hit = (no_of_piggy : α)
        ↔ ∀ i, i < no_of_piggy → (main_iter E U inp w).piggy_pos i 2 = 3) := by
  have key : ∀ v : World α, ((count_piggy_hit v).no_of_piggy_hit = (no_of_piggy : α)
        ↔ ∀ i, i < no_of_piggy → v.piggy_pos i 2 = 3)
      ∧ (count_piggy_hit v).piggy_pos = v.piggy_pos := by
    intro v
    simp only [count_piggy_hit, no_of_piggy, forLoop_zero_three, forall_lt_three]
    by_cases h0 : v.piggy_pos 0 2 = 3 <;> by_cases h1 : v.piggy_pos 1 2 = 3 <;>
      by_cases h2 : v.piggy_pos 2 2 = 3 <;> simp [h0, h1, h2] <;> norm_num
  refine ⟨(key w).1, (key w).2, ?_, ?_⟩
  · simp only [game_over, decide_eq_true_eq]
    exact (key w).1
  · simp only [main_iter]
    refine ⟨fun h => ?_, fun h => ?_⟩
    · rw [(key _).2]
      exact (key _).1.mp h
    · rw [(key _).2] at h
      exact (key _).1.mpr h

/-! ### Launch step -/

/-- C7. If the projectile is in flight (`canon_out = 1`) when `draw` reaches its
launch step, neither the pointer launch nor the keyboard launch fires, whatever
the key and mouse-button flags are: the launch step returns the state
unchanged, so launch time, launch position, speed, angle, velocity components
and horizontal direction are unchanged. -/
theorem C7_launch_ignored_in_flight (E : Env α) (w : World α) (h : w.canon_out = 1) :
    draw_launch E w = w
    ∧ (draw_launch E w).canon_start_time = w.canon_start_time
    ∧ (draw_launch E w).canon_x_initial_position = w.canon_x_initial_position
    ∧ (draw_launch E w).canon_y_initial_position = w.canon_y_initial_position
    ∧ (draw_launch E w).canon_velocity = w.canon_velocity
    ∧ (draw_launch E w).canon_theta = w.canon_theta
    ∧ (draw_launch E w).canon_x_velocity = w.canon_x_velocity
    ∧ (draw_launch E w).canon_y_velocity = w.canon_y_velocity
    ∧ (draw_launch E w).canon_x_direction = w.canon_x_direction := by
  have h0 : draw_launch E w = w := by
    simp [draw_launch, h]
  simp [h0]

/-- Witness of C7: in flight, with the launch key and both mouse buttons held,
the launch step changes nothing. -/
theorem C7_launch_ignored_in_flight_witness :
    (flying_world : World ℝ).canon_out = 1
    ∧ (flying_world : World ℝ).a_pressed = 1
    ∧ (flying_world : World ℝ).left_button_Pressed = 1
    ∧ (flying_world : World ℝ).right_button_Pressed = 1
    ∧ draw_launch E0 flying_world = flying_world :=
  ⟨rfl, rfl, rfl, rfl, (C7_launch_ignored_in_flight E0 flying_world rfl).1⟩

/-! ### Score, hit counts and collectible flags through a tick -/

theorem Step.refl_step (w : World α) : Step w w := ⟨fun h => ⟨h, le_refl _⟩, fun _ h => h⟩

theorem Step.trans_step {a b c : World α} (h1 : Step a b) (h2 : Step b c) : Step a c :=
  ⟨fun h => ⟨(h2.1 (h1.1 h).1).1, le_trans (h1.1 h).2 (h2.1 (h1.1 h).1).2⟩,
    fun i h => h2.2 i (h1.2 i h)⟩

theorem Mono.to_step {a b : World α} (h : Mono a b) : Step a b := by
  refine ⟨fun hk => ⟨?_, h.2.2⟩, fun i hi => ?_⟩
  · intro i hi
    rw [h.2.1]
    exact hk i hi
  · rw [h.1]
    exact hi

theorem forLoop_rel_lt {σ : Type} (R : σ → σ → Prop) (hrefl : ∀ s, R s s)
    (htrans : ∀ a b c, R a b → R b c → R a c) (lo hi : Nat) (body : Nat → σ → σ)
    (hbody : ∀ i, lo ≤ i → i < hi → ∀ s, R s (body i s)) (w : σ) :
    R w (forLoop lo hi body w) := by
  unfold forLoop
  have hmem : ∀ i ∈ (List.range (hi - lo)).map (fun k => lo + k), lo ≤ i ∧ i < hi := by
    intro i hi'
    simp only [List.mem_map, List.mem_range] at hi'
    obtain ⟨k, hk, rfl⟩ := hi'
    omega
  generalize (List.range (hi - lo)).map (fun k => lo + k) = l at hmem
  induction l generalizing w with
  | nil => exact hrefl w
  | cons i l ih =>
    have hi' := hmem i (List.mem_cons_self i l)
    exact htrans _ _ _ (hbody i hi'.1 hi'.2 w)
      (ih (body i w) (fun j hj => hmem j (List.mem_cons_of_mem i hj)))

theorem forLoop_step (lo hi : Nat) (body : Nat → World α → World α)
    (hbody : ∀ i, lo ≤ i → i < hi → ∀ s, Step s (body i s)) (w : World α) :
    Step w (forLoop lo hi body w) :=
  forLoop_rel_lt Step Step.refl_step (fun _ _ _ h1 h2 => h1.trans_step h2) lo hi body hbody w

theorem coin_step_piggy_pos (E : Env α) (i : Nat) (w : World α) :
    (coin_step E i w).piggy_pos = w.piggy_pos := by
  unfold coin_step
  simp only []
  split_ifs <;> simp [set_canon_position]

theorem coin_step_score (E : Env α) (i : Nat) (w : World α) :
    (coin_step E i w).score = w.score ∨ (w.coins i 3 = 1 ∧ (coin_step E i w).score = w.score + 10) := by
  unfold coin_step
  simp only []
  split_ifs with h
  · right
    exact ⟨h.2, by simp [set_canon_position]⟩
  · left
    rfl

theorem coin_step_flag (E : Env α) (i j : Nat) (w : World α) (h : w.coins j 3 = 0) :
    (coin_step E i w).coins j 3 = 0 := by
  unfold coin_step
  simp only []
  split_ifs
  · simp [set_canon_position, set2]
    intro _
    exact h
  · exact h

theorem coin_step_step (E : Env α) (i : Nat) (w : World α) : Step w (coin_step E i w) := by
  refine ⟨fun hk => ⟨?_, ?_⟩, fun j hj => coin_step_flag E i j w hj⟩
  · intro j hj
    rw [coin_step_piggy_pos]
    exact hk j hj
  · rcases coin_step_score E i w with h | h
    · exact le_of_eq h.symm
    · rw [h.2]
      simp

theorem piggy_step_coins (E : Env α) (i : Nat) (w : World α) :
    (piggy_step E i w).coins = w.coins := by
  unfold piggy_step
  simp only []
  split_ifs <;> simp [set_canon_position]

theorem piggy_step_other (E : Env α) (i j k : Nat) (w : World α) (hj : j ≠ i) :
    (piggy_step E i w).piggy_pos j k = w.piggy_pos j k := by
  unfold piggy_step
  simp only []
  split_ifs <;> simp [set_canon_position, set2, hj]

theorem piggy_step_self (E : Env α) (i : Nat) (w : World α) :
    ((piggy_step E i w).piggy_pos i 2 = w.piggy_pos i 2 ∧ (piggy_step E i w).score = w.score)
    ∨ (w.piggy_pos i 2 ≠ 3 ∧ (piggy_step E i w).piggy_pos i 2 = w.piggy_pos i 2 + 1
        ∧ (piggy_step E i w).score = w.score + (w.piggy_pos i 2 + 1) * 10) := by
  unfold piggy_step
  simp only []
  split_ifs with h
  · right
    exact ⟨h.2, by simp [set_canon_position, set2], by simp [set_canon_position, set2]⟩
  · left
    exact ⟨rfl, rfl⟩

theorem piggy_step_step (E : Env α) (i : Nat) (hi : i < no_of_piggy) (w : World α) :
    Step w (piggy_step E i w) := by
  refine ⟨fun hk => ?_, fun j hj => ?_⟩
  · have hki := hk i hi
    rcases piggy_step_self E i w with h | h
    · refine ⟨fun j hj => ?_, le_of_eq h.2.symm⟩
      by_cases hji : j = i
      · subst hji
        rw [h.1]
        exact hki
      · rw [piggy_step_other E i j 2 w hji]
        exact hk j hj
    · refine ⟨fun j hj => ?_, ?_⟩
      · by_cases hji : j = i
        · subst hji
          rw [h.2.1]
          rcases hki with h0 | h0 | h0 | h0
          · rw [h0]; norm_num
          · rw [h0]; norm_num
          · rw [h0]; norm_num
          · exact absurd h0 h.1
        · rw [piggy_step_other E i j 2 w hji]
          exact hk j hj
      · rw [h.2.2]
        rcases hki with h0 | h0 | h0 | h0 <;> rw [h0] <;> norm_num
  · rw [piggy_step_coins]
    exact hj

theorem checkcollision_step (E : Env α) (U : Uninit α) (w : World α) :
    Step w (checkcollision E U w) := by
  unfold checkcollision
  simp only []
  exact Step.trans_step (physics_mono E U w).to_step
    (Step.trans_step (forLoop_step _ _ _ (fun i _ _ s => coin_step_step E i s) _)
      (forLoop_step _ _ _ (fun i _ hi s => piggy_step_step E i hi s) _))

theorem draw_air_same (E : Env α) (w : World α) : Same w (draw_air E w) :=
  set_canon_position_same ..

theorem draw_keys_same (w : World α) : Same w (draw_keys w) := by
  have h1 : ∀ v : World α, Same v (draw_key_w v) := by
    intro v
    unfold draw_key_w Same
    split_ifs <;> simp
  have h2 : ∀ v : World α, Same v (draw_key_s v) := by
    intro v
    unfold draw_key_s Same
    split_ifs <;> simp
  have h3 : ∀ v : World α, Same v (draw_key_dc v) := by
    intro v
    unfold draw_key_dc Same
    split_ifs <;> simp
  exact (h1 w).trans_same ((h2 _).trans_same (h3 _))

theorem draw_pointer_power_same (E : Env α) (w : World α) : Same w (draw_pointer_power E w) := by
  unfold draw_pointer_power Same
  simp only []
  split_ifs <;> simp

theorem draw_object_same (E : Env α) (i : Nat) (w : World α) : Same w (draw_object E i w) := by
  unfold draw_object Same
  simp only []
  split_ifs <;> simp [set_obj]

theorem draw_launch_same (E : Env α) (w : World α) : Same w (draw_launch E w) := by
  unfold draw_launch Same
  simp only []
  split_ifs <;> simp [set_canon_position]

theorem draw_canon_update_same (E : Env α) (w : World α) : Same w (draw_canon_update E w) := by
  unfold draw_canon_update Same
  simp only []
  split_ifs <;> simp

theorem draw_cap_same (w : World α) : Same w (draw_cap w) := by
  unfold draw_cap Same
  split_ifs <;> simp

theorem draw_same (E : Env α) (w : World α) : Same w (draw E w) := by
  unfold draw
  simp only []
  exact (draw_air_same E w).trans_same ((draw_keys_same _).trans_same ((draw_pointer_power_same E _).trans_same
    ((forLoop_same _ _ _ (fun i s => draw_object_same E i s) _).trans_same
      ((draw_launch_same E _).trans_same ((draw_canon_update_same E _).trans_same (draw_cap_same _))))))

theorem count_piggy_hit_same (w : World α) : Same w (count_piggy_hit w) := by
  unfold count_piggy_hit
  refine Same.trans_same (b := { w with no_of_piggy_hit := 0 }) ⟨rfl, rfl, rfl⟩ ?_
  refine forLoop_same _ _ _ (fun i s => ?_) _
  split_ifs
  · exact ⟨rfl, rfl, rfl⟩
  · exact Same.refl_same _

theorem main_iter_step (E : Env α) (U : Uninit α) (inp : Input α) (w : World α) :
    Step w (main_iter E U inp w) := by
  unfold main_iter
  simp only []
  refine Step.trans_step (b := draw E { w with xmousePos := inp.xmousePos, ymousePos := inp.ymousePos })
    ?_ (Step.trans_step (checkcollision_step E U _) ?_)
  · exact (Same.trans_same (b := { w with xmousePos := inp.xmousePos, ymousePos := inp.ymousePos })
      ⟨rfl, rfl, rfl⟩ (draw_same E _)).to_mono.to_step
  · refine (Same.trans_same ?_ (count_piggy_hit_same _)).to_mono.to_step
    exact ⟨rfl, rfl, rfl⟩

theorem main_loop_step (E : Env α) (ts : List (Uninit α × Input α)) (w : World α) :
    Step w (main_loop E ts w) := by
  induction ts generalizing w with
  | nil => exact Step.refl_step w
  | cons t ts ih =>
    unfold main_loop
    simp only []
    split_ifs
    · exact main_iter_step E t.1 t.2 w
    · exact (main_iter_step E t.1 t.2 w).trans_step (ih _)

theorem main_loop_append (E : Env α) (ts ts' : List (Uninit α × Input α)) (w : World α) :
    main_loop E (ts ++ ts') w = main_loop E ts w
    ∨ main_loop E (ts ++ ts') w = main_loop E ts' (main_loop E ts w) := by
  induction ts generalizing w with
  | nil => right; rfl
  | cons t ts ih =>
    simp only [List.cons_append, main_loop]
    split_ifs
    · left; rfl
    · exact ih _

theorem initial_world_hitOK : HitOK (initial_world : World α) := by
  intro i hi
  left
  simp only [no_of_piggy] at hi
  interval_cases i <;> simp [initial_world_piggy_pos, setRow]

theorem main_loop_reach_step (E : Env α) (ts ts' : List (Uninit α × Input α)) (w : World α) :
    Step (main_loop E ts w) (main_loop E (ts ++ ts') w) := by
  rcases main_loop_append E ts ts' w with h | h
  · rw [h]
    exact Step.refl_step _
  · rw [h]
    exact main_loop_step E ts' _

theorem coin_loop_piggy_pos (E : Env α) (w : World α) :
    (forLoop 0 no_of_coins (fun i s => coin_step E i s) w).piggy_pos = w.piggy_pos :=
  forLoop_rel (fun a b : World α => b.piggy_pos = a.piggy_pos) (fun _ => rfl)
    (fun _ _ _ h1 h2 => h2.trans h1) _ _ _ (fun i s => coin_step_piggy_pos E i s) w

theorem piggy_loop_entry (E : Env α) (w : World α) (i : Nat) (hi : i < no_of_piggy) :
    (forLoop 0 no_of_piggy (fun i s => piggy_step E i s) w).piggy_pos i 2 = w.piggy_pos i 2
    ∨ (w.piggy_pos i 2 ≠ 3
      ∧ (forLoop 0 no_of_piggy (fun i s => piggy_step E i s) w).piggy_pos i 2
        = w.piggy_pos i 2 + 1) := by
  simp only [no_of_piggy] at hi ⊢
  rw [forLoop_zero_three]
  interval_cases i
  · rw [piggy_step_other E 2 0 2 _ (by norm_num), piggy_step_other E 1 0 2 _ (by norm_num)]
    rcases piggy_step_self E 0 w with h | h
    · exact Or.inl h.1
    · exact Or.inr ⟨h.1, h.2.1⟩
  · rw [piggy_step_other E 2 1 2 _ (by norm_num)]
    rcases piggy_step_self E 1 (piggy_step E 0 w) with h | h
    · left
      rw [h.1, piggy_step_other E 0 1 2 _ (by norm_num)]
    · right
      rw [piggy_step_other E 0 1 2 _ (by norm_num)] at h
      exact ⟨h.1, h.2.1⟩
  · rcases piggy_step_self E 2 (piggy_step E 1 (piggy_step E 0 w)) with h | h
    · left
      rw [h.1, piggy_step_other E 1 2 2 _ (by norm_num), piggy_step_other E 0 2 2 _ (by norm_num)]
    · right
      rw [piggy_step_other E 1 2 2 _ (by norm_num), piggy_step_other E 0 2 2 _ (by norm_num)] at h
      exact ⟨h.1, h.2.1⟩

theorem checkcollision_piggy_entry (E : Env α) (U : Uninit α) (w : World α) (i : Nat)
    (hi : i < no_of_piggy) :
    (checkcollision E U w).piggy_pos i 2 = w.piggy_pos i 2
    ∨ (w.piggy_pos i 2 ≠ 3 ∧ (checkcollision E U w).piggy_pos i 2 = w.piggy_pos i 2 + 1) := by
  have hp : (forLoop 0 no_of_coins (fun i s => coin_step E i s)
      (forLoop 0 no_of_fixed_objects (fun i s => canon_obstacle E i s)
        (forLoop 0 no_of_objects (fun i s => object_loop_body E U i s)
          (canon_walls E w)))).piggy_pos = w.piggy_pos := by
    rw [coin_loop_piggy_pos]
    exact (physics_mono E U w).2.1
  have h := piggy_loop_entry E (forLoop 0 no_of_coins (fun i s => coin_step E i s)
      (forLoop 0 no_of_fixed_objects (fun i s => canon_obstacle E i s)
        (forLoop 0 no_of_objects (fun i s => object_loop_body E U i s)
          (canon_walls E w)))) i hi
  rw [hp] at h
  exact h

theorem world_at_hitOK (x y : α) : HitOK (world_at x y) :=
  fun i hi => initial_world_hitOK i hi

/-- C4. If every target's hitCount is one of 0, 1, 2, 3 then the score after one
`checkcollision` pass is at least the score before it; `draw` never changes
the score; hence along every run of the main loop from the initial state the
score never goes down (a longer run ends with a score at least that of each
of its prefixes). -/
theorem C4_score_monotone (E : Env α) (U : Uninit α) (w : World α) :
    (HitOK w → w.score ≤ (checkcollision E U w).score)
    ∧ (draw E w).score = w.score
    ∧ (∀ ts ts' : List (Uninit α × Input α),
        (main_loop E ts initial_world).score ≤ (main_loop E (ts ++ ts') initial_world).score) := by
  refine ⟨fun h => ((checkcollision_step E U w).1 h).2, (draw_same E w).2.2, fun ts ts' => ?_⟩
  have h0 : HitOK (main_loop E ts (initial_world : World α)) :=
    ((main_loop_step E ts initial_world).1 initial_world_hitOK).1
  exact ((main_loop_reach_step E ts ts' initial_world).1 h0).2

/-- Witness of C4: in the initial layout, with the projectile on the centre of
target 0, every hitCount is 0 and the pass does not lower the score. -/
theorem C4_score_monotone_witness :
    HitOK (world_at (450 : ℝ) 430)
    ∧ (world_at (450 : ℝ) 430).score
      ≤ (checkcollision E0 (zeroUninit ℝ) (world_at (450 : ℝ) 430)).score :=
  ⟨world_at_hitOK 450 430,
    (C4_score_monotone E0 (zeroUninit ℝ) (world_at (450 : ℝ) 430)).1 (world_at_hitOK 450 430)⟩

/-- C5. If every target's hitCount is one of 0, 1, 2, 3 then after one
`checkcollision` pass each target's hitCount is at least its previous value,
at most its previous value plus 1, still one of 0, 1, 2, 3, and a target whose
hitCount was 3 is unchanged. -/
theorem C5_hitcount_step (E : Env α) (U : Uninit α) (w : World α) (hw : HitOK w) (i : Nat)
    (hi : i < no_of_piggy) :
    w.piggy_pos i 2 ≤ (checkcollision E U w).piggy_pos i 2
    ∧ (checkcollision E U w).piggy_pos i 2 ≤ w.piggy_pos i 2 + 1
    ∧ ((checkcollision E U w).piggy_pos i 2 = 0 ∨ (checkcollision E U w).piggy_pos i 2 = 1
      ∨ (checkcollision E U w).piggy_pos i 2 = 2 ∨ (checkcollision E U w).piggy_pos i 2 = 3)
    ∧ (w.piggy_pos i 2 = 3 → (checkcollision E U w).piggy_pos i 2 = 3) := by
  have hok := ((checkcollision_step E U w).1 hw).1 i hi
  rcases checkcollision_piggy_entry E U w i hi with h | h
  · rw [h] at hok ⊢
    exact ⟨le_refl _, by simp, hok, fun h3 => h3⟩
  · rw [h.2] at hok ⊢
    exact ⟨by simp, le_refl _, hok, fun h3 => absurd h3 h.1⟩

/-- Witness of C5: in the initial layout with the projectile on the centre of
target 0, the hitCount of target 0 after the pass is between its old value and
its old value plus 1. -/
theorem C5_hitcount_step_witness :
    HitOK (world_at (450 : ℝ) 430) ∧ 0 < no_of_piggy
    ∧ (world_at (450 : ℝ) 430).piggy_pos 0 2
      ≤ (checkcollision E0 (zeroUninit ℝ) (world_at (450 : ℝ) 430)).piggy_pos 0 2
    ∧ (checkcollision E0 (zeroUninit ℝ) (world_at (450 : ℝ) 430)).piggy_pos 0 2
      ≤ (world_at (450 : ℝ) 430).piggy_pos 0 2 + 1 :=
  ⟨world_at_hitOK 450 430, by decide,
    (C5_hitcount_step E0 (zeroUninit ℝ) (world_at 450 430) (world_at_hitOK 450 430) 0
      (by decide)).1,
    (C5_hitcount_step E0 (zeroUninit ℝ) (world_at 450 430) (world_at_hitOK 450 430) 0
      (by decide)).2.1⟩

theorem atan2_tan_one (clock : Nat → ℝ) (s : ℝ) (h1 : -(Real.pi / 2) < s) (h2 : s < Real.pi / 2) :
    (realEnv clock).atan2 (Real.tan s) 1 = s := by
  have hc : 0 < Real.cos s := Real.cos_pos_of_mem_Ioo ⟨h1, h2⟩
  have hpi := Real.pi_pos
  have hz : (⟨1, Real.tan s⟩ : ℂ)
      = (((1 / Real.cos s : ℝ) : ℂ)) * (Complex.cos s + Complex.sin s * Complex.I) := by
    apply Complex.ext
    · simp [← Complex.ofReal_cos, ← Complex.ofReal_sin, hc.ne']
    · simp [← Complex.ofReal_cos, ← Complex.ofReal_sin, Real.tan_eq_sin_div_cos]
      field_simp
  show Complex.arg ⟨1, Real.tan s⟩ = s
  rw [hz]
  exact Complex.arg_mul_cos_add_sin_mul_I (by positivity) ⟨by linarith, by linarith⟩

/-- Away from its poles the tangent of the real environment is the real
tangent. -/
theorem realEnv_tan (clock : Nat → ℝ) (s : ℝ) (h1 : -(Real.pi / 2) < s) (h2 : s < Real.pi / 2) :
    (realEnv clock).tan s = Real.tan s := by
  have hc : Real.cos s ≠ 0 := (Real.cos_pos_of_mem_Ioo ⟨h1, h2⟩).ne'
  show (if Real.cos s = 0 then (16331239353195370 : ℝ) else Real.tan s) = Real.tan s
  rw [if_neg hc]

theorem atan2_env_tan (clock : Nat → ℝ) (s : ℝ) (h1 : -(Real.pi / 2) < s)
    (h2 : s < Real.pi / 2) : (realEnv clock).atan2 ((realEnv clock).tan s) 1 = s := by
  rw [realEnv_tan clock s h1 h2]
  exact atan2_tan_one clock s h1 h2

theorem sqrt_polar (p c s : ℝ) (hp : 0 ≤ p) (h : c * c + s * s = 1) :
    Real.sqrt (p * c * (p * c) + p * s * (p * s)) = p := by
  have : p * c * (p * c) + p * s * (p * s) = p ^ 2 := by
    have : p * c * (p * c) + p * s * (p * s) = p ^ 2 * (c * c + s * s) := by ring
    rw [this, h, mul_one]
  rw [this, Real.sqrt_sq hp]

/-- C8. A keyboard launch accepted while the projectile is resting, with aim
angle `a` degrees (`10 ≤ a < 90`), `s = a * π / 180` and power `p ≥ 0`, puts the
projectile in flight (`canon_out = 1`) with launch time the clock value read at
the launch, launch position and current position
`(55 + 100 cos s, 60 + 100 sin s)`, launch angle `atan2 (tan s) 1 = s`, speed
`p / 10`, velocity components `((p/10) cos s, (p/10) sin s)` and horizontal
direction `+1`.  (Real arithmetic; the keyboard branch is the `else` of the
pointer launch, so it is taken when not both mouse buttons are held.) -/
theorem C8_keyboard_launch (clock : Nat → ℝ) (w : World ℝ) (a p : ℝ) (h0 : w.canon_out = 0)
    (hk : w.a_pressed = 1) (hm : ¬ (w.left_button_Pressed = 1 ∧ w.right_button_Pressed = 1))
    (ha : w.angle_c = a) (ha1 : 10 ≤ a) (ha2 : a < 90)
    (hp : w.speed_of_canon_intial = p) (hp0 : 0 ≤ p) :
    (draw_launch (realEnv clock) w).canon_out = 1
    ∧ (draw_launch (realEnv clock) w).canon_start_time = clock w.reads
    ∧ (draw_launch (realEnv clock) w).canon_x_initial_position
        = 55 + 100 * Real.cos (a * Real.pi / 180)
    ∧ (draw_launch (realEnv clock) w).canon_y_initial_position
        = 60 + 100 * Real.sin (a * Real.pi / 180)
    ∧ (draw_launch (realEnv clock) w).canon_x_position = 55 + 100 * Real.cos (a * Real.pi / 180)
    ∧ (draw_launch (realEnv clock) w).canon_y_position = 60 + 100 * Real.sin (a * Real.pi / 180)
    ∧ (draw_launch (realEnv clock) w).canon_theta
        = (realEnv clock).atan2 (Real.tan (a * Real.pi / 180)) 1
    ∧ (draw_launch (realEnv clock) w).canon_theta = a * Real.pi / 180
    ∧ (draw_launch (realEnv clock) w).canon_velocity = p / 10
    ∧ (draw_launch (realEnv clock) w).canon_x_velocity = (p / 10) * Real.cos (a * Real.pi / 180)
    ∧ (draw_launch (realEnv clock) w).canon_y_velocity = (p / 10) * Real.sin (a * Real.pi / 180)
    ∧ (draw_launch (realEnv clock) w).canon_x_direction = 1 := by
  have hpi := Real.pi_pos
  have hs1 : -(Real.pi / 2) < a * Real.pi / 180 := by
    have : 0 ≤ a * Real.pi / 180 := by positivity
    linarith
  have hs2 : a * Real.pi / 180 < Real.pi / 2 := by
    have : a * Real.pi < 90 * Real.pi := mul_lt_mul_of_pos_right ha2 hpi
    linarith
  have hat := atan2_tan_one clock _ hs1 hs2
  have hsq := sqrt_polar (p / 10) (Real.cos (a * Real.pi / 180)) (Real.sin (a * Real.pi / 180))
    (by positivity) (by
      have := Real.cos_sq_add_sin_sq (a * Real.pi / 180)
      nlinarith [this])
  have hm' : ¬ (w.left_button_Pressed = 1 ∧ w.right_button_Pressed = 1 ∧ w.canon_out = 0) :=
    fun h => hm ⟨h.1, h.2.1⟩
  subst ha hp
  have htan := realEnv_tan clock _ hs1 hs2
  unfold draw_launch
  rw [if_neg hm', if_pos ⟨hk, h0⟩]
  refine ⟨rfl, rfl, rfl, rfl, rfl, rfl, ?_, ?_, hsq, rfl, rfl, rfl⟩
  · show (realEnv clock).atan2 ((realEnv clock).tan (w.angle_c * Real.pi / 180)) 1
      = (realEnv clock).atan2 (Real.tan (w.angle_c * Real.pi / 180)) 1
    rw [htan]
  · show (realEnv clock).atan2 ((realEnv clock).tan (w.angle_c * Real.pi / 180)) 1
      = w.angle_c * Real.pi / 180
    rw [htan]
    exact hat

/-- Witness of C8 at `launch_world`: resting, launch key held, aim 45 degrees,
power 100. -/
theorem C8_keyboard_launch_witness :
    (launch_world : World ℝ).canon_out = 0 ∧ (launch_world : World ℝ).a_pressed = 1
    ∧ (launch_world : World ℝ).angle_c = 45 ∧ (launch_world : World ℝ).speed_of_canon_intial = 100
    ∧ (draw_launch E0 launch_world).canon_out = 1
    ∧ (draw_launch E0 launch_world).canon_theta = 45 * Real.pi / 180
    ∧ (draw_launch E0 launch_world).canon_velocity = 100 / 10
    ∧ (draw_launch E0 launch_world).canon_x_direction = 1 := by
  have h := C8_keyboard_launch (fun k => (k : ℝ)) launch_world 45 100 rfl rfl
    (fun h => absurd h.1 (by decide)) rfl (by norm_num) (by norm_num) rfl (by norm_num)
  exact ⟨rfl, rfl, rfl, rfl, h.1, h.2.2.2.2.2.2.2.1, h.2.2.2.2.2.2.2.2.1, h.2.2.2.2.2.2.2.2.2.2.2⟩

theorem draw_canon_update_in_flight (E : Env α) (w : World α) (h : w.canon_out = 1) :
    (draw_canon_update E w).canon_y_position
      = w.canon_y_initial_position
        + ((w.canon_velocity * E.sin w.canon_theta) * (E.glfwGetTime w.reads - w.canon_start_time)
          - (w.gravity * (E.glfwGetTime w.reads - w.canon_start_time)
              * (E.glfwGetTime w.reads - w.canon_start_time)) / 2) * 10
    ∧ (draw_canon_update E w).canon_y_velocity
      = w.canon_velocity * E.sin w.canon_theta
        - w.gravity * (E.glfwGetTime w.reads - w.canon_start_time) := by
  unfold draw_canon_update
  rw [if_pos h]
  simp only []
  split_ifs <;> exact ⟨rfl, rfl⟩

theorem draw_object_in_flight (E : Env α) (i : Nat) (w : World α) (h : w.objects i 13 = 1) :
    (draw_object E i w).objects i 1
      = w.objects i 10
        + (w.objects i 11 * E.sin (w.objects i 12) * (E.glfwGetTime w.reads - w.objects i 8)
          - (9.8 * (E.glfwGetTime w.reads - w.objects i 8)
              * (E.glfwGetTime w.reads - w.objects i 8)) / 2) * 10
    ∧ (draw_object E i w).objects i 3
      = w.objects i 11 * E.sin (w.objects i 12)
        - 9.8 * (E.glfwGetTime w.reads - w.objects i 8) := by
  unfold draw_object
  rw [if_pos h]
  simp only []
  split_ifs <;> simp [set_obj, set2]

/-- C9 (the code departs from the claim). The per-tick update of a free body in
flight uses the literal 9.8 where the claim has the world's gravity constant:
in `falling_world` the gravity global is 18, body 0 is in flight with launch
height 500, launch speed 0 and launch time 0, and at clock value 1 the update
gives `y = 500 + (0 - 9.8 * 1 / 2) * 10 = 451` and vertical velocity `-9.8`,
not the `500 + (0 - 18 * 1 / 2) * 10 = 410` and `-18` of the claimed formula.
The projectile's update does use `gravity`. -/
theorem C9_free_body_uses_literal_gravity :
    (falling_world : World ℝ).gravity = 18
    ∧ (falling_world : World ℝ).objects 0 13 = 1
    ∧ (falling_world : World ℝ).objects 0 10 = 500
    ∧ (falling_world : World ℝ).objects 0 11 = 0
    ∧ E0.glfwGetTime (falling_world : World ℝ).reads - (falling_world : World ℝ).objects 0 8 = 1
    ∧ (draw_object E0 0 falling_world).objects 0 1 = 451
    ∧ (draw_object E0 0 falling_world).objects 0 3 = -9.8
    ∧ (draw_object E0 0 falling_world).objects 0 1
      ≠ (falling_world : World ℝ).objects 0 10
        + ((falling_world : World ℝ).objects 0 11 * E0.sin ((falling_world : World ℝ).objects 0 12) * 1
          - ((falling_world : World ℝ).gravity * 1 * 1) / 2) * 10
    ∧ (draw_object E0 0 falling_world).objects 0 3
      ≠ (falling_world : World ℝ).objects 0 11 * E0.sin ((falling_world : World ℝ).objects 0 12)
        - (falling_world : World ℝ).gravity * 1 := by
  have h13 : (falling_world : World ℝ).objects 0 13 = 1 := rfl
  have h10 : (falling_world : World ℝ).objects 0 10 = 500 := rfl
  have h11 : (falling_world : World ℝ).objects 0 11 = 0 := rfl
  have h8 : (falling_world : World ℝ).objects 0 8 = 0 := rfl
  have hg : (falling_world : World ℝ).gravity = 18 := rfl
  have ht : E0.glfwGetTime (falling_world : World ℝ).reads = 1 := by
    show ((1 : Nat) : ℝ) = 1
    norm_num
  have h := draw_object_in_flight E0 0 falling_world h13
  rw [h10, h11, h8, ht] at h
  refine ⟨hg, h13, h10, h11, by rw [ht, h8]; norm_num, ?_, ?_, ?_, ?_⟩
  · rw [h.1]; norm_num
  · rw [h.2]; norm_num
  · rw [h.1, h10, h11, hg]; norm_num
  · rw [h.2, h11, hg]; norm_num

/-- C10. For the projectile's trajectory update with launch height `y0`, launch
speed `v`, launch angle `theta` and gravity `g > 0`, the `y` computed at elapsed
time `t = 2 * v * sin theta / g` since the launch time equals the launch
height `y0`. -/
theorem C10_range_time (E : Env α) (w : World α) (h1 : w.canon_out = 1) (hg : 0 < w.gravity)
    (ht : E.glfwGetTime w.reads - w.canon_start_time
      = 2 * w.canon_velocity * E.sin w.canon_theta / w.gravity) :
    (draw_canon_update E w).canon_y_position = w.canon_y_initial_position := by
  rw [(draw_canon_update_in_flight E w h1).1, ht]
  have hg' : w.gravity ≠ 0 := ne_of_gt hg
  field_simp
  ring

/-- Witness of C10, the scenario of the specification: the keyboard launch of
`launch_world` (power 100, aim 45 degrees, gravity 18) gives speed 10 and angle
`45 π / 180`; the trajectory update at elapsed time `2 * 10 * sin 45° / 18`
computes the launch height again. -/
theorem C10_range_time_witness :
    (draw_launch (realEnv range_clock) launch_world).canon_out = 1
    ∧ 0 < (draw_launch (realEnv range_clock) launch_world).gravity
    ∧ (draw_launch (realEnv range_clock) launch_world).canon_velocity = 10
    ∧ (draw_launch (realEnv range_clock) launch_world).canon_theta = 45 * Real.pi / 180
    ∧ (draw_canon_update (realEnv range_clock)
        (draw_launch (realEnv range_clock) launch_world)).canon_y_position
      = (draw_launch (realEnv range_clock) launch_world).canon_y_initial_position := by
  have hpi := Real.pi_pos
  have hv : (draw_launch (realEnv range_clock) launch_world).canon_velocity = 10 := by
    have := sqrt_polar (100 / 10) (Real.cos (45 * Real.pi / 180)) (Real.sin (45 * Real.pi / 180))
      (by norm_num) (by
        have := Real.cos_sq_add_sin_sq (45 * Real.pi / 180)
        nlinarith [this])
    rw [show (10 : ℝ) = 100 / 10 by norm_num]
    exact this
  have hth : (draw_launch (realEnv range_clock) launch_world).canon_theta = 45 * Real.pi / 180 :=
    atan2_env_tan range_clock (45 * Real.pi / 180) (by linarith) (by linarith)
  have hgr : (draw_launch (realEnv range_clock) launch_world).gravity = 18 := rfl
  have hst : (draw_launch (realEnv range_clock) launch_world).canon_start_time = 0 := by
    show range_clock 1 = 0
    simp [range_clock]
  have hrd : (realEnv range_clock).glfwGetTime
      (draw_launch (realEnv range_clock) launch_world).reads
      = 2 * 10 * Real.sin (45 * Real.pi / 180) / 18 := by
    show range_clock 2 = _
    simp [range_clock]
  refine ⟨rfl, by rw [hgr]; norm_num, hv, hth, ?_⟩
  exact C10_range_time (realEnv range_clock) _ rfl (by rw [hgr]; norm_num)
    (by rw [hrd, hst, hv, hth, hgr, sub_zero]; rfl)

/-! ### Frame of `checkcollision` on parameters, aim, flags and free bodies -/

theorem Par.refl_par (w : World α) : Par w w := ⟨rfl, rfl, rfl, rfl, rfl, rfl, rfl, rfl, rfl⟩

theorem Par.trans_par {a b c : World α} (h1 : Par a b) (h2 : Par b c) : Par a c := by
  unfold Par at *
  simp only [h2, h1, and_self]

theorem Aim.refl_aim (w : World α) : Aim w w :=
  ⟨rfl, rfl, rfl, rfl, rfl, rfl, rfl, rfl, rfl, rfl, rfl⟩

theorem Aim.trans_aim {a b c : World α} (h1 : Aim a b) (h2 : Aim b c) : Aim a c := by
  unfold Aim at *
  simp only [h2, h1, and_self]

theorem Scal.refl_scal (w : World α) : Scal w w := ⟨Par.refl_par w, Aim.refl_aim w, rfl⟩

theorem Scal.trans_scal {a b c : World α} (h1 : Scal a b) (h2 : Scal b c) : Scal a c :=
  ⟨h1.1.trans_par h2.1, h1.2.1.trans_aim h2.2.1, h2.2.2.trans h1.2.2⟩

theorem Scal0.refl_scal0 (w : World α) : Scal0 w w :=
  ⟨Par.refl_par w, Aim.refl_aim w, fun h => h⟩

theorem Scal0.trans_scal0 {a b c : World α} (h1 : Scal0 a b) (h2 : Scal0 b c) : Scal0 a c :=
  ⟨h1.1.trans_par h2.1, h1.2.1.trans_aim h2.2.1, fun h => h2.2.2 (h1.2.2 h)⟩

theorem Scal.to_scal0 {a b : World α} (h : Scal a b) : Scal0 a b :=
  ⟨h.1, h.2.1, fun h0 => h.2.2.trans h0⟩

theorem ObjFrame.refl_obj (w : World α) : ObjFrame w w :=
  fun _ => ⟨rfl, rfl, rfl, rfl, le_refl _, Or.inl rfl⟩

theorem ObjFrame.trans_obj {a b c : World α} (h1 : ObjFrame a b) (h2 : ObjFrame b c) :
    ObjFrame a c := by
  intro i
  obtain ⟨a0, a1, a5, a15, a16, a13⟩ := h1 i
  obtain ⟨b0, b1, b5, b15, b16, b13⟩ := h2 i
  refine ⟨b0.trans a0, b1.trans a1, b5.trans a5, b15.trans a15, le_trans a16 b16, ?_⟩
  rcases a13 with a13 | a13
  · rcases b13 with b13 | b13
    · exact Or.inl (b13.trans a13)
    · exact Or.inr (lt_of_le_of_lt a16 b13)
  · exact Or.inr (lt_of_lt_of_le a13 b16)

theorem ObjFrame.of_objects_eq {w w' : World α} (h : w'.objects = w.objects) : ObjFrame w w' := by
  intro i
  rw [h]
  exact ⟨rfl, rfl, rfl, rfl, le_refl _, Or.inl rfl⟩

theorem set_canon_position_scal (E : Env α) (x y ty tx : α) (d : Int) (v ux uy : α)
    (w : World α) : Scal w (set_canon_position E x y ty tx d v ux uy w) :=
  ⟨⟨rfl, rfl, rfl, rfl, rfl, rfl, rfl, rfl, rfl⟩,
    ⟨rfl, rfl, rfl, rfl, rfl, rfl, rfl, rfl, rfl, rfl, rfl⟩, rfl⟩

theorem set_object_position_scal (E : Env α) (x y ty tx : α) (d : Int) (v ux uy : α) (i : Nat)
    (w : World α) : Scal w (set_object_position E x y ty tx d v ux uy i w) :=
  ⟨⟨rfl, rfl, rfl, rfl, rfl, rfl, rfl, rfl, rfl⟩,
    ⟨rfl, rfl, rfl, rfl, rfl, rfl, rfl, rfl, rfl, rfl, rfl⟩, rfl⟩

theorem set_obj_scal (i j : Nat) (v : α) (w : World α) : Scal w (set_obj i j v w) :=
  ⟨⟨rfl, rfl, rfl, rfl, rfl, rfl, rfl, rfl, rfl⟩,
    ⟨rfl, rfl, rfl, rfl, rfl, rfl, rfl, rfl, rfl, rfl, rfl⟩, rfl⟩

theorem set_canon_position_obj (E : Env α) (x y ty tx : α) (d : Int) (v ux uy : α)
    (w : World α) : ObjFrame w (set_canon_position E x y ty tx d v ux uy w) :=
  ObjFrame.of_objects_eq rfl

theorem set2_apply (a : Nat → Nat → α) (i j : Nat) (v : α) (i' j' : Nat) :
    set2 a i j v i' j' = if i' = i ∧ j' = j then v else a i' j' := rfl

/-- Entries of row `i` of the `objects` array after `set_object_position` on
body `i`. -/
theorem set_object_position_row (E : Env α) (x y ty tx : α) (d : Int) (v ux uy : α)
    (i : Nat) (w : World α) :
    (set_object_position E x y ty tx d v ux uy i w).objects i 16 = w.objects i 16 + 1
    ∧ (set_object_position E x y ty tx d v ux uy i w).objects i 13
      = (if w.objects i 15 = 1 then 1 else w.objects i 13)
    ∧ (set_object_position E x y ty tx d v ux uy i w).objects i 3 = uy
    ∧ (set_object_position E x y ty tx d v ux uy i w).objects i 2 = ux
    ∧ (set_object_position E x y ty tx d v ux uy i w).objects i 11 = E.sqrt (ux * ux + uy * uy)
    ∧ (set_object_position E x y ty tx d v ux uy i w).objects i 10 = y
    ∧ (set_object_position E x y ty tx d v ux uy i w).objects i 9 = x
    ∧ (set_object_position E x y ty tx d v ux uy i w).objects i 8 = E.glfwGetTime w.reads
    ∧ (set_object_position E x y ty tx d v ux uy i w).objects i 12 = E.atan2 ty tx
    ∧ (set_object_position E x y ty tx d v ux uy i w).objects i 14
      = (if d ≠ 0 then (d : α) else w.objects i 14)
    ∧ (set_object_position E x y ty tx d v ux uy i w).objects i 0 = w.objects i 0
    ∧ (set_object_position E x y ty tx d v ux uy i w).objects i 1 = w.objects i 1
    ∧ (set_object_position E x y ty tx d v ux uy i w).objects i 5 = w.objects i 5
    ∧ (set_object_position E x y ty tx d v ux uy i w).objects i 15 = w.objects i 15 := by
  unfold set_object_position
  simp only [set2_apply, ite_apply]
  simp

/-- The rows other than `i` are not changed by `set_object_position` on body
`i`. -/
theorem set_object_position_other (E : Env α) (x y ty tx : α) (d : Int) (v ux uy : α)
    (i : Nat) (w : World α) (i' j : Nat) (h : i' ≠ i) :
    (set_object_position E x y ty tx d v ux uy i w).objects i' j = w.objects i' j := by
  unfold set_object_position
  simp only [set2_apply, ite_apply]
  simp [h]

theorem set_object_position_obj (E : Env α) (x y ty tx : α) (d : Int) (v ux uy : α)
    (i : Nat) (w : World α) : ObjFrame w (set_object_position E x y ty tx d v ux uy i w) := by
  intro i'
  by_cases h : i' = i
  · subst h
    have hr := set_object_position_row E x y ty tx d v ux uy i' w
    refine ⟨hr.2.2.2.2.2.2.2.2.2.2.1, hr.2.2.2.2.2.2.2.2.2.2.2.1, hr.2.2.2.2.2.2.2.2.2.2.2.2.1,
      hr.2.2.2.2.2.2.2.2.2.2.2.2.2, ?_, Or.inr ?_⟩
    · rw [hr.1]; simp
    · rw [hr.1]; simp
  · simp [set_object_position_other E x y ty tx d v ux uy i w i' _ h]

theorem Fr.refl_fr (w : World α) : Fr w w := ⟨Scal.refl_scal w, ObjFrame.refl_obj w⟩

theorem Fr.trans_fr {a b c : World α} (h1 : Fr a b) (h2 : Fr b c) : Fr a c :=
  ⟨h1.1.trans_scal h2.1, h1.2.trans_obj h2.2⟩

theorem Fr0.refl_fr0 (w : World α) : Fr0 w w := ⟨Scal0.refl_scal0 w, ObjFrame.refl_obj w⟩

theorem Fr0.trans_fr0 {a b c : World α} (h1 : Fr0 a b) (h2 : Fr0 b c) : Fr0 a c :=
  ⟨h1.1.trans_scal0 h2.1, h1.2.trans_obj h2.2⟩

theorem Fr.to_fr0 {a b : World α} (h : Fr a b) : Fr0 a b := ⟨h.1.to_scal0, h.2⟩

theorem forLoop_fr0 (lo hi : Nat) (body : Nat → World α → World α)
    (hbody : ∀ i s, Fr0 s (body i s)) (w : World α) : Fr0 w (forLoop lo hi body w) :=
  forLoop_rel Fr0 Fr0.refl_fr0 (fun _ _ _ h1 h2 => h1.trans_fr0 h2) lo hi body hbody w

theorem forLoop_fr (lo hi : Nat) (body : Nat → World α → World α)
    (hbody : ∀ i s, Fr s (body i s)) (w : World α) : Fr w (forLoop lo hi body w) :=
  forLoop_rel Fr Fr.refl_fr (fun _ _ _ h1 h2 => h1.trans_fr h2) lo hi body hbody w

theorem set_canon_position_fr (E : Env α) (x y ty tx : α) (d : Int) (v ux uy : α)
    (w : World α) : Fr w (set_canon_position E x y ty tx d v ux uy w) :=
  ⟨set_canon_position_scal .., set_canon_position_obj _ _ _ _ _ _ _ _ _ _⟩

theorem set_object_position_fr (E : Env α) (x y ty tx : α) (d : Int) (v ux uy : α) (i : Nat)
    (w : World α) : Fr w (set_object_position E x y ty tx d v ux uy i w) :=
  ⟨set_object_position_scal .., set_object_position_obj _ _ _ _ _ _ _ _ _ _ _⟩

theorem forLoop_scal (lo hi : Nat) (body : Nat → World α → World α)
    (hbody : ∀ i s, Scal s (body i s)) (w : World α) : Scal w (forLoop lo hi body w) :=
  forLoop_rel Scal Scal.refl_scal (fun _ _ _ h1 h2 => h1.trans_scal h2) lo hi body hbody w

theorem forLoop_obj (lo hi : Nat) (body : Nat → World α → World α)
    (hbody : ∀ i s, ObjFrame s (body i s)) (w : World α) : ObjFrame w (forLoop lo hi body w) :=
  forLoop_rel ObjFrame ObjFrame.refl_obj (fun _ _ _ h1 h2 => h1.trans_obj h2) lo hi body hbody w

theorem canon_wall_right_frame (E : Env α) (v : α) (w : World α) :
    Fr w (canon_wall_right E v w) := by
  unfold canon_wall_right
  split_ifs
  · exact set_canon_position_fr ..
  · exact Fr.refl_fr _

theorem canon_wall_top_frame (E : Env α) (v : α) (w : World α) :
    Fr w (canon_wall_top E v w) := by
  unfold canon_wall_top
  split_ifs
  · exact set_canon_position_fr ..
  · exact Fr.refl_fr _

theorem canon_wall_ground_frame (E : Env α) (v : α) (w : World α) :
    Fr w (canon_wall_ground E v w) := by
  unfold canon_wall_ground
  split_ifs
  · exact set_canon_position_fr ..
  · exact Fr.refl_fr _

theorem canon_wall_left_frame (E : Env α) (v : α) (w : World α) :
    Fr w (canon_wall_left E v w) := by
  unfold canon_wall_left
  split_ifs
  · exact set_canon_position_fr ..
  · exact Fr.refl_fr _

theorem canon_walls_frame (E : Env α) (w : World α) :
    Fr w (canon_walls E w) := by
  unfold canon_walls
  simp only []
  have h1 := canon_wall_right_frame E
    (E.sqrt (w.canon_x_velocity * w.canon_x_velocity + w.canon_y_velocity * w.canon_y_velocity)) w
  have h2 := canon_wall_top_frame E
    (E.sqrt (w.canon_x_velocity * w.canon_x_velocity + w.canon_y_velocity * w.canon_y_velocity))
    (canon_wall_right E
      (E.sqrt (w.canon_x_velocity * w.canon_x_velocity + w.canon_y_velocity * w.canon_y_velocity))
      w)
  have h3 := canon_wall_ground_frame E
    (E.sqrt (w.canon_x_velocity * w.canon_x_velocity + w.canon_y_velocity * w.canon_y_velocity))
    (canon_wall_top E
      (E.sqrt (w.canon_x_velocity * w.canon_x_velocity + w.canon_y_velocity * w.canon_y_velocity))
      (canon_wall_right E
        (E.sqrt (w.canon_x_velocity * w.canon_x_velocity
          + w.canon_y_velocity * w.canon_y_velocity)) w))
  have h4 := canon_wall_left_frame E
    (E.sqrt (w.canon_x_velocity * w.canon_x_velocity + w.canon_y_velocity * w.canon_y_velocity))
    (canon_wall_ground E
      (E.sqrt (w.canon_x_velocity * w.canon_x_velocity + w.canon_y_velocity * w.canon_y_velocity))
      (canon_wall_top E
        (E.sqrt (w.canon_x_velocity * w.canon_x_velocity
          + w.canon_y_velocity * w.canon_y_velocity))
        (canon_wall_right E
          (E.sqrt (w.canon_x_velocity * w.canon_x_velocity
            + w.canon_y_velocity * w.canon_y_velocity)) w)))
  exact ⟨h1.1.trans_scal (h2.1.trans_scal (h3.1.trans_scal h4.1)),
    h1.2.trans_obj (h2.2.trans_obj (h3.2.trans_obj h4.2))⟩

theorem set_obj_obj (i j : Nat) (v : α) (w : World α) (h0 : j ≠ 0) (h1 : j ≠ 1) (h5 : j ≠ 5)
    (h15 : j ≠ 15) (h16 : j ≠ 16) (h13 : j ≠ 13) : ObjFrame w (set_obj i j v w) := by
  intro i'
  unfold set_obj
  simp only [set2_apply]
  simp [Ne.symm h0, Ne.symm h1, Ne.symm h5, Ne.symm h15, Ne.symm h16, Ne.symm h13]

theorem relaunch_tail_obj (E : Env α) (x y ty tx : α) (d : Int) (v ux uy : α) (i : Nat)
    (w : World α) :
    ObjFrame w (set_object_position E x y ty tx d v ux uy i (set_obj i 13 1 w)) := by
  intro i'
  by_cases hi : i' = i
  · subst hi
    have hr := set_object_position_row E x y ty tx d v ux uy i' (set_obj i' 13 1 w)
    rw [hr.1, hr.2.2.2.2.2.2.2.2.2.2.1, hr.2.2.2.2.2.2.2.2.2.2.2.1,
      hr.2.2.2.2.2.2.2.2.2.2.2.2.1, hr.2.2.2.2.2.2.2.2.2.2.2.2.2]
    simp [set_obj, set2_apply]
  · simp [set_object_position_other _ _ _ _ _ _ _ _ _ _ _ i' _ hi, set_obj, set2_apply, hi]

theorem canon_object_relaunch_frame (E : Env α) (i : Nat) (v2x v2y : α) (w : World α) :
    Fr w (canon_object_relaunch E i v2x v2y w) := by
  unfold canon_object_relaunch
  simp only []
  have o1 : ObjFrame w (set_obj i 9 (w.objects i 0) w) :=
    set_obj_obj _ _ _ _ (by norm_num) (by norm_num) (by norm_num) (by norm_num)
      (by norm_num) (by norm_num)
  have o2 : ObjFrame (set_obj i 9 (w.objects i 0) w)
      (set_obj i 10 ((set_obj i 9 (w.objects i 0) w).objects i 1)
        (set_obj i 9 (w.objects i 0) w)) :=
    set_obj_obj _ _ _ _ (by norm_num) (by norm_num) (by norm_num) (by norm_num)
      (by norm_num) (by norm_num)
  by_cases h15 : (set_obj i 10 ((set_obj i 9 (w.objects i 0) w).objects i 1)
      (set_obj i 9 (w.objects i 0) w)).objects i 15 = 1
  · rw [if_pos h15]
    exact ⟨(set_obj_scal ..).trans_scal ((set_obj_scal ..).trans_scal ((set_obj_scal ..).trans_scal
      (set_object_position_scal ..))),
      (o1.trans_obj o2).trans_obj (relaunch_tail_obj _ _ _ _ _ _ _ _ _ _ _)⟩
  · rw [if_neg h15]
    exact ⟨(set_obj_scal ..).trans_scal (set_obj_scal ..), o1.trans_obj o2⟩

theorem canon_object_response_frame (E : Env α) (U : Uninit α) (i : Nat) (w : World α) :
    Fr w (canon_object_response E U i w) := by
  unfold canon_object_response
  simp only []
  have hs0 : Scal w { w with score := w.score + 10 } :=
    ⟨⟨rfl, rfl, rfl, rfl, rfl, rfl, rfl, rfl, rfl⟩,
      ⟨rfl, rfl, rfl, rfl, rfl, rfl, rfl, rfl, rfl, rfl, rfl⟩, rfl⟩
  have ho0 : ObjFrame w { w with score := w.score + 10 } := ObjFrame.of_objects_eq rfl
  have hr := canon_object_relaunch_frame E i
  exact ⟨hs0.trans_scal ((set_canon_position_scal ..).trans_scal (hr _ _ _).1),
    ho0.trans_obj ((set_canon_position_obj _ _ _ _ _ _ _ _ _ _).trans_obj (hr _ _ _).2)⟩

theorem canon_object_contact_fr (E : Env α) (U : Uninit α) (i : Nat) (w : World α) :
    Fr w (canon_object_contact E U i w) := by
  unfold canon_object_contact
  simp only []
  split_ifs
  · exact canon_object_response_frame E U i w
  · exact Fr.refl_fr _

theorem object_wall_right_fr (E : Env α) (v : α) (i : Nat) (w : World α) :
    Fr w (object_wall_right E v i w) := by
  unfold object_wall_right
  split_ifs
  · exact set_object_position_fr ..
  · exact Fr.refl_fr _

theorem object_wall_top_fr (E : Env α) (v : α) (i : Nat) (w : World α) :
    Fr w (object_wall_top E v i w) := by
  unfold object_wall_top
  split_ifs
  · exact set_object_position_fr ..
  · exact Fr.refl_fr _

theorem object_wall_ground_fr (E : Env α) (v : α) (i : Nat) (w : World α) :
    Fr w (object_wall_ground E v i w) := by
  unfold object_wall_ground
  split_ifs
  · exact set_object_position_fr ..
  · exact Fr.refl_fr _

theorem object_wall_left_fr (E : Env α) (v : α) (i : Nat) (w : World α) :
    Fr w (object_wall_left E v i w) := by
  unfold object_wall_left
  split_ifs
  · exact set_object_position_fr ..
  · exact Fr.refl_fr _

theorem object_walls_fr (E : Env α) (i : Nat) (w : World α) : Fr w (object_walls E i w) :=
  ((object_wall_right_fr E _ i w).trans_fr (object_wall_top_fr E _ i _)).trans_fr
    ((object_wall_ground_fr E _ i _).trans_fr (object_wall_left_fr E _ i _))

theorem object_object_contact_fr (E : Env α) (U : Uninit α) (i i1 : Nat) (w : World α) :
    Fr w (object_object_contact E U i i1 w) := by
  unfold object_object_contact
  simp only []
  split_ifs <;>
    first
    | exact Fr.refl_fr _
    | exact (set_object_position_fr ..).trans_fr (set_object_position_fr ..)

theorem object_obstacle_top_fr (E : Env α) (i i1 : Nat) (w : World α) :
    Fr w (object_obstacle_top E i i1 w) := by
  have h1 : ∀ y v, Fr v (object_obstacle_land E i y v) := by
    intro y v
    unfold object_obstacle_land
    split_ifs
    · exact set_object_position_fr ..
    · exact Fr.refl_fr _
  have h2 : ∀ v, Fr v (object_obstacle_under E i i1 v) := by
    intro v
    unfold object_obstacle_under
    simp only []
    split_ifs
    · exact set_object_position_fr ..
    · exact Fr.refl_fr _
  unfold object_obstacle_top
  simp only []
  split_ifs
  · exact (h1 _ _).trans_fr (h2 _)
  · exact Fr.refl_fr _

theorem object_obstacle_side_fr (E : Env α) (i i1 : Nat) (w : World α) :
    Fr w (object_obstacle_side E i i1 w) := by
  have h1 : ∀ x v, Fr v (object_obstacle_left E i x v) := by
    intro x v
    unfold object_obstacle_left
    split_ifs
    · exact set_object_position_fr ..
    · exact Fr.refl_fr _
  have h2 : ∀ x v, Fr v (object_obstacle_right E i x v) := by
    intro x v
    unfold object_obstacle_right
    split_ifs
    · exact set_object_position_fr ..
    · exact Fr.refl_fr _
  unfold object_obstacle_side
  simp only []
  split_ifs
  · exact (h1 _ _).trans_fr (h2 _ _)
  · exact Fr.refl_fr _

theorem object_obstacle_fr (E : Env α) (i i1 : Nat) (w : World α) :
    Fr w (object_obstacle E i i1 w) :=
  (object_obstacle_top_fr E i i1 w).trans_fr (object_obstacle_side_fr E i i1 _)

theorem canon_obstacle_top_fr (E : Env α) (i : Nat) (w : World α) :
    Fr w (canon_obstacle_top E i w) := by
  have h1 : ∀ y v, Fr v (canon_obstacle_land E y v) := by
    intro y v
    unfold canon_obstacle_land
    split_ifs
    · exact set_canon_position_fr ..
    · exact Fr.refl_fr _
  have h2 : ∀ v, Fr v (canon_obstacle_under E i v) := by
    intro v
    unfold canon_obstacle_under
    simp only []
    split_ifs
    · exact set_canon_position_fr ..
    · exact Fr.refl_fr _
  unfold canon_obstacle_top
  simp only []
  split_ifs
  · exact (h1 _ _).trans_fr (h2 _)
  · exact Fr.refl_fr _

theorem canon_obstacle_side_fr (E : Env α) (i : Nat) (w : World α) :
    Fr w (canon_obstacle_side E i w) := by
  have h1 : ∀ x v, Fr v (canon_obstacle_left E x v) := by
    intro x v
    unfold canon_obstacle_left
    split_ifs
    · exact set_canon_position_fr ..
    · exact Fr.refl_fr _
  have h2 : ∀ x v, Fr v (canon_obstacle_right E x v) := by
    intro x v
    unfold canon_obstacle_right
    split_ifs
    · exact set_canon_position_fr ..
    · exact Fr.refl_fr _
  unfold canon_obstacle_side
  simp only []
  split_ifs
  · exact (h1 _ _).trans_fr (h2 _ _)
  · exact Fr.refl_fr _

theorem canon_obstacle_fr (E : Env α) (i : Nat) (w : World α) :
    Fr w (canon_obstacle E i w) :=
  (canon_obstacle_top_fr E i w).trans_fr (canon_obstacle_side_fr E i _)

theorem object_loop_body_fr (E : Env α) (U : Uninit α) (i : Nat) (w : World α) :
    Fr w (object_loop_body E U i w) := by
  unfold object_loop_body
  simp only []
  exact (canon_object_contact_fr E U i w).trans_fr ((object_walls_fr E i _).trans_fr
    ((forLoop_fr _ _ _ (fun i1 s => object_object_contact_fr E U i i1 s) _).trans_fr
      (forLoop_fr _ _ _ (fun i1 s => object_obstacle_fr E i i1 s) _)))

theorem coin_step_fr (E : Env α) (i : Nat) (w : World α) : Fr0 w (coin_step E i w) := by
  unfold coin_step
  simp only []
  split_ifs
  · refine ⟨⟨?_, ?_, ?_⟩, ObjFrame.of_objects_eq ?_⟩ <;> simp [Par, Aim, set_canon_position]
  · exact Fr0.refl_fr0 _

theorem piggy_step_fr (E : Env α) (i : Nat) (w : World α) : Fr0 w (piggy_step E i w) := by
  unfold piggy_step
  simp only []
  split_ifs
  · refine ⟨⟨?_, ?_, ?_⟩, ObjFrame.of_objects_eq ?_⟩ <;> simp [Par, Aim, set_canon_position]
  · exact Fr0.refl_fr0 _

/-- The part of `checkcollision` before the collectible loop. -/
theorem physics_fr (E : Env α) (U : Uninit α) (w : World α) :
    Fr w (forLoop 0 no_of_fixed_objects (fun i s => canon_obstacle E i s)
      (forLoop 0 no_of_objects (fun i s => object_loop_body E U i s) (canon_walls E w))) :=
  (canon_walls_frame E w).trans_fr
    ((forLoop_fr _ _ _ (fun i s => object_loop_body_fr E U i s) _).trans_fr
      (forLoop_fr _ _ _ (fun i s => canon_obstacle_fr E i s) _))

theorem checkcollision_fr (E : Env α) (U : Uninit α) (w : World α) :
    Fr0 w (checkcollision E U w) := by
  unfold checkcollision
  simp only []
  exact (physics_fr E U w).to_fr0.trans_fr0
    ((forLoop_fr0 _ _ _ (fun i s => coin_step_fr E i s) _).trans_fr0
      (forLoop_fr0 _ _ _ (fun i s => piggy_step_fr E i s) _))

/-! ### Frame of `draw` -/

theorem draw_eq (E : Env α) (w : World α) :
    draw E w = draw_cap (draw_canon_update E (draw_launch E (draw_mid E (draw_air E w)))) := rfl

theorem Mid.refl_mid (w : World α) : Mid w w := by
  unfold Mid
  simp [Par.refl_par]

theorem Mid.trans_mid {a b c : World α} (h1 : Mid a b) (h2 : Mid b c) : Mid a c := by
  unfold Mid at *
  refine ⟨h1.1.trans_par h2.1, ?_⟩
  simp only [h2.2, h1.2, and_self]

theorem draw_keys_mid (w : World α) : Mid w (draw_keys w) := by
  have h1 : ∀ v : World α, Mid v (draw_key_w v) := by
    intro v
    unfold draw_key_w Mid Par
    split_ifs <;> simp
  have h2 : ∀ v : World α, Mid v (draw_key_s v) := by
    intro v
    unfold draw_key_s Mid Par
    split_ifs <;> simp
  have h3 : ∀ v : World α, Mid v (draw_key_dc v) := by
    intro v
    unfold draw_key_dc Mid Par
    split_ifs <;> simp
  exact (h1 w).trans_mid ((h2 _).trans_mid (h3 _))

theorem draw_pointer_power_mid (E : Env α) (w : World α) : Mid w (draw_pointer_power E w) := by
  unfold draw_pointer_power Mid Par
  simp only []
  split_ifs <;> simp

theorem draw_object_mid (E : Env α) (i : Nat) (w : World α) : Mid w (draw_object E i w) := by
  unfold draw_object Mid Par
  simp only []
  split_ifs <;> simp [set_obj]

theorem draw_mid_mid (E : Env α) (w : World α) : Mid w (draw_mid E w) := by
  unfold draw_mid
  exact (draw_keys_mid w).trans_mid ((draw_pointer_power_mid E _).trans_mid
    (forLoop_rel Mid Mid.refl_mid (fun _ _ _ h1 h2 => h1.trans_mid h2) _ _ _
      (fun i s => draw_object_mid E i s) _))

theorem FlagDown.refl_flag (w : World α) : FlagDown w w := fun _ => Or.inl rfl

theorem FlagDown.trans_flag {a b c : World α} (h1 : FlagDown a b) (h2 : FlagDown b c) :
    FlagDown a c := by
  intro i
  rcases h2 i with h | h
  · rw [h]
    exact h1 i
  · exact Or.inr h

theorem FlagDown.of_flags_eq {w w' : World α} (h : w'.objects = w.objects) : FlagDown w w' := by
  intro i
  rw [h]
  exact Or.inl rfl

theorem draw_object_flag (E : Env α) (i : Nat) (w : World α) : FlagDown w (draw_object E i w) := by
  intro i'
  unfold draw_object
  simp only []
  by_cases h : i' = i
  · subst h
    split_ifs <;> simp [set_obj, set2_apply]
  · split_ifs <;> simp [set_obj, set2_apply, h]

theorem draw_keys_objects (w : World α) : (draw_keys w).objects = w.objects := by
  have h1 : ∀ v : World α, (draw_key_w v).objects = v.objects := by
    intro v
    unfold draw_key_w
    split_ifs <;> rfl
  have h2 : ∀ v : World α, (draw_key_s v).objects = v.objects := by
    intro v
    unfold draw_key_s
    split_ifs <;> rfl
  have h3 : ∀ v : World α, (draw_key_dc v).objects = v.objects := by
    intro v
    unfold draw_key_dc
    split_ifs <;> rfl
  unfold draw_keys
  rw [h3, h2, h1]

theorem draw_pointer_power_objects (E : Env α) (w : World α) :
    (draw_pointer_power E w).objects = w.objects := by
  unfold draw_pointer_power
  simp only []
  split_ifs <;> rfl

theorem draw_launch_objects (E : Env α) (w : World α) :
    (draw_launch E w).objects = w.objects := by
  unfold draw_launch
  simp only []
  split_ifs <;> rfl

theorem draw_canon_update_objects (E : Env α) (w : World α) :
    (draw_canon_update E w).objects = w.objects := by
  unfold draw_canon_update
  simp only []
  split_ifs <;> rfl

theorem draw_cap_objects (w : World α) : (draw_cap w).objects = w.objects := by
  unfold draw_cap
  split_ifs <;> rfl

theorem draw_flag (E : Env α) (w : World α) : FlagDown w (draw E w) := by
  rw [draw_eq]
  have h1 : FlagDown w (draw_air E w) := FlagDown.of_flags_eq rfl
  have h2 : FlagDown (draw_air E w) (draw_mid E (draw_air E w)) := by
    unfold draw_mid
    refine FlagDown.trans_flag (b := draw_pointer_power E (draw_keys (draw_air E w))) ?_
      (forLoop_rel FlagDown FlagDown.refl_flag (fun _ _ _ h1 h2 => h1.trans_flag h2) _ _ _
        (fun i s => draw_object_flag E i s) _)
    apply FlagDown.of_flags_eq
    rw [draw_pointer_power_objects, draw_keys_objects]
  refine (h1.trans_flag h2).trans_flag (FlagDown.of_flags_eq ?_)
  rw [draw_cap_objects, draw_canon_update_objects, draw_launch_objects]

theorem draw_air_par (E : Env α) (w : World α) : Par w (draw_air E w) :=
  (set_canon_position_scal ..).1

theorem draw_launch_par (E : Env α) (w : World α) : Par w (draw_launch E w) := by
  unfold draw_launch Par
  simp only []
  split_ifs <;> simp [set_canon_position]

theorem draw_canon_update_par (E : Env α) (w : World α) : Par w (draw_canon_update E w) := by
  unfold draw_canon_update Par
  simp only []
  split_ifs <;> simp

theorem draw_cap_par (w : World α) : Par w (draw_cap w) := by
  unfold draw_cap Par
  split_ifs <;> simp

theorem draw_par (E : Env α) (w : World α) : Par w (draw E w) := by
  rw [draw_eq]
  exact (draw_air_par E w).trans_par ((draw_mid_mid E _).1.trans_par
    ((draw_launch_par E _).trans_par ((draw_canon_update_par E _).trans_par (draw_cap_par _))))

/-! ### Settle rule, air friction, walls -/

theorem draw_eq_update (E : Env α) (w : World α) :
    draw E w = draw_cap (draw_canon_update E (draw_to_update E w)) := rfl

theorem draw_air_mid_fields (E : Env α) (w : World α) :
    (draw_mid E (draw_air E w)).canon_out = w.canon_out
    ∧ (draw_mid E (draw_air E w)).a_pressed = w.a_pressed
    ∧ (draw_mid E (draw_air E w)).left_button_Pressed = w.left_button_Pressed
    ∧ (draw_mid E (draw_air E w)).right_button_Pressed = w.right_button_Pressed := by
  have h := draw_mid_mid E (draw_air E w)
  unfold Mid at h
  exact ⟨h.2.2.2.2.2.2.2.2.2.2.1, h.2.1, h.2.2.2.2.2.2.1, h.2.2.2.2.2.2.2.1⟩

theorem draw_to_update_in_flight (E : Env α) (w : World α) (h : w.canon_out = 1) :
    (draw_to_update E w).canon_out = 1 := by
  unfold draw_to_update
  have hm := (draw_air_mid_fields E w).1
  rw [h] at hm
  have : draw_launch E (draw_mid E (draw_air E w)) = draw_mid E (draw_air E w) := by
    unfold draw_launch
    simp [hm]
  rw [this, hm]

theorem draw_canon_update_settle (E : Env α) (v : World α) (h : v.canon_out = 1) :
    (draw_canon_update E v).canon_y_velocity
      = v.canon_velocity * E.sin v.canon_theta
        - v.gravity * (E.glfwGetTime v.reads - v.canon_start_time)
    ∧ (draw_canon_update E v).canon_x_velocity = v.canon_x_velocity
    ∧ ((draw_canon_update E v).canon_out = 0
      ↔ (-1 ≤ (draw_canon_update E v).canon_x_velocity
        ∧ (draw_canon_update E v).canon_x_velocity ≤ 1
        ∧ -1 ≤ (draw_canon_update E v).canon_y_velocity
        ∧ (draw_canon_update E v).canon_y_velocity ≤ 1))
    ∧ ((draw_canon_update E v).canon_out = 0 ∨ (draw_canon_update E v).canon_out = 1) := by
  unfold draw_canon_update
  rw [if_pos h]
  simp only []
  by_cases hb : v.canon_x_velocity ≤ 1 ∧ v.canon_x_velocity ≥ -1
      ∧ v.canon_velocity * E.sin v.canon_theta
          - v.gravity * (E.glfwGetTime v.reads - v.canon_start_time) ≤ 1
      ∧ v.canon_velocity * E.sin v.canon_theta
          - v.gravity * (E.glfwGetTime v.reads - v.canon_start_time) ≥ -1
  · rw [if_pos hb]
    refine ⟨rfl, rfl, ⟨fun _ => ?_, fun _ => rfl⟩, Or.inl rfl⟩
    exact ⟨hb.2.1, hb.1, hb.2.2.2, hb.2.2.1⟩
  · rw [if_neg hb]
    refine ⟨rfl, rfl, ⟨fun h0 => ?_, fun hc => ?_⟩, Or.inr h⟩
    · have h0' : v.canon_out = 0 := h0
      rw [h] at h0'
      exact absurd h0' (by decide)
    · exact absurd ⟨hc.2.1, hc.1, hc.2.2.2, hc.2.2.1⟩ hb

theorem draw_cap_fields (u : World α) :
    (draw_cap u).canon_out = u.canon_out ∧ (draw_cap u).canon_y_velocity = u.canon_y_velocity
    ∧ (draw_cap u).canon_x_velocity = (if u.canon_x_velocity > 70 then 70 else u.canon_x_velocity) := by
  unfold draw_cap
  split_ifs <;> simp

/-- C11. In every `draw` tick in which the projectile is in flight when `draw`
reaches the trajectory update, the vertical velocity is recomputed as
`v * sin theta - gravity * t`, and after `draw` the projectile is resting
(`canon_out = 0`) if and only if `-1 ≤ canon_x_velocity ≤ 1` and
`-1 ≤ canon_y_velocity ≤ 1` (bounds inclusive); otherwise `canon_out` is still
1 after `draw`. -/
theorem C11_settle_iff (E : Env α) (w : World α) (h : (draw_to_update E w).canon_out = 1) :
    (draw E w).canon_y_velocity
      = (draw_to_update E w).canon_velocity * E.sin (draw_to_update E w).canon_theta
        - (draw_to_update E w).gravity
          * (E.glfwGetTime (draw_to_update E w).reads - (draw_to_update E w).canon_start_time)
    ∧ ((draw E w).canon_out = 0
      ↔ (-1 ≤ (draw E w).canon_x_velocity ∧ (draw E w).canon_x_velocity ≤ 1
        ∧ -1 ≤ (draw E w).canon_y_velocity ∧ (draw E w).canon_y_velocity ≤ 1))
    ∧ (¬ (-1 ≤ (draw E w).canon_x_velocity ∧ (draw E w).canon_x_velocity ≤ 1
        ∧ -1 ≤ (draw E w).canon_y_velocity ∧ (draw E w).canon_y_velocity ≤ 1)
      → (draw E w).canon_out = 1) := by
  have hs := draw_canon_update_settle E (draw_to_update E w) h
  have hc := draw_cap_fields (draw_canon_update E (draw_to_update E w))
  rw [draw_eq_update, hc.1, hc.2.1, hc.2.2]
  have hiff : (draw_canon_update E (draw_to_update E w)).canon_out = 0
      ↔ (-1 ≤ (if (draw_canon_update E (draw_to_update E w)).canon_x_velocity > 70 then (70 : α)
            else (draw_canon_update E (draw_to_update E w)).canon_x_velocity)
        ∧ (if (draw_canon_update E (draw_to_update E w)).canon_x_velocity > 70 then (70 : α)
            else (draw_canon_update E (draw_to_update E w)).canon_x_velocity) ≤ 1
        ∧ -1 ≤ (draw_canon_update E (draw_to_update E w)).canon_y_velocity
        ∧ (draw_canon_update E (draw_to_update E w)).canon_y_velocity ≤ 1) := by
    rw [hs.2.2.1]
    split_ifs with h70
    · constructor
      · intro hb
        linarith [hb.2.1]
      · intro hb
        norm_num at hb
    · exact Iff.rfl
  refine ⟨hs.1, hiff, fun hn => ?_⟩
  rcases hs.2.2.2 with h0 | h1
  · exact absurd (hiff.mp h0) hn
  · exact h1

/-- Witness of C11: `flying_world` is in flight with stored velocity `(3, 4)`. -/
theorem C11_settle_iff_witness :
    (draw_to_update E0 (flying_world : World ℝ)).canon_out = 1
    ∧ ((draw E0 (flying_world : World ℝ)).canon_out = 0
      ↔ (-1 ≤ (draw E0 (flying_world : World ℝ)).canon_x_velocity
        ∧ (draw E0 (flying_world : World ℝ)).canon_x_velocity ≤ 1
        ∧ -1 ≤ (draw E0 (flying_world : World ℝ)).canon_y_velocity
        ∧ (draw E0 (flying_world : World ℝ)).canon_y_velocity ≤ 1)) :=
  ⟨draw_to_update_in_flight E0 flying_world rfl,
    (C11_settle_iff E0 flying_world (draw_to_update_in_flight E0 flying_world rfl)).2.1⟩

theorem count_piggy_hit_par (w : World α) : Par w (count_piggy_hit w) := by
  unfold count_piggy_hit
  refine Par.trans_par (b := { w with no_of_piggy_hit := 0 })
    ⟨rfl, rfl, rfl, rfl, rfl, rfl, rfl, rfl, rfl⟩ ?_
  refine forLoop_rel Par Par.refl_par (fun _ _ _ h1 h2 => h1.trans_par h2) _ _ _ (fun i s => ?_) _
  split_ifs
  · exact ⟨rfl, rfl, rfl, rfl, rfl, rfl, rfl, rfl, rfl⟩
  · exact Par.refl_par _

theorem main_iter_par (E : Env α) (U : Uninit α) (inp : Input α) (w : World α) :
    Par w (main_iter E U inp w) := by
  unfold main_iter
  simp only []
  refine Par.trans_par (b := draw E { w with xmousePos := inp.xmousePos, ymousePos := inp.ymousePos })
    ?_ (Par.trans_par (checkcollision_fr E U _).1.1 ?_)
  · exact Par.trans_par (b := { w with xmousePos := inp.xmousePos, ymousePos := inp.ymousePos })
      ⟨rfl, rfl, rfl, rfl, rfl, rfl, rfl, rfl, rfl⟩ (draw_par E _)
  · refine Par.trans_par ?_ (count_piggy_hit_par _)
    exact ⟨rfl, rfl, rfl, rfl, rfl, rfl, rfl, rfl, rfl⟩

theorem main_loop_par (E : Env α) (ts : List (Uninit α × Input α)) (w : World α) :
    Par w (main_loop E ts w) := by
  induction ts generalizing w with
  | nil => exact Par.refl_par w
  | cons t ts ih =>
    unfold main_loop
    simp only []
    split_ifs
    · exact main_iter_par E t.1 t.2 w
    · exact (main_iter_par E t.1 t.2 w).trans_par (ih _)

/-- C12. At the start of every `draw` tick, whether the projectile is resting or
in flight, each stored velocity component of the projectile is multiplied by
`air_friction`, its launch time is set to the clock value read and its launch
position to its current position, while its current position, its horizontal
direction and `canon_out` are left unchanged; `air_friction` is 0.999995 in
the initial state and in every state of a run of the main loop. -/
theorem C12_air_friction (E : Env α) (w : World α) :
    draw E w = draw_cap (draw_canon_update E (draw_launch E (draw_mid E (draw_air E w))))
    ∧ (draw_air E w).canon_x_velocity = w.canon_x_velocity * w.air_friction
    ∧ (draw_air E w).canon_y_velocity = w.canon_y_velocity * w.air_friction
    ∧ (draw_air E w).canon_start_time = E.glfwGetTime w.reads
    ∧ (draw_air E w).canon_x_initial_position = w.canon_x_position
    ∧ (draw_air E w).canon_y_initial_position = w.canon_y_position
    ∧ (draw_air E w).canon_x_position = w.canon_x_position
    ∧ (draw_air E w).canon_y_position = w.canon_y_position
    ∧ (draw_air E w).canon_x_direction = w.canon_x_direction
    ∧ (draw_air E w).canon_out = w.canon_out
    ∧ (initial_world : World α).air_friction = 0.999995
    ∧ (∀ ts : List (Uninit α × Input α),
        (main_loop E ts (initial_world : World α)).air_friction = 0.999995) := by
  have h0 : (initial_world : World α).air_friction = 0.999995 := by
    show (1 : α) - 0.000005 = 0.999995
    norm_num
  refine ⟨rfl, rfl, rfl, rfl, rfl, rfl, rfl, rfl, ?_, rfl, h0, fun ts => ?_⟩
  · simp [draw_air, set_canon_position]
  · rw [(main_loop_par E ts initial_world).2.1, h0]

/-- C13. For the projectile with velocity `(vx, vy)`, radius 10, wall restitution
0.4 and friction 0.7: when exactly one of the four wall tests of
`checkcollision` fires (right: `x ≥ 1335`; top: `y + 10 ≥ 650`; ground:
`y ≤ 50`; left: `x ≤ 26` while in flight), the projectile is placed on that
boundary (`x = 1335`, `y = 640`, `y = 50`, `x = 26`, the other coordinate
unchanged) and its stored velocity becomes `(-0.4 vx, 0.7 vy)` for a side wall
and `(0.7 vx, -0.4 vy)` for top or ground; the right wall sets the horizontal
direction to -1, the left wall to +1, top and ground leave it unchanged. -/
theorem C13_projectile_walls (E : Env α) (w : World α) (hr : w.radius_of_canon = 10)
    (hc : w.coefficient_of_collision_with_walls = 0.4) (hf : w.friction = 0.7) :
    (w.canon_x_position ≥ 1335 → ¬ w.canon_y_position + 10 ≥ 650 → ¬ w.canon_y_position ≤ 50 →
        ¬ (w.canon_x_position ≤ 26 ∧ w.canon_out = 1) →
      (canon_walls E w).canon_x_position = 1335
      ∧ (canon_walls E w).canon_y_position = w.canon_y_position
      ∧ (canon_walls E w).canon_x_velocity = -0.4 * w.canon_x_velocity
      ∧ (canon_walls E w).canon_y_velocity = 0.7 * w.canon_y_velocity
      ∧ (canon_walls E w).canon_x_direction = -1)
    ∧ (¬ w.canon_x_position ≥ 1335 → w.canon_y_position + 10 ≥ 650 → ¬ w.canon_y_position ≤ 50 →
        ¬ (w.canon_x_position ≤ 26 ∧ w.canon_out = 1) →
      (canon_walls E w).canon_x_position = w.canon_x_position
      ∧ (canon_walls E w).canon_y_position = 640
      ∧ (canon_walls E w).canon_x_velocity = 0.7 * w.canon_x_velocity
      ∧ (canon_walls E w).canon_y_velocity = -0.4 * w.canon_y_velocity
      ∧ (canon_walls E w).canon_x_direction = w.canon_x_direction)
    ∧ (¬ w.canon_x_position ≥ 1335 → ¬ w.canon_y_position + 10 ≥ 650 → w.canon_y_position ≤ 50 →
        ¬ (w.canon_x_position ≤ 26 ∧ w.canon_out = 1) →
      (canon_walls E w).canon_x_position = w.canon_x_position
      ∧ (canon_walls E w).canon_y_position = 50
      ∧ (canon_walls E w).canon_x_velocity = 0.7 * w.canon_x_velocity
      ∧ (canon_walls E w).canon_y_velocity = -0.4 * w.canon_y_velocity
      ∧ (canon_walls E w).canon_x_direction = w.canon_x_direction)
    ∧ (¬ w.canon_x_position ≥ 1335 → ¬ w.canon_y_position + 10 ≥ 650 → ¬ w.canon_y_position ≤ 50 →
        (w.canon_x_position ≤ 26 ∧ w.canon_out = 1) →
      (canon_walls E w).canon_x_position = 26
      ∧ (canon_walls E w).canon_y_position = w.canon_y_position
      ∧ (canon_walls E w).canon_x_velocity = -0.4 * w.canon_x_velocity
      ∧ (canon_walls E w).canon_y_velocity = 0.7 * w.canon_y_velocity
      ∧ (canon_walls E w).canon_x_direction = 1) := by
  refine ⟨fun h1 h2 h3 _ => ?_, fun h1 h2 h3 h4 => ?_, fun h1 h2 h3 h4 => ?_,
    fun h1 h2 h3 h4 => ?_⟩
  · have e1 : ¬ ((1350 : α) - 15 ≤ 11 + 15 ∧ w.canon_out = 1) := by
      intro h
      norm_num at h
    have h1' : w.canon_x_position ≥ 1350 - 15 := by
      norm_num
      exact h1
    simp only [canon_walls, canon_wall_right, canon_wall_top, canon_wall_ground, canon_wall_left,
      if_pos h1', set_canon_position, hr, h2, h3, e1, if_false, hc, hf]
    refine ⟨?_, ?_, ?_, ?_, ?_⟩ <;> first | trivial | ring
  · have h1' : ¬ w.canon_x_position ≥ 1350 - 15 := by
      norm_num
      exact not_le.mp h1
    have e3 : ¬ ((650 : α) - 10 ≤ 50) := by norm_num
    have h4' : ¬ (w.canon_x_position ≤ 11 + 15 ∧ w.canon_out = 1) := by
      norm_num
      intro hx
      exact fun ho => h4 ⟨hx, ho⟩
    simp only [canon_walls, canon_wall_right, canon_wall_top, canon_wall_ground, canon_wall_left,
      if_neg h1', set_canon_position, hr, if_pos h2, e3, h4', if_false, hc, hf]
    refine ⟨?_, ?_, ?_, ?_, ?_⟩ <;> first | trivial | ring
  · have h1' : ¬ w.canon_x_position ≥ 1350 - 15 := by
      norm_num
      exact not_le.mp h1
    have h4' : ¬ (w.canon_x_position ≤ 11 + 15 ∧ w.canon_out = 1) := by
      norm_num
      intro hx
      exact fun ho => h4 ⟨hx, ho⟩
    simp only [canon_walls, canon_wall_right, canon_wall_top, canon_wall_ground, canon_wall_left,
      if_neg h1', set_canon_position, hr, if_neg h2, if_pos h3, h4', if_false, hc, hf]
    refine ⟨?_, ?_, ?_, ?_, ?_⟩ <;> first | trivial | ring
  · have h1' : ¬ w.canon_x_position ≥ 1350 - 15 := by
      norm_num
      exact not_le.mp h1
    have h4' : w.canon_x_position ≤ 11 + 15 ∧ w.canon_out = 1 := by
      norm_num
      exact h4
    simp only [canon_walls, canon_wall_right, canon_wall_top, canon_wall_ground, canon_wall_left,
      if_neg h1', set_canon_position, hr, if_neg h2, if_neg h3, if_pos h4', hc, hf]
    refine ⟨?_, ?_, ?_, ?_, ?_⟩ <;> first | trivial | ring

/-- Witness of C13: in the initial layout with the projectile at `(1340, 300)`
only the right-wall test fires; the projectile is put at `x = 1335` with
direction -1. -/
theorem C13_projectile_walls_witness :
    (world_at (1340 : ℝ) 300).radius_of_canon = 10
    ∧ (world_at (1340 : ℝ) 300).coefficient_of_collision_with_walls = 0.4
    ∧ (world_at (1340 : ℝ) 300).friction = 0.7
    ∧ (world_at (1340 : ℝ) 300).canon_x_position ≥ 1335
    ∧ (canon_walls E0 (world_at (1340 : ℝ) 300)).canon_x_position = 1335
    ∧ (canon_walls E0 (world_at (1340 : ℝ) 300)).canon_y_position = 300
    ∧ (canon_walls E0 (world_at (1340 : ℝ) 300)).canon_x_direction = -1 := by
  have hx : (world_at (1340 : ℝ) 300).canon_x_position = 1340 := rfl
  have hy : (world_at (1340 : ℝ) 300).canon_y_position = 300 := rfl
  have h := (C13_projectile_walls E0 (world_at (1340 : ℝ) 300) rfl rfl rfl).1
    (by rw [hx]; norm_num) (by rw [hy]; norm_num) (by rw [hy]; norm_num)
    (by rw [hx]; norm_num)
  exact ⟨rfl, rfl, rfl, by rw [hx]; norm_num, h.1, h.2.1.trans hy, h.2.2.2.2⟩

/-! ### Projectile and free bodies -/

theorem canon_object_response_score (E : Env α) (U : Uninit α) (i : Nat) (w : World α) :
    (canon_object_response E U i w).score = w.score + 10 := by
  unfold canon_object_response
  simp only []
  rw [(canon_object_relaunch_same E i _ _ _).2.2]
  rfl

theorem object_loop_body_score (E : Env α) (U : Uninit α) (i : Nat) (w : World α) :
    (object_loop_body E U i w).score = (canon_object_contact E U i w).score := by
  unfold object_loop_body
  simp only []
  rw [(forLoop_same _ _ _ (fun i1 s => object_obstacle_same E i i1 s) _).2.2,
    (forLoop_same _ _ _ (fun i1 s => object_object_contact_same E U i i1 s) _).2.2,
    (object_walls_same E i _).2.2]

/-- C17. For every free body `i`, the projectile contact of `checkcollision`
fires exactly when the distance from the projectile to body `i` is at most
`10 + radius(i)` and the body's collisionCount is at most the collision limit
60; when it fires, the loop iteration of body `i` adds exactly 10 to the
score, whether or not the body is mobile, and when it does not fire the
iteration adds nothing. -/
theorem C17_contact_score (E : Env α) (U : Uninit α) (i : Nat) (w : World α) :
    (no_of_collisions_allowed : α) = 60
    ∧ ((distance E w.canon_x_position w.canon_y_position (w.objects i 0) (w.objects i 1)
          ≤ 10 + w.objects i 5 ∧ w.objects i 16 ≤ 60) →
        canon_object_contact E U i w = canon_object_response E U i w
        ∧ (object_loop_body E U i w).score = w.score + 10)
    ∧ (¬ (distance E w.canon_x_position w.canon_y_position (w.objects i 0) (w.objects i 1)
          ≤ 10 + w.objects i 5 ∧ w.objects i 16 ≤ 60) →
        canon_object_contact E U i w = w
        ∧ (object_loop_body E U i w).score = w.score) := by
  have h60 : (no_of_collisions_allowed : α) = 60 := by
    unfold no_of_collisions_allowed
    norm_num
  refine ⟨h60, fun h => ?_, fun h => ?_⟩
  · have hc : canon_object_contact E U i w = canon_object_response E U i w := by
      unfold canon_object_contact
      simp only []
      rw [h60, if_pos h]
    exact ⟨hc, by rw [object_loop_body_score, hc, canon_object_response_score]⟩
  · have hc : canon_object_contact E U i w = w := by
      unfold canon_object_contact
      simp only []
      rw [h60, if_neg h]
    exact ⟨hc, by rw [object_loop_body_score, hc]⟩

/-- Witness of C17: in the initial layout with the projectile on the centre of
free body 0 the contact fires and the iteration of body 0 adds 10. -/
theorem C17_contact_score_witness :
    (distance E0 (world_at (400 : ℝ) 100).canon_x_position (world_at (400 : ℝ) 100).canon_y_position
        ((world_at (400 : ℝ) 100).objects 0 0) ((world_at (400 : ℝ) 100).objects 0 1)
      ≤ 10 + (world_at (400 : ℝ) 100).objects 0 5 ∧ (world_at (400 : ℝ) 100).objects 0 16 ≤ 60)
    ∧ (object_loop_body E0 (zeroUninit ℝ) 0 (world_at (400 : ℝ) 100)).score
      = (world_at (400 : ℝ) 100).score + 10 := by
  have hx : (world_at (400 : ℝ) 100).canon_x_position = 400 := rfl
  have hy : (world_at (400 : ℝ) 100).canon_y_position = 100 := rfl
  have h0 : (world_at (400 : ℝ) 100).objects 0 0 = 400 := rfl
  have h1 : (world_at (400 : ℝ) 100).objects 0 1 = 100 := rfl
  have h5 : (world_at (400 : ℝ) 100).objects 0 5 = 30 / 2 := rfl
  have h16 : (world_at (400 : ℝ) 100).objects 0 16 = 0 := rfl
  have ht : distance E0 (world_at (400 : ℝ) 100).canon_x_position
      (world_at (400 : ℝ) 100).canon_y_position
      ((world_at (400 : ℝ) 100).objects 0 0) ((world_at (400 : ℝ) 100).objects 0 1)
      ≤ 10 + (world_at (400 : ℝ) 100).objects 0 5 ∧ (world_at (400 : ℝ) 100).objects 0 16 ≤ 60 := by
    rw [hx, hy, h0, h1, h5, h16]
    simp only [distance, E0, realEnv]
    norm_num
  exact ⟨ht, ((C17_contact_score E0 (zeroUninit ℝ) 0 (world_at (400 : ℝ) 100)).2.1 ht).2⟩

/-! ### No spontaneous motion -/

theorem draw_idle_canon_out (E : Env α) (w : World α) (h0 : w.canon_out = 0)
    (ha : w.a_pressed = 0) (hm : ¬ (w.left_button_Pressed = 1 ∧ w.right_button_Pressed = 1)) :
    (draw E w).canon_out = 0 := by
  have hf := draw_air_mid_fields E w
  have hl : draw_to_update E w = draw_mid E (draw_air E w) := by
    unfold draw_to_update draw_launch
    simp only []
    rw [hf.2.1, hf.2.2.1, hf.2.2.2, hf.1, ha]
    have c1 : ¬ (w.left_button_Pressed = 1 ∧ w.right_button_Pressed = 1 ∧ w.canon_out = 0) :=
      fun h => hm ⟨h.1, h.2.1⟩
    rw [if_neg c1, if_neg (by simp)]
  have hu : draw_canon_update E (draw_to_update E w) = draw_to_update E w := by
    unfold draw_canon_update
    rw [hl, hf.1, h0, if_neg (by decide)]
  rw [draw_eq_update, (draw_cap_fields _).1, hu, hl, hf.1, h0]

/-- C20. No spontaneous motion: for every state with `canon_out = 0` a
`checkcollision` pass leaves `canon_out = 0`, and a `draw` tick with no launch
input (`a_pressed = 0` and not both mouse buttons pressed) leaves
`canon_out = 0`; and a free body's in-motion flag is never changed from 0 to 1
by `draw` (which leaves it or sets it to 0), while a `checkcollision` pass
changes it only for a body whose collision count went up, that is a body
re-launched by `set_object_position` in a collision response. -/
theorem C20_no_spontaneous_motion (E : Env α) (U : Uninit α) (w : World α) :
    (w.canon_out = 0 → (checkcollision E U w).canon_out = 0)
    ∧ (w.canon_out = 0 → w.a_pressed = 0 →
        ¬ (w.left_button_Pressed = 1 ∧ w.right_button_Pressed = 1) → (draw E w).canon_out = 0)
    ∧ (∀ i, w.objects i 13 = 0 → (draw E w).objects i 13 = 0)
    ∧ (∀ i, (draw E w).objects i 13 = w.objects i 13 ∨ (draw E w).objects i 13 = 0)
    ∧ (∀ i, (checkcollision E U w).objects i 13 ≠ w.objects i 13 →
        w.objects i 16 < (checkcollision E U w).objects i 16) := by
  refine ⟨(checkcollision_fr E U w).1.2.2, draw_idle_canon_out E w, fun i hi => ?_,
    draw_flag E w, fun i hi => ?_⟩
  · rcases draw_flag E w i with h | h
    · rw [h, hi]
    · exact h
  · rcases ((checkcollision_fr E U w).2 i).2.2.2.2.2 with h | h
    · exact absurd h hi
    · exact h

/-- Witness of C20: the initial world is resting with no launch input; it is
still resting after `draw` and after a `checkcollision` pass. -/
theorem C20_no_spontaneous_motion_witness :
    (initial_world : World ℝ).canon_out = 0 ∧ (initial_world : World ℝ).a_pressed = 0
    ∧ (checkcollision E0 (zeroUninit ℝ) (initial_world : World ℝ)).canon_out = 0
    ∧ (draw E0 (initial_world : World ℝ)).canon_out = 0 :=
  ⟨rfl, rfl, (C20_no_spontaneous_motion E0 (zeroUninit ℝ) initial_world).1 rfl,
    (C20_no_spontaneous_motion E0 (zeroUninit ℝ) initial_world).2.1 rfl rfl
      (fun h => absurd h.1 (by decide))⟩

/-! ### Response to a projectile contact -/

theorem canon_object_relaunch_canon (E : Env α) (i : Nat) (a b : α) (w : World α) :
    (canon_object_relaunch E i a b w).canon_x_velocity = w.canon_x_velocity
    ∧ (canon_object_relaunch E i a b w).canon_y_velocity = w.canon_y_velocity := by
  unfold canon_object_relaunch
  simp only []
  split_ifs <;> simp [set_obj, set_object_position]

theorem canon_object_relaunch_mobile (E : Env α) (i : Nat) (a b : α) (w : World α)
    (h : w.objects i 15 = 1) :
    (canon_object_relaunch E i a b w).objects i 2 = a
    ∧ (canon_object_relaunch E i a b w).objects i 3 = b := by
  unfold canon_object_relaunch
  simp only []
  have h15 : (set_obj i 10 ((set_obj i 9 (w.objects i 0) w).objects i 1)
      (set_obj i 9 (w.objects i 0) w)).objects i 15 = 1 := by
    simp [set_obj, set2_apply, h]
  rw [if_pos h15]
  exact ⟨(set_object_position_row _ _ _ _ _ _ _ _ _ _ _).2.2.2.1,
    (set_object_position_row _ _ _ _ _ _ _ _ _ _ _).2.2.1⟩

/-- Velocities after the response to a contact of the projectile with the
mobile free body `i`, with `m = objects[i][5] / (2 * radius_of_canon)`: the body
gets `(v2x, v2y)`, the projectile gets the `y`-axis expression as its `x`
velocity and the unassigned local `u2y` as its `y` velocity. -/
theorem canon_object_response_velocities (E : Env α) (U : Uninit α) (i : Nat) (w : World α)
    (h : w.objects i 15 = 1) :
    (canon_object_response E U i w).objects i 2
      = (w.e * (w.canon_x_velocity - w.objects i 2) + w.canon_x_velocity + w.objects i 2)
        / (1 + w.objects i 5 / (2 * w.radius_of_canon))
    ∧ (canon_object_response E U i w).objects i 3
      = (w.e * (w.canon_y_velocity - w.objects i 3) + w.canon_y_velocity + w.objects i 3)
        / (1 + w.objects i 5 / (2 * w.radius_of_canon))
    ∧ (canon_object_response E U i w).canon_x_velocity
      = w.canon_y_velocity + w.objects i 5 / (2 * w.radius_of_canon) * w.objects i 3
        - w.objects i 5 / (2 * w.radius_of_canon)
          * ((w.e * (w.canon_y_velocity - w.objects i 3) + w.canon_y_velocity + w.objects i 3)
            / (1 + w.objects i 5 / (2 * w.radius_of_canon)))
    ∧ (canon_object_response E U i w).canon_y_velocity = U.c_u2y i := by
  unfold canon_object_response
  simp only []
  refine ⟨?_, ?_, ?_, ?_⟩
  · refine (canon_object_relaunch_mobile E i _ _ _ ?_).1
    exact h
  · refine (canon_object_relaunch_mobile E i _ _ _ ?_).2
    exact h
  · rw [(canon_object_relaunch_canon E i _ _ _).1]
    rfl
  · rw [(canon_object_relaunch_canon E i _ _ _).2]
    rfl

theorem contact_world_fires (U : Uninit ℝ) :
    canon_object_contact E0 U 0 contact_world = canon_object_response E0 U 0 contact_world := by
  unfold canon_object_contact
  simp only []
  rw [if_pos]
  have hx : (contact_world : World ℝ).canon_x_position = 400 := rfl
  have hy : (contact_world : World ℝ).canon_y_position = 100 := rfl
  have h0 : (contact_world : World ℝ).objects 0 0 = 400 := rfl
  have h1 : (contact_world : World ℝ).objects 0 1 = 100 := rfl
  have h5 : (contact_world : World ℝ).objects 0 5 = 30 / 2 := rfl
  have h16 : (contact_world : World ℝ).objects 0 16 = 0 := rfl
  rw [hx, hy, h0, h1, h5, h16]
  simp only [distance, E0, realEnv]
  norm_num

theorem contact_world_result (U : Uninit ℝ) :
    (canon_object_contact E0 U 0 contact_world).objects 0 2 = 6
    ∧ (canon_object_contact E0 U 0 contact_world).objects 0 3 = 0
    ∧ (canon_object_contact E0 U 0 contact_world).canon_x_velocity = 0
    ∧ (canon_object_contact E0 U 0 contact_world).canon_y_velocity = U.c_u2y 0 := by
  have h := canon_object_response_velocities E0 U 0 contact_world rfl
  have he : (contact_world : World ℝ).e = 0.5 := rfl
  have hvx : (contact_world : World ℝ).canon_x_velocity = 7 := rfl
  have hvy : (contact_world : World ℝ).canon_y_velocity = 0 := rfl
  have h2 : (contact_world : World ℝ).objects 0 2 = 0 := rfl
  have h3 : (contact_world : World ℝ).objects 0 3 = 0 := rfl
  have h5 : (contact_world : World ℝ).objects 0 5 = 30 / 2 := rfl
  have hr : (contact_world : World ℝ).radius_of_canon = 10 := rfl
  rw [he, hvx, hvy, h2, h3, h5, hr] at h
  rw [contact_world_fires]
  refine ⟨h.1.trans (by norm_num), h.2.1.trans (by norm_num), h.2.2.1.trans (by norm_num),
    h.2.2.2⟩

/-- C15 (the code departs from the claim). In `contact_world` the projectile
(velocity `(7, 0)`) is in contact with the mobile free body 0 (at rest), the
mass ratio is `m = 15 / (2 * 10) = 3/4`.  The response re-launches the body
with `x` velocity 6 and the projectile with `x` velocity 0 and with the
unassigned local `u2y` as `y` velocity, so on the `x` axis `u + m v` goes from
`7` to `4.5` (and it is not conserved for any `m` other than `7/6`); on the `y`
axis it goes from `0` to the indeterminate `u2y`. -/
theorem C15_momentum_not_conserved (U : Uninit ℝ) :
    (contact_world : World ℝ).objects 0 5 / (2 * (contact_world : World ℝ).radius_of_canon) = 3 / 4
    ∧ (contact_world : World ℝ).canon_x_velocity + 3 / 4 * (contact_world : World ℝ).objects 0 2 = 7
    ∧ (canon_object_contact E0 U 0 contact_world).canon_x_velocity
        + 3 / 4 * (canon_object_contact E0 U 0 contact_world).objects 0 2 = 4.5
    ∧ (∀ m : ℝ, m ≠ 7 / 6 →
        (canon_object_contact E0 U 0 contact_world).canon_x_velocity
          + m * (canon_object_contact E0 U 0 contact_world).objects 0 2
        ≠ (contact_world : World ℝ).canon_x_velocity + m * (contact_world : World ℝ).objects 0 2)
    ∧ (contact_world : World ℝ).canon_y_velocity + 3 / 4 * (contact_world : World ℝ).objects 0 3 = 0
    ∧ (canon_object_contact E0 U 0 contact_world).canon_y_velocity
        + 3 / 4 * (canon_object_contact E0 U 0 contact_world).objects 0 3 = U.c_u2y 0 := by
  have h := contact_world_result U
  have hvx : (contact_world : World ℝ).canon_x_velocity = 7 := rfl
  have hvy : (contact_world : World ℝ).canon_y_velocity = 0 := rfl
  have h2 : (contact_world : World ℝ).objects 0 2 = 0 := rfl
  have h3 : (contact_world : World ℝ).objects 0 3 = 0 := rfl
  have h5 : (contact_world : World ℝ).objects 0 5 = 30 / 2 := rfl
  have hr : (contact_world : World ℝ).radius_of_canon = 10 := rfl
  rw [h.1, h.2.1, h.2.2.1, h.2.2.2, hvx, hvy, h2, h3, h5, hr]
  refine ⟨by norm_num, by norm_num, by norm_num, fun m hm => ?_, by norm_num, by norm_num⟩
  intro hc
  apply hm
  linarith

/-- Counterexample to C16 as stated: in `contact_world` (projectile radius 10,
body radius 15, `e = 0.5`, projectile velocity `(7, 0)`, body at rest) the body
is re-launched with `x` velocity `6 = 10.5 / (1 + 15/20)`, not with the
`10.5 / (1 + 15/10) = 4.2` that the mass ratio `radius_B / radius_A` gives. -/
theorem C16_mass_ratio_counterexample :
    (canon_object_contact E0 (zeroUninit ℝ) 0 contact_world).objects 0 2 = 6
    ∧ ((contact_world : World ℝ).e
          * ((contact_world : World ℝ).canon_x_velocity - (contact_world : World ℝ).objects 0 2)
        + (contact_world : World ℝ).canon_x_velocity + (contact_world : World ℝ).objects 0 2)
      / (1 + (contact_world : World ℝ).objects 0 5 / (contact_world : World ℝ).radius_of_canon)
      = 4.2
    ∧ (canon_object_contact E0 (zeroUninit ℝ) 0 contact_world).objects 0 2
      ≠ ((contact_world : World ℝ).e
          * ((contact_world : World ℝ).canon_x_velocity - (contact_world : World ℝ).objects 0 2)
        + (contact_world : World ℝ).canon_x_velocity + (contact_world : World ℝ).objects 0 2)
      / (1 + (contact_world : World ℝ).objects 0 5
          / (contact_world : World ℝ).radius_of_canon) := by
  have h := contact_world_result (zeroUninit ℝ)
  have he : (contact_world : World ℝ).e = 0.5 := rfl
  have hvx : (contact_world : World ℝ).canon_x_velocity = 7 := rfl
  have h2 : (contact_world : World ℝ).objects 0 2 = 0 := rfl
  have h5 : (contact_world : World ℝ).objects 0 5 = 30 / 2 := rfl
  have hr : (contact_world : World ℝ).radius_of_canon = 10 := rfl
  rw [h.1, he, hvx, h2, h5, hr]
  refine ⟨rfl, by norm_num, by norm_num⟩

/-- C16 as amended. In every contact of the projectile with a mobile free body
`i` the mass ratio used by the response is the body's radius divided by twice
the projectile's radius, `m = objects[i][5] / (2 * radius_of_canon)`: the body
is re-launched with velocity `(e (u - v) + u + v) / (1 + m)` on each axis, and
the projectile's new `x` velocity is `u1y + m v1y - m v2y` with the same
`m`. -/
theorem C16_mass_ratio (E : Env α) (U : Uninit α) (i : Nat) (w : World α)
    (h : w.objects i 15 = 1) (m : α) (hm : m = w.objects i 5 / (2 * w.radius_of_canon)) :
    (canon_object_response E U i w).objects i 2
      = (w.e * (w.canon_x_velocity - w.objects i 2) + w.canon_x_velocity + w.objects i 2)
        / (1 + m)
    ∧ (canon_object_response E U i w).objects i 3
      = (w.e * (w.canon_y_velocity - w.objects i 3) + w.canon_y_velocity + w.objects i 3)
        / (1 + m)
    ∧ (canon_object_response E U i w).canon_x_velocity
      = w.canon_y_velocity + m * w.objects i 3
        - m * (canon_object_response E U i w).objects i 3 := by
  have hv := canon_object_response_velocities E U i w h
  subst hm
  exact ⟨hv.1, hv.2.1, by rw [hv.2.2.1, hv.2.1]⟩

/-- Witness of C16 as amended at `contact_world`: `m = 15 / 20`. -/
theorem C16_mass_ratio_witness :
    (contact_world : World ℝ).objects 0 15 = 1
    ∧ (15 / 20 : ℝ)
      = (contact_world : World ℝ).objects 0 5 / (2 * (contact_world : World ℝ).radius_of_canon)
    ∧ (canon_object_response E0 (zeroUninit ℝ) 0 contact_world).objects 0 2
      = ((contact_world : World ℝ).e
          * ((contact_world : World ℝ).canon_x_velocity - (contact_world : World ℝ).objects 0 2)
        + (contact_world : World ℝ).canon_x_velocity + (contact_world : World ℝ).objects 0 2)
        / (1 + 15 / 20) := by
  have hm : (15 / 20 : ℝ)
      = (contact_world : World ℝ).objects 0 5
        / (2 * (contact_world : World ℝ).radius_of_canon) := by
    have h5 : (contact_world : World ℝ).objects 0 5 = 30 / 2 := rfl
    have hr : (contact_world : World ℝ).radius_of_canon = 10 := rfl
    rw [h5, hr]
    norm_num
  exact ⟨rfl, hm, (C16_mass_ratio E0 (zeroUninit ℝ) 0 contact_world rfl (15 / 20) hm).1⟩

/-! ### Ground test of a free body -/

theorem object_wall_ground_fires (E : Env α) (v : α) (i : Nat) (w : World α)
    (h : w.objects i 1 < 50) :
    object_wall_ground E v i w
      = set_object_position E (w.objects i 0) 50 (-1 * w.objects i 3) (w.objects i 2) 0
          (v * w.coefficient_of_collision_with_walls) (w.objects i 2 * w.friction)
          (-1 * w.objects i 3 * w.coefficient_of_collision_with_walls) i w := by
  unfold object_wall_ground
  rw [if_pos h]

theorem object_walls_ground_count (E : Env α) (i : Nat) (w : World α)
    (h : w.objects i 1 < 50) :
    w.objects i 16 + 1 ≤ (object_walls E i w).objects i 16 := by
  unfold object_walls
  simp only []
  generalize E.sqrt (w.objects i 2 * w.objects i 2 + w.objects i 3 * w.objects i 3) = v
  have fa := (object_wall_right_fr E v i w).2
  generalize object_wall_right E v i w = a at fa ⊢
  have fb := (object_wall_top_fr E v i a).2
  generalize object_wall_top E v i a = b at fb ⊢
  have fab := fa.trans_obj fb
  have hb : b.objects i 1 < 50 := by
    rw [(fab i).2.1]
    exact h
  have hc := (set_object_position_row E (b.objects i 0) 50 (-1 * b.objects i 3) (b.objects i 2) 0
    (v * b.coefficient_of_collision_with_walls) (b.objects i 2 * b.friction)
    (-1 * b.objects i 3 * b.coefficient_of_collision_with_walls) i b).1
  rw [← object_wall_ground_fires E v i b hb] at hc
  have fd := (object_wall_left_fr E v i (object_wall_ground E v i b)).2
  refine le_trans ?_ (fd i).2.2.2.2.1
  rw [hc]
  exact add_le_add_right (fab i).2.2.2.2.1 1

theorem object_loop_body_ground_count (E : Env α) (U : Uninit α) (i : Nat) (w : World α)
    (h : w.objects i 1 < 50) :
    w.objects i 16 + 1 ≤ (object_loop_body E U i w).objects i 16 := by
  unfold object_loop_body
  simp only []
  have fa := (canon_object_contact_fr E U i w).2
  generalize canon_object_contact E U i w = a at fa ⊢
  have ha : a.objects i 1 < 50 := by
    rw [(fa i).2.1]
    exact h
  have hg := object_walls_ground_count E i a ha
  generalize object_walls E i a = b at hg ⊢
  have f6 := (forLoop_fr 0 no_of_objects (fun i1 s => object_object_contact E U i i1 s)
    (fun i1 s => object_object_contact_fr E U i i1 s) b).2
  generalize forLoop 0 no_of_objects (fun i1 s => object_object_contact E U i i1 s) b = c at f6 ⊢
  have f7 := (forLoop_fr 6 9 (fun i1 s => object_obstacle E i i1 s)
    (fun i1 s => object_obstacle_fr E i i1 s) c).2
  refine le_trans ?_ ((f6.trans_obj f7) i).2.2.2.2.1
  exact le_trans (add_le_add_right (fa i).2.2.2.2.1 1) hg

/-- Every free body `i < 3` that is below ground level at the start of a
`checkcollision` pass has its collision count raised by the pass, whatever the
count is. -/
theorem checkcollision_ground_count (E : Env α) (U : Uninit α) (w : World α) (i : Nat)
    (hi : i < no_of_objects) (h : w.objects i 1 < 50) :
    w.objects i 16 + 1 ≤ (checkcollision E U w).objects i 16 := by
  unfold checkcollision
  simp only []
  have hb := fun j s => (object_loop_body_fr E U j s).2
  have ht : ∀ s, ObjFrame s (forLoop 0 no_of_piggy (fun i s => piggy_step E i s)
      (forLoop 0 no_of_coins (fun i s => coin_step E i s)
        (forLoop 0 no_of_fixed_objects (fun i s => canon_obstacle E i s) s))) := fun s =>
    ((forLoop_fr _ _ _ (fun i s => canon_obstacle_fr E i s) _).to_fr0.trans_fr0
      ((forLoop_fr0 _ _ _ (fun i s => coin_step_fr E i s) _).trans_fr0
        (forLoop_fr0 _ _ _ (fun i s => piggy_step_fr E i s) _))).2
  refine le_trans ?_ ((ht _) i).2.2.2.2.1
  have hw := (canon_walls_frame E w).2
  rw [← (hw i).2.1] at h
  refine le_trans (add_le_add_right (hw i).2.2.2.2.1 1) ?_
  generalize canon_walls E w = w1 at h ⊢
  simp only [no_of_objects] at hi ⊢
  rw [forLoop_zero_three]
  interval_cases i
  · refine le_trans (object_loop_body_ground_count E U 0 w1 h) ?_
    exact ((hb 1 _).trans_obj (hb 2 _) 0).2.2.2.2.1
  · have h0 := hb 0 w1
    rw [← (h0 1).2.1] at h
    refine le_trans (add_le_add_right (h0 1).2.2.2.2.1 1) ?_
    refine le_trans (object_loop_body_ground_count E U 1 _ h) ?_
    exact (hb 2 _ 1).2.2.2.2.1
  · have h01 := (hb 0 w1).trans_obj (hb 1 _)
    rw [← (h01 2).2.1] at h
    refine le_trans (add_le_add_right (h01 2).2.2.2.2.1 1) ?_
    exact object_loop_body_ground_count E U 2 _ h

/-- C18 (the code departs from the claim). A free body past the collision limit
is still simulated: in `ghost_world` body 0 has collision count 61 (the limit
is 60) and `y = 40 < 50`; the ground test of a `checkcollision` pass, which
does not look at the count, re-launches it with `set_object_position`, so
after the pass its collision count is at least 62: the pass does change fields
of the body. -/
theorem C18_over_limit_still_simulated (U : Uninit ℝ) :
    (ghost_world : World ℝ).objects 0 16 = 61
    ∧ ((no_of_collisions_allowed : Nat) : ℝ) < (ghost_world : World ℝ).objects 0 16
    ∧ (ghost_world : World ℝ).objects 0 1 = 40
    ∧ 62 ≤ (checkcollision E0 U ghost_world).objects 0 16
    ∧ (checkcollision E0 U ghost_world).objects 0 16 ≠ (ghost_world : World ℝ).objects 0 16 := by
  have h16 : (ghost_world : World ℝ).objects 0 16 = 61 := rfl
  have h1 : (ghost_world : World ℝ).objects 0 1 = 40 := rfl
  have h := checkcollision_ground_count E0 U ghost_world 0 (by decide) (by rw [h1]; norm_num)
  rw [h16] at h
  refine ⟨h16, ?_, h1, by linarith, ?_⟩
  · rw [h16]
    unfold no_of_collisions_allowed
    norm_num
  · rw [h16]
    intro hc
    rw [hc] at h
    norm_num at h

/-! ### Resting projectile and stored velocity -/

theorem draw_object_aim (E : Env α) (i : Nat) (w : World α) : Aim w (draw_object E i w) := by
  unfold draw_object Aim
  simp only []
  split_ifs <;> simp [set_obj]

theorem draw_mid_idle (E : Env α) (w : World α) (hw : w.w_pressed = 0) (hs : w.s_pressed = 0)
    (hd : w.d_pressed = 0) (hc : w.c_pressed = 0)
    (hp : ¬ (w.left_button_Pressed = 0 ∧ w.right_button_Pressed = 1)) :
    Aim w (draw_mid E w) := by
  have hk : draw_keys w = w := by
    have h1 : draw_key_w w = w := by
      unfold draw_key_w
      rw [hw, if_neg (by decide)]
    have h2 : draw_key_s w = w := by
      unfold draw_key_s
      rw [hs, if_neg (by decide)]
    have h3 : draw_key_dc w = w := by
      unfold draw_key_dc
      rw [hd, hc, if_neg (by decide), if_neg (by decide)]
    unfold draw_keys
    rw [h1, h2, h3]
  have hq : draw_pointer_power E w = w := by
    unfold draw_pointer_power
    rw [if_neg hp]
  unfold draw_mid
  rw [hk, hq]
  exact forLoop_rel Aim Aim.refl_aim (fun _ _ _ h1 h2 => h1.trans_aim h2) _ _ _
    (fun i s => draw_object_aim E i s) w

theorem draw_cap_aim (w : World α) : Aim w (draw_cap w) := by
  unfold draw_cap Aim
  split_ifs <;> simp

theorem draw_idle_aim (E : Env α) (w : World α) (h0 : w.canon_out = 0) (ha : w.a_pressed = 0)
    (hw : w.w_pressed = 0) (hs : w.s_pressed = 0) (hd : w.d_pressed = 0) (hc : w.c_pressed = 0)
    (hl : w.left_button_Pressed = 0) (hr : w.right_button_Pressed = 0) :
    Aim w (draw E w) := by
  have hair : Aim w (draw_air E w) := (set_canon_position_scal ..).2.1
  have hmid : Aim (draw_air E w) (draw_mid E (draw_air E w)) := by
    unfold Aim at hair
    refine draw_mid_idle E _ ?_ ?_ ?_ ?_ ?_
    · rw [hair.2.2.2.1, hw]
    · rw [hair.2.2.2.2.1, hs]
    · rw [hair.2.2.2.2.2.1, hd]
    · rw [hair.2.2.2.2.2.2.1, hc]
    · rw [hair.2.2.2.2.2.2.2.2.1, hr]
      intro h
      exact absurd h.2 (by decide)
  have hf := draw_air_mid_fields E w
  have hlaunch : draw_to_update E w = draw_mid E (draw_air E w) := by
    unfold draw_to_update draw_launch
    simp only []
    rw [hf.2.1, hf.2.2.1, hf.1, ha, hl, if_neg (fun h => absurd h.1 (by decide)),
      if_neg (fun h => absurd h.1 (by decide))]
  have hu : draw_canon_update E (draw_to_update E w) = draw_to_update E w := by
    unfold draw_canon_update
    rw [hlaunch, hf.1, h0, if_neg (by decide)]
  rw [draw_eq_update, hu, hlaunch]
  exact (hair.trans_aim hmid).trans_aim (draw_cap_aim _)

theorem count_piggy_hit_scal (w : World α) : Scal w (count_piggy_hit w) := by
  unfold count_piggy_hit
  refine Scal.trans_scal (b := { w with no_of_piggy_hit := 0 })
    ⟨⟨rfl, rfl, rfl, rfl, rfl, rfl, rfl, rfl, rfl⟩,
      ⟨rfl, rfl, rfl, rfl, rfl, rfl, rfl, rfl, rfl, rfl, rfl⟩, rfl⟩ ?_
  refine forLoop_rel Scal Scal.refl_scal (fun _ _ _ h1 h2 => h1.trans_scal h2) _ _ _
    (fun i s => ?_) _
  split_ifs
  · exact ⟨⟨rfl, rfl, rfl, rfl, rfl, rfl, rfl, rfl, rfl⟩,
      ⟨rfl, rfl, rfl, rfl, rfl, rfl, rfl, rfl, rfl, rfl, rfl⟩, rfl⟩
  · exact Scal.refl_scal _

/-- The state after the first iteration of the main loop, in which the launch
key went down: resting, launch key held, aim 10 degrees, power 0, gravity 18. -/
theorem first_iteration_fields (E : Env α) (U : Uninit α) :
    (main_iter E U launch_input (initial_world : World α)).canon_out = 0
    ∧ (main_iter E U launch_input (initial_world : World α)).a_pressed = 1
    ∧ (main_iter E U launch_input (initial_world : World α)).w_pressed = 0
    ∧ (main_iter E U launch_input (initial_world : World α)).s_pressed = 0
    ∧ (main_iter E U launch_input (initial_world : World α)).d_pressed = 0
    ∧ (main_iter E U launch_input (initial_world : World α)).c_pressed = 0
    ∧ (main_iter E U launch_input (initial_world : World α)).left_button_Pressed = 0
    ∧ (main_iter E U launch_input (initial_world : World α)).right_button_Pressed = 0
    ∧ (main_iter E U launch_input (initial_world : World α)).angle_c = 10
    ∧ (main_iter E U launch_input (initial_world : World α)).speed_of_canon_intial = 0
    ∧ (main_iter E U launch_input (initial_world : World α)).gravity = 18 := by
  have hg := (main_iter_par E U launch_input (initial_world : World α)).1
  unfold main_iter at *
  simp only [] at *
  generalize hw0 : ({ (initial_world : World α) with
    xmousePos := (launch_input : Input α).xmousePos
    ymousePos := (launch_input : Input α).ymousePos } : World α) = w0 at *
  have f0 : w0.canon_out = 0 ∧ w0.a_pressed = 0 ∧ w0.w_pressed = 0 ∧ w0.s_pressed = 0
      ∧ w0.d_pressed = 0 ∧ w0.c_pressed = 0 ∧ w0.left_button_Pressed = 0
      ∧ w0.right_button_Pressed = 0 ∧ w0.angle_c = 10 ∧ w0.speed_of_canon_intial = 0 := by
    rw [← hw0]
    exact ⟨rfl, rfl, rfl, rfl, rfl, rfl, rfl, rfl, rfl, rfl⟩
  have hd := draw_idle_aim E w0 f0.1 f0.2.1 f0.2.2.1 f0.2.2.2.1 f0.2.2.2.2.1 f0.2.2.2.2.2.1
    f0.2.2.2.2.2.2.1 f0.2.2.2.2.2.2.2.1
  have hdo := draw_idle_canon_out E w0 f0.1 f0.2.1
    (by rw [f0.2.2.2.2.2.2.1]; exact fun h => absurd h.1 (by decide))
  have hcc := (checkcollision_fr E U (draw E w0)).1
  generalize checkcollision E U (draw E w0) = w3 at *
  have hcs := count_piggy_hit_scal ({ ({ w3 with
      a_pressed := (launch_input : Input α).a_pressed
      w_pressed := (launch_input : Input α).w_pressed
      s_pressed := (launch_input : Input α).s_pressed
      d_pressed := (launch_input : Input α).d_pressed
      c_pressed := (launch_input : Input α).c_pressed
      left_button_Pressed := (launch_input : Input α).left_button_Pressed
      right_button_Pressed := (launch_input : Input α).right_button_Pressed } : World α) with
      reads := w3.reads + 1 })
  unfold Scal Aim at hcs
  unfold Scal0 Aim at hcc
  unfold Aim at hd
  refine ⟨?_, ?_, ?_, ?_, ?_, ?_, ?_, ?_, ?_, ?_, ?_⟩
  · rw [hcs.2.2]
    exact hcc.2.2 hdo
  · rw [hcs.2.1.2.2.1]; rfl
  · rw [hcs.2.1.2.2.2.1]; rfl
  · rw [hcs.2.1.2.2.2.2.1]; rfl
  · rw [hcs.2.1.2.2.2.2.2.1]; rfl
  · rw [hcs.2.1.2.2.2.2.2.2.1]; rfl
  · rw [hcs.2.1.2.2.2.2.2.2.2.1]; rfl
  · rw [hcs.2.1.2.2.2.2.2.2.2.2.1]; rfl
  · rw [hcs.2.1.1]
    show w3.angle_c = 10
    rw [hcc.2.1.1, hd.1, f0.2.2.2.2.2.2.2.2.1]
  · rw [hcs.2.1.2.1]
    show w3.speed_of_canon_intial = 0
    rw [hcc.2.1.2.1, hd.2.1, f0.2.2.2.2.2.2.2.2.2]
  · rw [hg]
    rfl

theorem draw_launch_key (E : Env α) (w : World α) (h0 : w.canon_out = 0) (hk : w.a_pressed = 1)
    (hl : w.left_button_Pressed = 0) :
    (draw_launch E w).canon_out = 1
    ∧ (draw_launch E w).canon_start_time = E.glfwGetTime w.reads
    ∧ (draw_launch E w).reads = w.reads + 1
    ∧ (draw_launch E w).gravity = w.gravity
    ∧ (draw_launch E w).canon_x_velocity
        = (w.speed_of_canon_intial / 10) * E.cos (w.angle_c * E.M_PI / 180)
    ∧ (draw_launch E w).canon_velocity
        = E.sqrt ((w.speed_of_canon_intial / 10) * E.cos (w.angle_c * E.M_PI / 180)
            * ((w.speed_of_canon_intial / 10) * E.cos (w.angle_c * E.M_PI / 180))
          + (w.speed_of_canon_intial / 10) * E.sin (w.angle_c * E.M_PI / 180)
            * ((w.speed_of_canon_intial / 10) * E.sin (w.angle_c * E.M_PI / 180))) := by
  unfold draw_launch
  rw [if_neg (by rw [hl]; exact fun h => absurd h.1 (by decide)), if_pos ⟨hk, h0⟩]
  exact ⟨rfl, rfl, rfl, rfl, rfl, rfl⟩

/-- The second iteration after a launch with power 0: `draw` launches the
projectile with velocity `(0, 0)` and, one clock read later, stores the vertical
velocity `-gravity * t` and puts the projectile to rest. -/
theorem settle_state_fields (clock : Nat → ℝ) (U : Uninit ℝ) :
    (draw_to_update (realEnv clock)
      (set_cursor 0 0 (main_iter (realEnv clock) U launch_input initial_world))).canon_out = 1
    ∧ (settle_state (realEnv clock) U).canon_x_velocity = 0
    ∧ (∃ r : Nat, (settle_state (realEnv clock) U).canon_y_velocity
        = -(18 * (clock (r + 1) - clock r)))
    ∧ ((settle_state (realEnv clock) U).canon_out = 0
      ↔ (-1 ≤ (settle_state (realEnv clock) U).canon_x_velocity
        ∧ (settle_state (realEnv clock) U).canon_x_velocity ≤ 1
        ∧ -1 ≤ (settle_state (realEnv clock) U).canon_y_velocity
        ∧ (settle_state (realEnv clock) U).canon_y_velocity ≤ 1)) := by
  have f := first_iteration_fields (realEnv clock) U
  unfold settle_state
  generalize main_iter (realEnv clock) U launch_input (initial_world : World ℝ) = w1 at *
  have g : (set_cursor 0 0 w1).canon_out = 0 ∧ (set_cursor 0 0 w1).a_pressed = 1
      ∧ (set_cursor 0 0 w1).w_pressed = 0 ∧ (set_cursor 0 0 w1).s_pressed = 0
      ∧ (set_cursor 0 0 w1).d_pressed = 0 ∧ (set_cursor 0 0 w1).c_pressed = 0
      ∧ (set_cursor 0 0 w1).left_button_Pressed = 0
      ∧ (set_cursor 0 0 w1).right_button_Pressed = 0
      ∧ (set_cursor 0 0 w1).angle_c = 10 ∧ (set_cursor 0 0 w1).speed_of_canon_intial = 0
      ∧ (set_cursor 0 0 w1).gravity = 18 := f
  generalize set_cursor 0 0 w1 = wc at *
  have hair : Scal wc (draw_air (realEnv clock) wc) := set_canon_position_scal ..
  have hmid := draw_mid_mid (realEnv clock) (draw_air (realEnv clock) wc)
  have haim : Aim (draw_air (realEnv clock) wc)
      (draw_mid (realEnv clock) (draw_air (realEnv clock) wc)) := by
    have ha := hair.2.1
    unfold Aim at ha
    refine draw_mid_idle _ _ ?_ ?_ ?_ ?_ ?_
    · rw [ha.2.2.2.1, g.2.2.1]
    · rw [ha.2.2.2.2.1, g.2.2.2.1]
    · rw [ha.2.2.2.2.2.1, g.2.2.2.2.1]
    · rw [ha.2.2.2.2.2.2.1, g.2.2.2.2.2.1]
    · rw [ha.2.2.2.2.2.2.2.2.1, g.2.2.2.2.2.2.2.1]
      exact fun h => absurd h.2 (by decide)
  have hf := draw_air_mid_fields (realEnv clock) wc
  have hair2 := hair.2.1
  have hpar := hair.1.1
  have hpar2 := hmid.1.1
  unfold Aim at haim hair2
  have hl := draw_launch_key (realEnv clock) (draw_mid (realEnv clock) (draw_air (realEnv clock) wc))
    (by rw [hf.1, g.1]) (by rw [hf.2.1, g.2.1]) (by rw [hf.2.2.1, g.2.2.2.2.2.2.1])
  rw [haim.2.1, hair2.2.1, g.2.2.2.2.2.2.2.2.2.1, hpar2, hpar, g.2.2.2.2.2.2.2.2.2.2] at hl
  have hl' : (draw_to_update (realEnv clock) wc).canon_out = 1
      ∧ (∃ r : Nat, (draw_to_update (realEnv clock) wc).canon_start_time = clock r
          ∧ (draw_to_update (realEnv clock) wc).reads = r + 1)
      ∧ (draw_to_update (realEnv clock) wc).gravity = 18
      ∧ (draw_to_update (realEnv clock) wc).canon_x_velocity = 0
      ∧ (draw_to_update (realEnv clock) wc).canon_velocity = 0 := by
    unfold draw_to_update
    refine ⟨hl.1, ⟨_, hl.2.1, hl.2.2.1⟩, hl.2.2.2.1, ?_, ?_⟩
    · rw [hl.2.2.2.2.1]
      simp
    · rw [hl.2.2.2.2.2]
      simp [realEnv]
  have hs := draw_canon_update_settle (realEnv clock) (draw_to_update (realEnv clock) wc) hl'.1
  have hc := draw_cap_fields (draw_canon_update (realEnv clock) (draw_to_update (realEnv clock) wc))
  rw [hs.2.1, hl'.2.2.2.1, if_neg (by norm_num)] at hc
  have hx : (draw (realEnv clock) wc).canon_x_velocity = 0 := by
    rw [draw_eq_update]
    exact hc.2.2
  have hy : ∃ r : Nat, (draw (realEnv clock) wc).canon_y_velocity
      = -(18 * (clock (r + 1) - clock r)) := by
    obtain ⟨r, hr1, hr2⟩ := hl'.2.1
    refine ⟨r, ?_⟩
    rw [draw_eq_update, hc.2.1, hs.1, hl'.2.2.2.2, hl'.2.2.1, hr1, hr2]
    simp [realEnv]
  refine ⟨hl'.1, hx, hy, ?_⟩
  have hiff := hs.2.2.1
  rw [hs.2.1, hl'.2.2.2.1] at hiff
  rw [hx]
  rw [draw_eq_update, hc.1, hc.2.1]
  exact hiff

/-- Relation between the states before and after a step of the collectible
loops of `checkcollision`: flight state and stored velocity are as before, or
the projectile is resting with stored velocity `(0, 0)`. -/
theorem coin_step_rest (E : Env α) (i : Nat) (w : World α) :
    ((coin_step E i w).canon_out = w.canon_out
        ∧ (coin_step E i w).canon_x_velocity = w.canon_x_velocity
        ∧ (coin_step E i w).canon_y_velocity = w.canon_y_velocity)
    ∨ ((coin_step E i w).canon_out = 0 ∧ (coin_step E i w).canon_x_velocity = 0
        ∧ (coin_step E i w).canon_y_velocity = 0) := by
  unfold coin_step
  simp only []
  split_ifs
  · exact Or.inr ⟨rfl, rfl, rfl⟩
  · exact Or.inl ⟨rfl, rfl, rfl⟩

theorem piggy_step_rest (E : Env α) (i : Nat) (w : World α) :
    ((piggy_step E i w).canon_out = w.canon_out
        ∧ (piggy_step E i w).canon_x_velocity = w.canon_x_velocity
        ∧ (piggy_step E i w).canon_y_velocity = w.canon_y_velocity)
    ∨ ((piggy_step E i w).canon_out = 0 ∧ (piggy_step E i w).canon_x_velocity = 0
        ∧ (piggy_step E i w).canon_y_velocity = 0) := by
  unfold piggy_step
  simp only []
  split_ifs
  · exact Or.inr ⟨rfl, rfl, rfl⟩
  · exact Or.inl ⟨rfl, rfl, rfl⟩

theorem checkcollision_rest (E : Env α) (U : Uninit α) (w : World α) :
    (checkcollision E U w).canon_out = w.canon_out
    ∨ ((checkcollision E U w).canon_out = 0 ∧ (checkcollision E U w).canon_x_velocity = 0
        ∧ (checkcollision E U w).canon_y_velocity = 0) := by
  have hp := (physics_fr E U w).1.2.2
  have key : ∀ (n : Nat) (f : Nat → World α → World α),
      (∀ i s, ((f i s).canon_out = s.canon_out ∧ (f i s).canon_x_velocity = s.canon_x_velocity
          ∧ (f i s).canon_y_velocity = s.canon_y_velocity)
        ∨ ((f i s).canon_out = 0 ∧ (f i s).canon_x_velocity = 0
          ∧ (f i s).canon_y_velocity = 0)) →
      ∀ s, ((forLoop 0 n f s).canon_out = s.canon_out
          ∧ (forLoop 0 n f s).canon_x_velocity = s.canon_x_velocity
          ∧ (forLoop 0 n f s).canon_y_velocity = s.canon_y_velocity)
        ∨ ((forLoop 0 n f s).canon_out = 0 ∧ (forLoop 0 n f s).canon_x_velocity = 0
          ∧ (forLoop 0 n f s).canon_y_velocity = 0) := by
    intro n f hf s
    refine forLoop_rel (fun a b => (b.canon_out = a.canon_out
        ∧ b.canon_x_velocity = a.canon_x_velocity ∧ b.canon_y_velocity = a.canon_y_velocity)
      ∨ (b.canon_out = 0 ∧ b.canon_x_velocity = 0 ∧ b.canon_y_velocity = 0))
      (fun a => Or.inl ⟨rfl, rfl, rfl⟩) (fun a b c h1 h2 => ?_) _ _ _ hf s
    rcases h2 with h2 | h2
    · rcases h1 with h1 | h1
      · exact Or.inl ⟨h2.1.trans h1.1, h2.2.1.trans h1.2.1, h2.2.2.trans h1.2.2⟩
      · exact Or.inr ⟨h2.1.trans h1.1, h2.2.1.trans h1.2.1, h2.2.2.trans h1.2.2⟩
    · exact Or.inr h2
  unfold checkcollision
  simp only []
  generalize (forLoop 0 no_of_fixed_objects (fun i s => canon_obstacle E i s)
    (forLoop 0 no_of_objects (fun i s => object_loop_body E U i s) (canon_walls E w))) = p at *
  have hc := key no_of_coins (fun i s => coin_step E i s) (fun i s => coin_step_rest E i s) p
  generalize forLoop 0 no_of_coins (fun i s => coin_step E i s) p = c at *
  have hg := key no_of_piggy (fun i s => piggy_step E i s) (fun i s => piggy_step_rest E i s) c
  generalize forLoop 0 no_of_piggy (fun i s => piggy_step E i s) c = g at *
  rcases hg with hg | hg
  · rcases hc with hc | hc
    · exact Or.inl (hg.1.trans (hc.1.trans hp))
    · exact Or.inr ⟨hg.1.trans hc.1, hg.2.1.trans hc.2.1, hg.2.2.trans hc.2.2⟩
  · exact Or.inr hg

/-! ### Ground test of a free body in no other contact -/

theorem Near.refl_near (w : World α) : Near w w := ⟨Fr.refl_fr w, rfl, rfl⟩

theorem Near.trans_near {a b c : World α} (h1 : Near a b) (h2 : Near b c) : Near a c :=
  ⟨h1.1.trans_fr h2.1, h2.2.1.trans h1.2.1, h2.2.2.trans h1.2.2⟩

theorem Keep.refl_keep (i : Nat) (w : World α) : Keep i w w := ⟨Near.refl_near w, rfl⟩

theorem Keep.trans_keep {i : Nat} {a b c : World α} (h1 : Keep i a b) (h2 : Keep i b c) :
    Keep i a c :=
  ⟨h1.1.trans_near h2.1, h2.2.trans h1.2⟩

/-- The tests of `Quiet` read only the positions and radii of the free bodies,
the obstacle table, and the projectile's position, radius and flight state. -/
theorem quiet_of_near (E : Env α) (i : Nat) {w s : World α} (h : Near w s)
    (hq : Quiet E i w) : Quiet E i s := by
  obtain ⟨⟨⟨hp, _, ho⟩, hf⟩, hx, hy⟩ := h
  have h0 : ∀ j, s.objects j 0 = w.objects j 0 := fun j => (hf j).1
  have h1 : ∀ j, s.objects j 1 = w.objects j 1 := fun j => (hf j).2.1
  have h5 : ∀ j, s.objects j 5 = w.objects j 5 := fun j => (hf j).2.2.1
  have hr : s.radius_of_canon = w.radius_of_canon := hp.2.2.1
  have hfx : s.fixe = w.fixe := hp.2.2.2.2.2.2.2.2
  unfold Quiet ObstacleQuiet at hq ⊢
  simp only [h0, h1, h5, hr, hfx, hx, hy, ho]
  exact hq

theorem qk_refl (E : Env α) (i : Nat) (s : World α) : Quiet E i s → Keep i s s :=
  fun _ => Keep.refl_keep i s

theorem qk_trans (E : Env α) (i : Nat) (a b c : World α) (h1 : Quiet E i a → Keep i a b)
    (h2 : Quiet E i b → Keep i b c) : Quiet E i a → Keep i a c :=
  fun hq => (h1 hq).trans_keep (h2 (quiet_of_near E i (h1 hq).1 hq))

theorem set_object_position_near (E : Env α) (x y ty tx : α) (d : Int) (v ux uy : α) (j : Nat)
    (w : World α) : Near w (set_object_position E x y ty tx d v ux uy j w) :=
  ⟨set_object_position_fr .., rfl, rfl⟩

theorem set_object_position_keep (E : Env α) (x y ty tx : α) (d : Int) (v ux uy : α) (i j : Nat)
    (w : World α) (h : i ≠ j) : Keep i w (set_object_position E x y ty tx d v ux uy j w) := by
  refine ⟨set_object_position_near .., ?_⟩
  funext k
  exact set_object_position_other E x y ty tx d v ux uy j w i k h

theorem canon_walls_quiet (E : Env α) (i : Nat) (w : World α) (hq : Quiet E i w) :
    canon_walls E w = w := by
  unfold Quiet at hq
  have h1 : ∀ v, canon_wall_right E v w = w := by
    intro v
    unfold canon_wall_right
    rw [if_neg hq.1]
  have h2 : ∀ v, canon_wall_top E v w = w := by
    intro v
    unfold canon_wall_top
    rw [if_neg hq.2.1]
  have h3 : ∀ v, canon_wall_ground E v w = w := by
    intro v
    unfold canon_wall_ground
    rw [if_neg hq.2.2.1]
  have h4 : ∀ v, canon_wall_left E v w = w := by
    intro v
    unfold canon_wall_left
    rw [if_neg hq.2.2.2.1]
  unfold canon_walls
  simp only []
  rw [h1, h2, h3, h4]

theorem canon_object_contact_quiet (E : Env α) (U : Uninit α) (i j : Nat) (w : World α)
    (hj : j < no_of_objects) (hq : Quiet E i w) : canon_object_contact E U j w = w := by
  unfold Quiet at hq
  unfold canon_object_contact
  simp only []
  rw [if_neg (fun h => hq.2.2.2.2.1 j hj h.1)]

theorem object_walls_keep (E : Env α) (i j : Nat) (w : World α) (h : i ≠ j) :
    Keep i w (object_walls E j w) := by
  have h1 : ∀ v s, Keep i s (object_wall_right E v j s) := by
    intro v s
    unfold object_wall_right
    split_ifs
    · exact set_object_position_keep _ _ _ _ _ _ _ _ _ _ _ _ h
    · exact Keep.refl_keep i s
  have h2 : ∀ v s, Keep i s (object_wall_top E v j s) := by
    intro v s
    unfold object_wall_top
    split_ifs
    · exact set_object_position_keep _ _ _ _ _ _ _ _ _ _ _ _ h
    · exact Keep.refl_keep i s
  have h3 : ∀ v s, Keep i s (object_wall_ground E v j s) := by
    intro v s
    unfold object_wall_ground
    split_ifs
    · exact set_object_position_keep _ _ _ _ _ _ _ _ _ _ _ _ h
    · exact Keep.refl_keep i s
  have h4 : ∀ v s, Keep i s (object_wall_left E v j s) := by
    intro v s
    unfold object_wall_left
    split_ifs
    · exact set_object_position_keep _ _ _ _ _ _ _ _ _ _ _ _ h
    · exact Keep.refl_keep i s
  unfold object_walls
  simp only []
  exact ((h1 _ _).trans_keep (h2 _ _)).trans_keep ((h3 _ _).trans_keep (h4 _ _))

/-- The wall tests of a body below ground level that touches no side wall: only
the ground test fires. -/
theorem object_walls_quiet (E : Env α) (i : Nat) (w : World α) (hq : Quiet E i w)
    (hy : w.objects i 1 < 50) :
    Near w (object_walls E i w)
    ∧ (object_walls E i w).objects i 10 = 50
    ∧ (object_walls E i w).objects i 3
      = -1 * w.objects i 3 * w.coefficient_of_collision_with_walls
    ∧ (object_walls E i w).objects i 2 = w.objects i 2 * w.friction
    ∧ (object_walls E i w).objects i 9 = w.objects i 0 := by
  unfold Quiet at hq
  have h1 : ∀ v, object_wall_right E v i w = w := by
    intro v
    unfold object_wall_right
    rw [if_neg hq.2.2.2.2.2.1]
  have h2 : ∀ v, object_wall_top E v i w = w := by
    intro v
    unfold object_wall_top
    rw [if_neg (by
      intro h
      have h' : (650 : α) - 15 ≤ w.objects i 1 := h
      linarith)]
  have hr := set_object_position_row E (w.objects i 0) 50 (-1 * w.objects i 3) (w.objects i 2) 0
    (E.sqrt (w.objects i 2 * w.objects i 2 + w.objects i 3 * w.objects i 3)
      * w.coefficient_of_collision_with_walls) (w.objects i 2 * w.friction)
    (-1 * w.objects i 3 * w.coefficient_of_collision_with_walls) i w
  have hn := set_object_position_near E (w.objects i 0) 50 (-1 * w.objects i 3) (w.objects i 2) 0
    (E.sqrt (w.objects i 2 * w.objects i 2 + w.objects i 3 * w.objects i 3)
      * w.coefficient_of_collision_with_walls) (w.objects i 2 * w.friction)
    (-1 * w.objects i 3 * w.coefficient_of_collision_with_walls) i w
  rw [← object_wall_ground_fires E _ i w hy] at hr hn
  have h4 : ∀ v s, s.objects i 0 = w.objects i 0 → object_wall_left E v i s = s := by
    intro v s hs
    unfold object_wall_left
    rw [hs, if_neg hq.2.2.2.2.2.2.1]
  unfold object_walls
  simp only []
  rw [h1, h2, h4 _ _ hr.2.2.2.2.2.2.2.2.2.2.1]
  exact ⟨hn, hr.2.2.2.2.2.1, hr.2.2.1, hr.2.2.2.1, hr.2.2.2.2.2.2.1⟩

theorem object_object_contact_qk (E : Env α) (U : Uninit α) (i j i1 : Nat) (w : World α)
    (hj : j < no_of_objects) (hi1 : i1 < no_of_objects) (hq : Quiet E i w) :
    Keep i w (object_object_contact E U j i1 w) := by
  unfold Quiet at hq
  have hb := hq.2.2.2.2.2.2.2.1
  unfold object_object_contact
  simp only []
  by_cases h1 : j ≠ i1
  · rw [if_pos h1]
    by_cases h2 : distance E (w.objects j 0) (w.objects j 1) (w.objects i1 0) (w.objects i1 1)
        ≤ w.objects j 5 + w.objects i1 5
    · rw [if_pos h2]
      by_cases hji : j = i
      · subst hji
        exact absurd h2 (hb i1 hi1 (fun h => h1 h.symm)).1
      · by_cases hii : i1 = i
        · subst hii
          exact absurd h2 (hb j hj hji).2
        · exact (set_object_position_keep _ _ _ _ _ _ _ _ _ _ _ _
            (fun h => hji h.symm)).trans_keep
            (set_object_position_keep _ _ _ _ _ _ _ _ _ _ _ _ (fun h => hii h.symm))
    · rw [if_neg h2]
      exact Keep.refl_keep i w
  · rw [if_neg h1]
    exact Keep.refl_keep i w

theorem object_obstacle_keep (E : Env α) (i j i1 : Nat) (w : World α) (h : i ≠ j) :
    Keep i w (object_obstacle E j i1 w) := by
  have h1 : ∀ y v, Keep i v (object_obstacle_land E j y v) := by
    intro y v
    unfold object_obstacle_land
    split_ifs
    · exact set_object_position_keep _ _ _ _ _ _ _ _ _ _ _ _ h
    · exact Keep.refl_keep i v
  have h2 : ∀ v, Keep i v (object_obstacle_under E j i1 v) := by
    intro v
    unfold object_obstacle_under
    simp only []
    split_ifs
    · exact set_object_position_keep _ _ _ _ _ _ _ _ _ _ _ _ h
    · exact Keep.refl_keep i v
  have h3 : ∀ x v, Keep i v (object_obstacle_left E j x v) := by
    intro x v
    unfold object_obstacle_left
    split_ifs
    · exact set_object_position_keep _ _ _ _ _ _ _ _ _ _ _ _ h
    · exact Keep.refl_keep i v
  have h4 : ∀ x v, Keep i v (object_obstacle_right E j x v) := by
    intro x v
    unfold object_obstacle_right
    split_ifs
    · exact set_object_position_keep _ _ _ _ _ _ _ _ _ _ _ _ h
    · exact Keep.refl_keep i v
  have h5 : ∀ v, Keep i v (object_obstacle_top E j i1 v) := by
    intro v
    unfold object_obstacle_top
    simp only []
    split_ifs
    · exact (h1 _ _).trans_keep (h2 _)
    · exact Keep.refl_keep i v
  have h6 : ∀ v, Keep i v (object_obstacle_side E j i1 v) := by
    intro v
    unfold object_obstacle_side
    simp only []
    split_ifs
    · exact (h3 _ _).trans_keep (h4 _ _)
    · exact Keep.refl_keep i v
  unfold object_obstacle
  exact (h5 _).trans_keep (h6 _)

theorem object_obstacle_quiet (E : Env α) (i i1 : Nat) (w : World α)
    (hq : ObstacleQuiet i i1 w) : object_obstacle E i i1 w = w := by
  unfold ObstacleQuiet at hq
  have h5 : object_obstacle_top E i i1 w = w := by
    unfold object_obstacle_top
    simp only []
    split_ifs with h
    · have h1 : ∀ y, ¬ (y ≤ 5 ∧ y ≥ 0) → object_obstacle_land E i y w = w := by
        intro y hy
        unfold object_obstacle_land
        rw [if_neg hy]
      rw [h1 _ (hq.1 h).1]
      unfold object_obstacle_under
      simp only []
      rw [if_neg (hq.1 h).2]
    · rfl
  have h6 : object_obstacle_side E i i1 w = w := by
    unfold object_obstacle_side
    simp only []
    split_ifs with h
    · have h3 : ∀ x, ¬ (x ≥ 0 ∧ x ≤ 10) → object_obstacle_left E i x w = w := by
        intro x hx
        unfold object_obstacle_left
        rw [if_neg hx]
      have h4 : ∀ x, ¬ (x ≥ 0 ∧ x ≤ 5) → object_obstacle_right E i x w = w := by
        intro x hx
        unfold object_obstacle_right
        rw [if_neg hx]
      rw [h3 _ (hq.2 h).1, h4 _ (hq.2 h).2]
    · rfl
  unfold object_obstacle
  rw [h5, h6]

theorem object_obstacle_qk (E : Env α) (i j i1 : Nat) (w : World α) (h6 : 6 ≤ i1)
    (h9 : i1 < 9) (hq : Quiet E i w) : Keep i w (object_obstacle E j i1 w) := by
  by_cases hji : j = i
  · subst hji
    unfold Quiet at hq
    rw [object_obstacle_quiet E j i1 w (hq.2.2.2.2.2.2.2.2 i1 h6 h9)]
    exact Keep.refl_keep j w
  · exact object_obstacle_keep E i j i1 w (fun h => hji h.symm)

/-- The two inner loops of the loop over the free bodies, run for body `j` from
a state in which body `i` is in no contact, leave body `i` as it is. -/
theorem object_inner_loops_qk (E : Env α) (U : Uninit α) (i j : Nat) (w : World α)
    (hj : j < no_of_objects) (hq : Quiet E i w) :
    Keep i w (forLoop 6 9 (fun i1 s => object_obstacle E j i1 s)
      (forLoop 0 no_of_objects (fun i1 s => object_object_contact E U j i1 s) w)) := by
  have ha := forLoop_rel_lt (fun a b => Quiet E i a → Keep i a b) (qk_refl E i) (qk_trans E i)
    0 no_of_objects (fun i1 s => object_object_contact E U j i1 s)
    (fun i1 _ h s hs => object_object_contact_qk E U i j i1 s hj h hs) w
  have hb := forLoop_rel_lt (fun a b => Quiet E i a → Keep i a b) (qk_refl E i) (qk_trans E i)
    6 9 (fun i1 s => object_obstacle E j i1 s)
    (fun i1 h6 h9 s hs => object_obstacle_qk E i j i1 s h6 h9 hs)
    (forLoop 0 no_of_objects (fun i1 s => object_object_contact E U j i1 s) w)
  exact qk_trans E i _ _ _ ha hb hq

theorem object_loop_body_qk (E : Env α) (U : Uninit α) (i j : Nat) (w : World α)
    (hj : j < no_of_objects) (hji : j ≠ i) (hq : Quiet E i w) :
    Keep i w (object_loop_body E U j w) := by
  unfold object_loop_body
  simp only []
  rw [canon_object_contact_quiet E U i j w hj hq]
  have h1 := object_walls_keep E i j w (fun h => hji h.symm)
  exact h1.trans_keep (object_inner_loops_qk E U i j _ hj (quiet_of_near E i h1.1 hq))

/-- The iteration of the loop over the free bodies for a body `i` below ground
level and in no other contact: the launch frame of the body is moved to ground
level with the vertical velocity reflected and scaled, and its current position
is as before. -/
theorem object_loop_body_quiet (E : Env α) (U : Uninit α) (i : Nat) (w : World α)
    (hi : i < no_of_objects) (hq : Quiet E i w) (hy : w.objects i 1 < 50) :
    Near w (object_loop_body E U i w)
    ∧ (object_loop_body E U i w).objects i 10 = 50
    ∧ (object_loop_body E U i w).objects i 3
      = -1 * w.objects i 3 * w.coefficient_of_collision_with_walls
    ∧ (object_loop_body E U i w).objects i 2 = w.objects i 2 * w.friction
    ∧ (object_loop_body E U i w).objects i 9 = w.objects i 0 := by
  unfold object_loop_body
  simp only []
  rw [canon_object_contact_quiet E U i i w hi hq]
  have h1 := object_walls_quiet E i w hq hy
  have h2 := object_inner_loops_qk E U i i _ hi (quiet_of_near E i h1.1 hq)
  refine ⟨h1.1.trans_near h2.1, ?_, ?_, ?_, ?_⟩
  · rw [h2.2]
    exact h1.2.1
  · rw [h2.2]
    exact h1.2.2.1
  · rw [h2.2]
    exact h1.2.2.2.1
  · rw [h2.2]
    exact h1.2.2.2.2

theorem forLoop_split_three {σ : Type} (body : Nat → σ → σ) (w : σ) (i : Nat)
    (hi : i < no_of_objects) :
    forLoop 0 no_of_objects body w
      = forLoop (i + 1) no_of_objects body (body i (forLoop 0 i body w)) := by
  unfold no_of_objects at hi ⊢
  interval_cases i <;> rfl

theorem canon_obstacle_objects (E : Env α) (i : Nat) (w : World α) :
    (canon_obstacle E i w).objects = w.objects := by
  have h1 : ∀ y v, (canon_obstacle_land E y v).objects = v.objects := by
    intro y v
    unfold canon_obstacle_land
    split_ifs <;> rfl
  have h2 : ∀ v, (canon_obstacle_under E i v).objects = v.objects := by
    intro v
    unfold canon_obstacle_under
    simp only []
    split_ifs <;> rfl
  have h3 : ∀ x v, (canon_obstacle_left E x v).objects = v.objects := by
    intro x v
    unfold canon_obstacle_left
    split_ifs <;> rfl
  have h4 : ∀ x v, (canon_obstacle_right E x v).objects = v.objects := by
    intro x v
    unfold canon_obstacle_right
    split_ifs <;> rfl
  have h5 : ∀ v, (canon_obstacle_top E i v).objects = v.objects := by
    intro v
    unfold canon_obstacle_top
    simp only []
    split_ifs
    · rw [h2, h1]
    · rfl
  have h6 : ∀ v, (canon_obstacle_side E i v).objects = v.objects := by
    intro v
    unfold canon_obstacle_side
    simp only []
    split_ifs
    · rw [h4, h3]
    · rfl
  unfold canon_obstacle
  rw [h6, h5]

theorem coin_step_objects (E : Env α) (i : Nat) (w : World α) :
    (coin_step E i w).objects = w.objects := by
  unfold coin_step
  simp only []
  split_ifs <;> rfl

theorem piggy_step_objects (E : Env α) (i : Nat) (w : World α) :
    (piggy_step E i w).objects = w.objects := by
  unfold piggy_step
  simp only []
  split_ifs <;> rfl

/-- The loops of `checkcollision` after the loop over the free bodies do not
write to the `objects` array. -/
theorem tail_objects (E : Env α) (w : World α) :
    (forLoop 0 no_of_piggy (fun i s => piggy_step E i s)
      (forLoop 0 no_of_coins (fun i s => coin_step E i s)
        (forLoop 0 no_of_fixed_objects (fun i s => canon_obstacle E i s) w))).objects
      = w.objects := by
  have key : ∀ (lo hi : Nat) (f : Nat → World α → World α),
      (∀ i s, (f i s).objects = s.objects) →
        ∀ s, (forLoop lo hi f s).objects = s.objects := by
    intro lo hi f hf s
    exact forLoop_rel (fun (a b : World α) => b.objects = a.objects) (fun _ => rfl)
      (fun _ _ _ h1 h2 => h2.trans h1) lo hi f hf s
  rw [key _ _ _ (fun i s => piggy_step_objects E i s),
    key _ _ _ (fun i s => coin_step_objects E i s),
    key _ _ _ (fun i s => canon_obstacle_objects E i s)]

/-- A `checkcollision` pass over a state in which free body `i` is below ground
level and in no other contact. -/
theorem checkcollision_quiet (E : Env α) (U : Uninit α) (w : World α) (i : Nat)
    (hi : i < no_of_objects) (hy : w.objects i 1 < 50) (hq : Quiet E i w) :
    (checkcollision E U w).objects i 10 = 50
    ∧ (checkcollision E U w).objects i 3
      = -1 * w.objects i 3 * w.coefficient_of_collision_with_walls
    ∧ (checkcollision E U w).objects i 2 = w.objects i 2 * w.friction
    ∧ (checkcollision E U w).objects i 9 = w.objects i 0 := by
  unfold checkcollision
  simp only []
  rw [tail_objects, canon_walls_quiet E i w hq,
    forLoop_split_three (fun i s => object_loop_body E U i s) w i hi]
  have hpre := forLoop_rel_lt (fun a b => Quiet E i a → Keep i a b) (qk_refl E i) (qk_trans E i)
    0 i (fun j s => object_loop_body E U j s)
    (fun j _ hj s hs => object_loop_body_qk E U i j s (lt_trans hj hi) (ne_of_lt hj) hs) w hq
  generalize forLoop 0 i (fun j s => object_loop_body E U j s) w = a at hpre ⊢
  have hqa := quiet_of_near E i hpre.1 hq
  have hya : a.objects i 1 < 50 := by
    rw [hpre.2]
    exact hy
  have hmid := object_loop_body_quiet E U i a hi hqa hya
  rw [hpre.2, hpre.1.1.1.1.2.2.2.2.1, hpre.1.1.1.1.2.2.2.2.2.2.1] at hmid
  generalize object_loop_body E U i a = b at hmid ⊢
  have hqb := quiet_of_near E i hmid.1 hqa
  have hpost := forLoop_rel_lt (fun a b => Quiet E i a → Keep i a b) (qk_refl E i)
    (qk_trans E i) (i + 1) no_of_objects (fun j s => object_loop_body E U j s)
    (fun j hj hj3 s hs => object_loop_body_qk E U i j s hj3
      (fun h => by omega) hs) b hqb
  rw [hpost.2]
  exact hmid.2

theorem distance_far (clock : Nat → ℝ) (a b c d r : ℝ)
    (h : r ^ 2 < (c - a) * (c - a) + (d - b) * (d - b)) :
    ¬ (distance (realEnv clock) a b c d ≤ r) := by
  rw [not_le]
  exact Real.lt_sqrt_of_sq_lt h

/-- In `sunk_world` free body 0 is in no contact other than with the ground. -/
theorem sunk_world_quiet : Quiet E0 0 (sunk_world : World ℝ) := by
  have cx : (sunk_world : World ℝ).canon_x_position = 0 := rfl
  have cy : (sunk_world : World ℝ).canon_y_position = 51 := rfl
  have cr : (sunk_world : World ℝ).radius_of_canon = 10 := rfl
  have co : (sunk_world : World ℝ).canon_out = 0 := rfl
  have e00 : (sunk_world : World ℝ).objects 0 0 = 400 := rfl
  have e01 : (sunk_world : World ℝ).objects 0 1 = 49 := rfl
  have e05 : (sunk_world : World ℝ).objects 0 5 = 30 / 2 := rfl
  have e10 : (sunk_world : World ℝ).objects 1 0 = 1200 := rfl
  have e11 : (sunk_world : World ℝ).objects 1 1 = 150 := rfl
  have e15 : (sunk_world : World ℝ).objects 1 5 = 30 / 2 := rfl
  have e20 : (sunk_world : World ℝ).objects 2 0 = 1000 := rfl
  have e21 : (sunk_world : World ℝ).objects 2 1 = 200 := rfl
  have e25 : (sunk_world : World ℝ).objects 2 5 = 30 / 2 := rfl
  have f60 : (sunk_world : World ℝ).fixe 6 0 = 850 := rfl
  have f61 : (sunk_world : World ℝ).fixe 6 1 = 145 := rfl
  have f62 : (sunk_world : World ℝ).fixe 6 2 = 100 := rfl
  have f63 : (sunk_world : World ℝ).fixe 6 3 = 30 := rfl
  have f70 : (sunk_world : World ℝ).fixe 7 0 = 1050 := rfl
  have f71 : (sunk_world : World ℝ).fixe 7 1 = 45 := rfl
  have f72 : (sunk_world : World ℝ).fixe 7 2 = 30 := rfl
  have f73 : (sunk_world : World ℝ).fixe 7 3 = 100 := rfl
  have f80 : (sunk_world : World ℝ).fixe 8 0 = 850 := rfl
  have f81 : (sunk_world : World ℝ).fixe 8 1 = 45 := rfl
  have f82 : (sunk_world : World ℝ).fixe 8 2 = 30 := rfl
  have f83 : (sunk_world : World ℝ).fixe 8 3 = 100 := rfl
  unfold Quiet
  refine ⟨?_, ?_, ?_, ?_, ?_, ?_, ?_, ?_, ?_⟩
  · rw [cx]
    norm_num
  · rw [cy, cr]
    norm_num
  · rw [cy]
    norm_num
  · rw [co]
    exact fun h => absurd h.2 (by decide)
  · intro j hj
    unfold no_of_objects at hj
    rw [cx, cy]
    interval_cases j
    · rw [e00, e01, e05]
      exact distance_far _ _ _ _ _ _ (by norm_num)
    · rw [e10, e11, e15]
      exact distance_far _ _ _ _ _ _ (by norm_num)
    · rw [e20, e21, e25]
      exact distance_far _ _ _ _ _ _ (by norm_num)
  · rw [e00]
    norm_num
  · rw [e00]
    norm_num
  · intro j hj hj0
    unfold no_of_objects at hj
    rw [e00, e01, e05]
    interval_cases j
    · exact absurd rfl hj0
    · rw [e10, e11, e15]
      exact ⟨distance_far _ _ _ _ _ _ (by norm_num), distance_far _ _ _ _ _ _ (by norm_num)⟩
    · rw [e20, e21, e25]
      exact ⟨distance_far _ _ _ _ _ _ (by norm_num), distance_far _ _ _ _ _ _ (by norm_num)⟩
  · intro i1 h6 h9
    unfold ObstacleQuiet
    rw [e00, e01, e05]
    interval_cases i1
    · rw [f60, f61, f62, f63]
      norm_num
    · rw [f70, f71, f72, f73]
      norm_num
    · rw [f80, f81, f82, f83]
      norm_num

theorem sinking_world_quiet : Quiet E0 0 (sinking_world : World ℝ) := by
  refine quiet_of_near E0 0 (w := sunk_world) ⟨⟨set_obj_scal _ _ _ _, ?_⟩, rfl, rfl⟩
    sunk_world_quiet
  exact set_obj_obj 0 3 (-5) sunk_world (by decide) (by decide) (by decide) (by decide)
    (by decide) (by decide)

/-- C14 counterexample. In `sunk_world` free body 0 is at rest at `y = 49`,
below ground level, and in no other contact; after one `checkcollision` pass its
`y` position `objects[0][1]` is still 49, not 50. -/
theorem C14_position_not_reset :
    (sunk_world : World ℝ).objects 0 1 = 49
    ∧ (sunk_world : World ℝ).objects 0 2 = 0
    ∧ (sunk_world : World ℝ).objects 0 3 = 0
    ∧ Quiet E0 0 (sunk_world : World ℝ)
    ∧ (checkcollision E0 (zeroUninit ℝ) sunk_world).objects 0 1 = 49
    ∧ (checkcollision E0 (zeroUninit ℝ) sunk_world).objects 0 1 ≠ 50 := by
  have h := ((checkcollision_fr E0 (zeroUninit ℝ) sunk_world).2 0).2.1
  have e : (sunk_world : World ℝ).objects 0 1 = 49 := rfl
  rw [e] at h
  refine ⟨rfl, rfl, rfl, sunk_world_quiet, h, ?_⟩
  rw [h]
  norm_num

/-! ### A pass in which no test holds -/

theorem forLoop_fixed {σ : Type} (lo hi : Nat) (body : Nat → σ → σ) (w : σ)
    (h : ∀ i, lo ≤ i → i < hi → body i w = w) : forLoop lo hi body w = w :=
  forLoop_rel_lt (fun a b => a = w → b = w) (fun _ h => h) (fun _ _ _ h1 h2 h => h2 (h1 h))
    lo hi body (fun i h1 h2 s hs => by rw [hs]; exact h i h1 h2) w rfl

theorem object_walls_calm (E : Env α) (i : Nat) (w : World α) (hq : Quiet E i w)
    (ht : ¬ (w.objects i 1 ≥ 650 - 15)) (hg : ¬ (w.objects i 1 < 50)) :
    object_walls E i w = w := by
  unfold Quiet at hq
  have h1 : ∀ v, object_wall_right E v i w = w := by
    intro v
    unfold object_wall_right
    rw [if_neg hq.2.2.2.2.2.1]
  have h2 : ∀ v, object_wall_top E v i w = w := by
    intro v
    unfold object_wall_top
    rw [if_neg ht]
  have h3 : ∀ v, object_wall_ground E v i w = w := by
    intro v
    unfold object_wall_ground
    rw [if_neg hg]
  have h4 : ∀ v, object_wall_left E v i w = w := by
    intro v
    unfold object_wall_left
    rw [if_neg hq.2.2.2.2.2.2.1]
  unfold object_walls
  simp only []
  rw [h1, h2, h3, h4]

theorem object_object_contact_calm (E : Env α) (U : Uninit α) (i i1 : Nat) (w : World α)
    (hi1 : i1 < no_of_objects) (hq : Quiet E i w) : object_object_contact E U i i1 w = w := by
  unfold Quiet at hq
  unfold object_object_contact
  simp only []
  by_cases h1 : i ≠ i1
  · rw [if_pos h1, if_neg (hq.2.2.2.2.2.2.2.1 i1 hi1 (fun h => h1 h.symm)).1]
  · rw [if_neg h1]

theorem object_loop_body_calm (E : Env α) (U : Uninit α) (i : Nat) (w : World α)
    (hi : i < no_of_objects) (hq : Quiet E i w) (ht : ¬ (w.objects i 1 ≥ 650 - 15))
    (hg : ¬ (w.objects i 1 < 50)) : object_loop_body E U i w = w := by
  unfold object_loop_body
  simp only []
  rw [canon_object_contact_quiet E U i i w hi hq, object_walls_calm E i w hq ht hg,
    forLoop_fixed 0 no_of_objects _ w
      (fun i1 _ h => object_object_contact_calm E U i i1 w h hq),
    forLoop_fixed 6 9 _ w (fun i1 h6 h9 => by
      unfold Quiet at hq
      exact object_obstacle_quiet E i i1 w (hq.2.2.2.2.2.2.2.2 i1 h6 h9))]

theorem canon_obstacle_calm (E : Env α) (i : Nat) (w : World α)
    (hq : CanonObstacleQuiet i w) : canon_obstacle E i w = w := by
  unfold CanonObstacleQuiet at hq
  have h5 : canon_obstacle_top E i w = w := by
    unfold canon_obstacle_top
    simp only []
    split_ifs with h
    · have h1 : ∀ y, ¬ (y ≤ 5 ∧ y ≥ 0) → canon_obstacle_land E y w = w := by
        intro y hy
        unfold canon_obstacle_land
        rw [if_neg hy]
      rw [h1 _ (hq.1 h).1]
      unfold canon_obstacle_under
      simp only []
      rw [if_neg (hq.1 h).2]
    · rfl
  have h6 : canon_obstacle_side E i w = w := by
    unfold canon_obstacle_side
    simp only []
    split_ifs with h
    · have h3 : ∀ x, ¬ (x ≥ 0 ∧ x ≤ 10) → canon_obstacle_left E x w = w := by
        intro x hx
        unfold canon_obstacle_left
        rw [if_neg hx]
      have h4 : ∀ x, ¬ (x ≥ 0 ∧ x ≤ 5) → canon_obstacle_right E x w = w := by
        intro x hx
        unfold canon_obstacle_right
        rw [if_neg hx]
      rw [h3 _ (hq.2 h).1, h4 _ (hq.2 h).2]
    · rfl
  unfold canon_obstacle
  rw [h5, h6]

/-- The part of `checkcollision` before the collectible loop returns a state in
which none of its tests holds as it is. -/
theorem physics_calm (E : Env α) (U : Uninit α) (w : World α) (hc : Calm E w) :
    forLoop 0 no_of_fixed_objects (fun i s => canon_obstacle E i s)
      (forLoop 0 no_of_objects (fun i s => object_loop_body E U i s) (canon_walls E w))
      = w := by
  unfold Calm at hc
  rw [canon_walls_quiet E 0 w (hc.1 0 (by decide)).1,
    forLoop_fixed 0 no_of_objects _ w
      (fun i _ h => object_loop_body_calm E U i w h (hc.1 i h).1 (hc.1 i h).2.1 (hc.1 i h).2.2),
    forLoop_fixed 0 no_of_fixed_objects _ w (fun i _ h => canon_obstacle_calm E i w (hc.2 i h))]

theorem coin_step_idle (E : Env α) (i : Nat) (w : World α) (h : ¬ CoinContact E i w) :
    coin_step E i w = w := by
  unfold CoinContact at h
  unfold coin_step
  simp only []
  rw [if_neg h]

theorem piggy_step_idle (E : Env α) (i : Nat) (w : World α) (h : ¬ PiggyContact E i w) :
    piggy_step E i w = w := by
  unfold PiggyContact at h
  unfold piggy_step
  simp only []
  rw [if_neg h]

/-- A `checkcollision` pass over a state in which no test holds returns the
state as it is. -/
theorem checkcollision_calm (E : Env α) (U : Uninit α) (w : World α) (hc : Calm E w)
    (h1 : ∀ i, i < no_of_coins → ¬ CoinContact E i w)
    (h2 : ∀ i, i < no_of_piggy → ¬ PiggyContact E i w) : checkcollision E U w = w := by
  unfold checkcollision
  simp only []
  rw [physics_calm E U w hc,
    forLoop_fixed 0 no_of_coins _ w (fun i _ h => coin_step_idle E i w (h1 i h)),
    forLoop_fixed 0 no_of_piggy _ w (fun i _ h => piggy_step_idle E i w (h2 i h))]

/-! ### The fixed layout -/

theorem layout_objects :
    (initial_world : World ℝ).objects 0 0 = 400 ∧ (initial_world : World ℝ).objects 0 1 = 100
    ∧ (initial_world : World ℝ).objects 0 5 = 30 / 2
    ∧ (initial_world : World ℝ).objects 1 0 = 1200 ∧ (initial_world : World ℝ).objects 1 1 = 150
    ∧ (initial_world : World ℝ).objects 1 5 = 30 / 2
    ∧ (initial_world : World ℝ).objects 2 0 = 1000 ∧ (initial_world : World ℝ).objects 2 1 = 200
    ∧ (initial_world : World ℝ).objects 2 5 = 30 / 2 :=
  ⟨rfl, rfl, rfl, rfl, rfl, rfl, rfl, rfl, rfl⟩

theorem layout_fixe_low :
    (initial_world : World ℝ).fixe 6 0 = 850 ∧ (initial_world : World ℝ).fixe 6 1 = 145
    ∧ (initial_world : World ℝ).fixe 6 2 = 100 ∧ (initial_world : World ℝ).fixe 6 3 = 30
    ∧ (initial_world : World ℝ).fixe 7 0 = 1050 ∧ (initial_world : World ℝ).fixe 7 1 = 45
    ∧ (initial_world : World ℝ).fixe 7 2 = 30 ∧ (initial_world : World ℝ).fixe 7 3 = 100
    ∧ (initial_world : World ℝ).fixe 8 0 = 850 ∧ (initial_world : World ℝ).fixe 8 1 = 45
    ∧ (initial_world : World ℝ).fixe 8 2 = 30 ∧ (initial_world : World ℝ).fixe 8 3 = 100 :=
  ⟨rfl, rfl, rfl, rfl, rfl, rfl, rfl, rfl, rfl, rfl, rfl, rfl⟩

theorem layout_fixe_high :
    (initial_world : World ℝ).fixe 0 0 = 300 ∧ (initial_world : World ℝ).fixe 0 1 = 400
    ∧ (initial_world : World ℝ).fixe 0 2 = 100 ∧ (initial_world : World ℝ).fixe 0 3 = 30
    ∧ (initial_world : World ℝ).fixe 1 0 = 400 ∧ (initial_world : World ℝ).fixe 1 1 = 370
    ∧ (initial_world : World ℝ).fixe 1 2 = 100 ∧ (initial_world : World ℝ).fixe 1 3 = 30
    ∧ (initial_world : World ℝ).fixe 2 0 = 500 ∧ (initial_world : World ℝ).fixe 2 1 = 400
    ∧ (initial_world : World ℝ).fixe 2 2 = 100 ∧ (initial_world : World ℝ).fixe 2 3 = 30
    ∧ (initial_world : World ℝ).fixe 3 0 = 1265 ∧ (initial_world : World ℝ).fixe 3 1 = 500
    ∧ (initial_world : World ℝ).fixe 3 2 = 70 ∧ (initial_world : World ℝ).fixe 3 3 = 30
    ∧ (initial_world : World ℝ).fixe 4 0 = 1235 ∧ (initial_world : World ℝ).fixe 4 1 = 500
    ∧ (initial_world : World ℝ).fixe 4 2 = 30 ∧ (initial_world : World ℝ).fixe 4 3 = 100
    ∧ (initial_world : World ℝ).fixe 5 0 = 150 ∧ (initial_world : World ℝ).fixe 5 1 = 500
    ∧ (initial_world : World ℝ).fixe 5 2 = 100 ∧ (initial_world : World ℝ).fixe 5 3 = 30 :=
  ⟨rfl, rfl, rfl, rfl, rfl, rfl, rfl, rfl, rfl, rfl, rfl, rfl, rfl, rfl, rfl, rfl, rfl, rfl,
    rfl, rfl, rfl, rfl, rfl, rfl⟩

theorem layout_coins :
    (initial_world : World ℝ).coins 0 0 = 350 ∧ (initial_world : World ℝ).coins 0 1 = 445
    ∧ (initial_world : World ℝ).coins 0 2 = 15
    ∧ (initial_world : World ℝ).coins 1 0 = 550 ∧ (initial_world : World ℝ).coins 1 1 = 445
    ∧ (initial_world : World ℝ).coins 1 2 = 15
    ∧ (initial_world : World ℝ).coins 2 0 = 990 ∧ (initial_world : World ℝ).coins 2 1 = 55
    ∧ (initial_world : World ℝ).coins 2 2 = 15
    ∧ (initial_world : World ℝ).coins 3 0 = 900 ∧ (initial_world : World ℝ).coins 3 1 = 190
    ∧ (initial_world : World ℝ).coins 3 2 = 15 :=
  ⟨rfl, rfl, rfl, rfl, rfl, rfl, rfl, rfl, rfl, rfl, rfl, rfl⟩

theorem layout_piggy :
    (initial_world : World ℝ).piggy_pos 0 0 = 450 ∧ (initial_world : World ℝ).piggy_pos 0 1 = 430
    ∧ (initial_world : World ℝ).piggy_pos 1 0 = 1300
    ∧ (initial_world : World ℝ).piggy_pos 1 1 = 560
    ∧ (initial_world : World ℝ).piggy_pos 2 0 = 200
    ∧ (initial_world : World ℝ).piggy_pos 2 1 = 560 :=
  ⟨rfl, rfl, rfl, rfl, rfl, rfl⟩

/-- In the fixed layout no free body is in contact with a wall, another free
body or one of the obstacles 6..8. -/
theorem layout_bodies_quiet (clock : Nat → ℝ) (w : World ℝ)
    (ho : w.objects = (initial_world : World ℝ).objects)
    (hf : w.fixe = (initial_world : World ℝ).fixe) (hc : CanonQuiet (realEnv clock) w)
    (i : Nat) (hi : i < no_of_objects) :
    Quiet (realEnv clock) i w ∧ ¬ (w.objects i 1 ≥ 650 - 15) ∧ ¬ (w.objects i 1 < 50) := by
  obtain ⟨e00, e01, e05, e10, e11, e15, e20, e21, e25⟩ := layout_objects
  obtain ⟨f60, f61, f62, f63, f70, f71, f72, f73, f80, f81, f82, f83⟩ := layout_fixe_low
  unfold CanonQuiet at hc
  unfold Quiet ObstacleQuiet
  unfold no_of_objects at hi
  refine ⟨⟨hc.1, hc.2.1, hc.2.2.1, hc.2.2.2.1, hc.2.2.2.2, ?_, ?_, ?_, ?_⟩, ?_, ?_⟩
  · interval_cases i <;> simp only [ho, e00, e10, e20] <;> norm_num
  · interval_cases i <;> simp only [ho, e00, e10, e20] <;> norm_num
  · intro j hj hji
    unfold no_of_objects at hj
    simp only [ho]
    interval_cases i <;> interval_cases j <;>
      first
      | exact absurd rfl hji
      | (simp only [e00, e01, e05, e10, e11, e15, e20, e21, e25]
         exact ⟨distance_far _ _ _ _ _ _ (by norm_num), distance_far _ _ _ _ _ _ (by norm_num)⟩)
  · intro i1 h6 h9
    simp only [ho, hf]
    interval_cases i <;> interval_cases i1 <;>
      simp only [e00, e01, e05, e10, e11, e15, e20, e21, e25, f60, f61, f62, f63, f70, f71,
        f72, f73, f80, f81, f82, f83] <;> norm_num
  · interval_cases i <;> simp only [ho, e01, e11, e21] <;> norm_num
  · interval_cases i <;> simp only [ho, e01, e11, e21] <;> norm_num

/-- In the initial world the projectile, resting at `(0, 51)`, is in no contact
with a wall or a free body. -/
theorem initial_world_canon_quiet (clock : Nat → ℝ) :
    CanonQuiet (realEnv clock) (initial_world : World ℝ) := by
  obtain ⟨e00, e01, e05, e10, e11, e15, e20, e21, e25⟩ := layout_objects
  have cx : (initial_world : World ℝ).canon_x_position = 0 := rfl
  have cy : (initial_world : World ℝ).canon_y_position = 51 := rfl
  have cr : (initial_world : World ℝ).radius_of_canon = 10 := rfl
  have co : (initial_world : World ℝ).canon_out = 0 := rfl
  unfold CanonQuiet
  rw [cx, cy, cr, co]
  refine ⟨by norm_num, by norm_num, by norm_num, fun h => absurd h.2 (by decide), ?_⟩
  intro j hj
  unfold no_of_objects at hj
  interval_cases j
  · rw [e00, e01, e05]
    exact distance_far _ _ _ _ _ _ (by norm_num)
  · rw [e10, e11, e15]
    exact distance_far _ _ _ _ _ _ (by norm_num)
  · rw [e20, e21, e25]
    exact distance_far _ _ _ _ _ _ (by norm_num)

theorem initial_world_canon_obstacles (i : Nat) (hi : i < no_of_fixed_objects) :
    CanonObstacleQuiet i (initial_world : World ℝ) := by
  obtain ⟨f00, f01, f02, f03, f10, f11, f12, f13, f20, f21, f22, f23, f30, f31, f32, f33,
    f40, f41, f42, f43, f50, f51, f52, f53⟩ := layout_fixe_high
  obtain ⟨f60, f61, f62, f63, f70, f71, f72, f73, f80, f81, f82, f83⟩ := layout_fixe_low
  have cx : (initial_world : World ℝ).canon_x_position = 0 := rfl
  have cy : (initial_world : World ℝ).canon_y_position = 51 := rfl
  have cr : (initial_world : World ℝ).radius_of_canon = 10 := rfl
  unfold CanonObstacleQuiet
  unfold no_of_fixed_objects at hi
  rw [cx, cy, cr]
  interval_cases i <;>
    simp only [f00, f01, f02, f03, f10, f11, f12, f13, f20, f21, f22, f23, f30, f31, f32, f33,
      f40, f41, f42, f43, f50, f51, f52, f53, f60, f61, f62, f63, f70, f71, f72, f73, f80,
      f81, f82, f83] <;> norm_num

theorem initial_world_calm (clock : Nat → ℝ) : Calm (realEnv clock) (initial_world : World ℝ) :=
  ⟨fun i hi => layout_bodies_quiet clock initial_world rfl rfl (initial_world_canon_quiet clock)
    i hi, initial_world_canon_obstacles⟩

theorem initial_world_idle (clock : Nat → ℝ) :
    (∀ i, i < no_of_coins → ¬ CoinContact (realEnv clock) i (initial_world : World ℝ))
    ∧ (∀ i, i < no_of_piggy → ¬ PiggyContact (realEnv clock) i (initial_world : World ℝ)) := by
  obtain ⟨c00, c01, c02, c10, c11, c12, c20, c21, c22, c30, c31, c32⟩ := layout_coins
  obtain ⟨p00, p01, p10, p11, p20, p21⟩ := layout_piggy
  have cx : (initial_world : World ℝ).canon_x_position = 0 := rfl
  have cy : (initial_world : World ℝ).canon_y_position = 51 := rfl
  have cr : (initial_world : World ℝ).radius_of_canon = 10 := rfl
  have rp : (initial_world : World ℝ).radius_of_piggy = 30 := rfl
  constructor
  · intro i hi h
    unfold no_of_coins at hi
    unfold CoinContact at h
    rw [cx, cy, cr] at h
    interval_cases i
    · rw [c00, c01, c02] at h
      exact distance_far _ _ _ _ _ _ (by norm_num) h.1
    · rw [c10, c11, c12] at h
      exact distance_far _ _ _ _ _ _ (by norm_num) h.1
    · rw [c20, c21, c22] at h
      exact distance_far _ _ _ _ _ _ (by norm_num) h.1
    · rw [c30, c31, c32] at h
      exact distance_far _ _ _ _ _ _ (by norm_num) h.1
  · intro i hi h
    unfold no_of_piggy at hi
    unfold PiggyContact at h
    rw [cx, cy, cr, rp] at h
    interval_cases i
    · rw [p00, p01] at h
      exact distance_far _ _ _ _ _ _ (by norm_num) h.1
    · rw [p10, p11] at h
      exact distance_far _ _ _ _ _ _ (by norm_num) h.1
    · rw [p20, p21] at h
      exact distance_far _ _ _ _ _ _ (by norm_num) h.1

/-- C28. From the initial world (the fixed layout written by
`intialize_objects`, the projectile resting at `(0, 51)` with zero velocity,
radius 10, score 0), one `checkcollision` pass triggers no contact at all and
returns the state as it is: the score, every collectible's flag, every target's
hitCount, every field of every free body and the projectile's position,
velocity, launch frame and `canon_out` are unchanged. -/
theorem C28_initial_pass_idle (clock : Nat → ℝ) (U : Uninit ℝ) :
    (initial_world : World ℝ).canon_out = 0
    ∧ (initial_world : World ℝ).canon_x_position = 0
    ∧ (initial_world : World ℝ).canon_y_position = 51
    ∧ (initial_world : World ℝ).canon_x_velocity = 0
    ∧ (initial_world : World ℝ).canon_y_velocity = 0
    ∧ (initial_world : World ℝ).radius_of_canon = 10
    ∧ (initial_world : World ℝ).score = 0
    ∧ checkcollision (realEnv clock) U initial_world = initial_world :=
  ⟨rfl, rfl, rfl, rfl, rfl, rfl, rfl,
    checkcollision_calm (realEnv clock) U initial_world (initial_world_calm clock)
      (initial_world_idle clock).1 (initial_world_idle clock).2⟩

/-! ### Successive contacts with a target -/

theorem forLoop_split_piggy {σ : Type} (body : Nat → σ → σ) (w : σ) (i : Nat)
    (hi : i < no_of_piggy) :
    forLoop 0 no_of_piggy body w
      = forLoop (i + 1) no_of_piggy body (body i (forLoop 0 i body w)) := by
  unfold no_of_piggy at hi ⊢
  interval_cases i <;> rfl

theorem piggy_step_fire (E : Env α) (i : Nat) (w : World α) (h : PiggyContact E i w) :
    (piggy_step E i w).piggy_pos i 2 = w.piggy_pos i 2 + 1
    ∧ (piggy_step E i w).score = w.score + (w.piggy_pos i 2 + 1) * 10
    ∧ (piggy_step E i w).canon_x_position = 0
    ∧ (piggy_step E i w).canon_y_position = 0 := by
  unfold PiggyContact at h
  unfold piggy_step
  simp only []
  rw [if_pos h]
  refine ⟨?_, ?_, rfl, rfl⟩ <;> simp [set_canon_position, set2]

theorem piggy_step_cols (E : Env α) (i j c : Nat) (w : World α) (hc : c ≠ 2) :
    (piggy_step E i w).piggy_pos j c = w.piggy_pos j c := by
  unfold piggy_step
  simp only []
  split_ifs <;> simp [set_canon_position, set2, hc]

/-- A pass whose only contact is the one with target `k` is the iteration of
the target loop for `k`. -/
theorem checkcollision_target (E : Env α) (U : Uninit α) (k : Nat) (w : World α)
    (hk : k < no_of_piggy) (hc : TargetContact E k w) (h3 : w.piggy_pos k 2 ≠ 3) :
    checkcollision E U w = piggy_step E k w := by
  obtain ⟨hcalm, hcoins, hbefore, hin, hafter⟩ := hc
  have hf := piggy_step_fire E k w ⟨hin, h3⟩
  have hp := (piggy_step_fr E k w).1.1
  unfold checkcollision
  simp only []
  rw [physics_calm E U w hcalm,
    forLoop_fixed 0 no_of_coins _ w (fun i _ h => coin_step_idle E i w (hcoins i h)),
    forLoop_split_piggy _ w k hk,
    forLoop_fixed 0 k _ w (fun j _ h => piggy_step_idle E j w (hbefore j h))]
  refine forLoop_fixed (k + 1) no_of_piggy _ _ (fun j hj hj3 => ?_)
  refine piggy_step_idle E j _ (fun hcon => ?_)
  unfold PiggyContact at hcon
  rw [hf.2.2.1, hf.2.2.2, piggy_step_cols E k j 0 w (by decide),
    piggy_step_cols E k j 1 w (by decide), hp.2.2.1, hp.2.2.2.2.2.2.2.1] at hcon
  exact hafter j hj hj3 hcon.1

theorem on_target_contact (clock : Nat → ℝ) (w : World ℝ) (h : AtLayout 450 430 w) :
    TargetContact (realEnv clock) 0 w := by
  obtain ⟨ho, hf, hco, hp, cx, cy, cr, rp⟩ := h
  obtain ⟨e00, e01, e05, e10, e11, e15, e20, e21, e25⟩ := layout_objects
  obtain ⟨f00, f01, f02, f03, f10, f11, f12, f13, f20, f21, f22, f23, f30, f31, f32, f33,
    f40, f41, f42, f43, f50, f51, f52, f53⟩ := layout_fixe_high
  obtain ⟨f60, f61, f62, f63, f70, f71, f72, f73, f80, f81, f82, f83⟩ := layout_fixe_low
  obtain ⟨c00, c01, c02, c10, c11, c12, c20, c21, c22, c30, c31, c32⟩ := layout_coins
  obtain ⟨p00, p01, p10, p11, p20, p21⟩ := layout_piggy
  have hcq : CanonQuiet (realEnv clock) w := by
    unfold CanonQuiet
    rw [cx, cy, cr, ho]
    refine ⟨by norm_num, by norm_num, by norm_num, fun h => absurd h.1 (by norm_num), ?_⟩
    intro j hj
    unfold no_of_objects at hj
    interval_cases j
    · rw [e00, e01, e05]
      exact distance_far _ _ _ _ _ _ (by norm_num)
    · rw [e10, e11, e15]
      exact distance_far _ _ _ _ _ _ (by norm_num)
    · rw [e20, e21, e25]
      exact distance_far _ _ _ _ _ _ (by norm_num)
  refine ⟨⟨fun i hi => layout_bodies_quiet clock w ho hf hcq i hi, fun i hi => ?_⟩,
    fun i hi hcon => ?_, fun j hj => absurd hj (Nat.not_lt_zero j), ?_, fun j hj hj3 => ?_⟩
  · unfold CanonObstacleQuiet
    unfold no_of_fixed_objects at hi
    rw [cx, cy, cr, hf]
    interval_cases i <;>
      simp only [f00, f01, f02, f03, f10, f11, f12, f13, f20, f21, f22, f23, f30, f31, f32,
        f33, f40, f41, f42, f43, f50, f51, f52, f53, f60, f61, f62, f63, f70, f71, f72, f73,
        f80, f81, f82, f83] <;> norm_num
  · unfold no_of_coins at hi
    unfold CoinContact at hcon
    rw [cx, cy, cr, hco] at hcon
    interval_cases i
    · rw [c00, c01, c02] at hcon
      exact distance_far _ _ _ _ _ _ (by norm_num) hcon.1
    · rw [c10, c11, c12] at hcon
      exact distance_far _ _ _ _ _ _ (by norm_num) hcon.1
    · rw [c20, c21, c22] at hcon
      exact distance_far _ _ _ _ _ _ (by norm_num) hcon.1
    · rw [c30, c31, c32] at hcon
      exact distance_far _ _ _ _ _ _ (by norm_num) hcon.1
  · rw [cx, cy, cr, rp, (hp 0).1, (hp 0).2, p00, p01]
    simp [distance, realEnv]
    norm_num
  · unfold no_of_piggy at hj3
    rw [cr, rp, (hp j).1, (hp j).2]
    interval_cases j
    · rw [p10, p11]
      exact distance_far _ _ _ _ _ _ (by norm_num)
    · rw [p20, p21]
      exact distance_far _ _ _ _ _ _ (by norm_num)

theorem rehit_layout (E : Env ℝ) (w : World ℝ) (x y : ℝ) (h : AtLayout x y w) :
    AtLayout 450 430 (rehit (piggy_step E 0 w)) := by
  obtain ⟨ho, hf, hco, hp, _, _, cr, rp⟩ := h
  have hpar := (piggy_step_fr E 0 w).1.1
  refine ⟨?_, ?_, ?_, fun j => ⟨?_, ?_⟩, rfl, rfl, ?_, ?_⟩
  · exact (piggy_step_objects E 0 w).trans ho
  · exact hpar.2.2.2.2.2.2.2.2.trans hf
  · exact (piggy_step_coins E 0 w).trans hco
  · exact (piggy_step_cols E 0 j 0 w (by decide)).trans (hp j).1
  · exact (piggy_step_cols E 0 j 1 w (by decide)).trans (hp j).2
  · exact hpar.2.2.1.trans cr
  · exact hpar.2.2.2.2.2.2.2.1.trans rp

/-- The three successive contacts with target 0 from the initial world: hit
counts 1, 2, 3 and scores 10, 30, 60. -/
theorem three_hits (clock : Nat → ℝ) (U : Uninit ℝ) :
    (hit_pass (realEnv clock) U (initial_world : World ℝ)).piggy_pos 0 2 = 1
    ∧ (hit_pass (realEnv clock) U (initial_world : World ℝ)).score = 10
    ∧ (hit_pass (realEnv clock) U (hit_pass (realEnv clock) U
        (initial_world : World ℝ))).piggy_pos 0 2 = 2
    ∧ (hit_pass (realEnv clock) U (hit_pass (realEnv clock) U
        (initial_world : World ℝ))).score = 30
    ∧ (hit_pass (realEnv clock) U (hit_pass (realEnv clock) U (hit_pass (realEnv clock) U
        (initial_world : World ℝ)))).piggy_pos 0 2 = 3
    ∧ (hit_pass (realEnv clock) U (hit_pass (realEnv clock) U (hit_pass (realEnv clock) U
        (initial_world : World ℝ)))).score = 60
    ∧ TargetContact (realEnv clock) 0 (rehit (initial_world : World ℝ))
    ∧ TargetContact (realEnv clock) 0
        (rehit (hit_pass (realEnv clock) U (initial_world : World ℝ)))
    ∧ TargetContact (realEnv clock) 0
        (rehit (hit_pass (realEnv clock) U (hit_pass (realEnv clock) U
          (initial_world : World ℝ)))) := by
  have l0 : AtLayout 450 430 (rehit (initial_world : World ℝ)) :=
    ⟨rfl, rfl, rfl, fun _ => ⟨rfl, rfl⟩, rfl, rfl, rfl, rfl⟩
  have t0 := on_target_contact clock _ l0
  have a0 : (rehit (initial_world : World ℝ)).piggy_pos 0 2 = 0 := rfl
  have b0 : (rehit (initial_world : World ℝ)).score = 0 := rfl
  have n0 : (rehit (initial_world : World ℝ)).piggy_pos 0 2 ≠ 3 := by
    rw [a0]
    norm_num
  have e0 : hit_pass (realEnv clock) U (initial_world : World ℝ)
      = piggy_step (realEnv clock) 0 (rehit initial_world) :=
    checkcollision_target (realEnv clock) U 0 _ (by decide) t0 n0
  have f0 := piggy_step_fire (realEnv clock) 0 _ ⟨t0.2.2.2.1, n0⟩
  rw [← e0, a0, b0] at f0
  have l1 : AtLayout 450 430 (rehit (hit_pass (realEnv clock) U (initial_world : World ℝ))) := by
    rw [e0]
    exact rehit_layout _ _ _ _ l0
  generalize hit_pass (realEnv clock) U (initial_world : World ℝ) = p1 at *
  have t1 := on_target_contact clock _ l1
  have a1 : (rehit p1).piggy_pos 0 2 = 1 := f0.1.trans (by norm_num)
  have b1 : (rehit p1).score = 10 := f0.2.1.trans (by norm_num)
  have n1 : (rehit p1).piggy_pos 0 2 ≠ 3 := by
    rw [a1]
    norm_num
  have e1 : hit_pass (realEnv clock) U p1 = piggy_step (realEnv clock) 0 (rehit p1) :=
    checkcollision_target (realEnv clock) U 0 _ (by decide) t1 n1
  have f1 := piggy_step_fire (realEnv clock) 0 _ ⟨t1.2.2.2.1, n1⟩
  rw [← e1, a1, b1] at f1
  have l2 : AtLayout 450 430 (rehit (hit_pass (realEnv clock) U p1)) := by
    rw [e1]
    exact rehit_layout _ _ _ _ l1
  generalize hit_pass (realEnv clock) U p1 = p2 at *
  have t2 := on_target_contact clock _ l2
  have a2 : (rehit p2).piggy_pos 0 2 = 2 := f1.1.trans (by norm_num)
  have b2 : (rehit p2).score = 30 := f1.2.1.trans (by norm_num)
  have n2 : (rehit p2).piggy_pos 0 2 ≠ 3 := by
    rw [a2]
    norm_num
  have e2 : hit_pass (realEnv clock) U p2 = piggy_step (realEnv clock) 0 (rehit p2) :=
    checkcollision_target (realEnv clock) U 0 _ (by decide) t2 n2
  have f2 := piggy_step_fire (realEnv clock) 0 _ ⟨t2.2.2.2.1, n2⟩
  rw [← e2, a2, b2] at f2
  exact ⟨a1, b1, a2, b2, f2.1.trans (by norm_num), f2.2.1.trans (by norm_num), t0, t1, t2⟩

/-- C21 counterexample. Three successive contacts with the fresh target 0 (hit
count 0), each resolved by a `checkcollision` pass with the projectile back on
the target at `(450, 430)`: the first contact adds 10 to the score, not
`0 * 10`, and after the three contacts the score is 60, not 30. -/
theorem C21_target_score_after_increment :
    (rehit (initial_world : World ℝ)).piggy_pos 0 2 = 0
    ∧ (rehit (initial_world : World ℝ)).score = 0
    ∧ (hit_pass E0 (zeroUninit ℝ) (initial_world : World ℝ)).score = 10
    ∧ (hit_pass E0 (zeroUninit ℝ) (initial_world : World ℝ)).score
      ≠ (rehit (initial_world : World ℝ)).score + 0 * 10
    ∧ (hit_pass E0 (zeroUninit ℝ) (hit_pass E0 (zeroUninit ℝ) (hit_pass E0 (zeroUninit ℝ)
        (initial_world : World ℝ)))).score = 60
    ∧ (hit_pass E0 (zeroUninit ℝ) (hit_pass E0 (zeroUninit ℝ) (hit_pass E0 (zeroUninit ℝ)
        (initial_world : World ℝ)))).score ≠ 30 := by
  have h := three_hits (fun k => (k : ℝ)) (zeroUninit ℝ)
  have h1 : (hit_pass E0 (zeroUninit ℝ) (initial_world : World ℝ)).score = 10 := h.2.1
  have h3 : (hit_pass E0 (zeroUninit ℝ) (hit_pass E0 (zeroUninit ℝ) (hit_pass E0 (zeroUninit ℝ)
      (initial_world : World ℝ)))).score = 60 := h.2.2.2.2.2.1
  refine ⟨rfl, rfl, h1, ?_, h3, ?_⟩
  · rw [h1]
    have : (rehit (initial_world : World ℝ)).score = 0 := rfl
    rw [this]
    norm_num
  · rw [h3]
    norm_num

/-- C21, amended. Three successive contacts with a fresh target `k` (hit count
0), each the only contact of its `checkcollision` pass, add `1 * 10`, `2 * 10`
and `3 * 10` to the score, that is each contact adds the hit count after the
increment times 10, for a cumulative 60; the hit count is then 3.  Between the
contacts anything may change but the target's hit count and the score. -/
theorem C21_target_contacts (E : Env α) (U : Uninit α) (k : Nat) (s0 s1 s2 : World α)
    (hk : k < no_of_piggy) (c0 : TargetContact E k s0) (c1 : TargetContact E k s1)
    (c2 : TargetContact E k s2) (h0 : s0.piggy_pos k 2 = 0)
    (l1 : s1.piggy_pos k 2 = (checkcollision E U s0).piggy_pos k 2)
    (m1 : s1.score = (checkcollision E U s0).score)
    (l2 : s2.piggy_pos k 2 = (checkcollision E U s1).piggy_pos k 2)
    (m2 : s2.score = (checkcollision E U s1).score) :
    (checkcollision E U s0).score = s0.score + 1 * 10
    ∧ (checkcollision E U s1).score = s1.score + 2 * 10
    ∧ (checkcollision E U s2).score = s2.score + 3 * 10
    ∧ (checkcollision E U s2).score = s0.score + 60
    ∧ (checkcollision E U s2).piggy_pos k 2 = 3 := by
  have n0 : s0.piggy_pos k 2 ≠ 3 := by
    rw [h0]
    norm_num
  have f0 := piggy_step_fire E k s0 ⟨c0.2.2.2.1, n0⟩
  rw [← checkcollision_target E U k s0 hk c0 n0, h0] at f0
  have a1 : s1.piggy_pos k 2 = 1 := by
    rw [l1, f0.1]
    norm_num
  have n1 : s1.piggy_pos k 2 ≠ 3 := by
    rw [a1]
    norm_num
  have f1 := piggy_step_fire E k s1 ⟨c1.2.2.2.1, n1⟩
  rw [← checkcollision_target E U k s1 hk c1 n1, a1] at f1
  have a2 : s2.piggy_pos k 2 = 2 := by
    rw [l2, f1.1]
    norm_num
  have n2 : s2.piggy_pos k 2 ≠ 3 := by
    rw [a2]
    norm_num
  have f2 := piggy_step_fire E k s2 ⟨c2.2.2.2.1, n2⟩
  rw [← checkcollision_target E U k s2 hk c2 n2, a2] at f2
  refine ⟨?_, ?_, ?_, ?_, ?_⟩
  · rw [f0.2.1]
    norm_num
  · rw [f1.2.1]
    norm_num
  · rw [f2.2.1]
    norm_num
  · rw [f2.2.1, m2, f1.2.1, m1, f0.2.1]
    ring
  · rw [f2.1]
    norm_num

/-- Witness of C21 (amended): the three contacts with target 0 from the initial
world, the projectile brought back onto the target before each pass. -/
theorem C21_target_contacts_witness :
    0 < no_of_piggy
    ∧ TargetContact E0 0 (rehit (initial_world : World ℝ))
    ∧ (rehit (initial_world : World ℝ)).piggy_pos 0 2 = 0
    ∧ (hit_pass E0 (zeroUninit ℝ) (initial_world : World ℝ)).score
      = (rehit (initial_world : World ℝ)).score + 1 * 10
    ∧ (hit_pass E0 (zeroUninit ℝ) (hit_pass E0 (zeroUninit ℝ) (hit_pass E0 (zeroUninit ℝ)
        (initial_world : World ℝ)))).score = (rehit (initial_world : World ℝ)).score + 60
    ∧ (hit_pass E0 (zeroUninit ℝ) (hit_pass E0 (zeroUninit ℝ) (hit_pass E0 (zeroUninit ℝ)
        (initial_world : World ℝ)))).piggy_pos 0 2 = 3 := by
  have h := three_hits (fun k => (k : ℝ)) (zeroUninit ℝ)
  have t := C21_target_contacts E0 (zeroUninit ℝ) 0 (rehit initial_world)
    (rehit (hit_pass E0 (zeroUninit ℝ) initial_world))
    (rehit (hit_pass E0 (zeroUninit ℝ) (hit_pass E0 (zeroUninit ℝ) initial_world)))
    (by decide) h.2.2.2.2.2.2.1 h.2.2.2.2.2.2.2.1 h.2.2.2.2.2.2.2.2 rfl rfl rfl rfl rfl
  exact ⟨by decide, h.2.2.2.2.2.2.1, rfl, t.1, t.2.2.2.1, t.2.2.2.2⟩

/-! ### Response to a contact of two free bodies -/

theorem dir_cast (c : Prop) [Decidable c] :
    (((if c then (-1 : Int) else 1 : Int) : α)) = if c then -1 else 1 := by
  split_ifs <;> simp

/-- A firing body-body contact is the two re-launches of the response, with the
locals of the source as arguments. -/
theorem object_object_contact_eq (E : Env α) (U : Uninit α) (i i1 : Nat) (w : World α)
    (hne : i ≠ i1) (hd : Touch E i i1 w) :
    object_object_contact E U i i1 w
      = set_object_position E (w.objects i1 0 - ((oo_val U i i1 w).1 : α))
          (w.objects i1 1 - ((oo_val U i i1 w).2 : α)) (oo_v2y i i1 w) (oo_v2x i i1 w)
          (if oo_v2x i i1 w < 0 then -1 else 1)
          (E.sqrt (oo_v2x i i1 w * oo_v2x i i1 w + oo_v2y i i1 w * oo_v2y i i1 w))
          (oo_v2x i i1 w) (oo_v2y i i1 w) i1
          (set_object_position E (w.objects i 0 + ((oo_val U i i1 w).1 : α))
            (w.objects i 1 + ((oo_val U i i1 w).2 : α)) (U.u2y i i1) (oo_u2x i i1 w)
            (if oo_u2x i i1 w < 0 then -1 else 1)
            (E.sqrt (oo_u2x i i1 w * oo_u2x i i1 w + U.u2y i i1 * U.u2y i i1))
            (oo_u2x i i1 w) (U.u2y i i1) i w) := by
  unfold Touch at hd
  unfold object_object_contact
  simp only []
  rw [if_pos hne, if_pos hd, set_object_position_other _ _ _ _ _ _ _ _ _ _ _ _ _
    (fun h => hne h.symm), set_object_position_other _ _ _ _ _ _ _ _ _ _ _ _ _
    (fun h => hne h.symm)]
  rfl

/-- Fields of the two bodies after a firing body-body contact: velocity, launch
position, launch speed, launch angle, direction and collision count. -/
theorem object_object_contact_rows (E : Env α) (U : Uninit α) (i i1 : Nat) (w : World α)
    (hne : i ≠ i1) (hd : Touch E i i1 w) :
    ((object_object_contact E U i i1 w).objects i 2 = oo_u2x i i1 w
      ∧ (object_object_contact E U i i1 w).objects i 3 = U.u2y i i1
      ∧ (object_object_contact E U i i1 w).objects i 9
        = w.objects i 0 + ((oo_val U i i1 w).1 : α)
      ∧ (object_object_contact E U i i1 w).objects i 10
        = w.objects i 1 + ((oo_val U i i1 w).2 : α)
      ∧ (object_object_contact E U i i1 w).objects i 11
        = E.sqrt (oo_u2x i i1 w * oo_u2x i i1 w + U.u2y i i1 * U.u2y i i1)
      ∧ (object_object_contact E U i i1 w).objects i 12 = E.atan2 (U.u2y i i1) (oo_u2x i i1 w)
      ∧ (object_object_contact E U i i1 w).objects i 14 = (if oo_u2x i i1 w < 0 then -1 else 1)
      ∧ (object_object_contact E U i i1 w).objects i 16 = w.objects i 16 + 1
      ∧ (object_object_contact E U i i1 w).objects i 13
        = (if w.objects i 15 = 1 then 1 else w.objects i 13))
    ∧ ((object_object_contact E U i i1 w).objects i1 2 = oo_v2x i i1 w
      ∧ (object_object_contact E U i i1 w).objects i1 3 = oo_v2y i i1 w
      ∧ (object_object_contact E U i i1 w).objects i1 9
        = w.objects i1 0 - ((oo_val U i i1 w).1 : α)
      ∧ (object_object_contact E U i i1 w).objects i1 10
        = w.objects i1 1 - ((oo_val U i i1 w).2 : α)
      ∧ (object_object_contact E U i i1 w).objects i1 11
        = E.sqrt (oo_v2x i i1 w * oo_v2x i i1 w + oo_v2y i i1 w * oo_v2y i i1 w)
      ∧ (object_object_contact E U i i1 w).objects i1 12
        = E.atan2 (oo_v2y i i1 w) (oo_v2x i i1 w)
      ∧ (object_object_contact E U i i1 w).objects i1 14
        = (if oo_v2x i i1 w < 0 then -1 else 1)
      ∧ (object_object_contact E U i i1 w).objects i1 16 = w.objects i1 16 + 1
      ∧ (object_object_contact E U i i1 w).objects i1 13
        = (if w.objects i1 15 = 1 then 1 else w.objects i1 13)) := by
  rw [object_object_contact_eq E U i i1 w hne hd]
  generalize hs : set_object_position E (w.objects i 0 + ((oo_val U i i1 w).1 : α))
    (w.objects i 1 + ((oo_val U i i1 w).2 : α)) (U.u2y i i1) (oo_u2x i i1 w)
    (if oo_u2x i i1 w < 0 then -1 else 1)
    (E.sqrt (oo_u2x i i1 w * oo_u2x i i1 w + U.u2y i i1 * U.u2y i i1))
    (oo_u2x i i1 w) (U.u2y i i1) i w = s
  have r1 := set_object_position_row E (w.objects i 0 + ((oo_val U i i1 w).1 : α))
    (w.objects i 1 + ((oo_val U i i1 w).2 : α)) (U.u2y i i1) (oo_u2x i i1 w)
    (if oo_u2x i i1 w < 0 then -1 else 1)
    (E.sqrt (oo_u2x i i1 w * oo_u2x i i1 w + U.u2y i i1 * U.u2y i i1))
    (oo_u2x i i1 w) (U.u2y i i1) i w
  rw [hs] at r1
  have o1 : ∀ j, s.objects i1 j = w.objects i1 j := by
    intro j
    rw [← hs]
    exact set_object_position_other _ _ _ _ _ _ _ _ _ _ _ _ _ (fun h => hne h.symm)
  have r2 := set_object_position_row E (w.objects i1 0 - ((oo_val U i i1 w).1 : α))
    (w.objects i1 1 - ((oo_val U i i1 w).2 : α)) (oo_v2y i i1 w) (oo_v2x i i1 w)
    (if oo_v2x i i1 w < 0 then -1 else 1)
    (E.sqrt (oo_v2x i i1 w * oo_v2x i i1 w + oo_v2y i i1 w * oo_v2y i i1 w))
    (oo_v2x i i1 w) (oo_v2y i i1 w) i1 s
  have o2 : ∀ j, (set_object_position E (w.objects i1 0 - ((oo_val U i i1 w).1 : α))
      (w.objects i1 1 - ((oo_val U i i1 w).2 : α)) (oo_v2y i i1 w) (oo_v2x i i1 w)
      (if oo_v2x i i1 w < 0 then -1 else 1)
      (E.sqrt (oo_v2x i i1 w * oo_v2x i i1 w + oo_v2y i i1 w * oo_v2y i i1 w))
      (oo_v2x i i1 w) (oo_v2y i i1 w) i1 s).objects i j = s.objects i j :=
    fun j => set_object_position_other _ _ _ _ _ _ _ _ _ _ _ _ _ hne
  generalize set_object_position E (w.objects i1 0 - ((oo_val U i i1 w).1 : α))
    (w.objects i1 1 - ((oo_val U i i1 w).2 : α)) (oo_v2y i i1 w) (oo_v2x i i1 w)
    (if oo_v2x i i1 w < 0 then -1 else 1)
    (E.sqrt (oo_v2x i i1 w * oo_v2x i i1 w + oo_v2y i i1 w * oo_v2y i i1 w))
    (oo_v2x i i1 w) (oo_v2y i i1 w) i1 s = t at r2 o2
  have d1 : ((if oo_u2x i i1 w < 0 then (-1 : Int) else 1 : Int) : α)
      = if oo_u2x i i1 w < 0 then -1 else 1 := dir_cast _
  have d2 : ((if oo_v2x i i1 w < 0 then (-1 : Int) else 1 : Int) : α)
      = if oo_v2x i i1 w < 0 then -1 else 1 := dir_cast _
  have n1 : (if oo_u2x i i1 w < 0 then (-1 : Int) else 1) ≠ 0 := by
    split_ifs <;> decide
  have n2 : (if oo_v2x i i1 w < 0 then (-1 : Int) else 1) ≠ 0 := by
    split_ifs <;> decide
  refine ⟨⟨?_, ?_, ?_, ?_, ?_, ?_, ?_, ?_, ?_⟩, ⟨r2.2.2.2.1, r2.2.2.1, r2.2.2.2.2.2.2.1,
    r2.2.2.2.2.2.1, r2.2.2.2.2.1, r2.2.2.2.2.2.2.2.2.1, ?_, ?_, ?_⟩⟩
  · rw [o2]; exact r1.2.2.2.1
  · rw [o2]; exact r1.2.2.1
  · rw [o2]; exact r1.2.2.2.2.2.2.1
  · rw [o2]; exact r1.2.2.2.2.2.1
  · rw [o2]; exact r1.2.2.2.2.1
  · rw [o2]; exact r1.2.2.2.2.2.2.2.2.1
  · rw [o2, r1.2.2.2.2.2.2.2.2.2.1, if_pos n1, d1]
  · rw [o2]; exact r1.1
  · rw [o2]; exact r1.2.1
  · rw [r2.2.2.2.2.2.2.2.2.2.1, if_pos n2, d2]
  · rw [r2.1, o1]
  · rw [r2.2.1, o1, o1]

theorem polar_cos (clock : Nat → ℝ) (a b : ℝ) :
    (realEnv clock).sqrt (a * a + b * b) * (realEnv clock).cos ((realEnv clock).atan2 b a)
      = a := by
  show Real.sqrt (a * a + b * b) * Real.cos (Complex.arg ⟨a, b⟩) = a
  by_cases hz : (⟨a, b⟩ : ℂ) = 0
  · have ha : a = 0 := congrArg Complex.re hz
    have hb : b = 0 := congrArg Complex.im hz
    subst ha hb
    simp
  · have habs : Complex.abs ⟨a, b⟩ = Real.sqrt (a * a + b * b) := rfl
    have hne : Complex.abs ⟨a, b⟩ ≠ 0 := (map_ne_zero Complex.abs).mpr hz
    rw [Complex.cos_arg hz, habs]
    rw [habs] at hne
    show Real.sqrt (a * a + b * b) * (a / Real.sqrt (a * a + b * b)) = a
    field_simp

theorem polar_sin (clock : Nat → ℝ) (a b : ℝ) :
    (realEnv clock).sqrt (a * a + b * b) * (realEnv clock).sin ((realEnv clock).atan2 b a)
      = b := by
  show Real.sqrt (a * a + b * b) * Real.sin (Complex.arg ⟨a, b⟩) = b
  by_cases hz : (⟨a, b⟩ : ℂ) = 0
  · have ha : a = 0 := congrArg Complex.re hz
    have hb : b = 0 := congrArg Complex.im hz
    subst ha hb
    simp
  · have habs : Complex.abs ⟨a, b⟩ = Real.sqrt (a * a + b * b) := rfl
    have hne : Complex.abs ⟨a, b⟩ ≠ 0 := (map_ne_zero Complex.abs).mpr hz
    rw [Complex.sin_arg, habs]
    rw [habs] at hne
    show Real.sqrt (a * a + b * b) * (b / Real.sqrt (a * a + b * b)) = b
    field_simp

theorem distance_near (clock : Nat → ℝ) (a b c d r : ℝ) (hr : 0 ≤ r)
    (h : (c - a) * (c - a) + (d - b) * (d - b) ≤ r ^ 2) :
    distance (realEnv clock) a b c d ≤ r :=
  (Real.sqrt_le_left hr).mpr h

theorem draw_object_x (E : Env α) (i : Nat) (w : World α) (h : w.objects i 13 = 1) :
    (draw_object E i w).objects i 0
      = w.objects i 9
        + (w.objects i 11 * E.cos (w.objects i 12) * (E.glfwGetTime w.reads - w.objects i 8)
          * w.objects i 14) * 10 := by
  unfold draw_object
  rw [if_pos h]
  simp only []
  split_ifs <;> simp [set_obj, set2]

/-- Horizontal position of a body in motion after the position update of
`draw`, when its launch frame is the one written for the velocity `(wx, vy)`. -/
theorem relaunched_x (clock : Nat → ℝ) (j : Nat) (wx vy : ℝ) (v : World ℝ)
    (h : Relaunched (realEnv clock) j wx vy v) :
    (draw_object (realEnv clock) j v).objects j 0
      = v.objects j 9 + |wx| * (clock v.reads - v.objects j 8) * 10 := by
  obtain ⟨h11, h12, h14, h13⟩ := h
  rw [draw_object_x _ j v h13, h11, h12, h14, polar_cos clock wx vy]
  show v.objects j 9 + wx * (clock v.reads - v.objects j 8) * (if wx < 0 then -1 else 1) * 10
    = v.objects j 9 + |wx| * (clock v.reads - v.objects j 8) * 10
  split_ifs with hw
  · rw [abs_of_neg hw]
    ring
  · rw [abs_of_nonneg (not_lt.mp hw)]
    ring

theorem canon_object_response_vx (E : Env α) (U : Uninit α) (i : Nat) (w : World α) :
    (canon_object_response E U i w).canon_x_velocity
      = w.canon_y_velocity + w.objects i 5 / (2 * w.radius_of_canon) * w.objects i 3
        - w.objects i 5 / (2 * w.radius_of_canon)
          * ((w.e * (w.canon_y_velocity - w.objects i 3) + w.canon_y_velocity + w.objects i 3)
            / (1 + w.objects i 5 / (2 * w.radius_of_canon))) := by
  unfold canon_object_response
  simp only []
  rw [(canon_object_relaunch_canon E i _ _ _).1]
  rfl

theorem overlap_world_touch (clock : Nat → ℝ) :
    Touch (realEnv clock) 0 1 (overlap_world : World ℝ) := by
  have e00 : (overlap_world : World ℝ).objects 0 0 = 400 := rfl
  have e01 : (overlap_world : World ℝ).objects 0 1 = 100 := rfl
  have e05 : (overlap_world : World ℝ).objects 0 5 = 30 / 2 := rfl
  have e10 : (overlap_world : World ℝ).objects 1 0 = 410 := rfl
  have e11 : (overlap_world : World ℝ).objects 1 1 = 110 := rfl
  have e15 : (overlap_world : World ℝ).objects 1 5 = 30 / 2 := rfl
  unfold Touch
  rw [e00, e01, e05, e10, e11, e15]
  exact distance_near _ _ _ _ _ _ (by norm_num) (by norm_num)

/-- C22. In both body-body responses of `checkcollision` the value `u2x` finally
holds, which is the `x` velocity the first body (the projectile, or free body
`i`) is re-launched with, is the `y`-axis expression `u1y + m*v1y - m*v2y` with
`v2y = (e*(u1y - v1y) + u1y + v1y) / (1 + m)`: it reads only the two bodies'
`y` velocities before the contact, and changing the `x` velocity of either body
before the contact does not change it. -/
theorem C22_u2x_is_y_axis (E : Env α) (U : Uninit α) (i i1 : Nat) (w : World α)
    (hne : i ≠ i1) (hd : Touch E i i1 w) :
    (canon_object_response E U i w).canon_x_velocity
      = w.canon_y_velocity + w.objects i 5 / (2 * w.radius_of_canon) * w.objects i 3
        - w.objects i 5 / (2 * w.radius_of_canon)
          * ((w.e * (w.canon_y_velocity - w.objects i 3) + w.canon_y_velocity + w.objects i 3)
            / (1 + w.objects i 5 / (2 * w.radius_of_canon)))
    ∧ (∀ a b : α,
        (canon_object_response E U i
          (set_obj i 2 b { w with canon_x_velocity := a })).canon_x_velocity
        = (canon_object_response E U i w).canon_x_velocity)
    ∧ (object_object_contact E U i i1 w).objects i 2
      = w.objects i 3 + w.objects i1 5 / w.objects i 5 * w.objects i1 3
        - w.objects i1 5 / w.objects i 5
          * ((w.e * (w.objects i 3 - w.objects i1 3) + w.objects i 3 + w.objects i1 3)
            / (1 + w.objects i1 5 / w.objects i 5))
    ∧ (∀ a b : α,
        (object_object_contact E U i i1 (set_obj i1 2 b (set_obj i 2 a w))).objects i 2
        = (object_object_contact E U i i1 w).objects i 2) := by
  refine ⟨canon_object_response_vx E U i w, fun a b => ?_,
    (object_object_contact_rows E U i i1 w hne hd).1.1, fun a b => ?_⟩
  · rw [canon_object_response_vx, canon_object_response_vx]
    simp [set_obj, set2_apply]
  · have hd2 : Touch E i i1 (set_obj i1 2 b (set_obj i 2 a w)) := by
      unfold Touch at hd ⊢
      simpa [set_obj, set2_apply] using hd
    rw [(object_object_contact_rows E U i i1 _ hne hd2).1.1,
      (object_object_contact_rows E U i i1 w hne hd).1.1]
    unfold oo_u2x oo_v2y oo_m
    simp [set_obj, set2_apply]

/-- Witness of C22: free bodies 0 and 1 of `overlap_world` are in contact. -/
theorem C22_u2x_is_y_axis_witness :
    (0 : Nat) ≠ 1 ∧ Touch E0 0 1 (overlap_world : World ℝ)
    ∧ (∀ a b : ℝ,
        (object_object_contact E0 (zeroUninit ℝ) 0 1
          (set_obj 1 2 b (set_obj 0 2 a overlap_world))).objects 0 2
        = (object_object_contact E0 (zeroUninit ℝ) 0 1 overlap_world).objects 0 2) :=
  ⟨by decide, overlap_world_touch _,
    (C22_u2x_is_y_axis E0 (zeroUninit ℝ) 0 1 overlap_world (by decide)
      (overlap_world_touch _)).2.2.2⟩

/-- C29. After a contact of two free bodies, each mobile body has the launch
frame `set_object_position` writes for its resulting velocity `(wx, vy)` (angle
`atan2 (vy, wx)`, speed `sqrt (wx^2 + vy^2)`, direction `-1` when `wx < 0` and
`+1` otherwise); and for every body in motion with such a launch frame the
position update of `draw` gives the horizontal displacement
`x - launchX = |wx| * t * 10` at elapsed time `t`, so for `t ≥ 0` the body is
not left of its launch `x`, whatever the sign of `wx`. -/
theorem C29_relaunch_moves_right (clock : Nat → ℝ) (U : Uninit ℝ) (i i1 : Nat) (w : World ℝ)
    (hne : i ≠ i1) (hd : Touch (realEnv clock) i i1 w) (hm : w.objects i 15 = 1)
    (hm1 : w.objects i1 15 = 1) :
    Relaunched (realEnv clock) i
        ((object_object_contact (realEnv clock) U i i1 w).objects i 2)
        ((object_object_contact (realEnv clock) U i i1 w).objects i 3)
        (object_object_contact (realEnv clock) U i i1 w)
    ∧ Relaunched (realEnv clock) i1
        ((object_object_contact (realEnv clock) U i i1 w).objects i1 2)
        ((object_object_contact (realEnv clock) U i i1 w).objects i1 3)
        (object_object_contact (realEnv clock) U i i1 w)
    ∧ (∀ (j : Nat) (wx vy : ℝ) (v : World ℝ), Relaunched (realEnv clock) j wx vy v →
        (draw_object (realEnv clock) j v).objects j 0
            = v.objects j 9 + |wx| * (clock v.reads - v.objects j 8) * 10
        ∧ (0 ≤ clock v.reads - v.objects j 8 →
            v.objects j 9 ≤ (draw_object (realEnv clock) j v).objects j 0)) := by
  have r := object_object_contact_rows (realEnv clock) U i i1 w hne hd
  refine ⟨?_, ?_, fun j wx vy v hv => ?_⟩
  · unfold Relaunched
    rw [r.1.1, r.1.2.1]
    refine ⟨r.1.2.2.2.2.1, r.1.2.2.2.2.2.1, r.1.2.2.2.2.2.2.1, ?_⟩
    rw [r.1.2.2.2.2.2.2.2.2, if_pos hm]
  · unfold Relaunched
    rw [r.2.1, r.2.2.1]
    refine ⟨r.2.2.2.2.2.1, r.2.2.2.2.2.2.1, r.2.2.2.2.2.2.2.1, ?_⟩
    rw [r.2.2.2.2.2.2.2.2.2, if_pos hm1]
  · have hx := relaunched_x clock j wx vy v hv
    refine ⟨hx, fun ht => ?_⟩
    rw [hx]
    have : 0 ≤ |wx| * (clock v.reads - v.objects j 8) * 10 := by positivity
    linarith

/-- Witness of C29: in `overlap_world` free body 0 (velocity `(2, -3)`) touches
the resting free body 1; it is re-launched with `x` velocity `-0.75`, and its
displacement in the next position update is `|-0.75| * t * 10`. -/
theorem C29_relaunch_moves_right_witness :
    (0 : Nat) ≠ 1 ∧ Touch E0 0 1 (overlap_world : World ℝ)
    ∧ (overlap_world : World ℝ).objects 0 15 = 1 ∧ (overlap_world : World ℝ).objects 1 15 = 1
    ∧ (object_object_contact E0 (zeroUninit ℝ) 0 1 overlap_world).objects 0 2 = -0.75
    ∧ (draw_object E0 0 (object_object_contact E0 (zeroUninit ℝ) 0 1 overlap_world)).objects 0 0
      = (object_object_contact E0 (zeroUninit ℝ) 0 1 overlap_world).objects 0 9
        + |(-0.75 : ℝ)|
          * (E0.glfwGetTime (object_object_contact E0 (zeroUninit ℝ) 0 1 overlap_world).reads
            - (object_object_contact E0 (zeroUninit ℝ) 0 1 overlap_world).objects 0 8) * 10 := by
  have h := C29_relaunch_moves_right (fun k => (k : ℝ)) (zeroUninit ℝ) 0 1 overlap_world
    (by decide) (overlap_world_touch _) rfl rfl
  have hv : (object_object_contact E0 (zeroUninit ℝ) 0 1 overlap_world).objects 0 2 = -0.75 := by
    rw [(object_object_contact_rows E0 (zeroUninit ℝ) 0 1 overlap_world (by decide)
      (overlap_world_touch _)).1.1]
    have e03 : (overlap_world : World ℝ).objects 0 3 = -3 := rfl
    have e13 : (overlap_world : World ℝ).objects 1 3 = 0 := rfl
    have e05 : (overlap_world : World ℝ).objects 0 5 = 30 / 2 := rfl
    have e15 : (overlap_world : World ℝ).objects 1 5 = 30 / 2 := rfl
    have ee : (overlap_world : World ℝ).e = 0.5 := rfl
    unfold oo_u2x oo_v2y oo_m
    rw [e03, e13, e05, e15, ee]
    norm_num
  have hx := (h.2.2 0 _ _ _ h.1).1
  have hv2 : (object_object_contact (realEnv (fun k => (k : ℝ))) (zeroUninit ℝ) 0 1
      overlap_world).objects 0 2 = -0.75 := hv
  rw [hv2] at hx
  exact ⟨by decide, overlap_world_touch _, rfl, rfl, hv, hx⟩

theorem quadrant_same (x y ox oy : α) (jx jy : Int) (h : x = ox ∨ y = oy) :
    quadrant x y ox oy jx jy = (jx, jy) := by
  unfold quadrant
  rcases h with h | h
  · subst h
    simp
  · subst h
    simp

theorem canon_object_relaunch_position (E : Env α) (i : Nat) (a b : α) (w : World α) :
    (canon_object_relaunch E i a b w).canon_x_position = w.canon_x_position
    ∧ (canon_object_relaunch E i a b w).canon_y_position = w.canon_y_position := by
  unfold canon_object_relaunch
  simp only []
  split_ifs <;> simp [set_obj, set_object_position]

theorem canon_object_response_position (E : Env α) (U : Uninit α) (i : Nat) (w : World α) :
    (canon_object_response E U i w).canon_x_position
      = w.canon_x_position
        + ((quadrant w.canon_x_position w.canon_y_position (w.objects i 0) (w.objects i 1)
            (U.c_valx i) (U.c_valy i)).1 : α)
    ∧ (canon_object_response E U i w).canon_y_position
      = w.canon_y_position
        + ((quadrant w.canon_x_position w.canon_y_position (w.objects i 0) (w.objects i 1)
            (U.c_valx i) (U.c_valy i)).2 : α) := by
  unfold canon_object_response
  simp only []
  rw [(canon_object_relaunch_position E i _ _ _).1, (canon_object_relaunch_position E i _ _ _).2]
  exact ⟨rfl, rfl⟩

/-- C26 (the code departs from the claim). In `contact_world` the projectile is
in contact with free body 0 and has the same `x` and the same `y` as the body.
No branch of the quadrant test holds, so `valx` and `valy` are never assigned:
the projectile is re-launched from `(400 + valx, 100 + valy)` with the
indeterminate contents of the two locals, not from `(400 - 4, 100 - 4)`; with
contents 0 it is re-launched from `(400, 100)`. -/
theorem C26_equal_coordinates_unassigned (U : Uninit ℝ) :
    (contact_world : World ℝ).canon_x_position = (contact_world : World ℝ).objects 0 0
    ∧ (contact_world : World ℝ).canon_y_position = (contact_world : World ℝ).objects 0 1
    ∧ (canon_object_contact E0 U 0 contact_world).canon_x_position = 400 + ((U.c_valx 0 : Int) : ℝ)
    ∧ (canon_object_contact E0 U 0 contact_world).canon_y_position = 100 + ((U.c_valy 0 : Int) : ℝ)
    ∧ (canon_object_contact E0 (zeroUninit ℝ) 0 contact_world).canon_x_position = 400
    ∧ (canon_object_contact E0 (zeroUninit ℝ) 0 contact_world).canon_x_position ≠ 400 - 4
    ∧ (canon_object_contact E0 (zeroUninit ℝ) 0 contact_world).canon_y_position ≠ 100 - 4 := by
  have hx : (contact_world : World ℝ).canon_x_position = 400 := rfl
  have hy : (contact_world : World ℝ).canon_y_position = 100 := rfl
  have h0 : (contact_world : World ℝ).objects 0 0 = 400 := rfl
  have h1 : (contact_world : World ℝ).objects 0 1 = 100 := rfl
  have key : ∀ V : Uninit ℝ,
      (canon_object_contact E0 V 0 contact_world).canon_x_position = 400 + ((V.c_valx 0 : Int) : ℝ)
      ∧ (canon_object_contact E0 V 0 contact_world).canon_y_position
        = 100 + ((V.c_valy 0 : Int) : ℝ) := by
    intro V
    have hp := canon_object_response_position E0 V 0 contact_world
    rw [quadrant_same _ _ _ _ _ _ (Or.inl (hx.trans h0.symm)), hx, hy] at hp
    rw [contact_world_fires]
    exact hp
  have hz := key (zeroUninit ℝ)
  have z1 : (((zeroUninit ℝ).c_valx 0 : Int) : ℝ) = 0 := by
    show ((0 : Int) : ℝ) = 0
    norm_num
  have z2 : (((zeroUninit ℝ).c_valy 0 : Int) : ℝ) = 0 := by
    show ((0 : Int) : ℝ) = 0
    norm_num
  rw [z1, z2] at hz
  refine ⟨hx.trans h0.symm, hy.trans h1.symm, (key U).1, (key U).2, ?_, ?_, ?_⟩
  · rw [hz.1]
    norm_num
  · rw [hz.1]
    norm_num
  · rw [hz.2]
    norm_num

/-! ### Two overlapping free bodies -/

theorem pair_of_near (E : Env α) (a b : Nat) {w s : World α} (h : Near w s)
    (hp : PairOnly E a b w) : PairOnly E a b s := by
  obtain ⟨⟨⟨hpar, _, ho⟩, hf⟩, hx, hy⟩ := h
  have h0 : ∀ j, s.objects j 0 = w.objects j 0 := fun j => (hf j).1
  have h1 : ∀ j, s.objects j 1 = w.objects j 1 := fun j => (hf j).2.1
  have h5 : ∀ j, s.objects j 5 = w.objects j 5 := fun j => (hf j).2.2.1
  have hr : s.radius_of_canon = w.radius_of_canon := hpar.2.2.1
  have hfx : s.fixe = w.fixe := hpar.2.2.2.2.2.2.2.2
  unfold PairOnly CanonQuiet Touch ObstacleQuiet at hp ⊢
  simp only [h0, h1, h5, hr, hfx, hx, hy, ho]
  exact hp

theorem Counted.refl_counted (a b : Nat) (w : World α) : Counted a b 0 w w :=
  ⟨Near.refl_near w, by simp, by simp⟩

theorem Counted.trans_counted {a b n m : Nat} {u v w : World α} (h1 : Counted a b n u v)
    (h2 : Counted a b m v w) : Counted a b (n + m) u w := by
  refine ⟨h1.1.trans_near h2.1, ?_, ?_⟩
  · rw [h2.2.1, h1.2.1]
    push_cast
    ring
  · rw [h2.2.2, h1.2.2]
    push_cast
    ring

theorem pair_hits_total (a b : Nat) (ha : a < no_of_objects) (hb : b < no_of_objects)
    (hab : a ≠ b) :
    (pair_hits a b 0 0 + pair_hits a b 0 1 + pair_hits a b 0 2)
      + (pair_hits a b 1 0 + pair_hits a b 1 1 + pair_hits a b 1 2)
      + (pair_hits a b 2 0 + pair_hits a b 2 1 + pair_hits a b 2 2) = 2 := by
  unfold no_of_objects at ha hb
  interval_cases a <;> interval_cases b <;>
    first
    | exact absurd rfl hab
    | rfl

theorem pair_step (E : Env α) (U : Uninit α) (a b j i1 : Nat) (s : World α) (hab : a ≠ b)
    (hj : j < no_of_objects) (hi1 : i1 < no_of_objects) (hp : PairOnly E a b s) :
    Counted a b (pair_hits a b j i1) s (object_object_contact E U j i1 s) := by
  obtain ⟨_, _, tab, tba, hfar⟩ := hp
  unfold pair_hits
  by_cases hc : (j = a ∧ i1 = b) ∨ (j = b ∧ i1 = a)
  · rw [if_pos hc]
    have hne : j ≠ i1 := by
      rcases hc with ⟨h1, h2⟩ | ⟨h1, h2⟩
      · rw [h1, h2]
        exact hab
      · rw [h1, h2]
        exact fun h => hab h.symm
    have ht : Touch E j i1 s := by
      rcases hc with ⟨h1, h2⟩ | ⟨h1, h2⟩
      · rw [h1, h2]
        exact tab
      · rw [h1, h2]
        exact tba
    have r := object_object_contact_rows E U j i1 s hne ht
    have hn : Near s (object_object_contact E U j i1 s) := by
      rw [object_object_contact_eq E U j i1 s hne ht]
      exact (set_object_position_near ..).trans_near (set_object_position_near ..)
    rcases hc with ⟨h1, h2⟩ | ⟨h1, h2⟩
    · subst h1 h2
      exact ⟨hn, by rw [r.1.2.2.2.2.2.2.2.1]; simp, by rw [r.2.2.2.2.2.2.2.2.1]; simp⟩
    · subst h1 h2
      exact ⟨hn, by rw [r.2.2.2.2.2.2.2.2.1]; simp, by rw [r.1.2.2.2.2.2.2.2.1]; simp⟩
  · rw [if_neg hc]
    have hid : object_object_contact E U j i1 s = s := by
      unfold object_object_contact
      simp only []
      by_cases hne : j ≠ i1
      · have hnt := hfar j i1 hj hi1 hne hc
        unfold Touch at hnt
        rw [if_pos hne, if_neg hnt]
      · rw [if_neg hne]
    rw [hid]
    exact Counted.refl_counted a b s

theorem canon_walls_idle (E : Env α) (w : World α) (hq : CanonQuiet E w) :
    canon_walls E w = w := by
  unfold CanonQuiet at hq
  have h1 : ∀ v, canon_wall_right E v w = w := by
    intro v
    unfold canon_wall_right
    rw [if_neg hq.1]
  have h2 : ∀ v, canon_wall_top E v w = w := by
    intro v
    unfold canon_wall_top
    rw [if_neg hq.2.1]
  have h3 : ∀ v, canon_wall_ground E v w = w := by
    intro v
    unfold canon_wall_ground
    rw [if_neg hq.2.2.1]
  have h4 : ∀ v, canon_wall_left E v w = w := by
    intro v
    unfold canon_wall_left
    rw [if_neg hq.2.2.2.1]
  unfold canon_walls
  simp only []
  rw [h1, h2, h3, h4]

theorem canon_object_contact_idle (E : Env α) (U : Uninit α) (j : Nat) (w : World α)
    (hj : j < no_of_objects) (hq : CanonQuiet E w) : canon_object_contact E U j w = w := by
  unfold CanonQuiet at hq
  unfold canon_object_contact
  simp only []
  rw [if_neg (fun h => hq.2.2.2.2 j hj h.1)]

theorem object_walls_idle (E : Env α) (i : Nat) (w : World α)
    (hr : ¬ (w.objects i 0 ≥ 1350 - 15)) (ht : ¬ (w.objects i 1 ≥ 650 - 15))
    (hg : ¬ (w.objects i 1 < 50)) (hl : ¬ (w.objects i 0 ≤ 11 + 15)) :
    object_walls E i w = w := by
  have h1 : ∀ v, object_wall_right E v i w = w := by
    intro v
    unfold object_wall_right
    rw [if_neg hr]
  have h2 : ∀ v, object_wall_top E v i w = w := by
    intro v
    unfold object_wall_top
    rw [if_neg ht]
  have h3 : ∀ v, object_wall_ground E v i w = w := by
    intro v
    unfold object_wall_ground
    rw [if_neg hg]
  have h4 : ∀ v, object_wall_left E v i w = w := by
    intro v
    unfold object_wall_left
    rw [if_neg hl]
  unfold object_walls
  simp only []
  rw [h1, h2, h3, h4]

/-- The iteration of the loop over the free bodies for body `j`, when `a` and
`b` are the only two bodies in contact. -/
theorem pair_body (E : Env α) (U : Uninit α) (a b j : Nat) (s : World α) (hab : a ≠ b)
    (hj : j < no_of_objects) (hp : PairOnly E a b s) :
    Counted a b (pair_hits a b j 0 + pair_hits a b j 1 + pair_hits a b j 2) s
      (object_loop_body E U j s) := by
  unfold object_loop_body
  simp only []
  rw [canon_object_contact_idle E U j s hj hp.1,
    object_walls_idle E j s (hp.2.1 j hj).1 (hp.2.1 j hj).2.1 (hp.2.1 j hj).2.2.1
      (hp.2.1 j hj).2.2.2.1]
  have c0 := pair_step E U a b j 0 s hab hj (by decide) hp
  have p0 := pair_of_near E a b c0.1 hp
  have c1 := pair_step E U a b j 1 _ hab hj (by decide) p0
  have p1 := pair_of_near E a b c1.1 p0
  have c2 := pair_step E U a b j 2 _ hab hj (by decide) p1
  have p2 := pair_of_near E a b c2.1 p1
  have hl : forLoop 0 no_of_objects (fun i1 s => object_object_contact E U j i1 s) s
      = object_object_contact E U j 2 (object_object_contact E U j 1
          (object_object_contact E U j 0 s)) := rfl
  rw [hl, forLoop_fixed 6 9 _ _
    (fun i1 h6 h9 => object_obstacle_quiet E j i1 _ ((p2.2.1 j hj).2.2.2.2 i1 h6 h9))]
  exact (c0.trans_counted c1).trans_counted c2

/-- A `checkcollision` pass over a state in which free bodies `a` and `b`
overlap and nothing else is in contact raises the collision count of each of
the two by 2: the pair is resolved in the iteration of each of the two bodies,
and each resolution re-launches both. -/
theorem checkcollision_pair_count (E : Env α) (U : Uninit α) (a b : Nat) (w : World α)
    (ha : a < no_of_objects) (hb : b < no_of_objects) (hab : a ≠ b) (hp : PairOnly E a b w) :
    (checkcollision E U w).objects a 16 = w.objects a 16 + 2
    ∧ (checkcollision E U w).objects b 16 = w.objects b 16 + 2 := by
  unfold checkcollision
  simp only []
  rw [tail_objects, canon_walls_idle E w hp.1]
  have c0 := pair_body E U a b 0 w hab (by decide) hp
  have p0 := pair_of_near E a b c0.1 hp
  have c1 := pair_body E U a b 1 _ hab (by decide) p0
  have p1 := pair_of_near E a b c1.1 p0
  have c2 := pair_body E U a b 2 _ hab (by decide) p1
  have hl : forLoop 0 no_of_objects (fun i s => object_loop_body E U i s) w
      = object_loop_body E U 2 (object_loop_body E U 1 (object_loop_body E U 0 w)) := rfl
  rw [hl]
  have c := (c0.trans_counted c1).trans_counted c2
  rw [pair_hits_total a b ha hb hab] at c
  refine ⟨c.2.1.trans ?_, c.2.2.trans ?_⟩ <;> norm_num

/-- In `overlap_world` free bodies 0 and 1 overlap and nothing else is in
contact. -/
theorem overlap_world_pair (clock : Nat → ℝ) :
    PairOnly (realEnv clock) 0 1 (overlap_world : World ℝ) := by
  have cx : (overlap_world : World ℝ).canon_x_position = 0 := rfl
  have cy : (overlap_world : World ℝ).canon_y_position = 51 := rfl
  have cr : (overlap_world : World ℝ).radius_of_canon = 10 := rfl
  have co : (overlap_world : World ℝ).canon_out = 0 := rfl
  have e00 : (overlap_world : World ℝ).objects 0 0 = 400 := rfl
  have e01 : (overlap_world : World ℝ).objects 0 1 = 100 := rfl
  have e05 : (overlap_world : World ℝ).objects 0 5 = 30 / 2 := rfl
  have e10 : (overlap_world : World ℝ).objects 1 0 = 410 := rfl
  have e11 : (overlap_world : World ℝ).objects 1 1 = 110 := rfl
  have e15 : (overlap_world : World ℝ).objects 1 5 = 30 / 2 := rfl
  have e20 : (overlap_world : World ℝ).objects 2 0 = 1000 := rfl
  have e21 : (overlap_world : World ℝ).objects 2 1 = 200 := rfl
  have e25 : (overlap_world : World ℝ).objects 2 5 = 30 / 2 := rfl
  have hf : (overlap_world : World ℝ).fixe = (initial_world : World ℝ).fixe := rfl
  obtain ⟨f60, f61, f62, f63, f70, f71, f72, f73, f80, f81, f82, f83⟩ := layout_fixe_low
  refine ⟨?_, fun j hj => ?_, ?_, ?_, fun i j hi hj hij hc => ?_⟩
  · unfold CanonQuiet
    rw [cx, cy, cr, co]
    refine ⟨by norm_num, by norm_num, by norm_num, fun h => absurd h.2 (by decide), ?_⟩
    intro j hj
    unfold no_of_objects at hj
    interval_cases j
    · rw [e00, e01, e05]
      exact distance_far _ _ _ _ _ _ (by norm_num)
    · rw [e10, e11, e15]
      exact distance_far _ _ _ _ _ _ (by norm_num)
    · rw [e20, e21, e25]
      exact distance_far _ _ _ _ _ _ (by norm_num)
  · unfold no_of_objects at hj
    unfold ObstacleQuiet
    rw [hf]
    interval_cases j
    · rw [e00, e01, e05]
      refine ⟨by norm_num, by norm_num, by norm_num, by norm_num, fun i1 h6 h9 => ?_⟩
      interval_cases i1 <;>
        simp only [f60, f61, f62, f63, f70, f71, f72, f73, f80, f81, f82, f83] <;> norm_num
    · rw [e10, e11, e15]
      refine ⟨by norm_num, by norm_num, by norm_num, by norm_num, fun i1 h6 h9 => ?_⟩
      interval_cases i1 <;>
        simp only [f60, f61, f62, f63, f70, f71, f72, f73, f80, f81, f82, f83] <;> norm_num
    · rw [e20, e21, e25]
      refine ⟨by norm_num, by norm_num, by norm_num, by norm_num, fun i1 h6 h9 => ?_⟩
      interval_cases i1 <;>
        simp only [f60, f61, f62, f63, f70, f71, f72, f73, f80, f81, f82, f83] <;> norm_num
  · exact overlap_world_touch clock
  · unfold Touch
    rw [e00, e01, e05, e10, e11, e15]
    exact distance_near _ _ _ _ _ _ (by norm_num) (by norm_num)
  · unfold no_of_objects at hi hj
    unfold Touch
    interval_cases i <;> interval_cases j <;>
      first
      | exact absurd rfl hij
      | (exfalso
         revert hc
         decide)
      | (simp only [e00, e01, e05, e10, e11, e15, e20, e21, e25]
         exact distance_far _ _ _ _ _ _ (by norm_num))

/-- C23 counterexample. In `overlap_world` exactly two free bodies, 0 and 1,
overlap and nothing else is in contact; one `checkcollision` pass raises the
collision count of body 0 from 0 to 2, and that of body 1 from 0 to 2, not
to 1. -/
theorem C23_pair_counted_twice :
    PairOnly E0 0 1 (overlap_world : World ℝ)
    ∧ (overlap_world : World ℝ).objects 0 16 = 0
    ∧ (overlap_world : World ℝ).objects 1 16 = 0
    ∧ (checkcollision E0 (zeroUninit ℝ) overlap_world).objects 0 16 = 2
    ∧ (checkcollision E0 (zeroUninit ℝ) overlap_world).objects 1 16 = 2
    ∧ (checkcollision E0 (zeroUninit ℝ) overlap_world).objects 0 16
      ≠ (overlap_world : World ℝ).objects 0 16 + 1
    ∧ (checkcollision E0 (zeroUninit ℝ) overlap_world).objects 1 16
      ≠ (overlap_world : World ℝ).objects 1 16 + 1 := by
  have h := checkcollision_pair_count E0 (zeroUninit ℝ) 0 1 overlap_world (by decide)
    (by decide) (by decide) (overlap_world_pair _)
  have e0 : (overlap_world : World ℝ).objects 0 16 = 0 := rfl
  have e1 : (overlap_world : World ℝ).objects 1 16 = 0 := rfl
  rw [e0, e1] at h
  refine ⟨overlap_world_pair _, e0, e1, h.1.trans (by norm_num), h.2.trans (by norm_num),
    ?_, ?_⟩
  · rw [h.1, e0]
    norm_num
  · rw [h.2, e1]
    norm_num

/-- C23, amended. When exactly two free bodies `a` and `b` overlap (distance
between centres at most the sum of their radii) and nothing else is in contact,
one `checkcollision` pass counts the contact twice for each body, once in the
iteration of `a` and once in the iteration of `b`: the collision count of each
of the two bodies increases by exactly 2. -/
theorem C23_pair_count (E : Env α) (U : Uninit α) (a b : Nat) (w : World α)
    (ha : a < no_of_objects) (hb : b < no_of_objects) (hab : a ≠ b) (hp : PairOnly E a b w) :
    (checkcollision E U w).objects a 16 = w.objects a 16 + 2
    ∧ (checkcollision E U w).objects b 16 = w.objects b 16 + 2 :=
  checkcollision_pair_count E U a b w ha hb hab hp

/-- Witness of C23 (amended): free bodies 0 and 1 of `overlap_world`. -/
theorem C23_pair_count_witness :
    0 < no_of_objects ∧ 1 < no_of_objects ∧ (0 : Nat) ≠ 1
    ∧ PairOnly E0 0 1 (overlap_world : World ℝ)
    ∧ (checkcollision E0 (zeroUninit ℝ) overlap_world).objects 0 16
      = (overlap_world : World ℝ).objects 0 16 + 2
    ∧ (checkcollision E0 (zeroUninit ℝ) overlap_world).objects 1 16
      = (overlap_world : World ℝ).objects 1 16 + 2 :=
  ⟨by decide, by decide, by decide, overlap_world_pair _,
    (C23_pair_count E0 (zeroUninit ℝ) 0 1 overlap_world (by decide) (by decide) (by decide)
      (overlap_world_pair _)).1,
    (C23_pair_count E0 (zeroUninit ℝ) 0 1 overlap_world (by decide) (by decide) (by decide)
      (overlap_world_pair _)).2⟩

/-! ### Free bodies and obstacles -/

/-- A `checkcollision` pass leaves every field of a free body that is in no
contact at all as it is. -/
theorem checkcollision_row_quiet (E : Env α) (U : Uninit α) (w : World α) (i : Nat)
    (hi : i < no_of_objects) (hq : Quiet E i w) (ht : ¬ (w.objects i 1 ≥ 650 - 15))
    (hg : ¬ (w.objects i 1 < 50)) : (checkcollision E U w).objects i = w.objects i := by
  unfold checkcollision
  simp only []
  rw [tail_objects, canon_walls_quiet E i w hq,
    forLoop_split_three (fun i s => object_loop_body E U i s) w i hi]
  have hpre := forLoop_rel_lt (fun a b => Quiet E i a → Keep i a b) (qk_refl E i) (qk_trans E i)
    0 i (fun j s => object_loop_body E U j s)
    (fun j _ hj s hs => object_loop_body_qk E U i j s (lt_trans hj hi) (ne_of_lt hj) hs) w hq
  generalize forLoop 0 i (fun j s => object_loop_body E U j s) w = a at hpre ⊢
  have hqa := quiet_of_near E i hpre.1 hq
  have hmid : object_loop_body E U i a = a :=
    object_loop_body_calm E U i a hi hqa (by rw [hpre.2]; exact ht) (by rw [hpre.2]; exact hg)
  rw [hmid]
  have hpost := forLoop_rel_lt (fun a b => Quiet E i a → Keep i a b) (qk_refl E i)
    (qk_trans E i) (i + 1) no_of_objects (fun j s => object_loop_body E U j s)
    (fun j hj hj3 s hs => object_loop_body_qk E U i j s hj3
      (fun h => by omega) hs) a hqa
  rw [hpost.2, hpre.2]

/-- In `perched_world` free body 0 passes none of the tests of `checkcollision`. -/
theorem perched_world_quiet (clock : Nat → ℝ) :
    Quiet (realEnv clock) 0 (perched_world : World ℝ)
    ∧ ¬ ((perched_world : World ℝ).objects 0 1 ≥ 650 - 15)
    ∧ ¬ ((perched_world : World ℝ).objects 0 1 < 50) := by
  have cx : (perched_world : World ℝ).canon_x_position = 0 := rfl
  have cy : (perched_world : World ℝ).canon_y_position = 51 := rfl
  have cr : (perched_world : World ℝ).radius_of_canon = 10 := rfl
  have co : (perched_world : World ℝ).canon_out = 0 := rfl
  have e00 : (perched_world : World ℝ).objects 0 0 = 350 := rfl
  have e01 : (perched_world : World ℝ).objects 0 1 = 447 := rfl
  have e05 : (perched_world : World ℝ).objects 0 5 = 30 / 2 := rfl
  have e10 : (perched_world : World ℝ).objects 1 0 = 1200 := rfl
  have e11 : (perched_world : World ℝ).objects 1 1 = 150 := rfl
  have e15 : (perched_world : World ℝ).objects 1 5 = 30 / 2 := rfl
  have e20 : (perched_world : World ℝ).objects 2 0 = 1000 := rfl
  have e21 : (perched_world : World ℝ).objects 2 1 = 200 := rfl
  have e25 : (perched_world : World ℝ).objects 2 5 = 30 / 2 := rfl
  have hf : (perched_world : World ℝ).fixe = (initial_world : World ℝ).fixe := rfl
  obtain ⟨f60, f61, f62, f63, f70, f71, f72, f73, f80, f81, f82, f83⟩ := layout_fixe_low
  unfold Quiet
  rw [cx, cy, cr, co, e00, e01, e05]
  refine ⟨⟨by norm_num, by norm_num, by norm_num, fun h => absurd h.2 (by decide), ?_,
    by norm_num, by norm_num, ?_, ?_⟩, by norm_num, by norm_num⟩
  · intro j hj
    unfold no_of_objects at hj
    interval_cases j
    · rw [e00, e01, e05]
      exact distance_far _ _ _ _ _ _ (by norm_num)
    · rw [e10, e11, e15]
      exact distance_far _ _ _ _ _ _ (by norm_num)
    · rw [e20, e21, e25]
      exact distance_far _ _ _ _ _ _ (by norm_num)
  · intro j hj hj0
    unfold no_of_objects at hj
    interval_cases j
    · exact absurd rfl hj0
    · rw [e10, e11, e15]
      exact ⟨distance_far _ _ _ _ _ _ (by norm_num), distance_far _ _ _ _ _ _ (by norm_num)⟩
    · rw [e20, e21, e25]
      exact ⟨distance_far _ _ _ _ _ _ (by norm_num), distance_far _ _ _ _ _ _ (by norm_num)⟩
  · intro i1 h6 h9
    unfold ObstacleQuiet
    rw [hf, e00, e01, e05]
    interval_cases i1 <;>
      simp only [f60, f61, f62, f63, f70, f71, f72, f73, f80, f81, f82, f83] <;> norm_num

/-! ### Launch frame of the projectile after a response -/

theorem draw_object_row_other (E : Env α) (i j : Nat) (w : World α) (h : i ≠ j) :
    (draw_object E j w).objects i = w.objects i := by
  funext k
  unfold draw_object
  simp only []
  split_ifs <;> simp [set_obj, set2_apply, h]

/-- The `objects` row of free body `i` after `draw` is the one its position
update leaves. -/
theorem draw_row (E : Env α) (w : World α) (i : Nat) (hi : i < no_of_objects) :
    (draw E w).objects i = (draw_object E i (draw_to_object E i w)).objects i := by
  have h1 : (draw E w).objects = (draw_mid E (draw_air E w)).objects := by
    rw [draw_eq_update, draw_cap_objects, draw_canon_update_objects]
    unfold draw_to_update
    rw [draw_launch_objects]
  rw [h1]
  unfold draw_mid draw_to_object
  rw [forLoop_split_three _ _ i hi]
  exact forLoop_rel_lt (fun (a b : World α) => b.objects i = a.objects i) (fun _ => rfl)
    (fun _ _ _ h1 h2 => h2.trans h1) (i + 1) no_of_objects _
    (fun j hj _ s => draw_object_row_other E i j s (by omega)) _

theorem settle_step (i : Nat) (v : World α) (h : v.objects i 13 = 1) :
    ((if v.objects i 1 < 51 ∧ v.objects i 2 = 0 then set_obj i 13 0 v else v).objects i 1
      = v.objects i 1)
    ∧ ((if v.objects i 1 < 51 ∧ v.objects i 2 = 0 then set_obj i 13 0 v else v).objects i 2
      = v.objects i 2)
    ∧ ((if v.objects i 1 < 51 ∧ v.objects i 2 = 0 then set_obj i 13 0 v else v).objects i 13 = 0
      ↔ (v.objects i 1 < 51 ∧ v.objects i 2 = 0))
    ∧ (¬ (v.objects i 1 < 51 ∧ v.objects i 2 = 0) →
      (if v.objects i 1 < 51 ∧ v.objects i 2 = 0 then set_obj i 13 0 v else v).objects i 13
        = 1) := by
  by_cases hc : v.objects i 1 < 51 ∧ v.objects i 2 = 0
  · rw [if_pos hc]
    refine ⟨by simp [set_obj, set2_apply], by simp [set_obj, set2_apply],
      ⟨fun _ => hc, fun _ => by simp [set_obj, set2_apply]⟩, fun hn => absurd hc hn⟩
  · rw [if_neg hc]
    refine ⟨rfl, rfl, ⟨fun h0 => ?_, fun h1 => absurd h1 hc⟩, fun _ => h⟩
    rw [h] at h0
    exact absurd h0 (by norm_num)

/-- The settle rule of the position update of a free body in motion: the
in-motion flag is cleared exactly when the new `y` is below 51 and the
horizontal velocity is exactly 0. -/
theorem draw_object_settle (E : Env α) (i : Nat) (w : World α) (h : w.objects i 13 = 1) :
    (draw_object E i w).objects i 2 = w.objects i 2
    ∧ ((draw_object E i w).objects i 13 = 0
      ↔ ((draw_object E i w).objects i 1 < 51 ∧ (draw_object E i w).objects i 2 = 0))
    ∧ (¬ ((draw_object E i w).objects i 1 < 51 ∧ (draw_object E i w).objects i 2 = 0) →
      (draw_object E i w).objects i 13 = 1) := by
  unfold draw_object
  rw [if_pos h]
  simp only []
  generalize hv : set_obj i 3 _ _ = v
  have hf : v.objects i 13 = 1 := by
    rw [← hv]
    simpa [set_obj, set2_apply] using h
  have h2 : v.objects i 2 = w.objects i 2 := by
    rw [← hv]
    simp [set_obj, set2_apply]
  have hs := settle_step i v hf
  rw [hs.1, hs.2.1]
  exact ⟨h2, hs.2.2.1, hs.2.2.2⟩

/-- The settle rule of the free bodies in a `draw` tick. -/
theorem draw_body_settle (E : Env α) (w : World α) (i : Nat) (hi : i < no_of_objects)
    (h : (draw_to_object E i w).objects i 13 = 1) :
    (draw E w).objects i 2 = (draw_to_object E i w).objects i 2
    ∧ ((draw E w).objects i 13 = 0
      ↔ ((draw E w).objects i 1 < 51 ∧ (draw E w).objects i 2 = 0))
    ∧ (¬ ((draw E w).objects i 1 < 51 ∧ (draw E w).objects i 2 = 0) →
      (draw E w).objects i 13 = 1) := by
  rw [draw_row E w i hi]
  exact draw_object_settle E i _ h

theorem draw_keys_reads (w : World α) : (draw_keys w).reads = w.reads := by
  have h1 : ∀ v : World α, (draw_key_w v).reads = v.reads := by
    intro v
    unfold draw_key_w
    split_ifs <;> rfl
  have h2 : ∀ v : World α, (draw_key_s v).reads = v.reads := by
    intro v
    unfold draw_key_s
    split_ifs <;> rfl
  have h3 : ∀ v : World α, (draw_key_dc v).reads = v.reads := by
    intro v
    unfold draw_key_dc
    split_ifs <;> rfl
  unfold draw_keys
  rw [h3, h2, h1]

theorem draw_pointer_power_reads (E : Env α) (w : World α) :
    (draw_pointer_power E w).reads = w.reads := by
  unfold draw_pointer_power
  simp only []
  split_ifs <;> rfl

/-- The free body 0 of `falling_world` after a `draw` tick with the clock `E1`:
it is reached in motion one fiftieth of a second after its launch, at rest
horizontally and with vertical velocity `-0.196`, at height `499.9804`. -/
theorem falling_world_draw :
    (draw_to_object E1 0 (falling_world : World ℝ)).objects 0 13 = 1
    ∧ (draw E1 (falling_world : World ℝ)).objects 0 2 = 0
    ∧ (draw E1 (falling_world : World ℝ)).objects 0 3 = -0.196
    ∧ (draw E1 (falling_world : World ℝ)).objects 0 1 = 499.9804 := by
  have hobj : (draw_to_object E1 0 (falling_world : World ℝ)).objects
      = (falling_world : World ℝ).objects := by
    show (draw_pointer_power E1 (draw_keys (draw_air E1 falling_world))).objects = _
    rw [draw_pointer_power_objects, draw_keys_objects]
    rfl
  have hreads : (draw_to_object E1 0 (falling_world : World ℝ)).reads = 2 := by
    show (draw_pointer_power E1 (draw_keys (draw_air E1 falling_world))).reads = _
    rw [draw_pointer_power_reads, draw_keys_reads]
    rfl
  have h13 : (draw_to_object E1 0 (falling_world : World ℝ)).objects 0 13 = 1 := by
    rw [hobj]
    rfl
  have hf := draw_object_in_flight E1 0 _ h13
  have hs := draw_object_settle E1 0 _ h13
  rw [hobj, hreads] at hf
  rw [hobj] at hs
  have e2 : (falling_world : World ℝ).objects 0 2 = 0 := rfl
  have e8 : (falling_world : World ℝ).objects 0 8 = 0 := rfl
  have e10 : (falling_world : World ℝ).objects 0 10 = 500 := rfl
  have e11 : (falling_world : World ℝ).objects 0 11 = 0 := rfl
  have ht : E1.glfwGetTime 2 = 2 / 100 := by
    show ((2 : Nat) : ℝ) / 100 = 2 / 100
    norm_num
  rw [e8, e10, e11, ht] at hf
  rw [draw_row E1 falling_world 0 (by decide)]
  refine ⟨h13, hs.1.trans e2, hf.2.trans (by norm_num), hf.1.trans (by norm_num)⟩

/-- C27 counterexample. In `falling_world` free body 0 is in flight; after a
`draw` tick (clock `E1`) its horizontal velocity is 0 and its vertical velocity
is `-0.196`, both within `[-1, 1]`, and it is at height `499.9804`: its
in-motion flag is still 1, the body has not become Resting. -/
theorem C27_body_not_settled_by_speed :
    (falling_world : World ℝ).objects 0 13 = 1
    ∧ (draw E1 (falling_world : World ℝ)).objects 0 2 = 0
    ∧ (draw E1 (falling_world : World ℝ)).objects 0 3 = -0.196
    ∧ (-1 ≤ (draw E1 (falling_world : World ℝ)).objects 0 2
      ∧ (draw E1 (falling_world : World ℝ)).objects 0 2 ≤ 1
      ∧ -1 ≤ (draw E1 (falling_world : World ℝ)).objects 0 3
      ∧ (draw E1 (falling_world : World ℝ)).objects 0 3 ≤ 1)
    ∧ (draw E1 (falling_world : World ℝ)).objects 0 13 = 1
    ∧ (draw E1 (falling_world : World ℝ)).objects 0 13 ≠ 0 := by
  have h := falling_world_draw
  have hs := draw_body_settle E1 falling_world 0 (by decide) h.1
  have hflag : (draw E1 (falling_world : World ℝ)).objects 0 13 = 1 := by
    refine hs.2.2 (fun hc => ?_)
    rw [h.2.2.2] at hc
    norm_num at hc
  refine ⟨rfl, h.2.1, h.2.2.1, ?_, hflag, ?_⟩
  · rw [h.2.1, h.2.2.1]
    norm_num
  · rw [hflag]
    norm_num

/-- C27, amended. In every `draw` tick, a free body `i` in flight (in-motion
flag 1 when `draw` reaches its position update) transitions to Resting
(in-motion flag set to 0) exactly when, after the update, its `y` position is
below 51 and its horizontal velocity `objects[i][2]` is exactly 0; otherwise its
flag is still 1.  The rule does not look at the vertical velocity, and the
horizontal velocity is as it was before the update. -/
theorem C27_body_settle (E : Env α) (w : World α) (i : Nat) (hi : i < no_of_objects)
    (h : (draw_to_object E i w).objects i 13 = 1) :
    (draw E w).objects i 2 = (draw_to_object E i w).objects i 2
    ∧ ((draw E w).objects i 13 = 0
      ↔ ((draw E w).objects i 1 < 51 ∧ (draw E w).objects i 2 = 0))
    ∧ (¬ ((draw E w).objects i 1 < 51 ∧ (draw E w).objects i 2 = 0) →
      (draw E w).objects i 13 = 1) :=
  draw_body_settle E w i hi h

/-- Witness of C27 (amended): free body 0 of `falling_world`. -/
theorem C27_body_settle_witness :
    0 < no_of_objects
    ∧ (draw_to_object E1 0 (falling_world : World ℝ)).objects 0 13 = 1
    ∧ ((draw E1 (falling_world : World ℝ)).objects 0 13 = 0
      ↔ ((draw E1 (falling_world : World ℝ)).objects 0 1 < 51
        ∧ (draw E1 (falling_world : World ℝ)).objects 0 2 = 0)) :=
  ⟨by decide, falling_world_draw.1,
    (C27_body_settle E1 falling_world 0 (by decide) falling_world_draw.1).2.1⟩

/-! ### At most one collectible or target contact in a pass -/

theorem AtMostOne.refl_one (w : World α) : AtMostOne w w :=
  fun _ => ⟨fun _ => rfl, Or.inl rfl⟩

theorem AtMostOne.trans_one {a b c : World α} (h1 : AtMostOne a b) (h2 : AtMostOne b c) :
    AtMostOne a c := by
  intro ha
  obtain ⟨h1a, h1b⟩ := h1 ha
  rcases h1b with hb | hb
  · subst hb
    exact h2 ha
  · obtain ⟨h2a, _⟩ := h2 hb.1.1
    have hcb := h2a hb.1
    subst hcb
    exact ⟨fun hh => h1a hh, Or.inr hb⟩

/-- From `(0, 0)` no collectible and no target of the fixed layout is within
range. -/
theorem home_idle (clock : Nat → ℝ) (w : World ℝ) (h : Home w) :
    (∀ i, i < no_of_coins → ¬ CoinContact (realEnv clock) i w)
    ∧ (∀ k, k < no_of_piggy → ¬ PiggyContact (realEnv clock) k w) := by
  obtain ⟨⟨hc, hp, cr, rp⟩, cx, cy⟩ := h
  obtain ⟨c00, c01, c02, c10, c11, c12, c20, c21, c22, c30, c31, c32⟩ := layout_coins
  obtain ⟨p00, p01, p10, p11, p20, p21⟩ := layout_piggy
  constructor
  · intro i hi hcon
    have hci := hc i hi
    unfold no_of_coins at hi
    unfold CoinContact at hcon
    rw [cx, cy, cr, hci.1, hci.2.1, hci.2.2] at hcon
    interval_cases i
    · rw [c00, c01, c02] at hcon
      exact distance_far _ _ _ _ _ _ (by norm_num) hcon.1
    · rw [c10, c11, c12] at hcon
      exact distance_far _ _ _ _ _ _ (by norm_num) hcon.1
    · rw [c20, c21, c22] at hcon
      exact distance_far _ _ _ _ _ _ (by norm_num) hcon.1
    · rw [c30, c31, c32] at hcon
      exact distance_far _ _ _ _ _ _ (by norm_num) hcon.1
  · intro k hk hcon
    have hpk := hp k hk
    unfold no_of_piggy at hk
    unfold PiggyContact at hcon
    rw [cx, cy, cr, rp, hpk.1, hpk.2] at hcon
    interval_cases k
    · rw [p00, p01] at hcon
      exact distance_far _ _ _ _ _ _ (by norm_num) hcon.1
    · rw [p10, p11] at hcon
      exact distance_far _ _ _ _ _ _ (by norm_num) hcon.1
    · rw [p20, p21] at hcon
      exact distance_far _ _ _ _ _ _ (by norm_num) hcon.1

theorem coin_step_one (clock : Nat → ℝ) (i : Nat) (hi : i < no_of_coins) (w : World ℝ) :
    AtMostOne w (coin_step (realEnv clock) i w) := by
  intro ht
  refine ⟨fun hh => coin_step_idle _ i w ((home_idle clock w hh).1 i hi), ?_⟩
  by_cases hc : CoinContact (realEnv clock) i w
  · right
    have hcc := hc
    unfold CoinContact at hcc
    unfold coin_step
    simp only []
    rw [if_pos hcc]
    refine ⟨⟨⟨fun j hj => ?_, ht.2.1, ht.2.2.1, ht.2.2.2⟩, rfl, rfl⟩,
      Or.inl ⟨i, hi, hcc.2, rfl, rfl, rfl⟩⟩
    have hj3 := ht.1 j hj
    refine ⟨?_, ?_, ?_⟩
    · show set2 w.coins i 3 0 j 0 = _
      rw [set2_apply, if_neg (fun h => absurd h.2 (by decide))]
      exact hj3.1
    · show set2 w.coins i 3 0 j 1 = _
      rw [set2_apply, if_neg (fun h => absurd h.2 (by decide))]
      exact hj3.2.1
    · show set2 w.coins i 3 0 j 2 = _
      rw [set2_apply, if_neg (fun h => absurd h.2 (by decide))]
      exact hj3.2.2
  · left
    exact coin_step_idle _ i w hc

theorem piggy_step_one (clock : Nat → ℝ) (k : Nat) (hk : k < no_of_piggy) (w : World ℝ) :
    AtMostOne w (piggy_step (realEnv clock) k w) := by
  intro ht
  refine ⟨fun hh => piggy_step_idle _ k w ((home_idle clock w hh).2 k hk), ?_⟩
  by_cases hc : PiggyContact (realEnv clock) k w
  · right
    have hcc := hc
    unfold PiggyContact at hcc
    have hf := piggy_step_fire (realEnv clock) k w hc
    have hpar := (piggy_step_fr (realEnv clock) k w).1.1
    refine ⟨⟨⟨fun j hj => ?_, fun j hj => ?_, hpar.2.2.1.trans ht.2.2.1,
      hpar.2.2.2.2.2.2.2.1.trans ht.2.2.2⟩, hf.2.2.1, hf.2.2.2⟩,
      Or.inr ⟨k, hk, hcc.2, ?_, piggy_step_coins _ k w, hf.2.1⟩⟩
    · rw [piggy_step_coins]
      exact ht.1 j hj
    · rw [piggy_step_cols _ k j 0 w (by decide), piggy_step_cols _ k j 1 w (by decide)]
      exact ht.2.1 j hj
    · unfold piggy_step
      simp only []
      rw [if_pos hcc]
      rfl
  · left
    exact piggy_step_idle _ k w hc

/-- The collectible and target loops of a pass, from a state with the fixed
layout, resolve no contact or exactly one. -/
theorem loops_one (clock : Nat → ℝ) (w : World ℝ) :
    AtMostOne w (forLoop 0 no_of_piggy (fun i s => piggy_step (realEnv clock) i s)
      (forLoop 0 no_of_coins (fun i s => coin_step (realEnv clock) i s) w)) :=
  (forLoop_rel_lt AtMostOne AtMostOne.refl_one (fun _ _ _ h1 h2 => h1.trans_one h2) 0
    no_of_coins _ (fun i _ hi s => coin_step_one clock i hi s) w).trans_one
    (forLoop_rel_lt AtMostOne AtMostOne.refl_one (fun _ _ _ h1 h2 => h1.trans_one h2) 0
      no_of_piggy _ (fun i _ hi s => piggy_step_one clock i hi s) _)

/-- C30. With the fixed layout of 4 collectibles (radius 15) and 3 targets
(radius 30) and projectile radius 10, for every projectile position, every
combination of collectible flags and all hit counts in {0, 1, 2, 3}, the
collectible and target loops of one `checkcollision` pass together resolve at
most one contact: they leave the state as it is, or exactly one collectible is
consumed, or exactly one target is hit, never both, because the first contact
puts the projectile at `(0, 0)`, out of range of every collectible and target;
so these loops add at most 30 to the score. -/
theorem C30_at_most_one_contact (clock : Nat → ℝ) (U : Uninit ℝ) (w : World ℝ)
    (ht : Targets w) (hok : HitOK w) :
    (forLoop 0 no_of_piggy (fun i s => piggy_step (realEnv clock) i s)
        (forLoop 0 no_of_coins (fun i s => coin_step (realEnv clock) i s) w) = w
      ∨ ((forLoop 0 no_of_piggy (fun i s => piggy_step (realEnv clock) i s)
            (forLoop 0 no_of_coins (fun i s => coin_step (realEnv clock) i s)
              w)).canon_x_position = 0
        ∧ (forLoop 0 no_of_piggy (fun i s => piggy_step (realEnv clock) i s)
            (forLoop 0 no_of_coins (fun i s => coin_step (realEnv clock) i s)
              w)).canon_y_position = 0
        ∧ OneContact w (forLoop 0 no_of_piggy (fun i s => piggy_step (realEnv clock) i s)
            (forLoop 0 no_of_coins (fun i s => coin_step (realEnv clock) i s) w))))
    ∧ (forLoop 0 no_of_piggy (fun i s => piggy_step (realEnv clock) i s)
        (forLoop 0 no_of_coins (fun i s => coin_step (realEnv clock) i s) w)).score
      ≤ w.score + 30
    ∧ checkcollision (realEnv clock) U w
      = forLoop 0 no_of_piggy (fun i s => piggy_step (realEnv clock) i s)
          (forLoop 0 no_of_coins (fun i s => coin_step (realEnv clock) i s)
            (forLoop 0 no_of_fixed_objects (fun i s => canon_obstacle (realEnv clock) i s)
              (forLoop 0 no_of_objects
                (fun i s => object_loop_body (realEnv clock) U i s)
                (canon_walls (realEnv clock) w)))) := by
  have h := (loops_one clock w ht).2
  generalize forLoop 0 no_of_piggy (fun i s => piggy_step (realEnv clock) i s)
    (forLoop 0 no_of_coins (fun i s => coin_step (realEnv clock) i s) w) = r at h ⊢
  refine ⟨?_, ?_, rfl⟩
  · rcases h with h | h
    · exact Or.inl h
    · exact Or.inr ⟨h.1.2.1, h.1.2.2, h.2⟩
  · rcases h with h | ⟨_, h | h⟩
    · rw [h]
      linarith
    · obtain ⟨j, _, _, _, _, hs⟩ := h
      rw [hs]
      linarith
    · obtain ⟨k, hk, h3, _, _, hs⟩ := h
      rw [hs]
      rcases hok k hk with h0 | h0 | h0 | h0
      · rw [h0]
        norm_num
      · rw [h0]
        norm_num
      · rw [h0]
        norm_num
      · exact absurd h0 h3

/-- Witness of C30: the initial layout with the projectile on target 0. -/
theorem C30_at_most_one_contact_witness :
    Targets (world_at (450 : ℝ) 430) ∧ HitOK (world_at (450 : ℝ) 430)
    ∧ (forLoop 0 no_of_piggy (fun i s => piggy_step E0 i s)
        (forLoop 0 no_of_coins (fun i s => coin_step E0 i s) (world_at (450 : ℝ) 430))).score
      ≤ (world_at (450 : ℝ) 430).score + 30 :=
  ⟨⟨fun _ _ => ⟨rfl, rfl, rfl⟩, fun _ _ => ⟨rfl, rfl⟩, rfl, rfl⟩, world_at_hitOK 450 430,
    (C30_at_most_one_contact (fun k => (k : ℝ)) (zeroUninit ℝ) (world_at 450 430)
      ⟨fun _ _ => ⟨rfl, rfl, rfl⟩, fun _ _ => ⟨rfl, rfl⟩, rfl, rfl⟩ (world_at_hitOK 450 430)).2.1⟩

/-! ### A free body in no other contact, whatever the projectile does -/

theorem RowKeep.refl_row (i : Nat) (w : World α) : RowKeep i w w := ⟨Fr.refl_fr w, rfl⟩

theorem RowKeep.trans_row {i : Nat} {a b c : World α} (h1 : RowKeep i a b)
    (h2 : RowKeep i b c) : RowKeep i a c :=
  ⟨h1.1.trans_fr h2.1, h2.2.trans h1.2⟩

theorem Keep.to_row {i : Nat} {a b : World α} (h : Keep i a b) : RowKeep i a b :=
  ⟨h.1.1, h.2⟩

/-- The tests of `Apart` read only the positions and radii of the free bodies. -/
theorem apart_of_fr (E : Env α) (i : Nat) {w s : World α} (h : Fr w s)
    (hq : Apart E i w) : Apart E i s := by
  have h0 : ∀ j, s.objects j 0 = w.objects j 0 := fun j => (h.2 j).1
  have h1 : ∀ j, s.objects j 1 = w.objects j 1 := fun j => (h.2 j).2.1
  have h5 : ∀ j, s.objects j 5 = w.objects j 5 := fun j => (h.2 j).2.2.1
  unfold Apart Touch at hq ⊢
  simp only [h0, h1, h5]
  exact hq

/-- The tests of `ObstacleQuiet` read only the position and radius of the body
and the obstacle table. -/
theorem obstacle_quiet_of_fr (i k : Nat) {w s : World α} (h : Fr w s)
    (hq : ObstacleQuiet i k w) : ObstacleQuiet i k s := by
  have h0 : ∀ j, s.objects j 0 = w.objects j 0 := fun j => (h.2 j).1
  have h1 : ∀ j, s.objects j 1 = w.objects j 1 := fun j => (h.2 j).2.1
  have h5 : ∀ j, s.objects j 5 = w.objects j 5 := fun j => (h.2 j).2.2.1
  have hfx : s.fixe = w.fixe := h.1.1.2.2.2.2.2.2.2.2
  unfold ObstacleQuiet at hq ⊢
  simp only [h0, h1, h5, hfx]
  exact hq

theorem body_quiet_of_fr (E : Env α) (i : Nat) {w s : World α} (h : Fr w s)
    (hq : BodyQuiet E i w) : BodyQuiet E i s := by
  have h0 : s.objects i 0 = w.objects i 0 := (h.2 i).1
  unfold BodyQuiet at hq ⊢
  rw [h0]
  exact ⟨hq.1, hq.2.1, apart_of_fr E i h hq.2.2.1,
    fun k h6 h9 => obstacle_quiet_of_fr i k h (hq.2.2.2 k h6 h9)⟩

theorem quiet_body (E : Env α) (i : Nat) (w : World α) (hq : Quiet E i w) :
    BodyQuiet E i w := by
  unfold Quiet at hq
  exact ⟨hq.2.2.2.2.2.1, hq.2.2.2.2.2.2.1, hq.2.2.2.2.2.2.2.1, hq.2.2.2.2.2.2.2.2⟩

theorem ak_refl (E : Env α) (i : Nat) (s : World α) : Apart E i s → RowKeep i s s :=
  fun _ => RowKeep.refl_row i s

theorem ak_trans (E : Env α) (i : Nat) (a b c : World α) (h1 : Apart E i a → RowKeep i a b)
    (h2 : Apart E i b → RowKeep i b c) : Apart E i a → RowKeep i a c :=
  fun hq => (h1 hq).trans_row (h2 (apart_of_fr E i (h1 hq).1 hq))

theorem canon_walls_objects (E : Env α) (w : World α) :
    (canon_walls E w).objects = w.objects := by
  have h1 : ∀ v s, (canon_wall_right E v s).objects = s.objects := by
    intro v s
    unfold canon_wall_right
    split_ifs <;> rfl
  have h2 : ∀ v s, (canon_wall_top E v s).objects = s.objects := by
    intro v s
    unfold canon_wall_top
    split_ifs <;> rfl
  have h3 : ∀ v s, (canon_wall_ground E v s).objects = s.objects := by
    intro v s
    unfold canon_wall_ground
    split_ifs <;> rfl
  have h4 : ∀ v s, (canon_wall_left E v s).objects = s.objects := by
    intro v s
    unfold canon_wall_left
    split_ifs <;> rfl
  unfold canon_walls
  simp only []
  rw [h4, h3, h2, h1]

theorem canon_walls_row (E : Env α) (i : Nat) (w : World α) :
    RowKeep i w (canon_walls E w) :=
  ⟨canon_walls_frame E w, by rw [canon_walls_objects]⟩

theorem canon_object_relaunch_other (E : Env α) (i j : Nat) (a b : α) (w : World α)
    (h : i ≠ j) : (canon_object_relaunch E j a b w).objects i = w.objects i := by
  funext k
  unfold canon_object_relaunch
  simp only []
  by_cases h15 : (set_obj j 10 ((set_obj j 9 (w.objects j 0) w).objects j 1)
      (set_obj j 9 (w.objects j 0) w)).objects j 15 = 1
  · rw [if_pos h15, set_object_position_other _ _ _ _ _ _ _ _ _ _ _ i k h]
    simp [set_obj, set2_apply, h]
  · rw [if_neg h15]
    simp [set_obj, set2_apply, h]

/-- A projectile-body contact with body `j` writes to no field of another
body. -/
theorem canon_object_contact_row (E : Env α) (U : Uninit α) (i j : Nat) (w : World α)
    (h : i ≠ j) : RowKeep i w (canon_object_contact E U j w) := by
  refine ⟨canon_object_contact_fr E U j w, ?_⟩
  unfold canon_object_contact
  simp only []
  split_ifs
  · unfold canon_object_response
    simp only []
    rw [canon_object_relaunch_other _ _ _ _ _ _ h]
    rfl
  · rfl

/-- A projectile-body contact whose test fails leaves the state as it is. -/
theorem canon_object_contact_miss (E : Env α) (U : Uninit α) (i : Nat) (w : World α)
    (hc : ¬ CanonTouch E i w) : canon_object_contact E U i w = w := by
  unfold CanonTouch at hc
  unfold canon_object_contact
  simp only []
  rw [if_neg hc]

theorem object_object_contact_ak (E : Env α) (U : Uninit α) (i j i1 : Nat) (w : World α)
    (hj : j < no_of_objects) (hi1 : i1 < no_of_objects) (hq : Apart E i w) :
    RowKeep i w (object_object_contact E U j i1 w) := by
  unfold Apart Touch at hq
  unfold object_object_contact
  simp only []
  by_cases h1 : j ≠ i1
  · rw [if_pos h1]
    by_cases h2 : distance E (w.objects j 0) (w.objects j 1) (w.objects i1 0) (w.objects i1 1)
        ≤ w.objects j 5 + w.objects i1 5
    · rw [if_pos h2]
      by_cases hji : j = i
      · subst hji
        exact absurd h2 (hq i1 hi1 (fun h => h1 h.symm)).1
      · by_cases hii : i1 = i
        · subst hii
          exact absurd h2 (hq j hj hji).2
        · exact ((set_object_position_keep _ _ _ _ _ _ _ _ _ _ _ _
            (fun h => hji h.symm)).trans_keep
            (set_object_position_keep _ _ _ _ _ _ _ _ _ _ _ _
              (fun h => hii h.symm))).to_row
    · rw [if_neg h2]
      exact RowKeep.refl_row i w
  · rw [if_neg h1]
    exact RowKeep.refl_row i w

/-- The loop over the pairs of body `j`, from a state in which body `i` overlaps
no other body, leaves body `i` as it is. -/
theorem object_pairs_ak (E : Env α) (U : Uninit α) (i j : Nat) (w : World α)
    (hj : j < no_of_objects) (hq : Apart E i w) :
    RowKeep i w (forLoop 0 no_of_objects (fun i1 s => object_object_contact E U j i1 s) w) :=
  forLoop_rel_lt (fun a b => Apart E i a → RowKeep i a b) (ak_refl E i)
    (ak_trans E i) 0 no_of_objects (fun i1 s => object_object_contact E U j i1 s)
    (fun i1 _ h s hs => object_object_contact_ak E U i j i1 s hj h hs) w hq

/-- The loop over the pairs of a body that overlaps no other body leaves the
state as it is. -/
theorem object_pairs_alone (E : Env α) (U : Uninit α) (i : Nat) (w : World α)
    (hq : Apart E i w) :
    forLoop 0 no_of_objects (fun i1 s => object_object_contact E U i i1 s) w = w := by
  refine forLoop_fixed _ _ _ _ (fun i1 _ h1 => ?_)
  unfold Apart Touch at hq
  unfold object_object_contact
  simp only []
  by_cases h : i ≠ i1
  · rw [if_pos h, if_neg (hq i1 h1 (fun e => h e.symm)).1]
  · rw [if_neg h]

/-- The loop over the obstacles 6..8 of a body `j` other than `i` leaves body
`i` as it is. -/
theorem object_obstacles_other (E : Env α) (i j : Nat) (w : World α) (h : i ≠ j) :
    RowKeep i w (forLoop 6 9 (fun i1 s => object_obstacle E j i1 s) w) :=
  forLoop_rel (RowKeep i) (RowKeep.refl_row i) (fun _ _ _ h1 h2 => h1.trans_row h2) 6 9
    (fun i1 s => object_obstacle E j i1 s)
    (fun i1 s => (object_obstacle_keep E i j i1 s h).to_row) w

/-- The iteration of the loop over the free bodies for a body `j` other than
`i`, from a state in which body `i` overlaps no other body, leaves body `i` as
it is, whatever the projectile does. -/
theorem object_loop_body_ak (E : Env α) (U : Uninit α) (i j : Nat) (w : World α)
    (hj : j < no_of_objects) (hji : j ≠ i) (hq : Apart E i w) :
    RowKeep i w (object_loop_body E U j w) := by
  unfold object_loop_body
  simp only []
  have h0 := canon_object_contact_row E U i j w (fun h => hji h.symm)
  have h1 := (object_walls_keep E i j (canon_object_contact E U j w)
    (fun h => hji h.symm)).to_row
  have h01 := h0.trans_row h1
  have h2 := object_pairs_ak E U i j _ hj (apart_of_fr E i h01.1 hq)
  exact (h01.trans_row h2).trans_row (object_obstacles_other E i j _ (fun h => hji h.symm))

/-- The iteration of the loop over the free bodies for a body `i` that the
projectile does not reach and that overlaps no other body: only the wall tests
and the obstacle tests of the body are left. -/
theorem object_loop_body_alone (E : Env α) (U : Uninit α) (i : Nat) (w : World α)
    (hc : ¬ CanonTouch E i w) (hq : Apart E i w) :
    object_loop_body E U i w
      = forLoop 6 9 (fun i1 s => object_obstacle E i i1 s) (object_walls E i w) := by
  unfold object_loop_body
  simp only []
  rw [canon_object_contact_miss E U i w hc,
    object_pairs_alone E U i _ (apart_of_fr E i (object_walls_fr E i w) hq)]

/-- The iterations of the loop over the free bodies before `i` leave body `i`
as it is when it overlaps no other body. -/
theorem pass_to_body_row (E : Env α) (U : Uninit α) (w : World α) (i : Nat)
    (hi : i < no_of_objects) (hq : Apart E i w) : RowKeep i w (pass_to_body E U i w) := by
  have h0 := canon_walls_row E i w
  have hpre := forLoop_rel_lt (fun a b => Apart E i a → RowKeep i a b) (ak_refl E i)
    (ak_trans E i) 0 i (fun j s => object_loop_body E U j s)
    (fun j _ hj s hs => object_loop_body_ak E U i j s (lt_trans hj hi) (ne_of_lt hj) hs)
    (canon_walls E w) (apart_of_fr E i h0.1 hq)
  exact h0.trans_row hpre

/-- The iterations of the loop over the free bodies after `i`, and the loops
that follow, leave body `i` as it is when it overlaps no other body. -/
theorem pass_from_body_row (E : Env α) (U : Uninit α) (b : World α) (i : Nat)
    (hq : Apart E i b) :
    (forLoop 0 no_of_piggy (fun k s => piggy_step E k s)
      (forLoop 0 no_of_coins (fun k s => coin_step E k s)
        (forLoop 0 no_of_fixed_objects (fun k s => canon_obstacle E k s)
          (forLoop (i + 1) no_of_objects (fun j s => object_loop_body E U j s) b)))).objects i
      = b.objects i := by
  rw [tail_objects]
  have hpost := forLoop_rel_lt (fun a b => Apart E i a → RowKeep i a b) (ak_refl E i)
    (ak_trans E i) (i + 1) no_of_objects (fun j s => object_loop_body E U j s)
    (fun j hj hj3 s hs => object_loop_body_ak E U i j s hj3 (fun h => by omega) hs) b hq
  exact hpost.2

/-- A `checkcollision` pass splits at the iteration of free body `i`. -/
theorem checkcollision_split (E : Env α) (U : Uninit α) (w : World α) (i : Nat)
    (hi : i < no_of_objects) :
    checkcollision E U w
      = forLoop 0 no_of_piggy (fun k s => piggy_step E k s)
          (forLoop 0 no_of_coins (fun k s => coin_step E k s)
            (forLoop 0 no_of_fixed_objects (fun k s => canon_obstacle E k s)
              (forLoop (i + 1) no_of_objects (fun j s => object_loop_body E U j s)
                (object_loop_body E U i (pass_to_body E U i w))))) := by
  unfold checkcollision pass_to_body
  simp only []
  rw [forLoop_split_three (fun i s => object_loop_body E U i s) (canon_walls E w) i hi]

/-- What a `checkcollision` pass does to a free body `i` that the projectile
does not reach and that overlaps no other body: the fields of the body after
the pass are those its own wall and obstacle tests leave, run on the state in
which the pass comes to the body, where the body is as before the pass. -/
theorem checkcollision_row_alone (E : Env α) (U : Uninit α) (w : World α) (i : Nat)
    (hi : i < no_of_objects) (hq : Apart E i w)
    (hc : ¬ CanonTouch E i (pass_to_body E U i w)) :
    RowKeep i w (pass_to_body E U i w)
    ∧ (checkcollision E U w).objects i
      = (forLoop 6 9 (fun i1 s => object_obstacle E i i1 s)
          (object_walls E i (pass_to_body E U i w))).objects i := by
  have hpre := pass_to_body_row E U w i hi hq
  refine ⟨hpre, ?_⟩
  rw [checkcollision_split E U w i hi]
  have hqa := apart_of_fr E i hpre.1 hq
  rw [object_loop_body_alone E U i _ hc hqa]
  have hfr : Fr (pass_to_body E U i w)
      (forLoop 6 9 (fun i1 s => object_obstacle E i i1 s)
        (object_walls E i (pass_to_body E U i w))) :=
    (object_walls_fr E i _).trans_fr
      (forLoop_fr 6 9 _ (fun i1 s => object_obstacle_fr E i i1 s) _)
  exact pass_from_body_row E U _ i (apart_of_fr E i hfr hqa)

/-- The wall tests of a body below ground level that touches no side wall: only
the ground test fires. -/
theorem object_walls_ground_only (E : Env α) (i : Nat) (w : World α)
    (hr : ¬ (w.objects i 0 ≥ 1350 - 15)) (hl : ¬ (w.objects i 0 ≤ 11 + 15))
    (hy : w.objects i 1 < 50) :
    Fr w (object_walls E i w)
    ∧ (object_walls E i w).objects i 10 = 50
    ∧ (object_walls E i w).objects i 3
      = -1 * w.objects i 3 * w.coefficient_of_collision_with_walls
    ∧ (object_walls E i w).objects i 2 = w.objects i 2 * w.friction
    ∧ (object_walls E i w).objects i 9 = w.objects i 0
    ∧ (object_walls E i w).objects i 16 = w.objects i 16 + 1 := by
  have h1 : ∀ v, object_wall_right E v i w = w := by
    intro v
    unfold object_wall_right
    rw [if_neg hr]
  have h2 : ∀ v, object_wall_top E v i w = w := by
    intro v
    unfold object_wall_top
    rw [if_neg (by
      intro h
      have h' : (650 : α) - 15 ≤ w.objects i 1 := h
      linarith)]
  have hrow := set_object_position_row E (w.objects i 0) 50 (-1 * w.objects i 3)
    (w.objects i 2) 0
    (E.sqrt (w.objects i 2 * w.objects i 2 + w.objects i 3 * w.objects i 3)
      * w.coefficient_of_collision_with_walls) (w.objects i 2 * w.friction)
    (-1 * w.objects i 3 * w.coefficient_of_collision_with_walls) i w
  have hn := set_object_position_fr E (w.objects i 0) 50 (-1 * w.objects i 3) (w.objects i 2) 0
    (E.sqrt (w.objects i 2 * w.objects i 2 + w.objects i 3 * w.objects i 3)
      * w.coefficient_of_collision_with_walls) (w.objects i 2 * w.friction)
    (-1 * w.objects i 3 * w.coefficient_of_collision_with_walls) i w
  rw [← object_wall_ground_fires E _ i w hy] at hrow hn
  have h4 : ∀ v s, s.objects i 0 = w.objects i 0 → object_wall_left E v i s = s := by
    intro v s hs
    unfold object_wall_left
    rw [hs, if_neg hl]
  unfold object_walls
  simp only []
  rw [h1, h2, h4 _ _ hrow.2.2.2.2.2.2.2.2.2.2.1]
  exact ⟨hn, hrow.2.2.2.2.2.1, hrow.2.2.1, hrow.2.2.2.1, hrow.2.2.2.2.2.2.1, hrow.1⟩

/-- The tests of a body against obstacles none of which it touches leave the
state as it is. -/
theorem object_obstacles_quiet (E : Env α) (i lo hi : Nat) (w : World α)
    (hq : ∀ k, lo ≤ k → k < hi → ObstacleQuiet i k w) :
    forLoop lo hi (fun i1 s => object_obstacle E i i1 s) w = w :=
  forLoop_fixed lo hi _ w (fun k h1 h2 => object_obstacle_quiet E i k w (hq k h1 h2))

/-- A `checkcollision` pass over a state in which free body `i` is below ground
level, out of reach of the projectile when the pass comes to it, and touches no
side wall, no other body and none of the obstacles 6..8. -/
theorem checkcollision_ground (E : Env α) (U : Uninit α) (w : World α) (i : Nat)
    (hi : i < no_of_objects) (hy : w.objects i 1 < 50) (hq : BodyQuiet E i w)
    (hc : ¬ CanonTouch E i (pass_to_body E U i w)) :
    (checkcollision E U w).objects i 10 = 50
    ∧ (checkcollision E U w).objects i 3
      = -1 * w.objects i 3 * w.coefficient_of_collision_with_walls
    ∧ (checkcollision E U w).objects i 2 = w.objects i 2 * w.friction
    ∧ (checkcollision E U w).objects i 9 = w.objects i 0
    ∧ (checkcollision E U w).objects i 16 = w.objects i 16 + 1 := by
  obtain ⟨hpre, hrow⟩ := checkcollision_row_alone E U w i hi hq.2.2.1 hc
  rw [hrow]
  generalize pass_to_body E U i w = a at hpre
  have hqa := body_quiet_of_fr E i hpre.1 hq
  have hya : a.objects i 1 < 50 := by
    rw [hpre.2]
    exact hy
  have hw := object_walls_ground_only E i a hqa.1 hqa.2.1 hya
  rw [hpre.2, hpre.1.1.1.2.2.2.2.1, hpre.1.1.1.2.2.2.2.2.2.1] at hw
  rw [object_obstacles_quiet E i 6 9 _
    (fun k h6 h9 => obstacle_quiet_of_fr i k hw.1 (hqa.2.2.2 k h6 h9))]
  exact hw.2

/-- The wall tests of a resting projectile at or below ground level, away from
the right and top walls: only the ground test fires. -/
theorem canon_walls_ground_only (E : Env α) (w : World α)
    (h1 : ¬ (w.canon_x_position ≥ 1350 - 15))
    (h2 : ¬ (w.canon_y_position + w.radius_of_canon ≥ 650)) (h3 : w.canon_y_position ≤ 50)
    (h4 : w.canon_out ≠ 1) :
    canon_walls E w
      = set_canon_position E w.canon_x_position 50 (-1 * w.canon_y_velocity)
          w.canon_x_velocity 0
          (E.sqrt (w.canon_x_velocity * w.canon_x_velocity
            + w.canon_y_velocity * w.canon_y_velocity))
          (w.canon_x_velocity * w.friction)
          (-1 * w.canon_y_velocity * w.coefficient_of_collision_with_walls) w := by
  unfold canon_walls
  simp only []
  have e1 : ∀ v, canon_wall_right E v w = w := by
    intro v
    unfold canon_wall_right
    rw [if_neg h1]
  have e2 : ∀ v, canon_wall_top E v w = w := by
    intro v
    unfold canon_wall_top
    rw [if_neg h2]
  have e3 : ∀ v, canon_wall_ground E v w
      = set_canon_position E w.canon_x_position 50 (-1 * w.canon_y_velocity)
          w.canon_x_velocity 0 v (w.canon_x_velocity * w.friction)
          (-1 * w.canon_y_velocity * w.coefficient_of_collision_with_walls) w := by
    intro v
    unfold canon_wall_ground
    rw [if_pos h3]
  rw [e1, e2, e3]
  generalize hs : set_canon_position E w.canon_x_position 50 (-1 * w.canon_y_velocity)
    w.canon_x_velocity 0
    (E.sqrt (w.canon_x_velocity * w.canon_x_velocity + w.canon_y_velocity * w.canon_y_velocity))
    (w.canon_x_velocity * w.friction)
    (-1 * w.canon_y_velocity * w.coefficient_of_collision_with_walls) w = s
  have so : s.canon_out = w.canon_out := by rw [← hs]; rfl
  unfold canon_wall_left
  rw [so, if_neg (fun h => h4 h.2)]

/-- In `sinking_home_world` free body 0 touches no side wall, no other body and
none of the obstacles 6..8. -/
theorem sinking_home_world_quiet : BodyQuiet E0 0 (sinking_home_world : World ℝ) := by
  refine body_quiet_of_fr E0 0 (w := sinking_world) ⟨⟨⟨rfl, rfl, rfl, rfl, rfl, rfl, rfl, rfl, rfl⟩,
    ⟨rfl, rfl, rfl, rfl, rfl, rfl, rfl, rfl, rfl, rfl, rfl⟩, rfl⟩, ObjFrame.of_objects_eq rfl⟩
    (quiet_body E0 0 sinking_world sinking_world_quiet)

/-- In `sinking_home_world` the ground test of the projectile (at `(0, 0)`)
puts it at `(0, 50)`, out of reach of free body 0 at `(400, 49)`. -/
theorem sinking_home_world_reach (U : Uninit ℝ) :
    ¬ CanonTouch E0 0 (pass_to_body E0 U 0 (sinking_home_world : World ℝ)) := by
  have hcw := canon_walls_ground_only E0 (sinking_home_world : World ℝ)
    (by
      have cx : (sinking_home_world : World ℝ).canon_x_position = 0 := rfl
      rw [cx]
      norm_num)
    (by
      have cy : (sinking_home_world : World ℝ).canon_y_position = 0 := rfl
      have cr : (sinking_home_world : World ℝ).radius_of_canon = 10 := rfl
      rw [cy, cr]
      norm_num)
    (by
      have cy : (sinking_home_world : World ℝ).canon_y_position = 0 := rfl
      rw [cy]
      norm_num)
    (by
      have co : (sinking_home_world : World ℝ).canon_out = 0 := rfl
      rw [co]
      decide)
  have hp : pass_to_body E0 U 0 (sinking_home_world : World ℝ)
      = canon_walls E0 (sinking_home_world : World ℝ) := rfl
  rw [hp]
  have px : (canon_walls E0 (sinking_home_world : World ℝ)).canon_x_position = 0 := by
    rw [hcw]
    rfl
  have py : (canon_walls E0 (sinking_home_world : World ℝ)).canon_y_position = 50 := by
    rw [hcw]
    rfl
  have e00 : (sinking_home_world : World ℝ).objects 0 0 = 400 := rfl
  have e01 : (sinking_home_world : World ℝ).objects 0 1 = 49 := rfl
  have e05 : (sinking_home_world : World ℝ).objects 0 5 = 30 / 2 := rfl
  unfold CanonTouch
  rw [px, py, canon_walls_objects, e00, e01, e05]
  exact fun h => distance_far _ _ _ _ _ _ (by norm_num) h.1

/-- C14, amended. For every free body `i < 3` whose `y` position is below ground
level (`objects[i][1] < 50`) and that is in no other contact, after one
`checkcollision` pass the body's launch position `objects[i][10]` is 50 (ground
level) and its vertical velocity `objects[i][3]` is
`-coefficient_of_collision_with_walls` times its previous vertical velocity
(`-0.4` times, the coefficient being 0.4), while its current `y` position
`objects[i][1]` is as before the pass.  "In no other contact" is a condition on
the body alone: it touches no side wall, no other free body and none of the
obstacles 6..8 (`BodyQuiet`), and the projectile is out of its reach when the
pass comes to it (the test of line 626 fails in the state `pass_to_body`);
the projectile itself may touch walls, the ground or other bodies. -/
theorem C14_ground_relaunch (E : Env α) (U : Uninit α) (w : World α) (i : Nat)
    (hi : i < no_of_objects) (hy : w.objects i 1 < 50) (hq : BodyQuiet E i w)
    (hc : ¬ CanonTouch E i (pass_to_body E U i w)) :
    (checkcollision E U w).objects i 10 = 50
    ∧ (checkcollision E U w).objects i 3
      = -1 * w.objects i 3 * w.coefficient_of_collision_with_walls
    ∧ (w.coefficient_of_collision_with_walls = 0.4 →
        (checkcollision E U w).objects i 3 = -0.4 * w.objects i 3)
    ∧ (checkcollision E U w).objects i 1 = w.objects i 1 := by
  have h := checkcollision_ground E U w i hi hy hq hc
  refine ⟨h.1, h.2.1, fun hc => ?_, ((checkcollision_fr E U w).2 i).2.1⟩
  rw [h.2.1, hc]
  ring

/-- Witness of C14 (amended): in `sinking_home_world` free body 0 is at
`y = 49`, falling with vertical velocity `-5`, in no other contact, while the
projectile rests at `(0, 0)`, below ground level itself (its own ground test
fires in the pass); after the pass the body's launch position is 50, its
vertical velocity is `-0.4 * -5 = 2` and its `y` position is still 49. -/
theorem C14_ground_relaunch_witness :
    0 < no_of_objects
    ∧ (sinking_home_world : World ℝ).objects 0 1 < 50
    ∧ BodyQuiet E0 0 (sinking_home_world : World ℝ)
    ∧ ¬ CanonTouch E0 0 (pass_to_body E0 (zeroUninit ℝ) 0 (sinking_home_world : World ℝ))
    ∧ (sinking_home_world : World ℝ).canon_y_position ≤ 50
    ∧ (checkcollision E0 (zeroUninit ℝ) sinking_home_world).objects 0 10 = 50
    ∧ (checkcollision E0 (zeroUninit ℝ) sinking_home_world).objects 0 3 = 2
    ∧ (checkcollision E0 (zeroUninit ℝ) sinking_home_world).objects 0 1 = 49 := by
  have e1 : (sinking_home_world : World ℝ).objects 0 1 = 49 := rfl
  have e3 : (sinking_home_world : World ℝ).objects 0 3 = -5 := rfl
  have ec : (sinking_home_world : World ℝ).coefficient_of_collision_with_walls = 0.4 := rfl
  have cy : (sinking_home_world : World ℝ).canon_y_position = 0 := rfl
  have hy : (sinking_home_world : World ℝ).objects 0 1 < 50 := by
    rw [e1]
    norm_num
  have h := C14_ground_relaunch E0 (zeroUninit ℝ) sinking_home_world 0 (by decide) hy
    sinking_home_world_quiet (sinking_home_world_reach (zeroUninit ℝ))
  refine ⟨by decide, hy, sinking_home_world_quiet, sinking_home_world_reach (zeroUninit ℝ),
    ?_, h.1, ?_, ?_⟩
  · rw [cy]
    norm_num
  · rw [h.2.2.1 ec, e3]
    norm_num
  · rw [h.2.2.2, e1]

/-! ### Landing of a free body on an obstacle -/

/-- The tests of `CanonQuiet` read only the projectile's position, radius and
flight state and the positions and radii of the free bodies. -/
theorem canon_quiet_of_near (E : Env α) {w s : World α} (h : Near w s)
    (hq : CanonQuiet E w) : CanonQuiet E s := by
  obtain ⟨⟨⟨hp, _, ho⟩, hf⟩, hx, hy⟩ := h
  have h0 : ∀ j, s.objects j 0 = w.objects j 0 := fun j => (hf j).1
  have h1 : ∀ j, s.objects j 1 = w.objects j 1 := fun j => (hf j).2.1
  have h5 : ∀ j, s.objects j 5 = w.objects j 5 := fun j => (hf j).2.2.1
  have hr : s.radius_of_canon = w.radius_of_canon := hp.2.2.1
  unfold CanonQuiet at hq ⊢
  simp only [h0, h1, h5, hr, hx, hy, ho]
  exact hq

theorem object_object_contact_near (E : Env α) (U : Uninit α) (j i1 : Nat) (w : World α) :
    Near w (object_object_contact E U j i1 w) := by
  unfold object_object_contact
  simp only []
  by_cases h1 : j ≠ i1
  · rw [if_pos h1]
    by_cases h2 : distance E (w.objects j 0) (w.objects j 1) (w.objects i1 0) (w.objects i1 1)
        ≤ w.objects j 5 + w.objects i1 5
    · rw [if_pos h2]
      exact (set_object_position_near ..).trans_near (set_object_position_near ..)
    · rw [if_neg h2]
      exact Near.refl_near w
  · rw [if_neg h1]
    exact Near.refl_near w

/-- The iteration of the loop over the free bodies, from a state in which the
projectile touches no wall and no free body, leaves the projectile where it
is. -/
theorem object_loop_body_near (E : Env α) (U : Uninit α) (j : Nat) (w : World α)
    (hj : j < no_of_objects) (hq : CanonQuiet E w) : Near w (object_loop_body E U j w) := by
  unfold object_loop_body
  simp only []
  rw [canon_object_contact_idle E U j w hj hq]
  have h1 : Near w (object_walls E j w) :=
    (object_walls_keep E (j + 1) j w (by omega)).1
  have h2 := forLoop_rel Near Near.refl_near (fun _ _ _ h1 h2 => h1.trans_near h2) 0
    no_of_objects (fun i1 s => object_object_contact E U j i1 s)
    (fun i1 s => object_object_contact_near E U j i1 s) (object_walls E j w)
  have h3 := forLoop_rel Near Near.refl_near (fun _ _ _ h1 h2 => h1.trans_near h2) 6 9
    (fun i1 s => object_obstacle E j i1 s)
    (fun i1 s => (object_obstacle_keep E (j + 1) j i1 s (by omega)).1)
    (forLoop 0 no_of_objects (fun i1 s => object_object_contact E U j i1 s)
      (object_walls E j w))
  exact (h1.trans_near h2).trans_near h3

/-- When the projectile touches no wall and no free body, it is where it was
when the pass comes to body `i`. -/
theorem pass_to_body_near (E : Env α) (U : Uninit α) (w : World α) (i : Nat)
    (hi : i < no_of_objects) (hq : CanonQuiet E w) : Near w (pass_to_body E U i w) := by
  unfold pass_to_body
  rw [canon_walls_idle E w hq]
  exact forLoop_rel_lt (fun a b => CanonQuiet E a → Near a b) (fun s _ => Near.refl_near s)
    (fun a b c h1 h2 hq => (h1 hq).trans_near (h2 (canon_quiet_of_near E (h1 hq) hq)))
    0 i (fun j s => object_loop_body E U j s)
    (fun j _ hj s hs => object_loop_body_near E U j s (lt_trans hj hi) hs) w hq

/-- When the projectile touches no wall and no free body, it is out of reach of
body `i` when the pass comes to it. -/
theorem pass_to_body_reach (E : Env α) (U : Uninit α) (w : World α) (i : Nat)
    (hi : i < no_of_objects) (hq : CanonQuiet E w) :
    ¬ CanonTouch E i (pass_to_body E U i w) := by
  have hq2 := canon_quiet_of_near E (pass_to_body_near E U w i hi hq) hq
  unfold CanonQuiet at hq2
  unfold CanonTouch
  exact fun h => hq2.2.2.2.2 i hi h.1

theorem forLoop_split_obstacle {σ : Type} (body : Nat → σ → σ) (w : σ) (i1 : Nat)
    (h6 : 6 ≤ i1) (h9 : i1 < 9) :
    forLoop 6 9 body w = forLoop (i1 + 1) 9 body (body i1 (forLoop 6 i1 body w)) := by
  interval_cases i1 <;> rfl

/-- The first block of the tests of body `i` against obstacle `i1`, when the
landing test holds and the second test does not: the landing response. -/
theorem object_obstacle_top_landing (E : Env α) (i i1 : Nat) (w : World α)
    (hband : w.objects i 1 - w.objects i 5 - (w.fixe i1 1 + w.fixe i1 3) ≤ 5
      ∧ w.objects i 1 - w.objects i 5 - (w.fixe i1 1 + w.fixe i1 3) ≥ 0)
    (hspan : w.objects i 0 - w.fixe i1 0 ≤ w.fixe i1 2 ∧ w.objects i 0 - w.fixe i1 0 ≥ 0)
    (hu : ¬ (w.objects i 0 - w.fixe i1 1 ≥ 0 ∧ w.objects i 0 - w.fixe i1 1 ≤ 10)) :
    object_obstacle_top E i i1 w
      = set_object_position E (w.objects i 0) (w.objects i 1) (-1 * w.objects i 3)
          (w.objects i 2) 0 0 (w.objects i 2 * w.friction)
          (w.objects i 3 * -1 * w.coefficient_of_collision_with_walls) i w := by
  unfold object_obstacle_top
  simp only []
  rw [if_pos hspan]
  unfold object_obstacle_land
  rw [if_pos hband]
  have hr := set_object_position_row E (w.objects i 0) (w.objects i 1) (-1 * w.objects i 3)
    (w.objects i 2) 0 0 (w.objects i 2 * w.friction)
    (w.objects i 3 * -1 * w.coefficient_of_collision_with_walls) i w
  generalize hs : set_object_position E (w.objects i 0) (w.objects i 1) (-1 * w.objects i 3)
    (w.objects i 2) 0 0 (w.objects i 2 * w.friction)
    (w.objects i 3 * -1 * w.coefficient_of_collision_with_walls) i w = s at hr
  have hfx : s.fixe = w.fixe := by rw [← hs]; rfl
  unfold object_obstacle_under
  simp only []
  rw [hr.2.2.2.2.2.2.2.2.2.2.1, hfx, if_neg hu]

/-- The second block of the tests of body `i` against obstacle `i1`, when none
of its inner tests holds. -/
theorem object_obstacle_side_quiet (E : Env α) (i i1 : Nat) (w : World α)
    (hq : ((w.objects i 1 + w.objects i 5 - w.fixe i1 1 ≤ w.fixe i1 3
          ∧ w.objects i 1 + w.objects i 5 - w.fixe i1 1 ≥ 0)
        ∨ (w.objects i 1 - w.objects i 5 - w.fixe i1 1 ≤ w.fixe i1 3
          ∧ w.objects i 1 - w.objects i 5 - w.fixe i1 1 ≥ 0)) →
      ¬ (w.objects i 0 + w.objects i 5 - w.fixe i1 0 ≥ 0
          ∧ w.objects i 0 + w.objects i 5 - w.fixe i1 0 ≤ 10)
      ∧ ¬ (w.objects i 0 - w.objects i 5 - w.fixe i1 0 ≥ 0
          ∧ w.objects i 0 - w.objects i 5 - w.fixe i1 0 ≤ 5)) :
    object_obstacle_side E i i1 w = w := by
  unfold object_obstacle_side
  simp only []
  split_ifs with h
  · have h3 : ∀ x, ¬ (x ≥ 0 ∧ x ≤ 10) → object_obstacle_left E i x w = w := by
      intro x hx
      unfold object_obstacle_left
      rw [if_neg hx]
    have h4 : ∀ x, ¬ (x ≥ 0 ∧ x ≤ 5) → object_obstacle_right E i x w = w := by
      intro x hx
      unfold object_obstacle_right
      rw [if_neg hx]
    rw [h3 _ (hq h).1, h4 _ (hq h).2]
  · rfl

/-- The second block of the tests of body `i` against obstacle `i1`, when the
outer test and the test of the body's left edge hold and the test of its right
edge does not: the side response. -/
theorem object_obstacle_side_right (E : Env α) (i i1 : Nat) (w : World α)
    (ho : (w.objects i 1 + w.objects i 5 - w.fixe i1 1 ≤ w.fixe i1 3
          ∧ w.objects i 1 + w.objects i 5 - w.fixe i1 1 ≥ 0)
        ∨ (w.objects i 1 - w.objects i 5 - w.fixe i1 1 ≤ w.fixe i1 3
          ∧ w.objects i 1 - w.objects i 5 - w.fixe i1 1 ≥ 0))
    (hl : ¬ (w.objects i 0 + w.objects i 5 - w.fixe i1 0 ≥ 0
          ∧ w.objects i 0 + w.objects i 5 - w.fixe i1 0 ≤ 10))
    (hr : w.objects i 0 - w.objects i 5 - w.fixe i1 0 ≥ 0
          ∧ w.objects i 0 - w.objects i 5 - w.fixe i1 0 ≤ 5) :
    object_obstacle_side E i i1 w
      = set_object_position E (w.objects i 0 + 3) (w.objects i 1) (w.objects i 3)
          (-1 * w.objects i 2) 0 0
          (w.objects i 2 * w.coefficient_of_collision_with_walls * -1)
          (w.objects i 3 * w.friction) i w := by
  unfold object_obstacle_side
  simp only []
  rw [if_pos ho]
  have h3 : ∀ x, ¬ (x ≥ 0 ∧ x ≤ 10) → object_obstacle_left E i x w = w := by
    intro x hx
    unfold object_obstacle_left
    rw [if_neg hx]
  rw [h3 _ hl]
  unfold object_obstacle_right
  rw [if_pos hr]

/-- The tests of `LandQuiet` read only the positions and radii of the free
bodies and the obstacle table. -/
theorem land_quiet_of_fr (E : Env α) (i i1 : Nat) {w s : World α} (h : Fr w s)
    (hq : LandQuiet E i i1 w) : LandQuiet E i i1 s := by
  have h0 : ∀ j, s.objects j 0 = w.objects j 0 := fun j => (h.2 j).1
  have h1 : ∀ j, s.objects j 1 = w.objects j 1 := fun j => (h.2 j).2.1
  have h5 : ∀ j, s.objects j 5 = w.objects j 5 := fun j => (h.2 j).2.2.1
  have hfx : s.fixe = w.fixe := h.1.1.2.2.2.2.2.2.2.2
  unfold LandQuiet Apart Touch ObstacleQuiet at hq ⊢
  simp only [h0, h1, h5, hfx]
  exact hq

/-- The loop over the obstacles 6..8 for a body `i` whose only contact is its
landing on obstacle `i1`: the landing response, and nothing else. -/
theorem object_obstacles_landing (E : Env α) (i i1 : Nat) (w : World α) (h6 : 6 ≤ i1)
    (h9 : i1 < 9)
    (hband : w.objects i 1 - w.objects i 5 - (w.fixe i1 1 + w.fixe i1 3) ≤ 5
      ∧ w.objects i 1 - w.objects i 5 - (w.fixe i1 1 + w.fixe i1 3) ≥ 0)
    (hspan : w.objects i 0 - w.fixe i1 0 ≤ w.fixe i1 2 ∧ w.objects i 0 - w.fixe i1 0 ≥ 0)
    (hq : LandQuiet E i i1 w) :
    forLoop 6 9 (fun k s => object_obstacle E i k s) w
      = set_object_position E (w.objects i 0) (w.objects i 1) (-1 * w.objects i 3)
          (w.objects i 2) 0 0 (w.objects i 2 * w.friction)
          (w.objects i 3 * -1 * w.coefficient_of_collision_with_walls) i w := by
  rw [forLoop_split_obstacle _ w i1 h6 h9,
    object_obstacles_quiet E i 6 i1 w (fun k hk6 hk => hq.2.2.2.2.2.1 k hk6 (by omega) (by omega))]
  have hfr := set_object_position_fr E (w.objects i 0) (w.objects i 1) (-1 * w.objects i 3)
    (w.objects i 2) 0 0 (w.objects i 2 * w.friction)
    (w.objects i 3 * -1 * w.coefficient_of_collision_with_walls) i w
  have hq2 := land_quiet_of_fr E i i1 hfr hq
  have hmid : object_obstacle E i i1 w
      = set_object_position E (w.objects i 0) (w.objects i 1) (-1 * w.objects i 3)
          (w.objects i 2) 0 0 (w.objects i 2 * w.friction)
          (w.objects i 3 * -1 * w.coefficient_of_collision_with_walls) i w := by
    unfold object_obstacle
    rw [object_obstacle_top_landing E i i1 w hband hspan hq.2.2.2.2.2.2.1]
    exact object_obstacle_side_quiet E i i1 _ hq2.2.2.2.2.2.2.2
  rw [hmid]
  exact object_obstacles_quiet E i (i1 + 1) 9 _
    (fun k hk hk9 => hq2.2.2.2.2.2.1 k (by omega) hk9 (by omega))

/-- A `checkcollision` pass over a state in which the only contact of free body
`i` is its landing on obstacle `i1` of 6..8, the projectile being out of reach
when the pass comes to the body: the fields of the body after the pass. -/
theorem checkcollision_landing (E : Env α) (U : Uninit α) (w : World α) (i i1 : Nat)
    (hi : i < no_of_objects) (h6 : 6 ≤ i1) (h9 : i1 < 9)
    (hband : w.objects i 1 - w.objects i 5 - (w.fixe i1 1 + w.fixe i1 3) ≤ 5
      ∧ w.objects i 1 - w.objects i 5 - (w.fixe i1 1 + w.fixe i1 3) ≥ 0)
    (hspan : w.objects i 0 - w.fixe i1 0 ≤ w.fixe i1 2 ∧ w.objects i 0 - w.fixe i1 0 ≥ 0)
    (hq : LandQuiet E i i1 w) (hc : ¬ CanonTouch E i (pass_to_body E U i w)) :
    (checkcollision E U w).objects i 3
      = w.objects i 3 * -1 * w.coefficient_of_collision_with_walls
    ∧ (checkcollision E U w).objects i 2 = w.objects i 2 * w.friction
    ∧ (checkcollision E U w).objects i 16 = w.objects i 16 + 1
    ∧ (checkcollision E U w).objects i 9 = w.objects i 0
    ∧ (checkcollision E U w).objects i 10 = w.objects i 1 := by
  obtain ⟨hpre, hrow⟩ := checkcollision_row_alone E U w i hi hq.2.2.2.2.1 hc
  rw [hrow]
  generalize pass_to_body E U i w = a at hpre
  have hqa := land_quiet_of_fr E i i1 hpre.1 hq
  have hfx : a.fixe = w.fixe := hpre.1.1.1.2.2.2.2.2.2.2.2
  have hba : a.objects i 1 - a.objects i 5 - (a.fixe i1 1 + a.fixe i1 3) ≤ 5
      ∧ a.objects i 1 - a.objects i 5 - (a.fixe i1 1 + a.fixe i1 3) ≥ 0 := by
    rw [hpre.2, hfx]
    exact hband
  have hsa : a.objects i 0 - a.fixe i1 0 ≤ a.fixe i1 2 ∧ a.objects i 0 - a.fixe i1 0 ≥ 0 := by
    rw [hpre.2, hfx]
    exact hspan
  rw [object_walls_idle E i a hqa.1 hqa.2.1 hqa.2.2.1 hqa.2.2.2.1,
    object_obstacles_landing E i i1 a h6 h9 hba hsa hqa]
  have hr := set_object_position_row E (a.objects i 0) (a.objects i 1) (-1 * a.objects i 3)
    (a.objects i 2) 0 0 (a.objects i 2 * a.friction)
    (a.objects i 3 * -1 * a.coefficient_of_collision_with_walls) i a
  have hco : a.coefficient_of_collision_with_walls = w.coefficient_of_collision_with_walls :=
    hpre.1.1.1.2.2.2.2.1
  have hfc : a.friction = w.friction := hpre.1.1.1.2.2.2.2.2.2.1
  refine ⟨hr.2.2.1.trans ?_, hr.2.2.2.1.trans ?_, hr.1.trans ?_, hr.2.2.2.2.2.2.1.trans ?_,
    hr.2.2.2.2.2.1.trans ?_⟩
  · rw [hpre.2, hco]
  · rw [hpre.2, hfc]
  · rw [hpre.2]
  · rw [hpre.2]
  · rw [hpre.2]

/-- In `landed_world` the only contact of free body 2 is its landing on
obstacle 6, and the projectile touches no wall and no free body. -/
theorem landed_world_quiet (clock : Nat → ℝ) :
    LandQuiet (realEnv clock) 2 6 (landed_world : World ℝ)
    ∧ CanonQuiet (realEnv clock) (landed_world : World ℝ) := by
  have cx : (landed_world : World ℝ).canon_x_position = 0 := rfl
  have cy : (landed_world : World ℝ).canon_y_position = 51 := rfl
  have cr : (landed_world : World ℝ).radius_of_canon = 10 := rfl
  have co : (landed_world : World ℝ).canon_out = 0 := rfl
  have e00 : (landed_world : World ℝ).objects 0 0 = 400 := rfl
  have e01 : (landed_world : World ℝ).objects 0 1 = 100 := rfl
  have e05 : (landed_world : World ℝ).objects 0 5 = 30 / 2 := rfl
  have e10 : (landed_world : World ℝ).objects 1 0 = 1200 := rfl
  have e11 : (landed_world : World ℝ).objects 1 1 = 150 := rfl
  have e15 : (landed_world : World ℝ).objects 1 5 = 30 / 2 := rfl
  have e20 : (landed_world : World ℝ).objects 2 0 = 900 := rfl
  have e21 : (landed_world : World ℝ).objects 2 1 = 192 := rfl
  have e25 : (landed_world : World ℝ).objects 2 5 = 30 / 2 := rfl
  have hf : (landed_world : World ℝ).fixe = (initial_world : World ℝ).fixe := rfl
  obtain ⟨f60, f61, f62, f63, f70, f71, f72, f73, f80, f81, f82, f83⟩ := layout_fixe_low
  constructor
  · unfold LandQuiet
    rw [hf, e20, e21, e25, f60, f61, f63]
    refine ⟨by norm_num, by norm_num, by norm_num, by norm_num, ?_, ?_, by norm_num,
      by norm_num⟩
    · intro j hj hj2
      unfold no_of_objects at hj
      unfold Touch
      rw [e20, e21, e25]
      interval_cases j
      · rw [e00, e01, e05]
        exact ⟨distance_far _ _ _ _ _ _ (by norm_num), distance_far _ _ _ _ _ _ (by norm_num)⟩
      · rw [e10, e11, e15]
        exact ⟨distance_far _ _ _ _ _ _ (by norm_num), distance_far _ _ _ _ _ _ (by norm_num)⟩
      · exact absurd rfl hj2
    · intro k h6 h9 hk
      unfold ObstacleQuiet
      rw [hf, e20, e21, e25]
      interval_cases k
      · exact absurd rfl hk
      · rw [f70, f71, f72, f73]
        norm_num
      · rw [f80, f81, f82, f83]
        norm_num
  · unfold CanonQuiet
    rw [cx, cy, cr, co]
    refine ⟨by norm_num, by norm_num, by norm_num, fun h => absurd h.2 (by decide), ?_⟩
    intro j hj
    unfold no_of_objects at hj
    interval_cases j
    · rw [e00, e01, e05]
      exact distance_far _ _ _ _ _ _ (by norm_num)
    · rw [e10, e11, e15]
      exact distance_far _ _ _ _ _ _ (by norm_num)
    · rw [e20, e21, e25]
      exact distance_far _ _ _ _ _ _ (by norm_num)

/-- In `onedge_world` free body 2 overlaps no other body and the projectile
touches no wall and no free body. -/
theorem onedge_world_apart (clock : Nat → ℝ) :
    Apart (realEnv clock) 2 (onedge_world : World ℝ)
    ∧ CanonQuiet (realEnv clock) (onedge_world : World ℝ) := by
  have cx : (onedge_world : World ℝ).canon_x_position = 0 := rfl
  have cy : (onedge_world : World ℝ).canon_y_position = 51 := rfl
  have cr : (onedge_world : World ℝ).radius_of_canon = 10 := rfl
  have co : (onedge_world : World ℝ).canon_out = 0 := rfl
  have e00 : (onedge_world : World ℝ).objects 0 0 = 400 := rfl
  have e01 : (onedge_world : World ℝ).objects 0 1 = 100 := rfl
  have e05 : (onedge_world : World ℝ).objects 0 5 = 30 / 2 := rfl
  have e10 : (onedge_world : World ℝ).objects 1 0 = 1200 := rfl
  have e11 : (onedge_world : World ℝ).objects 1 1 = 150 := rfl
  have e15 : (onedge_world : World ℝ).objects 1 5 = 30 / 2 := rfl
  have e20 : (onedge_world : World ℝ).objects 2 0 = 866 := rfl
  have e21 : (onedge_world : World ℝ).objects 2 1 = 190 := rfl
  have e25 : (onedge_world : World ℝ).objects 2 5 = 30 / 2 := rfl
  constructor
  · intro j hj hj2
    unfold no_of_objects at hj
    unfold Touch
    rw [e20, e21, e25]
    interval_cases j
    · rw [e00, e01, e05]
      exact ⟨distance_far _ _ _ _ _ _ (by norm_num), distance_far _ _ _ _ _ _ (by norm_num)⟩
    · rw [e10, e11, e15]
      exact ⟨distance_far _ _ _ _ _ _ (by norm_num), distance_far _ _ _ _ _ _ (by norm_num)⟩
    · exact absurd rfl hj2
  · unfold CanonQuiet
    rw [cx, cy, cr, co]
    refine ⟨by norm_num, by norm_num, by norm_num, fun h => absurd h.2 (by decide), ?_⟩
    intro j hj
    unfold no_of_objects at hj
    interval_cases j
    · rw [e00, e01, e05]
      exact distance_far _ _ _ _ _ _ (by norm_num)
    · rw [e10, e11, e15]
      exact distance_far _ _ _ _ _ _ (by norm_num)
    · rw [e20, e21, e25]
      exact distance_far _ _ _ _ _ _ (by norm_num)

/-- A `checkcollision` pass over `onedge_world`: the landing test of body 2 on
obstacle 6 fires, and then the side test of its left edge on the same obstacle;
the body ends with velocity `(-0.56, 1.4)` and collision count 2. -/
theorem onedge_world_pass (clock : Nat → ℝ) (U : Uninit ℝ) :
    (checkcollision (realEnv clock) U (onedge_world : World ℝ)).objects 2 2 = -0.56
    ∧ (checkcollision (realEnv clock) U (onedge_world : World ℝ)).objects 2 3 = 1.4
    ∧ (checkcollision (realEnv clock) U (onedge_world : World ℝ)).objects 2 16 = 2 := by
  obtain ⟨hap, hcq⟩ := onedge_world_apart clock
  obtain ⟨hpre, hrow⟩ := checkcollision_row_alone (realEnv clock) U onedge_world 2 (by decide)
    hap (pass_to_body_reach (realEnv clock) U onedge_world 2 (by decide) hcq)
  rw [hrow]
  generalize pass_to_body (realEnv clock) U 2 (onedge_world : World ℝ) = a at hpre
  obtain ⟨f60, f61, f62, f63, f70, f71, f72, f73, f80, f81, f82, f83⟩ := layout_fixe_low
  have hfa : a.fixe = (initial_world : World ℝ).fixe := hpre.1.1.1.2.2.2.2.2.2.2.2
  have hca : a.coefficient_of_collision_with_walls = 0.4 := hpre.1.1.1.2.2.2.2.1
  have hra : a.friction = 0.7 := hpre.1.1.1.2.2.2.2.2.2.1
  have a0 : a.objects 2 0 = 866 := by rw [hpre.2]; rfl
  have a1 : a.objects 2 1 = 190 := by rw [hpre.2]; rfl
  have a2 : a.objects 2 2 = 2 := by rw [hpre.2]; rfl
  have a3 : a.objects 2 3 = -5 := by rw [hpre.2]; rfl
  have a5 : a.objects 2 5 = 30 / 2 := by rw [hpre.2]; rfl
  have a16 : a.objects 2 16 = 0 := by rw [hpre.2]; rfl
  rw [object_walls_idle (realEnv clock) 2 a (by rw [a0]; norm_num) (by rw [a1]; norm_num)
    (by rw [a1]; norm_num) (by rw [a0]; norm_num)]
  rw [forLoop_split_obstacle _ a 6 (by decide) (by decide)]
  have h66 : forLoop 6 6 (fun i1 s => object_obstacle (realEnv clock) 2 i1 s) a = a := rfl
  rw [h66]
  have htop := object_obstacle_top_landing (realEnv clock) 2 6 a
    (by rw [a1, a5, hfa, f61, f63]; norm_num) (by rw [a0, hfa, f60, f62]; norm_num)
    (by rw [a0, hfa, f61]; norm_num)
  have hr2 := set_object_position_row (realEnv clock) (a.objects 2 0) (a.objects 2 1)
    (-1 * a.objects 2 3) (a.objects 2 2) 0 0 (a.objects 2 2 * a.friction)
    (a.objects 2 3 * -1 * a.coefficient_of_collision_with_walls) 2 a
  have hf2 := set_object_position_fr (realEnv clock) (a.objects 2 0) (a.objects 2 1)
    (-1 * a.objects 2 3) (a.objects 2 2) 0 0 (a.objects 2 2 * a.friction)
    (a.objects 2 3 * -1 * a.coefficient_of_collision_with_walls) 2 a
  rw [← htop] at hr2 hf2
  have h6 : object_obstacle (realEnv clock) 2 6 a
      = object_obstacle_side (realEnv clock) 2 6 (object_obstacle_top (realEnv clock) 2 6 a) :=
    rfl
  rw [h6]
  generalize object_obstacle_top (realEnv clock) 2 6 a = s2 at hr2 hf2 ⊢
  have hfs : s2.fixe = (initial_world : World ℝ).fixe := hf2.1.1.2.2.2.2.2.2.2.2.trans hfa
  have hcs : s2.coefficient_of_collision_with_walls = 0.4 := hf2.1.1.2.2.2.2.1.trans hca
  have hrs : s2.friction = 0.7 := hf2.1.1.2.2.2.2.2.2.1.trans hra
  have b0 : s2.objects 2 0 = 866 := hr2.2.2.2.2.2.2.2.2.2.2.1.trans a0
  have b1 : s2.objects 2 1 = 190 := hr2.2.2.2.2.2.2.2.2.2.2.2.1.trans a1
  have b5 : s2.objects 2 5 = 30 / 2 := hr2.2.2.2.2.2.2.2.2.2.2.2.2.1.trans a5
  have b2 : s2.objects 2 2 = 1.4 := by
    rw [hr2.2.2.2.1, a2, hra]
    norm_num
  have b3 : s2.objects 2 3 = 2 := by
    rw [hr2.2.2.1, a3, hca]
    norm_num
  have b16 : s2.objects 2 16 = 1 := by
    rw [hr2.1, a16]
    norm_num
  have hside := object_obstacle_side_right (realEnv clock) 2 6 s2
    (Or.inr (by rw [b1, b5, hfs, f61, f63]; norm_num))
    (by rw [b0, b5, hfs, f60]; norm_num) (by rw [b0, b5, hfs, f60]; norm_num)
  have hr3 := set_object_position_row (realEnv clock) (s2.objects 2 0 + 3) (s2.objects 2 1)
    (s2.objects 2 3) (-1 * s2.objects 2 2) 0 0
    (s2.objects 2 2 * s2.coefficient_of_collision_with_walls * -1)
    (s2.objects 2 3 * s2.friction) 2 s2
  have hf3 := set_object_position_fr (realEnv clock) (s2.objects 2 0 + 3) (s2.objects 2 1)
    (s2.objects 2 3) (-1 * s2.objects 2 2) 0 0
    (s2.objects 2 2 * s2.coefficient_of_collision_with_walls * -1)
    (s2.objects 2 3 * s2.friction) 2 s2
  rw [← hside] at hr3 hf3
  generalize object_obstacle_side (realEnv clock) 2 6 s2 = s3 at hr3 hf3 ⊢
  have hft : s3.fixe = (initial_world : World ℝ).fixe := hf3.1.1.2.2.2.2.2.2.2.2.trans hfs
  have c0 : s3.objects 2 0 = 866 := hr3.2.2.2.2.2.2.2.2.2.2.1.trans b0
  have c1 : s3.objects 2 1 = 190 := hr3.2.2.2.2.2.2.2.2.2.2.2.1.trans b1
  have c5 : s3.objects 2 5 = 30 / 2 := hr3.2.2.2.2.2.2.2.2.2.2.2.2.1.trans b5
  rw [object_obstacles_quiet (realEnv clock) 2 (6 + 1) 9 s3 (by
    intro k h7 h9
    unfold ObstacleQuiet
    rw [hft, c0, c1, c5]
    interval_cases k
    · rw [f70, f71, f72, f73]
      norm_num
    · rw [f80, f81, f82, f83]
      norm_num)]
  refine ⟨?_, ?_, ?_⟩
  · rw [hr3.2.2.2.1, b2, hcs]
    norm_num
  · rw [hr3.2.2.1, b3, hrs]
    norm_num
  · rw [hr3.1, b16]
    norm_num

/-- C25 counterexample. (1) In `perched_world` free body 0 (radius 15, velocity
`(2, -5)`) has its bottom edge 2 units above the top edge of obstacle 0 and its
`x` within the obstacle's span; no test of `checkcollision` looks at obstacles
0..5 for a free body, and after the pass the body has still velocity `(2, -5)`
and collision count 0: it was not re-launched with velocity `(1.4, 2)`.
(2) In `onedge_world` free body 2 (velocity `(2, -5)`) is within the contact
band and the span of obstacle 6, one of the three obstacles that are tested,
but also within reach of the side test of the same obstacle: the pass
re-launches it twice and leaves the velocity `(-0.56, 1.4)`, not `(1.4, 2)`. -/
theorem C25_upper_obstacles_ignored :
    ((0 ≤ (perched_world : World ℝ).objects 0 1 - (perched_world : World ℝ).objects 0 5
          - ((perched_world : World ℝ).fixe 0 1 + (perched_world : World ℝ).fixe 0 3)
      ∧ (perched_world : World ℝ).objects 0 1 - (perched_world : World ℝ).objects 0 5
          - ((perched_world : World ℝ).fixe 0 1 + (perched_world : World ℝ).fixe 0 3) ≤ 5)
    ∧ (0 ≤ (perched_world : World ℝ).objects 0 0 - (perched_world : World ℝ).fixe 0 0
      ∧ (perched_world : World ℝ).objects 0 0 - (perched_world : World ℝ).fixe 0 0
          ≤ (perched_world : World ℝ).fixe 0 2)
    ∧ (checkcollision E0 (zeroUninit ℝ) perched_world).objects 0 2 = 2
    ∧ (checkcollision E0 (zeroUninit ℝ) perched_world).objects 0 3 = -5
    ∧ (checkcollision E0 (zeroUninit ℝ) perched_world).objects 0 16 = 0
    ∧ (checkcollision E0 (zeroUninit ℝ) perched_world).objects 0 3
      ≠ -0.4 * (perched_world : World ℝ).objects 0 3
    ∧ (checkcollision E0 (zeroUninit ℝ) perched_world).objects 0 2
      ≠ 0.7 * (perched_world : World ℝ).objects 0 2)
    ∧ ((0 ≤ (onedge_world : World ℝ).objects 2 1 - (onedge_world : World ℝ).objects 2 5
          - ((onedge_world : World ℝ).fixe 6 1 + (onedge_world : World ℝ).fixe 6 3)
      ∧ (onedge_world : World ℝ).objects 2 1 - (onedge_world : World ℝ).objects 2 5
          - ((onedge_world : World ℝ).fixe 6 1 + (onedge_world : World ℝ).fixe 6 3) ≤ 5)
    ∧ (0 ≤ (onedge_world : World ℝ).objects 2 0 - (onedge_world : World ℝ).fixe 6 0
      ∧ (onedge_world : World ℝ).objects 2 0 - (onedge_world : World ℝ).fixe 6 0
          ≤ (onedge_world : World ℝ).fixe 6 2)
    ∧ (checkcollision E0 (zeroUninit ℝ) onedge_world).objects 2 2 = -0.56
    ∧ (checkcollision E0 (zeroUninit ℝ) onedge_world).objects 2 3 = 1.4
    ∧ (checkcollision E0 (zeroUninit ℝ) onedge_world).objects 2 16 = 2
    ∧ (checkcollision E0 (zeroUninit ℝ) onedge_world).objects 2 3
      ≠ -0.4 * (onedge_world : World ℝ).objects 2 3
    ∧ (checkcollision E0 (zeroUninit ℝ) onedge_world).objects 2 2
      ≠ 0.7 * (onedge_world : World ℝ).objects 2 2) := by
  constructor
  · have e00 : (perched_world : World ℝ).objects 0 0 = 350 := rfl
    have e01 : (perched_world : World ℝ).objects 0 1 = 447 := rfl
    have e02 : (perched_world : World ℝ).objects 0 2 = 2 := rfl
    have e03 : (perched_world : World ℝ).objects 0 3 = -5 := rfl
    have e05 : (perched_world : World ℝ).objects 0 5 = 30 / 2 := rfl
    have e16 : (perched_world : World ℝ).objects 0 16 = 0 := rfl
    have f00 : (perched_world : World ℝ).fixe 0 0 = 300 := rfl
    have f01 : (perched_world : World ℝ).fixe 0 1 = 400 := rfl
    have f02 : (perched_world : World ℝ).fixe 0 2 = 100 := rfl
    have f03 : (perched_world : World ℝ).fixe 0 3 = 30 := rfl
    have hq := perched_world_quiet (fun k => (k : ℝ))
    have h := checkcollision_row_quiet E0 (zeroUninit ℝ) perched_world 0 (by decide) hq.1 hq.2.1
      hq.2.2
    rw [h, e00, e01, e02, e03, e05, e16, f00, f01, f02, f03]
    norm_num
  · have e20 : (onedge_world : World ℝ).objects 2 0 = 866 := rfl
    have e21 : (onedge_world : World ℝ).objects 2 1 = 190 := rfl
    have e22 : (onedge_world : World ℝ).objects 2 2 = 2 := rfl
    have e23 : (onedge_world : World ℝ).objects 2 3 = -5 := rfl
    have e25 : (onedge_world : World ℝ).objects 2 5 = 30 / 2 := rfl
    have f60 : (onedge_world : World ℝ).fixe 6 0 = 850 := rfl
    have f61 : (onedge_world : World ℝ).fixe 6 1 = 145 := rfl
    have f62 : (onedge_world : World ℝ).fixe 6 2 = 100 := rfl
    have f63 : (onedge_world : World ℝ).fixe 6 3 = 30 := rfl
    have h := onedge_world_pass (fun k => (k : ℝ)) (zeroUninit ℝ)
    have h2 : (checkcollision E0 (zeroUninit ℝ) onedge_world).objects 2 2 = -0.56 := h.1
    have h3 : (checkcollision E0 (zeroUninit ℝ) onedge_world).objects 2 3 = 1.4 := h.2.1
    have h16 : (checkcollision E0 (zeroUninit ℝ) onedge_world).objects 2 16 = 2 := h.2.2
    rw [h2, h3, h16, e20, e21, e22, e23, e25, f60, f61, f62, f63]
    norm_num

/-- C25, amended. The free bodies are tested against obstacles 6, 7 and 8 only.
For every free body `i < 3` and every obstacle `i1` of these three, if the
body's bottom edge is within the contact band above the obstacle's top edge
(`0 ≤ y - radius - (obstacle.y + obstacle.height) ≤ 5`), the body's `x` lies
within the obstacle's horizontal span (`0 ≤ x - obstacle.x ≤ obstacle.width`)
and the body is in no other contact, then after one `checkcollision` pass the
body has been re-launched once, from where it is (collision count raised by 1,
launch position equal to its position), with vertical velocity negated and
scaled by 0.4 and horizontal velocity scaled by 0.7 (0.4 and 0.7 being the
values of the wall coefficient and of the friction).  "In no other contact" is
a condition on the body alone: no wall, ground, other free body, other
obstacle of 6..8 or other test of obstacle `i1` (`LandQuiet`), and the
projectile out of its reach when the pass comes to it (the test of line 626
fails in the state `pass_to_body`). -/
theorem C25_landing_response (E : Env α) (U : Uninit α) (w : World α) (i i1 : Nat)
    (hi : i < no_of_objects) (h6 : 6 ≤ i1) (h9 : i1 < 9)
    (hband : w.objects i 1 - w.objects i 5 - (w.fixe i1 1 + w.fixe i1 3) ≤ 5
      ∧ w.objects i 1 - w.objects i 5 - (w.fixe i1 1 + w.fixe i1 3) ≥ 0)
    (hspan : w.objects i 0 - w.fixe i1 0 ≤ w.fixe i1 2 ∧ w.objects i 0 - w.fixe i1 0 ≥ 0)
    (hc : w.coefficient_of_collision_with_walls = 0.4) (hf : w.friction = 0.7)
    (hq : LandQuiet E i i1 w) (hr : ¬ CanonTouch E i (pass_to_body E U i w)) :
    (checkcollision E U w).objects i 3 = -0.4 * w.objects i 3
    ∧ (checkcollision E U w).objects i 2 = 0.7 * w.objects i 2
    ∧ (checkcollision E U w).objects i 16 = w.objects i 16 + 1
    ∧ (checkcollision E U w).objects i 9 = w.objects i 0
    ∧ (checkcollision E U w).objects i 10 = w.objects i 1
    ∧ (checkcollision E U w).objects i 0 = w.objects i 0
    ∧ (checkcollision E U w).objects i 1 = w.objects i 1 := by
  have h := checkcollision_landing E U w i i1 hi h6 h9 hband hspan hq hr
  have hfr := (checkcollision_fr E U w).2 i
  refine ⟨?_, ?_, h.2.2.1, h.2.2.2.1, h.2.2.2.2, hfr.1, hfr.2.1⟩
  · rw [h.1, hc]
    ring
  · rw [h.2.1, hf]
    ring

/-- Witness of C25 (amended): in `landed_world` free body 2 (velocity
`(2, -5)`, collision count 0) is within the landing band of obstacle 6 and in
no other contact; after the pass its velocity is `(1.4, 2)` and its collision
count 1. -/
theorem C25_landing_response_witness :
    (2 < no_of_objects ∧ 6 ≤ 6 ∧ 6 < 9)
    ∧ ((landed_world : World ℝ).objects 2 1 - (landed_world : World ℝ).objects 2 5
          - ((landed_world : World ℝ).fixe 6 1 + (landed_world : World ℝ).fixe 6 3) ≤ 5
      ∧ (landed_world : World ℝ).objects 2 1 - (landed_world : World ℝ).objects 2 5
          - ((landed_world : World ℝ).fixe 6 1 + (landed_world : World ℝ).fixe 6 3) ≥ 0)
    ∧ ((landed_world : World ℝ).objects 2 0 - (landed_world : World ℝ).fixe 6 0
          ≤ (landed_world : World ℝ).fixe 6 2
      ∧ (landed_world : World ℝ).objects 2 0 - (landed_world : World ℝ).fixe 6 0 ≥ 0)
    ∧ LandQuiet E0 2 6 (landed_world : World ℝ)
    ∧ ¬ CanonTouch E0 2 (pass_to_body E0 (zeroUninit ℝ) 2 (landed_world : World ℝ))
    ∧ (checkcollision E0 (zeroUninit ℝ) landed_world).objects 2 2 = 1.4
    ∧ (checkcollision E0 (zeroUninit ℝ) landed_world).objects 2 3 = 2
    ∧ (checkcollision E0 (zeroUninit ℝ) landed_world).objects 2 16 = 1 := by
  have e20 : (landed_world : World ℝ).objects 2 0 = 900 := rfl
  have e21 : (landed_world : World ℝ).objects 2 1 = 192 := rfl
  have e22 : (landed_world : World ℝ).objects 2 2 = 2 := rfl
  have e23 : (landed_world : World ℝ).objects 2 3 = -5 := rfl
  have e25 : (landed_world : World ℝ).objects 2 5 = 30 / 2 := rfl
  have e16 : (landed_world : World ℝ).objects 2 16 = 0 := rfl
  have f60 : (landed_world : World ℝ).fixe 6 0 = 850 := rfl
  have f61 : (landed_world : World ℝ).fixe 6 1 = 145 := rfl
  have f62 : (landed_world : World ℝ).fixe 6 2 = 100 := rfl
  have f63 : (landed_world : World ℝ).fixe 6 3 = 30 := rfl
  have hband : (landed_world : World ℝ).objects 2 1 - (landed_world : World ℝ).objects 2 5
        - ((landed_world : World ℝ).fixe 6 1 + (landed_world : World ℝ).fixe 6 3) ≤ 5
      ∧ (landed_world : World ℝ).objects 2 1 - (landed_world : World ℝ).objects 2 5
        - ((landed_world : World ℝ).fixe 6 1 + (landed_world : World ℝ).fixe 6 3) ≥ 0 := by
    rw [e21, e25, f61, f63]
    norm_num
  have hspan : (landed_world : World ℝ).objects 2 0 - (landed_world : World ℝ).fixe 6 0
        ≤ (landed_world : World ℝ).fixe 6 2
      ∧ (landed_world : World ℝ).objects 2 0 - (landed_world : World ℝ).fixe 6 0 ≥ 0 := by
    rw [e20, f60, f62]
    norm_num
  obtain ⟨hq, hcq⟩ := landed_world_quiet (fun k => (k : ℝ))
  have hr := pass_to_body_reach E0 (zeroUninit ℝ) landed_world 2 (by decide) hcq
  have h := C25_landing_response E0 (zeroUninit ℝ) landed_world 2 6 (by decide) (by decide)
    (by decide) hband hspan rfl rfl hq hr
  refine ⟨⟨by decide, by decide, by decide⟩, hband, hspan, hq, hr, ?_, ?_, ?_⟩
  · rw [h.2.1, e22]
    norm_num
  · rw [h.1, e23]
    norm_num
  · rw [h.2.2.1, e16]
    norm_num

/-! ### Stored velocity of a resting projectile -/

theorem damped_of_par {a b : World α} (h : Par a b) (hd : Damped a) : Damped b := by
  unfold Damped at hd ⊢
  rw [h.2.1, h.2.2.2.2.1, h.2.2.2.2.2.2.1]
  exact hd

theorem Tame.refl_tame (w : World α) : Tame w w := ⟨Par.refl_par w, fun _ h => h⟩

theorem Tame.trans_tame {a b c : World α} (h1 : Tame a b) (h2 : Tame b c) : Tame a c :=
  ⟨h1.1.trans_par h2.1, fun hd hs => h2.2 (damped_of_par h1.1 hd) (h1.2 hd hs)⟩

theorem forLoop_tame (lo hi : Nat) (body : Nat → World α → World α)
    (hbody : ∀ i s, Tame s (body i s)) (w : World α) : Tame w (forLoop lo hi body w) :=
  forLoop_rel Tame Tame.refl_tame (fun _ _ _ h1 h2 => h1.trans_tame h2) lo hi body hbody w

theorem scale_slow (v c : α) (h1 : -1 ≤ v) (h2 : v ≤ 1) (h3 : 0 ≤ c) (h4 : c ≤ 1) :
    -1 ≤ v * c ∧ v * c ≤ 1 := by
  constructor
  · nlinarith [mul_nonneg (by linarith : (0 : α) ≤ 1 + v) h3]
  · nlinarith [mul_nonneg (by linarith : (0 : α) ≤ 1 - v) h3]

/-- A wall or side response of the projectile: horizontal velocity reflected and
scaled by the wall coefficient, vertical velocity scaled by the friction. -/
theorem set_canon_position_tame_side (E : Env α) (x y ty tx : α) (d : Int) (v : α)
    (w : World α) :
    Tame w (set_canon_position E x y ty tx d v
      (-1 * w.canon_x_velocity * w.coefficient_of_collision_with_walls)
      (w.canon_y_velocity * w.friction) w) := by
  refine ⟨(set_canon_position_fr ..).1.1, fun hd hs => ?_⟩
  have a := scale_slow _ _ hs.1 hs.2.1 hd.2.2.1 hd.2.2.2.1
  have b := scale_slow _ _ hs.2.2.1 hs.2.2.2 hd.2.2.2.2.1 hd.2.2.2.2.2
  refine ⟨?_, ?_, b.1, b.2⟩
  · show -1 ≤ -1 * w.canon_x_velocity * w.coefficient_of_collision_with_walls
    linarith [a.2]
  · show -1 * w.canon_x_velocity * w.coefficient_of_collision_with_walls ≤ 1
    linarith [a.1]

/-- A floor, ceiling or landing response of the projectile: horizontal velocity
scaled by the friction, vertical velocity reflected and scaled by the wall
coefficient. -/
theorem set_canon_position_tame_floor (E : Env α) (x y ty tx : α) (d : Int) (v : α)
    (w : World α) :
    Tame w (set_canon_position E x y ty tx d v (w.canon_x_velocity * w.friction)
      (-1 * w.canon_y_velocity * w.coefficient_of_collision_with_walls) w) := by
  refine ⟨(set_canon_position_fr ..).1.1, fun hd hs => ?_⟩
  have a := scale_slow _ _ hs.1 hs.2.1 hd.2.2.2.2.1 hd.2.2.2.2.2
  have b := scale_slow _ _ hs.2.2.1 hs.2.2.2 hd.2.2.1 hd.2.2.2.1
  refine ⟨a.1, a.2, ?_, ?_⟩
  · show -1 ≤ -1 * w.canon_y_velocity * w.coefficient_of_collision_with_walls
    linarith [b.2]
  · show -1 * w.canon_y_velocity * w.coefficient_of_collision_with_walls ≤ 1
    linarith [b.1]

theorem set_canon_position_tame_land (E : Env α) (x y ty tx : α) (d : Int) (v : α)
    (w : World α) :
    Tame w (set_canon_position E x y ty tx d v (w.canon_x_velocity * w.friction)
      (w.canon_y_velocity * -1 * w.coefficient_of_collision_with_walls) w) := by
  have h : w.canon_y_velocity * -1 * w.coefficient_of_collision_with_walls
      = -1 * w.canon_y_velocity * w.coefficient_of_collision_with_walls := by ring
  rw [h]
  exact set_canon_position_tame_floor E x y ty tx d v w

theorem canon_walls_tame (E : Env α) (w : World α) : Tame w (canon_walls E w) := by
  have h1 : ∀ v s, Tame s (canon_wall_right E v s) := by
    intro v s
    unfold canon_wall_right
    split_ifs
    · exact set_canon_position_tame_side ..
    · exact Tame.refl_tame s
  have h2 : ∀ v s, Tame s (canon_wall_top E v s) := by
    intro v s
    unfold canon_wall_top
    split_ifs
    · exact set_canon_position_tame_floor ..
    · exact Tame.refl_tame s
  have h3 : ∀ v s, Tame s (canon_wall_ground E v s) := by
    intro v s
    unfold canon_wall_ground
    split_ifs
    · exact set_canon_position_tame_floor ..
    · exact Tame.refl_tame s
  have h4 : ∀ v s, Tame s (canon_wall_left E v s) := by
    intro v s
    unfold canon_wall_left
    split_ifs
    · exact set_canon_position_tame_side ..
    · exact Tame.refl_tame s
  unfold canon_walls
  simp only []
  exact ((h1 _ _).trans_tame (h2 _ _)).trans_tame ((h3 _ _).trans_tame (h4 _ _))

theorem canon_obstacle_tame (E : Env α) (i : Nat) (w : World α) :
    Tame w (canon_obstacle E i w) := by
  have h1 : ∀ y s, Tame s (canon_obstacle_land E y s) := by
    intro y s
    unfold canon_obstacle_land
    split_ifs
    · exact set_canon_position_tame_land ..
    · exact Tame.refl_tame s
  have h2 : ∀ s, Tame s (canon_obstacle_under E i s) := by
    intro s
    unfold canon_obstacle_under
    simp only []
    split_ifs
    · exact set_canon_position_tame_land ..
    · exact Tame.refl_tame s
  have h3 : ∀ x s, Tame s (canon_obstacle_left E x s) := by
    intro x s
    unfold canon_obstacle_left
    split_ifs
    · exact set_canon_position_tame_side ..
    · exact Tame.refl_tame s
  have h4 : ∀ x s, Tame s (canon_obstacle_right E x s) := by
    intro x s
    unfold canon_obstacle_right
    split_ifs
    · exact set_canon_position_tame_side ..
    · exact Tame.refl_tame s
  have h5 : ∀ s, Tame s (canon_obstacle_top E i s) := by
    intro s
    unfold canon_obstacle_top
    simp only []
    split_ifs
    · exact (h1 _ _).trans_tame (h2 _)
    · exact Tame.refl_tame s
  have h6 : ∀ s, Tame s (canon_obstacle_side E i s) := by
    intro s
    unfold canon_obstacle_side
    simp only []
    split_ifs
    · exact (h3 _ _).trans_tame (h4 _ _)
    · exact Tame.refl_tame s
  unfold canon_obstacle
  exact (h5 _).trans_tame (h6 _)

/-- A re-launch of a free body leaves the projectile's stored velocity as it
is. -/
theorem set_object_position_tame (E : Env α) (x y ty tx : α) (d : Int) (v ux uy : α) (j : Nat)
    (w : World α) : Tame w (set_object_position E x y ty tx d v ux uy j w) :=
  ⟨(set_object_position_fr ..).1.1, fun _ h => h⟩

theorem object_walls_tame (E : Env α) (j : Nat) (w : World α) :
    Tame w (object_walls E j w) := by
  have h1 : ∀ v s, Tame s (object_wall_right E v j s) := by
    intro v s
    unfold object_wall_right
    split_ifs
    · exact set_object_position_tame ..
    · exact Tame.refl_tame s
  have h2 : ∀ v s, Tame s (object_wall_top E v j s) := by
    intro v s
    unfold object_wall_top
    split_ifs
    · exact set_object_position_tame ..
    · exact Tame.refl_tame s
  have h3 : ∀ v s, Tame s (object_wall_ground E v j s) := by
    intro v s
    unfold object_wall_ground
    split_ifs
    · exact set_object_position_tame ..
    · exact Tame.refl_tame s
  have h4 : ∀ v s, Tame s (object_wall_left E v j s) := by
    intro v s
    unfold object_wall_left
    split_ifs
    · exact set_object_position_tame ..
    · exact Tame.refl_tame s
  unfold object_walls
  simp only []
  exact ((h1 _ _).trans_tame (h2 _ _)).trans_tame ((h3 _ _).trans_tame (h4 _ _))

theorem object_object_contact_tame (E : Env α) (U : Uninit α) (j i1 : Nat) (w : World α) :
    Tame w (object_object_contact E U j i1 w) := by
  unfold object_object_contact
  simp only []
  by_cases h1 : j ≠ i1
  · rw [if_pos h1]
    by_cases h2 : distance E (w.objects j 0) (w.objects j 1) (w.objects i1 0) (w.objects i1 1)
        ≤ w.objects j 5 + w.objects i1 5
    · rw [if_pos h2]
      exact (set_object_position_tame ..).trans_tame (set_object_position_tame ..)
    · rw [if_neg h2]
      exact Tame.refl_tame w
  · rw [if_neg h1]
    exact Tame.refl_tame w

theorem object_obstacle_tame (E : Env α) (j i1 : Nat) (w : World α) :
    Tame w (object_obstacle E j i1 w) := by
  have h1 : ∀ y v, Tame v (object_obstacle_land E j y v) := by
    intro y v
    unfold object_obstacle_land
    split_ifs
    · exact set_object_position_tame ..
    · exact Tame.refl_tame v
  have h2 : ∀ v, Tame v (object_obstacle_under E j i1 v) := by
    intro v
    unfold object_obstacle_under
    simp only []
    split_ifs
    · exact set_object_position_tame ..
    · exact Tame.refl_tame v
  have h3 : ∀ x v, Tame v (object_obstacle_left E j x v) := by
    intro x v
    unfold object_obstacle_left
    split_ifs
    · exact set_object_position_tame ..
    · exact Tame.refl_tame v
  have h4 : ∀ x v, Tame v (object_obstacle_right E j x v) := by
    intro x v
    unfold object_obstacle_right
    split_ifs
    · exact set_object_position_tame ..
    · exact Tame.refl_tame v
  have h5 : ∀ v, Tame v (object_obstacle_top E j i1 v) := by
    intro v
    unfold object_obstacle_top
    simp only []
    split_ifs
    · exact (h1 _ _).trans_tame (h2 _)
    · exact Tame.refl_tame v
  have h6 : ∀ v, Tame v (object_obstacle_side E j i1 v) := by
    intro v
    unfold object_obstacle_side
    simp only []
    split_ifs
    · exact (h3 _ _).trans_tame (h4 _ _)
    · exact Tame.refl_tame v
  unfold object_obstacle
  exact (h5 _).trans_tame (h6 _)

/-- The iteration of the loop over the free bodies for a body the projectile
does not reach keeps the projectile's stored velocity. -/
theorem object_loop_body_tame (E : Env α) (U : Uninit α) (i : Nat) (w : World α)
    (hc : ¬ CanonTouch E i w) : Tame w (object_loop_body E U i w) := by
  unfold object_loop_body
  simp only []
  rw [canon_object_contact_miss E U i w hc]
  exact (object_walls_tame E i w).trans_tame
    ((forLoop_tame _ _ _ (fun i1 s => object_object_contact_tame E U i i1 s) _).trans_tame
      (forLoop_tame _ _ _ (fun i1 s => object_obstacle_tame E i i1 s) _))

/-- The part of `checkcollision` before the collectible loop, when the
projectile reaches no free body. -/
theorem physics_tame (E : Env α) (U : Uninit α) (w : World α)
    (h : ∀ i, i < no_of_objects → ¬ CanonTouch E i (pass_to_body E U i w)) :
    Tame w (forLoop 0 no_of_fixed_objects (fun i s => canon_obstacle E i s)
      (forLoop 0 no_of_objects (fun i s => object_loop_body E U i s) (canon_walls E w))) := by
  have h0 : ¬ CanonTouch E 0 (canon_walls E w) := h 0 (by decide)
  have h1 : ¬ CanonTouch E 1 (object_loop_body E U 0 (canon_walls E w)) := h 1 (by decide)
  have h2 : ¬ CanonTouch E 2
      (object_loop_body E U 1 (object_loop_body E U 0 (canon_walls E w))) := h 2 (by decide)
  have e : forLoop 0 no_of_objects (fun i s => object_loop_body E U i s) (canon_walls E w)
      = object_loop_body E U 2
          (object_loop_body E U 1 (object_loop_body E U 0 (canon_walls E w))) := rfl
  rw [e]
  exact (canon_walls_tame E w).trans_tame
    ((object_loop_body_tame E U 0 _ h0).trans_tame
      ((object_loop_body_tame E U 1 _ h1).trans_tame
        ((object_loop_body_tame E U 2 _ h2).trans_tame
          (forLoop_tame _ _ _ (fun i s => canon_obstacle_tame E i s) _))))

/-- The collectible and target loops keep the projectile's stored velocity
within `[-1, 1]`: a contact sets it to `(0, 0)`. -/
theorem tail_slow (E : Env α) (p : World α) (hs : SlowCanon p) :
    SlowCanon (forLoop 0 no_of_piggy (fun i s => piggy_step E i s)
      (forLoop 0 no_of_coins (fun i s => coin_step E i s) p)) := by
  have zero : ∀ s : World α, s.canon_x_velocity = 0 → s.canon_y_velocity = 0 →
      SlowCanon s := by
    intro s hx hy
    unfold SlowCanon
    rw [hx, hy]
    norm_num
  have hc : ∀ i s, SlowCanon s → SlowCanon (coin_step E i s) := by
    intro i s h
    rcases coin_step_rest E i s with h1 | h1
    · unfold SlowCanon at h ⊢
      rw [h1.2.1, h1.2.2]
      exact h
    · exact zero _ h1.2.1 h1.2.2
  have hp : ∀ i s, SlowCanon s → SlowCanon (piggy_step E i s) := by
    intro i s h
    rcases piggy_step_rest E i s with h1 | h1
    · unfold SlowCanon at h ⊢
      rw [h1.2.1, h1.2.2]
      exact h
    · exact zero _ h1.2.1 h1.2.2
  have key : ∀ (n : Nat) (f : Nat → World α → World α),
      (∀ i s, SlowCanon s → SlowCanon (f i s)) → ∀ s, SlowCanon s → SlowCanon (forLoop 0 n f s) :=
    fun n f hf s => forLoop_rel (fun a b => SlowCanon a → SlowCanon b) (fun _ h => h)
      (fun _ _ _ h1 h2 h => h2 (h1 h)) 0 n f hf s
  exact key _ _ hp _ (key _ _ hc _ hs)

/-- A `checkcollision` pass in which no free body hits a resting projectile
keeps the bound on the stored velocity of a resting projectile. -/
theorem checkcollision_rest_bound (E : Env α) (U : Uninit α) (w : World α) (hd : Damped w)
    (hn : NoRestHit E U w) (hb : RestBound w) : RestBound (checkcollision E U w) := by
  intro h0
  by_cases hw : w.canon_out = 0
  · have hp := physics_tame E U w (hn hw)
    have hs := hp.2 hd (hb hw)
    exact tail_slow E _ hs
  · rcases checkcollision_rest E U w with h | h
    · exact absurd (h.symm.trans h0) hw
    · unfold SlowCanon
      rw [h.2.1, h.2.2]
      norm_num

theorem draw_launch_cases (E : Env α) (w : World α) :
    draw_launch E w = w ∨ (draw_launch E w).canon_out = 1 := by
  unfold draw_launch
  simp only []
  split_ifs
  · exact Or.inr rfl
  · exact Or.inr rfl
  · exact Or.inl rfl

/-- A `draw` tick keeps the bound on the stored velocity of a resting
projectile: a projectile that stays at rest has its velocity scaled by the air
friction, and one that comes to rest passed the settle rule. -/
theorem draw_rest_bound (E : Env α) (w : World α) (hd : Damped w) (hb : RestBound w) :
    RestBound (draw E w) := by
  intro h0
  have hc := draw_cap_fields (draw_canon_update E (draw_to_update E w))
  rw [draw_eq_update] at h0 ⊢
  rw [hc.1] at h0
  by_cases h1 : (draw_to_update E w).canon_out = 1
  · have hs := draw_canon_update_settle E (draw_to_update E w) h1
    have hbd := hs.2.2.1.mp h0
    unfold SlowCanon
    rw [hc.2.1, hc.2.2, if_neg (by linarith [hbd.2.1])]
    exact hbd
  · have hu : draw_canon_update E (draw_to_update E w) = draw_to_update E w := by
      unfold draw_canon_update
      rw [if_neg h1]
    rw [hu] at h0 hc ⊢
    have hl : draw_to_update E w = draw_mid E (draw_air E w) := by
      unfold draw_to_update at h1 ⊢
      rcases draw_launch_cases E (draw_mid E (draw_air E w)) with h | h
      · exact h
      · exact absurd h h1
    have hm := draw_mid_mid E (draw_air E w)
    unfold Mid at hm
    have hw0 : w.canon_out = 0 := by
      have e1 : (draw_mid E (draw_air E w)).canon_out = w.canon_out := (draw_air_mid_fields E w).1
      rw [← e1, ← hl]
      exact h0
    have hsw := hb hw0
    have ex : (draw_to_update E w).canon_x_velocity = w.canon_x_velocity * w.air_friction := by
      rw [hl, hm.2.2.2.2.2.2.2.2.2.2.2.2.2.2.2.2.2.2.1]
      rfl
    have ey : (draw_to_update E w).canon_y_velocity = w.canon_y_velocity * w.air_friction := by
      rw [hl, hm.2.2.2.2.2.2.2.2.2.2.2.2.2.2.2.2.2.2.2.1]
      rfl
    have a := scale_slow _ _ hsw.1 hsw.2.1 hd.1 hd.2.1
    have b := scale_slow _ _ hsw.2.2.1 hsw.2.2.2 hd.1 hd.2.1
    unfold SlowCanon
    rw [hc.2.1, hc.2.2, ex, ey, if_neg (by linarith [a.2])]
    exact ⟨a.1, a.2, b.1, b.2⟩

theorem count_piggy_hit_canon (w : World α) :
    (count_piggy_hit w).canon_out = w.canon_out
    ∧ (count_piggy_hit w).canon_x_velocity = w.canon_x_velocity
    ∧ (count_piggy_hit w).canon_y_velocity = w.canon_y_velocity := by
  unfold count_piggy_hit
  exact forLoop_rel (fun (a b : World α) => (a.canon_out = w.canon_out
      ∧ a.canon_x_velocity = w.canon_x_velocity ∧ a.canon_y_velocity = w.canon_y_velocity) →
      (b.canon_out = w.canon_out
      ∧ b.canon_x_velocity = w.canon_x_velocity ∧ b.canon_y_velocity = w.canon_y_velocity))
    (fun _ h => h) (fun _ _ _ h1 h2 h => h2 (h1 h)) 0 no_of_piggy _
    (fun i s h => by
      split_ifs
      · exact h
      · exact h) _ ⟨rfl, rfl, rfl⟩

/-- An iteration of the main loop in which no free body hits a resting
projectile keeps the bound on the stored velocity of a resting projectile, after
`draw` and at the end of the iteration. -/
theorem main_iter_rest_bound (E : Env α) (U : Uninit α) (inp : Input α) (w : World α)
    (hd : Damped w) (hb : RestBound w)
    (hn : NoRestHit E U (draw E (set_cursor inp.xmousePos inp.ymousePos w))) :
    RestBound (main_iter E U inp w) := by
  have hd1 : Damped (set_cursor inp.xmousePos inp.ymousePos w) := hd
  have hb1 : RestBound (set_cursor inp.xmousePos inp.ymousePos w) := hb
  have hb2 := draw_rest_bound E _ hd1 hb1
  have hd2 := damped_of_par (draw_par E (set_cursor inp.xmousePos inp.ymousePos w)) hd1
  have hb3 := checkcollision_rest_bound E U _ hd2 hn hb2
  have hc := count_piggy_hit_canon
    { { checkcollision E U (draw E (set_cursor inp.xmousePos inp.ymousePos w)) with
        a_pressed := inp.a_pressed
        w_pressed := inp.w_pressed
        s_pressed := inp.s_pressed
        d_pressed := inp.d_pressed
        c_pressed := inp.c_pressed
        left_button_Pressed := inp.left_button_Pressed
        right_button_Pressed := inp.right_button_Pressed } with
      reads := (checkcollision E U (draw E (set_cursor inp.xmousePos inp.ymousePos w))).reads
        + 1 }
  intro h0
  have h0' : (checkcollision E U (draw E (set_cursor inp.xmousePos inp.ymousePos w))).canon_out
      = 0 := hc.1.symm.trans h0
  have hs := hb3 h0'
  unfold SlowCanon at hs ⊢
  have ex : (main_iter E U inp w).canon_x_velocity
      = (checkcollision E U (draw E (set_cursor inp.xmousePos inp.ymousePos w))).canon_x_velocity :=
    hc.2.1
  have ey : (main_iter E U inp w).canon_y_velocity
      = (checkcollision E U (draw E (set_cursor inp.xmousePos inp.ymousePos w))).canon_y_velocity :=
    hc.2.2
  rw [ex, ey]
  exact hs

theorem initial_world_damped : Damped (initial_world : World α) := by
  have e1 : (initial_world : World α).air_friction = 1 - 0.000005 := rfl
  have e2 : (initial_world : World α).coefficient_of_collision_with_walls = 0.4 := rfl
  have e3 : (initial_world : World α).friction = 0.7 := rfl
  unfold Damped
  rw [e1, e2, e3]
  norm_num

/-- Along a run of the main loop in which no free body hits a resting
projectile, a resting projectile has its stored velocity within `[-1, 1]`. -/
theorem main_loop_rest_bound (E : Env α) (ts : List (Uninit α × Input α)) (w : World α)
    (hd : Damped w) (hb : RestBound w) (hg : Gentle E ts w) : RestBound (main_loop E ts w) := by
  induction ts generalizing w with
  | nil => exact hb
  | cons t ts ih =>
    unfold Gentle at hg
    have h1 := main_iter_rest_bound E t.1 t.2 w hd hb hg.1
    unfold main_loop
    simp only []
    split_ifs with h
    · exact h1
    · exact ih _ (damped_of_par (main_iter_par E t.1 t.2 w) hd) h1 (hg.2 h)

/-! ### A pass whose only contact is the projectile hitting free body 0 -/

theorem bodies_calm_of_fr (E : Env α) {w s : World α} (h : Fr w s) (hq : BodiesCalm E w) :
    BodiesCalm E s := by
  intro j hj
  have h1 : s.objects j 1 = w.objects j 1 := (h.2 j).2.1
  rw [h1]
  exact ⟨body_quiet_of_fr E j h (hq j hj).1, (hq j hj).2.1, (hq j hj).2.2⟩

/-- The iteration of the loop over the free bodies for a body in no contact at
all leaves the state as it is. -/
theorem object_loop_body_idle (E : Env α) (U : Uninit α) (j : Nat) (s : World α)
    (hc : ¬ CanonTouch E j s) (hq : BodyQuiet E j s) (ht : ¬ (s.objects j 1 ≥ 650 - 15))
    (hg : ¬ (s.objects j 1 < 50)) : object_loop_body E U j s = s := by
  rw [object_loop_body_alone E U j s hc hq.2.2.1, object_walls_idle E j s hq.1 ht hg hq.2.1,
    object_obstacles_quiet E j 6 9 s hq.2.2.2]

theorem canon_walls_still (E : Env α) (w : World α) (h1 : ¬ (w.canon_x_position ≥ 1350 - 15))
    (h2 : ¬ (w.canon_y_position + w.radius_of_canon ≥ 650)) (h3 : ¬ (w.canon_y_position ≤ 50))
    (h4 : ¬ (w.canon_x_position ≤ 11 + 15 ∧ w.canon_out = 1)) : canon_walls E w = w := by
  have e1 : ∀ v, canon_wall_right E v w = w := by
    intro v
    unfold canon_wall_right
    rw [if_neg h1]
  have e2 : ∀ v, canon_wall_top E v w = w := by
    intro v
    unfold canon_wall_top
    rw [if_neg h2]
  have e3 : ∀ v, canon_wall_ground E v w = w := by
    intro v
    unfold canon_wall_ground
    rw [if_neg h3]
  have e4 : ∀ v, canon_wall_left E v w = w := by
    intro v
    unfold canon_wall_left
    rw [if_neg h4]
  unfold canon_walls
  simp only []
  rw [e1, e2, e3, e4]

/-- A projectile-body contact whose test holds is resolved by the response. -/
theorem canon_object_contact_hit (E : Env α) (U : Uninit α) (i : Nat) (w : World α)
    (hc : CanonTouch E i w) : canon_object_contact E U i w = canon_object_response E U i w := by
  unfold CanonTouch at hc
  unfold canon_object_contact
  simp only []
  rw [if_pos hc]

/-- A `checkcollision` pass whose only contact is the one of the projectile with
free body 0: the state after the pass is the one the response to that contact
leaves. -/
theorem checkcollision_hit_only (E : Env α) (U : Uninit α) (w : World α)
    (hw1 : ¬ (w.canon_x_position ≥ 1350 - 15))
    (hw2 : ¬ (w.canon_y_position + w.radius_of_canon ≥ 650))
    (hw3 : ¬ (w.canon_y_position ≤ 50))
    (hw4 : ¬ (w.canon_x_position ≤ 11 + 15 ∧ w.canon_out = 1))
    (ht : CanonTouch E 0 w) (hb : BodiesCalm E w)
    (h1 : ¬ CanonTouch E 1 (canon_object_response E U 0 w))
    (h2 : ¬ CanonTouch E 2 (canon_object_response E U 0 w))
    (ho : ∀ k, k < no_of_fixed_objects → CanonObstacleQuiet k (canon_object_response E U 0 w))
    (hc : ∀ k, k < no_of_coins → ¬ CoinContact E k (canon_object_response E U 0 w))
    (hp : ∀ k, k < no_of_piggy → ¬ PiggyContact E k (canon_object_response E U 0 w)) :
    checkcollision E U w = canon_object_response E U 0 w := by
  have hfr := canon_object_response_frame E U 0 w
  have hbs := bodies_calm_of_fr E hfr hb
  have e0 : object_loop_body E U 0 w = canon_object_response E U 0 w := by
    unfold object_loop_body
    simp only []
    rw [canon_object_contact_hit E U 0 w ht]
    generalize canon_object_response E U 0 w = s at hbs
    have hq := hbs 0 (by decide)
    rw [object_walls_idle E 0 s hq.1.1 hq.2.1 hq.2.2 hq.1.2.1,
      object_pairs_alone E U 0 s hq.1.2.2.1, object_obstacles_quiet E 0 6 9 s hq.1.2.2.2]
  have e : forLoop 0 no_of_objects (fun i s => object_loop_body E U i s) w
      = object_loop_body E U 2 (object_loop_body E U 1 (object_loop_body E U 0 w)) := rfl
  unfold checkcollision
  simp only []
  rw [canon_walls_still E w hw1 hw2 hw3 hw4, e, e0]
  generalize canon_object_response E U 0 w = s at hbs h1 h2 ho hc hp
  rw [object_loop_body_idle E U 1 s h1 (hbs 1 (by decide)).1 (hbs 1 (by decide)).2.1
      (hbs 1 (by decide)).2.2,
    object_loop_body_idle E U 2 s h2 (hbs 2 (by decide)).1 (hbs 2 (by decide)).2.1
      (hbs 2 (by decide)).2.2,
    forLoop_fixed 0 no_of_fixed_objects _ s (fun i _ h => canon_obstacle_calm E i s (ho i h)),
    forLoop_fixed 0 no_of_coins _ s (fun i _ h => coin_step_idle E i s (hc i h)),
    forLoop_fixed 0 no_of_piggy _ s (fun i _ h => piggy_step_idle E i s (hp i h))]

/-- In a state with the free bodies at their places of the fixed layout, no
free body is in contact with a wall, the ground, another free body or one of
the obstacles 6..8. -/
theorem layout_bodies_calm (clock : Nat → ℝ) (w : World ℝ)
    (h0 : ∀ j, w.objects j 0 = (initial_world : World ℝ).objects j 0)
    (h1 : ∀ j, w.objects j 1 = (initial_world : World ℝ).objects j 1)
    (h5 : ∀ j, w.objects j 5 = (initial_world : World ℝ).objects j 5)
    (hf : w.fixe = (initial_world : World ℝ).fixe) : BodiesCalm (realEnv clock) w := by
  obtain ⟨e00, e01, e05, e10, e11, e15, e20, e21, e25⟩ := layout_objects
  obtain ⟨f60, f61, f62, f63, f70, f71, f72, f73, f80, f81, f82, f83⟩ := layout_fixe_low
  intro i hi
  unfold BodyQuiet Apart Touch ObstacleQuiet
  unfold no_of_objects at hi
  simp only [h0, h1, h5, hf]
  refine ⟨⟨?_, ?_, ?_, ?_⟩, ?_, ?_⟩
  · interval_cases i <;> simp only [e00, e10, e20] <;> norm_num
  · interval_cases i <;> simp only [e00, e10, e20] <;> norm_num
  · intro j hj hji
    unfold no_of_objects at hj
    interval_cases i <;> interval_cases j <;>
      first
      | exact absurd rfl hji
      | (simp only [e00, e01, e05, e10, e11, e15, e20, e21, e25]
         exact ⟨distance_far _ _ _ _ _ _ (by norm_num), distance_far _ _ _ _ _ _ (by norm_num)⟩)
  · intro i1 h6 h9
    interval_cases i <;> interval_cases i1 <;>
      simp only [e00, e01, e05, e10, e11, e15, e20, e21, e25, f60, f61, f62, f63, f70, f71,
        f72, f73, f80, f81, f82, f83] <;> norm_num
  · interval_cases i <;> simp only [e01, e11, e21] <;> norm_num
  · interval_cases i <;> simp only [e01, e11, e21] <;> norm_num

theorem distance_far_x (clock : Nat → ℝ) (a b c d r : ℝ) (hr : 0 ≤ r)
    (h : r < c - a ∨ r < a - c) : ¬ (distance (realEnv clock) a b c d ≤ r) := by
  refine distance_far clock a b c d r ?_
  rcases h with h | h <;> nlinarith [mul_self_nonneg (d - b), mul_self_nonneg (c - a - r),
    mul_self_nonneg (a - c - r)]

theorem distance_far_y (clock : Nat → ℝ) (a b c d r : ℝ) (hr : 0 ≤ r)
    (h : r < d - b ∨ r < b - d) : ¬ (distance (realEnv clock) a b c d ≤ r) := by
  refine distance_far clock a b c d r ?_
  rcases h with h | h <;> nlinarith [mul_self_nonneg (c - a), mul_self_nonneg (d - b - r),
    mul_self_nonneg (b - d - r)]

/-- In the fixed layout, a projectile within the box `370 ≤ x ≤ 430`,
`70 ≤ y ≤ 130` around free body 0 is out of reach of the free bodies 1 and 2,
of the 9 obstacles, of the 4 collectibles and of the 3 targets. -/
theorem near_zero_clear (clock : Nat → ℝ) (s : World ℝ)
    (hx1 : 370 ≤ s.canon_x_position) (hx2 : s.canon_x_position ≤ 430)
    (hy1 : 70 ≤ s.canon_y_position) (hy2 : s.canon_y_position ≤ 130)
    (hr : s.radius_of_canon = 10) (hrp : s.radius_of_piggy = 30)
    (hf : s.fixe = (initial_world : World ℝ).fixe)
    (hco : s.coins = (initial_world : World ℝ).coins)
    (hpg : ∀ k, s.piggy_pos k 0 = (initial_world : World ℝ).piggy_pos k 0
      ∧ s.piggy_pos k 1 = (initial_world : World ℝ).piggy_pos k 1)
    (b1 : s.objects 1 0 = 1200 ∧ s.objects 1 1 = 150 ∧ s.objects 1 5 = 30 / 2)
    (b2 : s.objects 2 0 = 1000 ∧ s.objects 2 1 = 200 ∧ s.objects 2 5 = 30 / 2) :
    ¬ CanonTouch (realEnv clock) 1 s
    ∧ ¬ CanonTouch (realEnv clock) 2 s
    ∧ (∀ k, k < no_of_fixed_objects → CanonObstacleQuiet k s)
    ∧ (∀ k, k < no_of_coins → ¬ CoinContact (realEnv clock) k s)
    ∧ (∀ k, k < no_of_piggy → ¬ PiggyContact (realEnv clock) k s) := by
  obtain ⟨f00, f01, f02, f03, f10, f11, f12, f13, f20, f21, f22, f23, f30, f31, f32, f33,
    f40, f41, f42, f43, f50, f51, f52, f53⟩ := layout_fixe_high
  obtain ⟨f60, f61, f62, f63, f70, f71, f72, f73, f80, f81, f82, f83⟩ := layout_fixe_low
  obtain ⟨c00, c01, c02, c10, c11, c12, c20, c21, c22, c30, c31, c32⟩ := layout_coins
  obtain ⟨p00, p01, p10, p11, p20, p21⟩ := layout_piggy
  refine ⟨?_, ?_, ?_, ?_, ?_⟩
  · unfold CanonTouch
    rw [b1.1, b1.2.1, b1.2.2]
    exact fun h => distance_far_x _ _ _ _ _ _ (by norm_num) (Or.inl (by linarith only [hx1, hx2, hy1, hy2])) h.1
  · unfold CanonTouch
    rw [b2.1, b2.2.1, b2.2.2]
    exact fun h => distance_far_x _ _ _ _ _ _ (by norm_num) (Or.inl (by linarith only [hx1, hx2, hy1, hy2])) h.1
  · intro k hk
    unfold no_of_fixed_objects at hk
    unfold CanonObstacleQuiet
    rw [hf, hr]
    interval_cases k <;>
      simp only [f00, f01, f02, f03, f10, f11, f12, f13, f20, f21, f22, f23, f30, f31, f32, f33,
        f40, f41, f42, f43, f50, f51, f52, f53, f60, f61, f62, f63, f70, f71, f72, f73, f80,
        f81, f82, f83] <;>
      refine ⟨fun g => ⟨fun h => ?_, fun h => ?_⟩, fun g => ⟨fun h => ?_, fun h => ?_⟩⟩ <;>
      first
      | linarith only [h.1, h.2, hx1, hx2, hy1, hy2]
      | linarith only [g.1, g.2, h.1, h.2, hx1, hx2, hy1, hy2]
      | (rcases g with g | g <;> linarith only [g.1, g.2, h.1, h.2, hx1, hx2, hy1, hy2])
  · intro k hk h
    unfold no_of_coins at hk
    unfold CoinContact at h
    rw [hco, hr] at h
    interval_cases k
    · rw [c00, c01, c02] at h
      exact distance_far_y _ _ _ _ _ _ (by norm_num) (Or.inl (by linarith only [hx1, hx2, hy1, hy2])) h.1
    · rw [c10, c11, c12] at h
      exact distance_far_y _ _ _ _ _ _ (by norm_num) (Or.inl (by linarith only [hx1, hx2, hy1, hy2])) h.1
    · rw [c20, c21, c22] at h
      exact distance_far_x _ _ _ _ _ _ (by norm_num) (Or.inl (by linarith only [hx1, hx2, hy1, hy2])) h.1
    · rw [c30, c31, c32] at h
      exact distance_far_x _ _ _ _ _ _ (by norm_num) (Or.inl (by linarith only [hx1, hx2, hy1, hy2])) h.1
  · intro k hk h
    unfold no_of_piggy at hk
    unfold PiggyContact at h
    rw [hr, hrp] at h
    interval_cases k
    · rw [(hpg 0).1, (hpg 0).2, p00, p01] at h
      exact distance_far_y _ _ _ _ _ _ (by norm_num) (Or.inl (by linarith only [hx1, hx2, hy1, hy2])) h.1
    · rw [(hpg 1).1, (hpg 1).2, p10, p11] at h
      exact distance_far_y _ _ _ _ _ _ (by norm_num) (Or.inl (by linarith only [hx1, hx2, hy1, hy2])) h.1
    · rw [(hpg 2).1, (hpg 2).2, p20, p21] at h
      exact distance_far_y _ _ _ _ _ _ (by norm_num) (Or.inl (by linarith only [hx1, hx2, hy1, hy2])) h.1

theorem quadrant_apart (x y ox oy : α) (jx jy : Int) (hx : x ≠ ox) (hy : y ≠ oy) :
    ((quadrant x y ox oy jx jy).1 = 4 ∨ (quadrant x y ox oy jx jy).1 = -4)
    ∧ ((quadrant x y ox oy jx jy).2 = 4 ∨ (quadrant x y ox oy jx jy).2 = -4) := by
  unfold quadrant
  rcases lt_or_gt_of_ne hx with h1 | h1 <;> rcases lt_or_gt_of_ne hy with h2 | h2
  · rw [if_neg (fun h => absurd h.1 (not_lt.mpr h1.le)),
      if_neg (fun h => absurd h.1 (not_lt.mpr h1.le)),
      if_neg (fun h => absurd h.2 (not_lt.mpr h2.le)), if_pos ⟨h1, h2⟩]
    exact ⟨Or.inr rfl, Or.inr rfl⟩
  · rw [if_neg (fun h => absurd h.1 (not_lt.mpr h1.le)),
      if_neg (fun h => absurd h.1 (not_lt.mpr h1.le)), if_pos ⟨h1, h2⟩]
    exact ⟨Or.inr rfl, Or.inl rfl⟩
  · rw [if_neg (fun h => absurd h.2 (not_lt.mpr h2.le)), if_pos ⟨h1, h2⟩]
    exact ⟨Or.inl rfl, Or.inr rfl⟩
  · rw [if_pos ⟨h1, h2⟩]
    exact ⟨Or.inl rfl, Or.inl rfl⟩

/-- A `checkcollision` pass over a state with the fixed layout of obstacles,
collectibles and targets and with the free bodies 1 and 2 at their places, in
which no free body is in contact with anything but the projectile, and the
projectile touches free body 0 from a place within the box `374 ≤ x ≤ 426`,
`74 ≤ y ≤ 126`, level with the body on neither axis: the only contact of the
pass is that one, and the state after the pass is the one its response
leaves. -/
theorem hit_zero_pass (clock : Nat → ℝ) (U : Uninit ℝ) (w : World ℝ)
    (hx1 : 374 ≤ w.canon_x_position) (hx2 : w.canon_x_position ≤ 426)
    (hy1 : 74 ≤ w.canon_y_position) (hy2 : w.canon_y_position ≤ 126)
    (hnx : w.canon_x_position ≠ w.objects 0 0) (hny : w.canon_y_position ≠ w.objects 0 1)
    (hr : w.radius_of_canon = 10) (hrp : w.radius_of_piggy = 30)
    (hf : w.fixe = (initial_world : World ℝ).fixe)
    (hco : w.coins = (initial_world : World ℝ).coins)
    (hpg : ∀ k, w.piggy_pos k 0 = (initial_world : World ℝ).piggy_pos k 0
      ∧ w.piggy_pos k 1 = (initial_world : World ℝ).piggy_pos k 1)
    (b1 : w.objects 1 0 = 1200 ∧ w.objects 1 1 = 150 ∧ w.objects 1 5 = 30 / 2)
    (b2 : w.objects 2 0 = 1000 ∧ w.objects 2 1 = 200 ∧ w.objects 2 5 = 30 / 2)
    (hb : BodiesCalm (realEnv clock) w) (ht : CanonTouch (realEnv clock) 0 w) :
    checkcollision (realEnv clock) U w = canon_object_response (realEnv clock) U 0 w := by
  have hfr := canon_object_response_frame (realEnv clock) U 0 w
  have hmo := canon_object_response_mono (realEnv clock) U 0 w
  have hpos := canon_object_response_position (realEnv clock) U 0 w
  have hq := quadrant_apart w.canon_x_position w.canon_y_position (w.objects 0 0)
    (w.objects 0 1) (U.c_valx 0) (U.c_valy 0) hnx hny
  have sx1 : 370 ≤ (canon_object_response (realEnv clock) U 0 w).canon_x_position := by
    rw [hpos.1]
    rcases hq.1 with h | h <;> rw [h] <;> push_cast <;> linarith
  have sx2 : (canon_object_response (realEnv clock) U 0 w).canon_x_position ≤ 430 := by
    rw [hpos.1]
    rcases hq.1 with h | h <;> rw [h] <;> push_cast <;> linarith
  have sy1 : 70 ≤ (canon_object_response (realEnv clock) U 0 w).canon_y_position := by
    rw [hpos.2]
    rcases hq.2 with h | h <;> rw [h] <;> push_cast <;> linarith
  have sy2 : (canon_object_response (realEnv clock) U 0 w).canon_y_position ≤ 130 := by
    rw [hpos.2]
    rcases hq.2 with h | h <;> rw [h] <;> push_cast <;> linarith
  have hcl := near_zero_clear clock (canon_object_response (realEnv clock) U 0 w) sx1 sx2 sy1 sy2
    (hfr.1.1.2.2.1.trans hr) (hfr.1.1.2.2.2.2.2.2.2.1.trans hrp)
    (hfr.1.1.2.2.2.2.2.2.2.2.trans hf) (hmo.1.trans hco)
    (fun k => by rw [hmo.2.1]; exact hpg k)
    ⟨(hfr.2 1).1.trans b1.1, (hfr.2 1).2.1.trans b1.2.1, (hfr.2 1).2.2.1.trans b1.2.2⟩
    ⟨(hfr.2 2).1.trans b2.1, (hfr.2 2).2.1.trans b2.2.1, (hfr.2 2).2.2.1.trans b2.2.2⟩
  exact checkcollision_hit_only (realEnv clock) U w (by intro h; linarith [h.le])
    (by rw [hr]; intro h; linarith [h.le]) (by intro h; linarith)
    (by intro h; linarith [h.1]) ht hb hcl.1 hcl.2.1 hcl.2.2.1 hcl.2.2.2.1 hcl.2.2.2.2

/-- The steps of `draw` between the air-friction re-launch and the launch step
leave the state as it is when no aim or power key is held, the pointer does not
set the power and no free body is in motion. -/
theorem draw_mid_still (E : Env α) (w : World α) (hw : w.w_pressed = 0) (hs : w.s_pressed = 0)
    (hd : w.d_pressed = 0) (hc : w.c_pressed = 0)
    (hp : ¬ (w.left_button_Pressed = 0 ∧ w.right_button_Pressed = 1))
    (hf : ∀ i, i < no_of_objects → w.objects i 13 ≠ 1) : draw_mid E w = w := by
  have hk : draw_keys w = w := by
    have h1 : draw_key_w w = w := by
      unfold draw_key_w
      rw [hw, if_neg (by decide)]
    have h2 : draw_key_s w = w := by
      unfold draw_key_s
      rw [hs, if_neg (by decide)]
    have h3 : draw_key_dc w = w := by
      unfold draw_key_dc
      rw [hd, hc, if_neg (by decide), if_neg (by decide)]
    unfold draw_keys
    rw [h1, h2, h3]
  have hq : draw_pointer_power E w = w := by
    unfold draw_pointer_power
    rw [if_neg hp]
  unfold draw_mid
  rw [hk, hq]
  refine forLoop_fixed _ _ _ _ (fun i _ hi => ?_)
  unfold draw_object
  rw [if_neg (hf i hi)]

/-- A `draw` tick with the projectile at rest, no key or launch input and no
free body in motion is the air-friction re-launch alone. -/
theorem draw_idle_eq (E : Env α) (w : World α) (hw : w.w_pressed = 0) (hs : w.s_pressed = 0)
    (hd : w.d_pressed = 0) (hc : w.c_pressed = 0)
    (hp : ¬ (w.left_button_Pressed = 0 ∧ w.right_button_Pressed = 1))
    (hl : ¬ (w.left_button_Pressed = 1 ∧ w.right_button_Pressed = 1 ∧ w.canon_out = 0))
    (ha : ¬ (w.a_pressed = 1 ∧ w.canon_out = 0)) (h1 : w.canon_out ≠ 1)
    (hf : ∀ i, i < no_of_objects → w.objects i 13 ≠ 1)
    (hv : ¬ (w.canon_x_velocity * w.air_friction > 70)) : draw E w = draw_air E w := by
  have hm : draw_mid E (draw_air E w) = draw_air E w :=
    draw_mid_still E (draw_air E w) hw hs hd hc hp hf
  have hla : draw_launch E (draw_air E w) = draw_air E w := by
    unfold draw_launch
    simp only []
    rw [if_neg (show ¬ ((draw_air E w).left_button_Pressed = 1
        ∧ (draw_air E w).right_button_Pressed = 1 ∧ (draw_air E w).canon_out = 0) from hl),
      if_neg (show ¬ ((draw_air E w).a_pressed = 1 ∧ (draw_air E w).canon_out = 0) from ha)]
  have hu : draw_canon_update E (draw_air E w) = draw_air E w := by
    unfold draw_canon_update
    rw [if_neg (show ¬ ((draw_air E w).canon_out = 1) from h1)]
  have hcap : draw_cap (draw_air E w) = draw_air E w := by
    unfold draw_cap
    rw [if_neg (show ¬ ((draw_air E w).canon_x_velocity > 70) from hv)]
  rw [draw_eq_update]
  unfold draw_to_update
  rw [hm, hla, hu, hcap]

/-- In a state with the free bodies at their places of the fixed layout, the
projectile resting at `(0, 51)` touches no wall and no free body. -/
theorem layout_canon_quiet (clock : Nat → ℝ) (w : World ℝ) (hx : w.canon_x_position = 0)
    (hy : w.canon_y_position = 51) (hr : w.radius_of_canon = 10) (ho : w.canon_out = 0)
    (h0 : ∀ j, w.objects j 0 = (initial_world : World ℝ).objects j 0)
    (h1 : ∀ j, w.objects j 1 = (initial_world : World ℝ).objects j 1)
    (h5 : ∀ j, w.objects j 5 = (initial_world : World ℝ).objects j 5) :
    CanonQuiet (realEnv clock) w := by
  obtain ⟨e00, e01, e05, e10, e11, e15, e20, e21, e25⟩ := layout_objects
  unfold CanonQuiet
  rw [hx, hy, hr, ho]
  refine ⟨by norm_num, by norm_num, by norm_num, fun h => absurd h.2 (by decide), ?_⟩
  intro j hj
  unfold no_of_objects at hj
  rw [h0, h1, h5]
  interval_cases j
  · rw [e00, e01, e05]
    exact distance_far _ _ _ _ _ _ (by norm_num)
  · rw [e10, e11, e15]
    exact distance_far _ _ _ _ _ _ (by norm_num)
  · rw [e20, e21, e25]
    exact distance_far _ _ _ _ _ _ (by norm_num)

theorem main_loop_single (E : Env α) (t : Uninit α × Input α) (w : World α) :
    main_loop E [t] w = main_iter E t.1 t.2 w := by
  unfold main_loop
  simp only []
  split_ifs
  · rfl
  · rfl

/-- The first iteration of the main loop, in which the launch key goes down: in
its `checkcollision` pass no free body hits the resting projectile. -/
theorem first_iteration_gentle (clock : Nat → ℝ) (U : Uninit ℝ) :
    Gentle (realEnv clock) [(U, launch_input)] (initial_world : World ℝ) := by
  have hd : draw (realEnv clock) (set_cursor 0 0 (initial_world : World ℝ))
      = draw_air (realEnv clock) (set_cursor 0 0 (initial_world : World ℝ)) := by
    refine draw_idle_eq (realEnv clock) _ rfl rfl rfl rfl (fun h => absurd h.2 ?_)
      (fun h => absurd h.1 ?_) (fun h => absurd h.1 ?_) ?_ ?_ ?_
    · show ¬ ((0 : Int) = 1)
      decide
    · show ¬ ((0 : Int) = 1)
      decide
    · show ¬ ((0 : Int) = 1)
      decide
    · show ¬ ((0 : Int) = 1)
      decide
    · intro i hi
      unfold no_of_objects at hi
      interval_cases i
      · show ¬ ((0 : ℝ) = 1)
        norm_num
      · show ¬ ((0 : ℝ) = 1)
        norm_num
      · show ¬ ((0 : ℝ) = 1)
        norm_num
    · show ¬ ((0 : ℝ) * (1 - 0.000005) > 70)
      norm_num
  refine ⟨?_, fun _ => trivial⟩
  show NoRestHit (realEnv clock) U (draw (realEnv clock) (set_cursor 0 0 initial_world))
  rw [hd]
  intro _ i hi
  exact pass_to_body_reach (realEnv clock) U _ i hi
    (layout_canon_quiet clock _ rfl rfl rfl rfl (fun _ => rfl) (fun _ => rfl) (fun _ => rfl))

theorem main_iter_eq (E : Env α) (U : Uninit α) (inp : Input α) (w : World α) :
    main_iter E U inp w
      = count_piggy_hit (poll_events inp
          (checkcollision E U (draw E (set_cursor inp.xmousePos inp.ymousePos w)))) := rfl

/-- With no target at hit count 3 the recount of the targets stores 0. -/
theorem count_piggy_hit_none (w : World α) (h : ∀ k, k < no_of_piggy → w.piggy_pos k 2 ≠ 3) :
    count_piggy_hit w = { w with no_of_piggy_hit := 0 } := by
  unfold count_piggy_hit
  refine forLoop_fixed 0 no_of_piggy _ _ (fun i _ hi => ?_)
  rw [if_neg (h i hi)]

/-- The pointer launch of `draw`: with both buttons down and the projectile at
rest, the launch step is the re-launch from the muzzle along the line from the
origin to the cursor. -/
theorem draw_launch_pointer (E : Env α) (w : World α) (hl : w.left_button_Pressed = 1)
    (hr : w.right_button_Pressed = 1) (h0 : w.canon_out = 0) :
    draw_launch E w
      = set_canon_position E (55 + 100 * E.cos (atan_div E (720 - w.ymousePos) w.xmousePos))
          (60 + 100 * E.sin (atan_div E (720 - w.ymousePos) w.xmousePos))
          (720 - w.ymousePos) w.xmousePos 1
          (E.sqrt ((w.xmousePos - 55) * (w.xmousePos - 55)
            + (720 - w.ymousePos) * (720 - w.ymousePos)) / 10)
          (E.sqrt ((w.xmousePos - 55) * (w.xmousePos - 55)
            + (720 - w.ymousePos) * (720 - w.ymousePos)) / 10
            * E.cos (atan_div E (720 - w.ymousePos) w.xmousePos))
          (E.sqrt ((w.xmousePos - 55) * (w.xmousePos - 55)
            + (720 - w.ymousePos) * (720 - w.ymousePos)) / 10
            * E.sin (atan_div E (720 - w.ymousePos) w.xmousePos))
          { w with canon_out := 1 } := by
  unfold draw_launch
  rw [if_pos ⟨hl, hr, h0⟩]

/-- The trajectory update of a projectile that stays in flight. -/
theorem draw_canon_update_fly (E : Env α) (w : World α) (h : w.canon_out = 1)
    (hs : ¬ (w.canon_x_velocity ≤ 1 ∧ w.canon_x_velocity ≥ -1
      ∧ w.canon_velocity * E.sin w.canon_theta
          - w.gravity * (E.glfwGetTime w.reads - w.canon_start_time) ≤ 1
      ∧ w.canon_velocity * E.sin w.canon_theta
          - w.gravity * (E.glfwGetTime w.reads - w.canon_start_time) ≥ -1)) :
    draw_canon_update E w
      = { w with
          reads := w.reads + 1
          canon_y_velocity := w.canon_velocity * E.sin w.canon_theta
            - w.gravity * (E.glfwGetTime w.reads - w.canon_start_time)
          canon_x_direction := if w.canon_x_velocity < 0 then -1 else 1
          canon_y_position := w.canon_y_initial_position
            + ((w.canon_velocity * E.sin w.canon_theta)
                * (E.glfwGetTime w.reads - w.canon_start_time)
              - (w.gravity * (E.glfwGetTime w.reads - w.canon_start_time)
                  * (E.glfwGetTime w.reads - w.canon_start_time)) / 2) * 10
          canon_x_position := w.canon_x_initial_position
            + ((w.canon_velocity * E.cos w.canon_theta)
                * (E.glfwGetTime w.reads - w.canon_start_time)) * 10 } := by
  unfold draw_canon_update
  rw [if_pos h]
  simp only []
  rw [if_neg hs]

/-- The trajectory update of a projectile that the settle rule puts to rest. -/
theorem draw_canon_update_rest (E : Env α) (w : World α) (h : w.canon_out = 1)
    (hs : w.canon_x_velocity ≤ 1 ∧ w.canon_x_velocity ≥ -1
      ∧ w.canon_velocity * E.sin w.canon_theta
          - w.gravity * (E.glfwGetTime w.reads - w.canon_start_time) ≤ 1
      ∧ w.canon_velocity * E.sin w.canon_theta
          - w.gravity * (E.glfwGetTime w.reads - w.canon_start_time) ≥ -1) :
    draw_canon_update E w
      = { w with
          reads := w.reads + 1
          canon_y_velocity := w.canon_velocity * E.sin w.canon_theta
            - w.gravity * (E.glfwGetTime w.reads - w.canon_start_time)
          canon_x_direction := if w.canon_x_velocity < 0 then -1 else 1
          canon_y_position := w.canon_y_initial_position
            + ((w.canon_velocity * E.sin w.canon_theta)
                * (E.glfwGetTime w.reads - w.canon_start_time)
              - (w.gravity * (E.glfwGetTime w.reads - w.canon_start_time)
                  * (E.glfwGetTime w.reads - w.canon_start_time)) / 2) * 10
          canon_x_position := w.canon_x_initial_position
            + ((w.canon_velocity * E.cos w.canon_theta)
                * (E.glfwGetTime w.reads - w.canon_start_time)) * 10
          canon_out := 0 } := by
  unfold draw_canon_update
  rw [if_pos h]
  simp only []
  rw [if_pos hs]

theorem atan_div_right (clock : Nat → ℝ) (y x : ℝ) (hx : x ≠ 0) :
    atan_div (realEnv clock) y x = Real.arctan (y / x) := by
  unfold atan_div
  rw [if_neg (fun h => hx h.1), if_neg (fun h => hx h.1)]
  rfl

theorem sqrt_of_square (clock : Nat → ℝ) (a h : ℝ) (hh : 0 ≤ h) (e : a = h * h) :
    (realEnv clock).sqrt a = h := by
  show Real.sqrt a = h
  rw [e, Real.sqrt_mul_self hh]

/-- Cosine and sine of the angle `atan2 (y, x)` of a point at distance `h > 0`
from the origin. -/
theorem atan2_cos_sin (clock : Nat → ℝ) (x y h : ℝ) (hh : 0 < h) (e : x * x + y * y = h * h) :
    (realEnv clock).cos ((realEnv clock).atan2 y x) = x / h
    ∧ (realEnv clock).sin ((realEnv clock).atan2 y x) = y / h := by
  have hs := sqrt_of_square clock (x * x + y * y) h hh.le e
  have h1 := polar_cos clock x y
  have h2 := polar_sin clock x y
  rw [hs] at h1 h2
  constructor
  · rw [eq_div_iff hh.ne']
    linarith
  · rw [eq_div_iff hh.ne']
    linarith

theorem strike_clock_values :
    (strike_clock 4 : ℝ) = 4 / 1000 ∧ (strike_clock 5 : ℝ) = 724 / 1000
    ∧ (strike_clock 7 : ℝ) = 726 / 1000 ∧ (strike_clock 9 : ℝ) = 728 / 1000
    ∧ (strike_clock 10 : ℝ) = 729 / 1000 ∧ (strike_clock 11 : ℝ) = 730 / 1000 := by
  unfold strike_clock
  norm_num

/-- The first iteration of the run: nothing moves, both mouse buttons go
down. -/
theorem strike_first (clock : Nat → ℝ) (U : Uninit ℝ) :
    main_iter (realEnv clock) U hold_input (initial_world : World ℝ)
      = { poll_events hold_input
            (draw_air (realEnv clock) (set_cursor 406.2744 601.5033 initial_world)) with
          no_of_piggy_hit := 0 } := by
  have hd : draw (realEnv clock) (set_cursor (hold_input : Input ℝ).xmousePos
        (hold_input : Input ℝ).ymousePos (initial_world : World ℝ))
      = draw_air (realEnv clock) (set_cursor 406.2744 601.5033 (initial_world : World ℝ)) := by
    refine draw_idle_eq (realEnv clock) _ rfl rfl rfl rfl (fun h => absurd h.2 ?_)
      (fun h => absurd h.1 ?_) (fun h => absurd h.1 ?_) ?_ ?_ ?_
    · show ¬ ((0 : Int) = 1)
      decide
    · show ¬ ((0 : Int) = 1)
      decide
    · show ¬ ((0 : Int) = 1)
      decide
    · show ¬ ((0 : Int) = 1)
      decide
    · intro i hi
      unfold no_of_objects at hi
      interval_cases i
      · show ¬ ((0 : ℝ) = 1)
        norm_num
      · show ¬ ((0 : ℝ) = 1)
        norm_num
      · show ¬ ((0 : ℝ) = 1)
        norm_num
    · show ¬ ((0 : ℝ) * (1 - 0.000005) > 70)
      norm_num
  have hq : CanonQuiet (realEnv clock)
      (draw_air (realEnv clock) (set_cursor 406.2744 601.5033 (initial_world : World ℝ))) :=
    layout_canon_quiet clock _ rfl rfl rfl rfl (fun _ => rfl) (fun _ => rfl) (fun _ => rfl)
  have hc : checkcollision (realEnv clock) U
        (draw_air (realEnv clock) (set_cursor 406.2744 601.5033 (initial_world : World ℝ)))
      = draw_air (realEnv clock) (set_cursor 406.2744 601.5033 (initial_world : World ℝ)) :=
    checkcollision_calm (realEnv clock) U _
      ⟨fun i hi => layout_bodies_quiet clock _ rfl rfl hq i hi, initial_world_canon_obstacles⟩
      (initial_world_idle clock).1 (initial_world_idle clock).2
  rw [main_iter_eq, hd, hc]
  refine count_piggy_hit_none _ (fun k hk => ?_)
  unfold no_of_piggy at hk
  interval_cases k
  · show ¬ ((0 : ℝ) = 3)
    norm_num
  · show ¬ ((0 : ℝ) = 3)
    norm_num
  · show ¬ ((0 : ℝ) = 3)
    norm_num

/-- The pointer launch with the cursor at `(x, 720 - y)`, `x > 0`: the launch
angle has cosine `x / h` and sine `y / h`, where `h` is the distance of the
cursor from the origin, and the launch speed is a tenth of the distance `v` of
the cursor from `(55, 0)`. -/
theorem pointer_launch (clock : Nat → ℝ) (w : World ℝ) (hl : w.left_button_Pressed = 1)
    (hr : w.right_button_Pressed = 1) (h0 : w.canon_out = 0) (x y v h : ℝ)
    (hx : w.xmousePos = x) (hy : 720 - w.ymousePos = y) (x0 : 0 < x) (hv0 : 0 ≤ v)
    (hv : (x - 55) * (x - 55) + y * y = v * v) (hh : 0 < h) (hh2 : x * x + y * y = h * h) :
    draw_launch (realEnv clock) w
      = set_canon_position (realEnv clock) (55 + 100 * (x / h)) (60 + 100 * (y / h)) y x 1
          (v / 10) (v / 10 * (x / h)) (v / 10 * (y / h)) { w with canon_out := 1 } := by
  subst hx hy
  have hs : Real.sqrt (1 + ((720 - w.ymousePos) / w.xmousePos) ^ 2) = h / w.xmousePos := by
    have e : 1 + ((720 - w.ymousePos) / w.xmousePos) ^ 2 = (h / w.xmousePos) * (h / w.xmousePos) := by
      rw [div_mul_div_comm, ← hh2]
      field_simp
      ring
    rw [e, Real.sqrt_mul_self (div_pos hh x0).le]
  have hc : (realEnv clock).cos (Real.arctan ((720 - w.ymousePos) / w.xmousePos))
      = w.xmousePos / h := by
    show Real.cos (Real.arctan ((720 - w.ymousePos) / w.xmousePos)) = w.xmousePos / h
    rw [Real.cos_arctan, hs]
    field_simp
  have hsn : (realEnv clock).sin (Real.arctan ((720 - w.ymousePos) / w.xmousePos))
      = (720 - w.ymousePos) / h := by
    show Real.sin (Real.arctan ((720 - w.ymousePos) / w.xmousePos)) = (720 - w.ymousePos) / h
    rw [Real.sin_arctan, hs]
    field_simp
  rw [draw_launch_pointer (realEnv clock) w hl hr h0,
    atan_div_right clock _ _ x0.ne', hc, hsn, sqrt_of_square clock _ v hv0 hv]

/-- The writes of `set_object_position` on a mobile body with a direction
given. -/
theorem set_object_position_mobile (E : Env α) (x y ty tx : α) (d : Int) (v ux uy : α)
    (i : Nat) (w : World α) (hd : d ≠ 0) (h15 : w.objects i 15 = 1) :
    set_object_position E x y ty tx d v ux uy i w
      = { w with
          objects := set2 (set2 (set2 (set2 (set2 (set2 (set2 (set2 (set2 (set2 w.objects
            i 14 (d : α)) i 12 (E.atan2 ty tx)) i 8 (E.glfwGetTime w.reads)) i 9 x) i 10 y)
            i 11 (E.sqrt (ux * ux + uy * uy))) i 2 ux) i 3 uy) i 13 1) i 16 (w.objects i 16 + 1)
          reads := w.reads + 1 } := by
  unfold set_object_position
  simp only []
  rw [if_pos hd]
  have e15 : set2 (set2 (set2 (set2 (set2 (set2 (set2 (set2 w.objects
      i 14 (d : α)) i 12 (E.atan2 ty tx)) i 8 (E.glfwGetTime w.reads)) i 9 x) i 10 y)
      i 11 (E.sqrt (ux * ux + uy * uy))) i 2 ux) i 3 uy i 15 = 1 := by
    simp [set2_apply, h15]
  rw [if_pos e15]
  have e16 : set2 (set2 (set2 (set2 (set2 (set2 (set2 (set2 (set2 w.objects
      i 14 (d : α)) i 12 (E.atan2 ty tx)) i 8 (E.glfwGetTime w.reads)) i 9 x) i 10 y)
      i 11 (E.sqrt (ux * ux + uy * uy))) i 2 ux) i 3 uy) i 13 1 i 16 = w.objects i 16 := by
    simp [set2_apply]
  rw [e16]

/-- The re-launch of a mobile free body after a contact with the projectile. -/
theorem canon_object_relaunch_eq (E : Env α) (i : Nat) (a b : α) (w : World α)
    (h : w.objects i 15 = 1) :
    canon_object_relaunch E i a b w
      = set_object_position E (w.objects i 0) (w.objects i 1) b a (if a < 0 then -1 else 1) 0
          a b i (set_obj i 13 1 (set_obj i 10 (w.objects i 1) (set_obj i 9 (w.objects i 0) w))) := by
  unfold canon_object_relaunch
  simp only []
  have e1 : (set_obj i 9 (w.objects i 0) w).objects i 1 = w.objects i 1 := by
    simp [set_obj, set2_apply]
  have h15 : (set_obj i 10 ((set_obj i 9 (w.objects i 0) w).objects i 1)
      (set_obj i 9 (w.objects i 0) w)).objects i 15 = 1 := by
    simp [set_obj, set2_apply, h]
  rw [if_pos h15, e1]
  have e0 : (set_obj i 13 1 (set_obj i 10 (w.objects i 1)
      (set_obj i 9 (w.objects i 0) w))).objects i 0 = w.objects i 0 := by
    simp [set_obj, set2_apply]
  have e2 : (set_obj i 13 1 (set_obj i 10 (w.objects i 1)
      (set_obj i 9 (w.objects i 0) w))).objects i 1 = w.objects i 1 := by
    simp [set_obj, set2_apply]
  rw [e0, e2]

/-- The launch frame that the re-launch after a contact with the projectile
writes for a mobile free body. -/
theorem canon_object_relaunch_row (E : Env α) (i : Nat) (a b : α) (w : World α)
    (h : w.objects i 15 = 1) :
    (canon_object_relaunch E i a b w).objects i 9 = w.objects i 0
    ∧ (canon_object_relaunch E i a b w).objects i 10 = w.objects i 1
    ∧ (canon_object_relaunch E i a b w).objects i 13 = 1
    ∧ (canon_object_relaunch E i a b w).objects i 16 = w.objects i 16 + 1
    ∧ (canon_object_relaunch E i a b w).objects i 8 = E.glfwGetTime w.reads
    ∧ (canon_object_relaunch E i a b w).reads = w.reads + 1
    ∧ (canon_object_relaunch E i a b w).canon_start_time = w.canon_start_time
    ∧ (canon_object_relaunch E i a b w).objects i 11
      = E.sqrt ((canon_object_relaunch E i a b w).objects i 2
          * (canon_object_relaunch E i a b w).objects i 2
        + (canon_object_relaunch E i a b w).objects i 3
          * (canon_object_relaunch E i a b w).objects i 3)
    ∧ (canon_object_relaunch E i a b w).objects i 12
      = E.atan2 ((canon_object_relaunch E i a b w).objects i 3)
          ((canon_object_relaunch E i a b w).objects i 2)
    ∧ (canon_object_relaunch E i a b w).objects i 14
      = (if (canon_object_relaunch E i a b w).objects i 2 < 0 then -1 else 1) := by
  have hm := canon_object_relaunch_mobile E i a b w h
  rw [hm.1, hm.2]
  rw [canon_object_relaunch_eq E i a b w h, set_object_position_mobile]
  · refine ⟨?_, ?_, ?_, ?_, ?_, ?_, ?_, ?_, ?_, ?_⟩
    · simp [set_obj, set2_apply]
    · simp [set_obj, set2_apply]
    · simp [set_obj, set2_apply]
    · simp [set_obj, set2_apply]
    · simp [set_obj, set2_apply]
    · simp [set_obj, set2_apply]
    · simp [set_obj, set2_apply]
    · simp [set_obj, set2_apply]
    · simp [set_obj, set2_apply]
    · simp only [set_obj, set2_apply]
      simp
  · split_ifs <;> decide
  · simp [set_obj, set2_apply, h]

/-- The launch frame of a mobile free body after the response to a contact with
the projectile: launch point at the body's place, launch time one clock read
after the projectile's, launch speed, angle and direction those of the body's
new velocity, and the body is in motion. -/
theorem canon_object_response_row (E : Env α) (U : Uninit α) (i : Nat) (w : World α)
    (h : w.objects i 15 = 1) :
    (canon_object_response E U i w).objects i 9 = w.objects i 0
    ∧ (canon_object_response E U i w).objects i 10 = w.objects i 1
    ∧ (canon_object_response E U i w).objects i 13 = 1
    ∧ (canon_object_response E U i w).objects i 16 = w.objects i 16 + 1
    ∧ (canon_object_response E U i w).objects i 8 = E.glfwGetTime (w.reads + 1)
    ∧ (canon_object_response E U i w).reads = w.reads + 1 + 1
    ∧ (canon_object_response E U i w).canon_start_time = E.glfwGetTime w.reads
    ∧ (canon_object_response E U i w).objects i 11
      = E.sqrt ((canon_object_response E U i w).objects i 2
          * (canon_object_response E U i w).objects i 2
        + (canon_object_response E U i w).objects i 3
          * (canon_object_response E U i w).objects i 3)
    ∧ (canon_object_response E U i w).objects i 12
      = E.atan2 ((canon_object_response E U i w).objects i 3)
          ((canon_object_response E U i w).objects i 2)
    ∧ (canon_object_response E U i w).objects i 14
      = (if (canon_object_response E U i w).objects i 2 < 0 then -1 else 1) := by
  unfold canon_object_response
  simp only []
  exact canon_object_relaunch_row E i _ _ _ h

/-- The response to a contact of the projectile with free body `j` writes to no
row of another free body. -/
theorem canon_object_response_other (E : Env α) (U : Uninit α) (i j : Nat) (w : World α)
    (h : i ≠ j) : (canon_object_response E U j w).objects i = w.objects i := by
  unfold canon_object_response
  simp only []
  rw [canon_object_relaunch_other E i j _ _ _ h]
  rfl

/-- With the free bodies 1 and 2 and the obstacles as laid out and free body 0
near its place, no free body is in contact with a wall, the ground, another
free body or one of the obstacles 6..8. -/
theorem arena_bodies_calm (clock : Nat → ℝ) (w : World ℝ) (ha : Arena w)
    (hx1 : 399 ≤ w.objects 0 0) (hx2 : w.objects 0 0 ≤ 402) (hy1 : 99 ≤ w.objects 0 1)
    (hy2 : w.objects 0 1 ≤ 101) (h5 : w.objects 0 5 = 30 / 2) :
    BodiesCalm (realEnv clock) w := by
  obtain ⟨-, -, -, e10, e11, e15, e20, e21, e25⟩ := layout_objects
  obtain ⟨f60, f61, f62, f63, f70, f71, f72, f73, f80, f81, f82, f83⟩ := layout_fixe_low
  obtain ⟨hf, -, -, -, -, -, -, -, r1, r2⟩ := ha
  have b10 : w.objects 1 0 = 1200 := by rw [r1]; exact e10
  have b11 : w.objects 1 1 = 150 := by rw [r1]; exact e11
  have b15 : w.objects 1 5 = 30 / 2 := by rw [r1]; exact e15
  have b20 : w.objects 2 0 = 1000 := by rw [r2]; exact e20
  have b21 : w.objects 2 1 = 200 := by rw [r2]; exact e21
  have b25 : w.objects 2 5 = 30 / 2 := by rw [r2]; exact e25
  have t01 : ¬ Touch (realEnv clock) 0 1 w := by
    unfold Touch
    rw [b10, b11, b15, h5]
    exact distance_far_x _ _ _ _ _ _ (by norm_num) (Or.inl (by linarith only [hx2]))
  have t10 : ¬ Touch (realEnv clock) 1 0 w := by
    unfold Touch
    rw [b10, b11, b15, h5]
    exact distance_far_x _ _ _ _ _ _ (by norm_num) (Or.inr (by linarith only [hx2]))
  have t02 : ¬ Touch (realEnv clock) 0 2 w := by
    unfold Touch
    rw [b20, b21, b25, h5]
    exact distance_far_x _ _ _ _ _ _ (by norm_num) (Or.inl (by linarith only [hx2]))
  have t20 : ¬ Touch (realEnv clock) 2 0 w := by
    unfold Touch
    rw [b20, b21, b25, h5]
    exact distance_far_x _ _ _ _ _ _ (by norm_num) (Or.inr (by linarith only [hx2]))
  have t12 : ¬ Touch (realEnv clock) 1 2 w := by
    unfold Touch
    rw [b10, b11, b15, b20, b21, b25]
    exact distance_far_x _ _ _ _ _ _ (by norm_num) (Or.inr (by norm_num))
  have t21 : ¬ Touch (realEnv clock) 2 1 w := by
    unfold Touch
    rw [b10, b11, b15, b20, b21, b25]
    exact distance_far_x _ _ _ _ _ _ (by norm_num) (Or.inl (by norm_num))
  intro i hi
  unfold no_of_objects at hi
  unfold BodyQuiet Apart ObstacleQuiet
  rw [hf]
  interval_cases i
  · refine ⟨⟨?_, ?_, ?_, ?_⟩, ?_, ?_⟩
    · intro h
      linarith only [h, hx2]
    · intro h
      linarith only [h, hx1]
    · intro j hj hji
      unfold no_of_objects at hj
      interval_cases j
      · exact absurd rfl hji
      · exact ⟨t01, t10⟩
      · exact ⟨t02, t20⟩
    · intro i1 h6 h9
      rw [h5]
      interval_cases i1 <;>
        simp only [f60, f61, f62, f63, f70, f71, f72, f73, f80, f81, f82, f83] <;>
        exact ⟨fun g => absurd g.2 (by intro g2; linarith only [g2, hx2]),
          fun _ => ⟨fun h => by linarith only [h.1, hx2], fun h => by linarith only [h.1, hx2]⟩⟩
    · intro h
      linarith only [h, hy2]
    · intro h
      linarith only [h, hy1]
  · rw [b10, b11, b15]
    refine ⟨⟨by norm_num, by norm_num, ?_, ?_⟩, by norm_num, by norm_num⟩
    · intro j hj hji
      unfold no_of_objects at hj
      interval_cases j
      · exact ⟨t10, t01⟩
      · exact absurd rfl hji
      · exact ⟨t12, t21⟩
    · intro i1 h6 h9
      interval_cases i1 <;>
        simp only [f60, f61, f62, f63, f70, f71, f72, f73, f80, f81, f82, f83] <;> norm_num
  · rw [b20, b21, b25]
    refine ⟨⟨by norm_num, by norm_num, ?_, ?_⟩, by norm_num, by norm_num⟩
    · intro j hj hji
      unfold no_of_objects at hj
      interval_cases j
      · exact ⟨t20, t02⟩
      · exact ⟨t21, t12⟩
      · exact absurd rfl hji
    · intro i1 h6 h9
      interval_cases i1 <;>
        simp only [f60, f61, f62, f63, f70, f71, f72, f73, f80, f81, f82, f83] <;> norm_num

/-- The position update of a free body in motion reads the clock once. -/
theorem draw_object_reads (E : Env α) (i : Nat) (w : World α) (h : w.objects i 13 = 1) :
    (draw_object E i w).reads = w.reads + 1 := by
  unfold draw_object
  rw [if_pos h]
  simp only []
  split_ifs <;> rfl

/-- The position update of free body `i` writes only the columns 0, 1, 3 and 13
of its row. -/
theorem draw_object_cols (E : Env α) (i : Nat) (w : World α) (k : Nat) (h0 : k ≠ 0) (h1 : k ≠ 1)
    (h3 : k ≠ 3) (h13 : k ≠ 13) : (draw_object E i w).objects i k = w.objects i k := by
  unfold draw_object
  simp only []
  split_ifs <;> simp [set_obj, set2_apply, h0, h1, h3, h13]

/-- The `draw` of the second iteration of the run: the pointer launch, and the
flight of 0.72 seconds that brings the projectile within reach of free body 0,
falling. -/
theorem strike_flight (U : Uninit ℝ) (d : World ℝ)
    (hd : d = draw (realEnv strike_clock) (set_cursor 406.2744 601.5033
      (main_iter (realEnv strike_clock) U hold_input (initial_world : World ℝ)))) :
    Flown d := by
  subst hd
  rw [strike_first strike_clock U]
  have hm : draw_mid (realEnv strike_clock) (draw_air (realEnv strike_clock)
      (set_cursor 406.2744 601.5033
        ({ poll_events hold_input (draw_air (realEnv strike_clock)
            (set_cursor 406.2744 601.5033 (initial_world : World ℝ))) with
          no_of_piggy_hit := 0 } : World ℝ)))
      = draw_air (realEnv strike_clock) (set_cursor 406.2744 601.5033
        ({ poll_events hold_input (draw_air (realEnv strike_clock)
            (set_cursor 406.2744 601.5033 (initial_world : World ℝ))) with
          no_of_piggy_hit := 0 } : World ℝ)) := by
    refine draw_mid_still (realEnv strike_clock) _ rfl rfl rfl rfl (fun h => absurd h.1 ?_) ?_
    · show ¬ ((1 : Int) = 0)
      decide
    · intro i hi
      unfold no_of_objects at hi
      interval_cases i
      · show ¬ ((0 : ℝ) = 1)
        norm_num
      · show ¬ ((0 : ℝ) = 1)
        norm_num
      · show ¬ ((0 : ℝ) = 1)
        norm_num
  have hL := pointer_launch strike_clock (draw_air (realEnv strike_clock)
      (set_cursor 406.2744 601.5033
        ({ poll_events hold_input (draw_air (realEnv strike_clock)
            (set_cursor 406.2744 601.5033 (initial_world : World ℝ))) with
          no_of_piggy_hit := 0 } : World ℝ))) rfl rfl rfl 406.2744 118.4967 370.7225 423.2025 rfl
      (by show (720 - 601.5033 : ℝ) = _; norm_num) (by norm_num) (by norm_num) (by norm_num)
      (by norm_num) (by norm_num)
  rw [draw_eq, hm]
  generalize hLd : draw_launch (realEnv strike_clock) (draw_air (realEnv strike_clock)
      (set_cursor 406.2744 601.5033
        ({ poll_events hold_input (draw_air (realEnv strike_clock)
            (set_cursor 406.2744 601.5033 (initial_world : World ℝ))) with
          no_of_piggy_hit := 0 } : World ℝ))) = L at hL ⊢
  have l1 : L.canon_out = 1 := by rw [hL]; rfl
  have lvx : L.canon_x_velocity = 370.7225 / 10 * (406.2744 / 423.2025) := by rw [hL]; rfl
  have lvel : L.canon_velocity = 370.7225 / 10 := by
    rw [hL]
    exact sqrt_of_square strike_clock _ _ (by norm_num) (by norm_num)
  have lth : L.canon_theta = (realEnv strike_clock).atan2 118.4967 406.2744 := by rw [hL]; rfl
  have lg : L.gravity = 18 := by rw [hL]; rfl
  have lr : L.reads = 5 := by rw [hL]; rfl
  have lst : L.canon_start_time = 4 / 1000 := by
    rw [hL]
    exact strike_clock_values.1
  have lxi : L.canon_x_initial_position = 55 + 100 * (406.2744 / 423.2025) := by rw [hL]; rfl
  have lyi : L.canon_y_initial_position = 60 + 100 * (118.4967 / 423.2025) := by rw [hL]; rfl
  have ck5 : (realEnv strike_clock).glfwGetTime 5 = 724 / 1000 := strike_clock_values.2.1
  have htr := atan2_cos_sin strike_clock 406.2744 118.4967 423.2025 (by norm_num) (by norm_num)
  have hu := draw_canon_update_fly (realEnv strike_clock) L l1 (by
    rw [lvx]
    intro h
    have h1 := h.1
    norm_num at h1)
  have hcap : draw_cap (draw_canon_update (realEnv strike_clock) L)
      = draw_canon_update (realEnv strike_clock) L := by
    unfold draw_cap
    rw [if_neg]
    rw [hu]
    show ¬ (L.canon_x_velocity > 70)
    rw [lvx]
    norm_num
  rw [hcap, hu]
  have ho : L.objects = (initial_world : World ℝ).objects := by rw [hL]; rfl
  refine ⟨⟨?_, ?_, ?_, ?_, ?_, ?_, lg, ?_, ?_, ?_⟩, l1, ?_, ?_, ?_, ?_, ?_, ?_⟩
  · show L.fixe = _
    rw [hL]
    rfl
  · show L.coins = _
    rw [hL]
    rfl
  · show L.piggy_pos = _
    rw [hL]
    rfl
  · show L.radius_of_canon = _
    rw [hL]
    rfl
  · show L.radius_of_piggy = _
    rw [hL]
    rfl
  · show L.e = _
    rw [hL]
    rfl
  · show L.air_friction = _
    rw [hL]
    rfl
  · show L.objects 1 = _
    rw [ho]
  · show L.objects 2 = _
    rw [ho]
  · show L.canon_x_initial_position + ((L.canon_velocity * (realEnv strike_clock).cos L.canon_theta)
      * ((realEnv strike_clock).glfwGetTime L.reads - L.canon_start_time)) * 10 = _
    rw [lxi, lvel, lth, htr.1, lr, ck5, lst]
    norm_num
  · show L.canon_y_initial_position
      + ((L.canon_velocity * (realEnv strike_clock).sin L.canon_theta)
          * ((realEnv strike_clock).glfwGetTime L.reads - L.canon_start_time)
        - (L.gravity * ((realEnv strike_clock).glfwGetTime L.reads - L.canon_start_time)
            * ((realEnv strike_clock).glfwGetTime L.reads - L.canon_start_time)) / 2) * 10 = _
    rw [lyi, lvel, lth, htr.2, lr, ck5, lst, lg]
    norm_num
  · show L.canon_x_velocity = _
    rw [lvx]
    norm_num
  · show L.canon_velocity * (realEnv strike_clock).sin L.canon_theta
      - L.gravity * ((realEnv strike_clock).glfwGetTime L.reads - L.canon_start_time) = _
    rw [lvel, lth, htr.2, lr, ck5, lst, lg]
    norm_num
  · show L.reads + 1 = 6
    rw [lr]
  · show L.objects 0 = _
    rw [ho]

/-- The `checkcollision` pass of the second iteration of the run: its only
contact is the one of the projectile with free body 0. -/
theorem flown_pass (clock : Nat → ℝ) (U : Uninit ℝ) (d : World ℝ) (h : Flown d) :
    checkcollision (realEnv clock) U d = canon_object_response (realEnv clock) U 0 d := by
  obtain ⟨ha, -, hx, hy, -, -, -, h0⟩ := h
  obtain ⟨e00, e01, e05, e10, e11, e15, e20, e21, e25⟩ := layout_objects
  have o00 : d.objects 0 0 = 400 := by rw [h0]; exact e00
  have o01 : d.objects 0 1 = 100 := by rw [h0]; exact e01
  have o05 : d.objects 0 5 = 30 / 2 := by rw [h0]; exact e05
  have o16 : d.objects 0 16 = 0 := by rw [h0]; rfl
  have hb := arena_bodies_calm clock d ha (by rw [o00]; norm_num) (by rw [o00]; norm_num)
    (by rw [o01]; norm_num) (by rw [o01]; norm_num) o05
  obtain ⟨hf, hco, hpg, hr, hrp, -, -, -, r1, r2⟩ := ha
  have ht : CanonTouch (realEnv clock) 0 d := by
    unfold CanonTouch
    rw [hx, hy, o00, o01, o05, o16]
    exact ⟨distance_near _ _ _ _ _ _ (by norm_num) (by norm_num), by
      unfold no_of_collisions_allowed
      norm_num⟩
  exact hit_zero_pass clock U d (by rw [hx]; norm_num) (by rw [hx]; norm_num)
    (by rw [hy]; norm_num) (by rw [hy]; norm_num) (by rw [hx, o00]; norm_num)
    (by rw [hy, o01]; norm_num) hr hrp hf hco (fun k => by rw [hpg]; exact ⟨rfl, rfl⟩)
    (by rw [r1]; exact ⟨e10, e11, e15⟩) (by rw [r2]; exact ⟨e20, e21, e25⟩) hb ht

/-- The response to the contact of the second iteration of the run. -/
theorem flown_response (E : Env ℝ) (d : World ℝ) (h : Flown d) :
    Bounced E (canon_object_response E (zeroUninit ℝ) 0 d) := by
  obtain ⟨ha, hout, hx, hy, hvx, hvy, hrd, h0⟩ := h
  obtain ⟨hf, hco, hpg, hr, hrp, he, hg, haf, r1, r2⟩ := ha
  obtain ⟨e00, e01, e05, -, -, -, -, -, -⟩ := layout_objects
  have o00 : d.objects 0 0 = 400 := by rw [h0]; exact e00
  have o01 : d.objects 0 1 = 100 := by rw [h0]; exact e01
  have o05 : d.objects 0 5 = 30 / 2 := by rw [h0]; exact e05
  have o02 : d.objects 0 2 = 0 := by rw [h0]; rfl
  have o03 : d.objects 0 3 = 0 := by rw [h0]; rfl
  have o15 : d.objects 0 15 = 1 := by rw [h0]; rfl
  have o16 : d.objects 0 16 = 0 := by rw [h0]; rfl
  have hfr := canon_object_response_frame E (zeroUninit ℝ) 0 d
  have hmo := canon_object_response_mono E (zeroUninit ℝ) 0 d
  have hpos := canon_object_response_position E (zeroUninit ℝ) 0 d
  have hvel := canon_object_response_velocities E (zeroUninit ℝ) 0 d o15
  have hrow := canon_object_response_row E (zeroUninit ℝ) 0 d o15
  have hq : quadrant d.canon_x_position d.canon_y_position (d.objects 0 0) (d.objects 0 1)
      ((zeroUninit ℝ).c_valx 0) ((zeroUninit ℝ).c_valy 0) = (4, 4) := by
    unfold quadrant
    rw [hx, hy, o00, o01, if_pos ⟨by norm_num, by norm_num⟩]
  have v2 : (canon_object_response E (zeroUninit ℝ) 0 d).objects 0 2 = 1334601 / 43750 := by
    rw [hvel.1, he, hvx, o02, o05, hr]
    norm_num
  have v3 : (canon_object_response E (zeroUninit ℝ) 0 d).objects 0 3 = -(773931 / 350000) := by
    rw [hvel.2.1, he, hvy, o03, o05, hr]
    norm_num
  refine ⟨⟨hfr.1.1.2.2.2.2.2.2.2.2.trans hf, hmo.1.trans hco, hmo.2.1.trans hpg,
    hfr.1.1.2.2.1.trans hr, hfr.1.1.2.2.2.2.2.2.2.1.trans hrp, hfr.1.1.2.2.2.2.2.1.trans he,
    hfr.1.1.1.trans hg, hfr.1.1.2.1.trans haf, ?_, ?_⟩, hfr.1.2.2.trans hout, ?_, ?_, ?_, ?_, ?_,
    (hfr.2 0).1.trans o00, (hfr.2 0).2.1.trans o01, (hfr.2 0).2.2.1.trans o05, v2, v3, ?_,
    hrow.1.trans o00, hrow.2.1.trans o01, hrow.2.2.2.2.2.2.2.1, hrow.2.2.2.2.2.2.2.2.1,
    hrow.2.2.1, ?_, ?_⟩
  · rw [canon_object_response_other E (zeroUninit ℝ) 1 0 d (by decide), r1]
  · rw [canon_object_response_other E (zeroUninit ℝ) 2 0 d (by decide), r2]
  · rw [hpos.1, hq, hx]
    norm_num
  · rw [hpos.2, hq, hy]
    norm_num
  · rw [hvel.2.2.1, hvy, o03, o05, hr, he]
    norm_num
  · rw [hvel.2.2.2]
    rfl
  · rw [hrow.2.2.2.2.2.1, hrd]
  · rw [hrow.2.2.2.2.1, hrd]
  · rw [hrow.2.2.2.2.2.2.2.2.2, v2, if_neg (by norm_num)]
  · rw [hrow.2.2.2.1, o16]
    norm_num

/-- The steps of `draw` between the air-friction re-launch and the launch step
are the position updates of the three free bodies when no aim or power key is
held and the pointer does not set the power. -/
theorem draw_mid_bodies (E : Env α) (w : World α) (hw : w.w_pressed = 0) (hs : w.s_pressed = 0)
    (hd : w.d_pressed = 0) (hc : w.c_pressed = 0)
    (hp : ¬ (w.left_button_Pressed = 0 ∧ w.right_button_Pressed = 1)) :
    draw_mid E w = draw_object E 2 (draw_object E 1 (draw_object E 0 w)) := by
  have hk : draw_keys w = w := by
    have h1 : draw_key_w w = w := by
      unfold draw_key_w
      rw [hw, if_neg (by decide)]
    have h2 : draw_key_s w = w := by
      unfold draw_key_s
      rw [hs, if_neg (by decide)]
    have h3 : draw_key_dc w = w := by
      unfold draw_key_dc
      rw [hd, hc, if_neg (by decide), if_neg (by decide)]
    unfold draw_keys
    rw [h1, h2, h3]
  have hq : draw_pointer_power E w = w := by
    unfold draw_pointer_power
    rw [if_neg hp]
  unfold draw_mid
  rw [hk, hq]
  rfl

/-- The `draw` of the third iteration of the run: free body 0 moves on, the
projectile is put to rest by the settle rule. -/
theorem bounced_draw (c : World ℝ) (h : Bounced (realEnv strike_clock) c) :
    Settled (draw (realEnv strike_clock) (set_cursor 406.2744 601.5033
      (count_piggy_hit (poll_events fire_input c)))) := by
  obtain ⟨ha, hout, hx, hy, hvx, hvy, hrd, o00, o01, o05, o02, o03, o08, o09, o10, o11, o12,
    o13, o14, o16⟩ := h
  obtain ⟨hf, hco, hpg, hr, hrp, he, hg, haf, r1, r2⟩ := ha
  obtain ⟨-, -, c7, c9, c10, c11⟩ := strike_clock_values
  have hcp : count_piggy_hit (poll_events fire_input c)
      = { poll_events fire_input c with no_of_piggy_hit := 0 } := by
    refine count_piggy_hit_none _ (fun k hk => ?_)
    show c.piggy_pos k 2 ≠ 3
    rw [hpg]
    unfold no_of_piggy at hk
    interval_cases k
    · show ¬ ((0 : ℝ) = 3)
      norm_num
    · show ¬ ((0 : ℝ) = 3)
      norm_num
    · show ¬ ((0 : ℝ) = 3)
      norm_num
  rw [hcp, draw_eq]
  generalize hA : draw_air (realEnv strike_clock) (set_cursor 406.2744 601.5033
      ({ poll_events fire_input c with no_of_piggy_hit := 0 } : World ℝ)) = A
  have a_out : A.canon_out = 1 := by rw [← hA]; exact hout
  have a_rd : A.reads = 10 := by
    rw [← hA]
    show c.reads + 1 + 1 = 10
    rw [hrd]
  have a_obj : A.objects = c.objects := by rw [← hA]; rfl
  have a_vx : A.canon_x_velocity = -(257977 / 280000) * (1 - 0.000005) := by
    rw [← hA]
    show c.canon_x_velocity * c.air_friction = _
    rw [hvx, haf]
  have a_vy : A.canon_y_velocity = 0 * (1 - 0.000005) := by
    rw [← hA]
    show c.canon_y_velocity * c.air_friction = _
    rw [hvy, haf]
  have a_vel : A.canon_velocity = (realEnv strike_clock).sqrt
      (-(257977 / 280000) * (1 - 0.000005) * (-(257977 / 280000) * (1 - 0.000005))
        + 0 * (1 - 0.000005) * (0 * (1 - 0.000005))) := by
    rw [← hA]
    show (realEnv strike_clock).sqrt (c.canon_x_velocity * c.air_friction
      * (c.canon_x_velocity * c.air_friction)
      + c.canon_y_velocity * c.air_friction * (c.canon_y_velocity * c.air_friction)) = _
    rw [hvx, hvy, haf]
  have a_th : A.canon_theta = (realEnv strike_clock).atan2 (0 * (1 - 0.000005))
      (-(257977 / 280000) * (1 - 0.000005)) := by
    rw [← hA]
    show (realEnv strike_clock).atan2 (c.canon_y_velocity * c.air_friction)
      (c.canon_x_velocity * c.air_friction) = _
    rw [hvx, hvy, haf]
  have a_st : A.canon_start_time = 728 / 1000 := by
    rw [← hA]
    show strike_clock (c.reads + 1) = _
    rw [hrd]
    exact c9
  have a_xi : A.canon_x_initial_position = 411.243392 := by rw [← hA]; exact hx
  have a_yi : A.canon_y_initial_position = 120.081656 := by rw [← hA]; exact hy
  have a_g : A.gravity = 18 := by rw [← hA]; exact hg
  have a_ar : Arena A := by
    rw [← hA]
    exact ⟨hf, hco, hpg, hr, hrp, he, hg, haf, r1, r2⟩
  have hm : draw_mid (realEnv strike_clock) A
      = draw_object (realEnv strike_clock) 2 (draw_object (realEnv strike_clock) 1
          (draw_object (realEnv strike_clock) 0 A)) := by
    refine draw_mid_bodies (realEnv strike_clock) A ?_ ?_ ?_ ?_ (fun g => absurd g.2 ?_)
    · rw [← hA]; rfl
    · rw [← hA]; rfl
    · rw [← hA]; rfl
    · rw [← hA]; rfl
    · rw [← hA]
      show ¬ ((0 : Int) = 1)
      decide
  have a_l : A.left_button_Pressed = 0 := by rw [← hA]; rfl
  have a_a : A.a_pressed = 0 := by rw [← hA]; rfl
  have b13 : A.objects 0 13 = 1 := by rw [a_obj]; exact o13
  have pc := polar_cos strike_clock (c.objects 0 2) (c.objects 0 3)
  have ps := polar_sin strike_clock (c.objects 0 2) (c.objects 0 3)
  rw [← o11, ← o12] at pc ps
  have ck10 : (realEnv strike_clock).glfwGetTime 10 = 729 / 1000 := c10
  have ck11 : (realEnv strike_clock).glfwGetTime 11 = 730 / 1000 := c11
  have ck7 : (realEnv strike_clock).glfwGetTime 7 = 726 / 1000 := c7
  have hx0 := draw_object_x (realEnv strike_clock) 0 A b13
  have hy0 := draw_object_in_flight (realEnv strike_clock) 0 A b13
  have hmd := draw_object_mid (realEnv strike_clock) 0 A
  have hsm := draw_object_same (realEnv strike_clock) 0 A
  have hrd0 := draw_object_reads (realEnv strike_clock) 0 A b13
  have hc5 := draw_object_cols (realEnv strike_clock) 0 A 5 (by decide) (by decide) (by decide)
    (by decide)
  have hc16 := draw_object_cols (realEnv strike_clock) 0 A 16 (by decide) (by decide) (by decide)
    (by decide)
  have hr1 := draw_object_row_other (realEnv strike_clock) 1 0 A (by decide)
  have hr2 := draw_object_row_other (realEnv strike_clock) 2 0 A (by decide)
  rw [a_obj, a_rd, pc, o02, o08, o09, o14, ck10, ck7] at hx0
  rw [a_obj, a_rd, ps, o03, o08, o10, ck10, ck7] at hy0
  rw [a_obj, o05] at hc5
  rw [a_obj, o16] at hc16
  rw [a_obj, r1] at hr1
  rw [a_obj, r2] at hr2
  rw [a_rd] at hrd0
  unfold Mid Par at hmd
  unfold Same at hsm
  obtain ⟨hf', hco', hpg', hr', hrp', he', hg', haf', -, -⟩ := a_ar
  generalize draw_object (realEnv strike_clock) 0 A = O at hm hx0 hy0 hmd hsm hrd0 hc5 hc16 hr1 hr2
  have q1 : draw_object (realEnv strike_clock) 1 O = O := by
    unfold draw_object
    rw [if_neg]
    rw [hr1]
    show ¬ ((0 : ℝ) = 1)
    norm_num
  have q2 : draw_object (realEnv strike_clock) 2 O = O := by
    unfold draw_object
    rw [if_neg]
    rw [hr2]
    show ¬ ((0 : ℝ) = 1)
    norm_num
  rw [q1, q2] at hm
  have o_out : O.canon_out = 1 := hmd.2.2.2.2.2.2.2.2.2.2.1.trans a_out
  have hla : draw_launch (realEnv strike_clock) O = O := by
    unfold draw_launch
    rw [if_neg (fun g => absurd g.2.2 (by rw [o_out]; decide)),
      if_neg (fun g => absurd g.2 (by rw [o_out]; decide))]
  have o_vx : O.canon_x_velocity = -(257977 / 280000) * (1 - 0.000005) :=
    hmd.2.2.2.2.2.2.2.2.2.2.2.2.2.2.2.2.2.2.1.trans a_vx
  have o_vel : O.canon_velocity * (realEnv strike_clock).sin O.canon_theta = 0 * (1 - 0.000005) := by
    rw [hmd.2.2.2.2.2.2.2.2.2.2.2.2.2.2.1, hmd.2.2.2.2.2.2.2.2.2.2.2.2.2.2.2.1, a_vel, a_th]
    exact polar_sin strike_clock _ _
  have o_velc : O.canon_velocity * (realEnv strike_clock).cos O.canon_theta
      = -(257977 / 280000) * (1 - 0.000005) := by
    rw [hmd.2.2.2.2.2.2.2.2.2.2.2.2.2.2.1, hmd.2.2.2.2.2.2.2.2.2.2.2.2.2.2.2.1, a_vel, a_th]
    exact polar_cos strike_clock _ _
  have o_g : O.gravity = 18 := hmd.1.1.trans a_g
  have o_rd : O.reads = 11 := hrd0
  have o_st : O.canon_start_time = 728 / 1000 := hmd.2.2.2.2.2.2.2.2.2.2.2.2.2.1.trans a_st
  have o_xi : O.canon_x_initial_position = 411.243392 :=
    hmd.2.2.2.2.2.2.2.2.2.2.2.2.2.2.2.2.1.trans a_xi
  have o_yi : O.canon_y_initial_position = 120.081656 :=
    hmd.2.2.2.2.2.2.2.2.2.2.2.2.2.2.2.2.2.1.trans a_yi
  have o_ar : Arena O :=
    ⟨hmd.1.2.2.2.2.2.2.2.2.trans hf', hsm.1.trans hco', hsm.2.1.trans hpg',
      hmd.1.2.2.1.trans hr', hmd.1.2.2.2.2.2.2.2.1.trans hrp', hmd.1.2.2.2.2.2.1.trans he', o_g,
      hmd.1.2.1.trans haf', hr1, hr2⟩
  have hu := draw_canon_update_rest (realEnv strike_clock) O o_out (by
    rw [o_vx, o_vel, o_g, o_rd, ck11, o_st]
    norm_num)
  rw [hm, hla]
  generalize draw_canon_update (realEnv strike_clock) O = R at hu
  have hcap : draw_cap R = R := by
    unfold draw_cap
    rw [if_neg]
    rw [hu]
    show ¬ (O.canon_x_velocity > 70)
    rw [o_vx]
    norm_num
  rw [hcap, hu]
  refine ⟨o_ar, rfl, ?_, ?_, ?_, ?_, ?_, ?_, ?_, ?_, ?_, ?_, ?_, hy0.2.trans ?_, hc5, hc16⟩
  · show (411.2 : ℝ) ≤ O.canon_x_initial_position
      + ((O.canon_velocity * (realEnv strike_clock).cos O.canon_theta)
        * ((realEnv strike_clock).glfwGetTime O.reads - O.canon_start_time)) * 10
    rw [o_velc, o_rd, ck11, o_st, o_xi]
    norm_num
  · show O.canon_x_initial_position
      + ((O.canon_velocity * (realEnv strike_clock).cos O.canon_theta)
        * ((realEnv strike_clock).glfwGetTime O.reads - O.canon_start_time)) * 10 ≤ (411.3 : ℝ)
    rw [o_velc, o_rd, ck11, o_st, o_xi]
    norm_num
  · show (120 : ℝ) ≤ O.canon_y_initial_position
      + ((O.canon_velocity * (realEnv strike_clock).sin O.canon_theta)
          * ((realEnv strike_clock).glfwGetTime O.reads - O.canon_start_time)
        - (O.gravity * ((realEnv strike_clock).glfwGetTime O.reads - O.canon_start_time)
            * ((realEnv strike_clock).glfwGetTime O.reads - O.canon_start_time)) / 2) * 10
    rw [o_vel, o_g, o_rd, ck11, o_st, o_yi]
    norm_num
  · show O.canon_y_initial_position
      + ((O.canon_velocity * (realEnv strike_clock).sin O.canon_theta)
          * ((realEnv strike_clock).glfwGetTime O.reads - O.canon_start_time)
        - (O.gravity * ((realEnv strike_clock).glfwGetTime O.reads - O.canon_start_time)
            * ((realEnv strike_clock).glfwGetTime O.reads - O.canon_start_time)) / 2) * 10
      ≤ (120.1 : ℝ)
    rw [o_vel, o_g, o_rd, ck11, o_st, o_yi]
    norm_num
  · show -1 ≤ O.canon_x_velocity
    rw [o_vx]
    norm_num
  · show O.canon_x_velocity ≤ 1
    rw [o_vx]
    norm_num
  · show O.canon_velocity * (realEnv strike_clock).sin O.canon_theta
      - O.gravity * ((realEnv strike_clock).glfwGetTime O.reads - O.canon_start_time) = -0.036
    rw [o_vel, o_g, o_rd, ck11, o_st]
    norm_num
  · show 400.9 ≤ O.objects 0 0
    rw [hx0]
    norm_num
  · show O.objects 0 0 ≤ 401
    rw [hx0]
    norm_num
  · show 99.9 ≤ O.objects 0 1
    rw [hy0.1]
    norm_num
  · show O.objects 0 1 ≤ 100
    rw [hy0.1]
    norm_num
  · norm_num

/-- The `checkcollision` pass of the third iteration of the run: its only
contact is the one of free body 0 with the resting projectile, which leaves the
projectile resting with the stored horizontal velocity `-2377863/1960000`. -/
theorem settled_pass (clock : Nat → ℝ) (U : Uninit ℝ) (d : World ℝ) (h : Settled d) :
    CanonTouch (realEnv clock) 0 (pass_to_body (realEnv clock) U 0 d)
    ∧ checkcollision (realEnv clock) U d = canon_object_response (realEnv clock) U 0 d
    ∧ (checkcollision (realEnv clock) U d).canon_out = 0
    ∧ (checkcollision (realEnv clock) U d).canon_x_velocity = -(2377863 / 1960000) := by
  obtain ⟨ha, hout, hx1, hx2, hy1, hy2, -, -, hvy, ox1, ox2, oy1, oy2, o03, o05, o16⟩ := h
  obtain ⟨-, -, -, e10, e11, e15, e20, e21, e25⟩ := layout_objects
  have hb := arena_bodies_calm clock d ha (by linarith only [ox1]) (by linarith only [ox2])
    (by linarith only [oy1]) (by linarith only [oy2]) o05
  obtain ⟨hf, hco, hpg, hr, hrp, he, -, -, r1, r2⟩ := ha
  have ht : CanonTouch (realEnv clock) 0 d := by
    unfold CanonTouch
    rw [o05, o16]
    refine ⟨distance_near _ _ _ _ _ _ (by norm_num) ?_, by
      unfold no_of_collisions_allowed
      norm_num⟩
    have h1 : (d.objects 0 0 - d.canon_x_position) * (d.objects 0 0 - d.canon_x_position)
        ≤ 11 * 11 := by
      nlinarith only [hx1, hx2, ox1, ox2]
    have h2 : (d.objects 0 1 - d.canon_y_position) * (d.objects 0 1 - d.canon_y_position)
        ≤ 21 * 21 := by
      nlinarith only [hy1, hy2, oy1, oy2]
    linarith only [h1, h2]
  have hp : pass_to_body (realEnv clock) U 0 d = canon_walls (realEnv clock) d := rfl
  have hw : canon_walls (realEnv clock) d = d :=
    canon_walls_still (realEnv clock) d (by intro g; linarith only [g, hx2])
      (by rw [hr]; intro g; linarith only [g, hy2]) (by intro g; linarith only [g, hy1])
      (by intro g; linarith only [g.1, hx1])
  have hpass := hit_zero_pass clock U d (by linarith only [hx1]) (by linarith only [hx2])
    (by linarith only [hy1]) (by linarith only [hy2]) (by intro g; linarith only [g, hx1, ox2])
    (by intro g; linarith only [g, hy1, oy2]) hr hrp hf hco
    (fun k => by rw [hpg]; exact ⟨rfl, rfl⟩)
    (by rw [r1]; exact ⟨e10, e11, e15⟩) (by rw [r2]; exact ⟨e20, e21, e25⟩) hb ht
  refine ⟨by rw [hp, hw]; exact ht, hpass, ?_, ?_⟩
  · rw [hpass]
    exact (canon_object_response_frame (realEnv clock) U 0 d).1.2.2.trans hout
  · rw [hpass, canon_object_response_vx, hvy, o03, o05, hr, he]
    norm_num

theorem main_loop_next (E : Env α) (t : Uninit α × Input α) (ts : List (Uninit α × Input α))
    (w : World α) (h : (main_iter E t.1 t.2 w).no_of_piggy_hit ≠ (no_of_piggy : α)) :
    main_loop E (t :: ts) w = main_loop E ts (main_iter E t.1 t.2 w) := by
  show (if (main_iter E t.1 t.2 w).no_of_piggy_hit = (no_of_piggy : α)
    then main_iter E t.1 t.2 w else main_loop E ts (main_iter E t.1 t.2 w)) = _
  rw [if_neg h]

/-- The example run: from the initial state, a pointer launch sends the
projectile onto free body 0; the contact leaves the projectile too slow to fly
on, so that the next `draw` puts it to rest, and in the `checkcollision` pass
after that `draw` the body, still falling, hits the resting projectile.  At the
end of the run the projectile is Resting with the stored horizontal velocity
`-2377863/1960000`. -/
theorem strike_run_result :
    CanonTouch E2 0 (pass_to_body E2 (zeroUninit ℝ) 0
      (draw E2 (set_cursor 406.2744 601.5033
        (main_loop E2 [(zeroUninit ℝ, hold_input), (zeroUninit ℝ, fire_input)]
          (initial_world : World ℝ)))))
    ∧ (draw E2 (set_cursor 406.2744 601.5033
        (main_loop E2 [(zeroUninit ℝ, hold_input), (zeroUninit ℝ, fire_input)]
          (initial_world : World ℝ)))).canon_out = 0
    ∧ (main_loop E2 strike_run (initial_world : World ℝ)).canon_out = 0
    ∧ (main_loop E2 strike_run (initial_world : World ℝ)).canon_x_velocity
      = -(2377863 / 1960000) := by
  have h1 := strike_first strike_clock (zeroUninit ℝ)
  have hd1 := strike_flight (zeroUninit ℝ) _ rfl
  have hp1 := flown_pass strike_clock (zeroUninit ℝ) _ hd1
  have hb1 := flown_response (realEnv strike_clock) _ hd1
  rw [← hp1] at hb1
  have hn1 : (main_iter (realEnv strike_clock) (zeroUninit ℝ) hold_input
      (initial_world : World ℝ)).no_of_piggy_hit ≠ (no_of_piggy : ℝ) := by
    rw [h1]
    show ¬ ((0 : ℝ) = (3 : Nat))
    norm_num
  have e2 : main_iter (realEnv strike_clock) (zeroUninit ℝ) fire_input
      (main_iter (realEnv strike_clock) (zeroUninit ℝ) hold_input (initial_world : World ℝ))
      = count_piggy_hit (poll_events fire_input
          (checkcollision (realEnv strike_clock) (zeroUninit ℝ)
            (draw (realEnv strike_clock) (set_cursor 406.2744 601.5033
              (main_iter (realEnv strike_clock) (zeroUninit ℝ) hold_input
                (initial_world : World ℝ)))))) := rfl
  generalize checkcollision (realEnv strike_clock) (zeroUninit ℝ)
    (draw (realEnv strike_clock) (set_cursor 406.2744 601.5033
      (main_iter (realEnv strike_clock) (zeroUninit ℝ) hold_input
        (initial_world : World ℝ)))) = c1 at hb1 e2
  have hd2 := bounced_draw c1 hb1
  rw [← e2] at hd2
  have hn2 : (main_iter (realEnv strike_clock) (zeroUninit ℝ) fire_input
      (main_iter (realEnv strike_clock) (zeroUninit ℝ) hold_input
        (initial_world : World ℝ))).no_of_piggy_hit ≠ (no_of_piggy : ℝ) := by
    rw [e2, count_piggy_hit_none]
    · show ¬ ((0 : ℝ) = (3 : Nat))
      norm_num
    · intro k hk
      show c1.piggy_pos k 2 ≠ 3
      rw [hb1.1.2.2.1]
      unfold no_of_piggy at hk
      interval_cases k
      · show ¬ ((0 : ℝ) = 3)
        norm_num
      · show ¬ ((0 : ℝ) = 3)
        norm_num
      · show ¬ ((0 : ℝ) = 3)
        norm_num
  have hl2 : main_loop (realEnv strike_clock)
      [(zeroUninit ℝ, hold_input), (zeroUninit ℝ, fire_input)] (initial_world : World ℝ)
      = main_iter (realEnv strike_clock) (zeroUninit ℝ) fire_input
          (main_iter (realEnv strike_clock) (zeroUninit ℝ) hold_input
            (initial_world : World ℝ)) := by
    rw [main_loop_next (realEnv strike_clock) (zeroUninit ℝ, hold_input)
      [(zeroUninit ℝ, fire_input)] initial_world hn1, main_loop_single]
  have hl3 : main_loop (realEnv strike_clock) strike_run (initial_world : World ℝ)
      = main_iter (realEnv strike_clock) (zeroUninit ℝ) fire_input
          (main_iter (realEnv strike_clock) (zeroUninit ℝ) fire_input
            (main_iter (realEnv strike_clock) (zeroUninit ℝ) hold_input
              (initial_world : World ℝ))) := by
    unfold strike_run
    rw [main_loop_next (realEnv strike_clock) (zeroUninit ℝ, hold_input)
        [(zeroUninit ℝ, fire_input), (zeroUninit ℝ, fire_input)] initial_world hn1,
      main_loop_next (realEnv strike_clock) (zeroUninit ℝ, fire_input)
        [(zeroUninit ℝ, fire_input)] _ hn2, main_loop_single]
  unfold E2
  rw [hl2, hl3]
  generalize main_iter (realEnv strike_clock) (zeroUninit ℝ) fire_input
    (main_iter (realEnv strike_clock) (zeroUninit ℝ) hold_input
      (initial_world : World ℝ)) = w2 at hd2
  have hs := settled_pass strike_clock (zeroUninit ℝ) _ hd2
  have hc := count_piggy_hit_canon (poll_events fire_input
    (checkcollision (realEnv strike_clock) (zeroUninit ℝ)
      (draw (realEnv strike_clock) (set_cursor 406.2744 601.5033 w2))))
  refine ⟨hs.1, hd2.2.1, ?_, ?_⟩
  · rw [main_iter_eq]
    exact hc.1.trans hs.2.2.1
  · rw [main_iter_eq]
    exact hc.2.1.trans hs.2.2.2

/-- C19 counterexample. (1) The launch key goes down during the first iteration
of the main loop with the power still 0. In the second iteration `draw`
launches the projectile with velocity `(0, 0)` and, one clock read (a hundredth
of a second) later, stores the vertical velocity `-gravity * t = -18/100` and
puts the projectile to rest: the state after that `draw` is Resting
(`canon_out = 0`) with stored vertical velocity `-18/100`, not 0.
(2) A free body that hits a resting projectile changes its stored velocity and
leaves it Resting, and this happens in a run from the initial state.  In
`strike_run` both mouse buttons go down during the first iteration with the
cursor at `(406.2744, 601.5033)`.  In the second iteration `draw` launches the
projectile along the line to the cursor and, 0.72 seconds later on the clock,
updates it to `(407.243392, 116.081656)`, where `checkcollision` finds it in
contact with free body 0 and leaves it with the stored velocity
`(-257977/280000, 0)`.  In the third iteration `draw` puts the projectile to
rest (both components are within `[-1, 1]`) and moves the body on, and in the
`checkcollision` pass after that `draw` the body is in contact with the
resting projectile: the pass leaves the projectile Resting with the stored
horizontal velocity `-2377863/1960000`, outside `[-1, 1]`.  The run is not
`Gentle`. -/
theorem C19_resting_nonzero_velocity :
    ((settle_state E1 (zeroUninit ℝ)).canon_out = 0
      ∧ (settle_state E1 (zeroUninit ℝ)).canon_y_velocity = -(18 / 100)
      ∧ (settle_state E1 (zeroUninit ℝ)).canon_y_velocity ≠ 0)
    ∧ ((draw E2 (set_cursor 406.2744 601.5033
          (main_loop E2 [(zeroUninit ℝ, hold_input), (zeroUninit ℝ, fire_input)]
            (initial_world : World ℝ)))).canon_out = 0
      ∧ CanonTouch E2 0 (pass_to_body E2 (zeroUninit ℝ) 0
          (draw E2 (set_cursor 406.2744 601.5033
            (main_loop E2 [(zeroUninit ℝ, hold_input), (zeroUninit ℝ, fire_input)]
              (initial_world : World ℝ)))))
      ∧ (main_loop E2 strike_run (initial_world : World ℝ)).canon_out = 0
      ∧ (main_loop E2 strike_run (initial_world : World ℝ)).canon_x_velocity
        = -(2377863 / 1960000)
      ∧ (main_loop E2 strike_run (initial_world : World ℝ)).canon_x_velocity < -1
      ∧ ¬ Gentle E2 strike_run (initial_world : World ℝ)) := by
  constructor
  · have h := settle_state_fields (fun k => (k : ℝ) / 100) (zeroUninit ℝ)
    have hy : (settle_state E1 (zeroUninit ℝ)).canon_y_velocity = -(18 / 100) := by
      obtain ⟨r, hr⟩ := h.2.2.1
      refine hr.trans ?_
      push_cast
      ring
    have hx : (settle_state E1 (zeroUninit ℝ)).canon_x_velocity = 0 := h.2.1
    refine ⟨?_, hy, ?_⟩
    · refine h.2.2.2.mpr ?_
      have hx2 : (settle_state (realEnv (fun k => (k : ℝ) / 100)) (zeroUninit ℝ)).canon_x_velocity
          = 0 := hx
      have hy2 : (settle_state (realEnv (fun k => (k : ℝ) / 100)) (zeroUninit ℝ)).canon_y_velocity
          = -(18 / 100) := hy
      rw [hx2, hy2]
      norm_num
    · rw [hy]
      norm_num
  · obtain ⟨ht, hd, ho, hv⟩ := strike_run_result
    have hlt : (main_loop E2 strike_run (initial_world : World ℝ)).canon_x_velocity < -1 := by
      rw [hv]
      norm_num
    refine ⟨hd, ht, ho, hv, hlt, fun hg => ?_⟩
    have hi : RestBound (initial_world : World ℝ) := by
      intro _
      have ex : (initial_world : World ℝ).canon_x_velocity = 0 := rfl
      have ey : (initial_world : World ℝ).canon_y_velocity = 0 := rfl
      unfold SlowCanon
      rw [ex, ey]
      norm_num
    have hb := main_loop_rest_bound E2 strike_run initial_world initial_world_damped hi hg ho
    exact absurd hb.1 (not_le.mpr hlt)

/-- C19, amended. In every state reachable from the initial state by iterations
of the main loop (`draw`, then `checkcollision`) in whose `checkcollision`
passes no free body hits a resting projectile (`Gentle`), whenever the
projectile is Resting (`canon_out = 0`) each component of its stored velocity
`(canon_x_velocity, canon_y_velocity)` is within `[-1, 1]`, the bounds of the
settle rule.  This holds of the state at the end of the iterations and of the
state after the `draw` of a further iteration, whatever the cursor position.
The stored velocity is `(0, 0)` whenever a `checkcollision` pass puts a flying
projectile to rest (a collectible or target hit). -/
theorem C19_resting_velocity (E : Env α) (ts : List (Uninit α × Input α))
    (hg : Gentle E ts (initial_world : World α)) :
    ((main_loop E ts (initial_world : World α)).canon_out = 0 →
      -1 ≤ (main_loop E ts (initial_world : World α)).canon_x_velocity
      ∧ (main_loop E ts (initial_world : World α)).canon_x_velocity ≤ 1
      ∧ -1 ≤ (main_loop E ts (initial_world : World α)).canon_y_velocity
      ∧ (main_loop E ts (initial_world : World α)).canon_y_velocity ≤ 1)
    ∧ (∀ x y : α,
      (draw E (set_cursor x y (main_loop E ts (initial_world : World α)))).canon_out = 0 →
      -1 ≤ (draw E (set_cursor x y (main_loop E ts (initial_world : World α)))).canon_x_velocity
      ∧ (draw E (set_cursor x y (main_loop E ts (initial_world : World α)))).canon_x_velocity ≤ 1
      ∧ -1 ≤ (draw E (set_cursor x y (main_loop E ts (initial_world : World α)))).canon_y_velocity
      ∧ (draw E (set_cursor x y (main_loop E ts (initial_world : World α)))).canon_y_velocity
        ≤ 1)
    ∧ (∀ (U : Uninit α) (w : World α), w.canon_out = 1 → (checkcollision E U w).canon_out = 0 →
      (checkcollision E U w).canon_x_velocity = 0
      ∧ (checkcollision E U w).canon_y_velocity = 0) := by
  have hi : RestBound (initial_world : World α) := by
    intro _
    have ex : (initial_world : World α).canon_x_velocity = 0 := rfl
    have ey : (initial_world : World α).canon_y_velocity = 0 := rfl
    unfold SlowCanon
    rw [ex, ey]
    norm_num
  have h1 := main_loop_rest_bound E ts initial_world initial_world_damped hi hg
  have hd := damped_of_par (main_loop_par E ts (initial_world : World α)) initial_world_damped
  refine ⟨h1, fun x y => ?_, fun U w hw h0 => ?_⟩
  · exact draw_rest_bound E (set_cursor x y (main_loop E ts initial_world)) hd h1
  · rcases checkcollision_rest E U w with h | h
    · rw [h, hw] at h0
      exact absurd h0 (by decide)
    · exact h.2

/-- Witness of C19 (amended): the run of one iteration in which the launch key
goes down with the power still 0 is `Gentle`; after the `draw` of the next
iteration the projectile is Resting with stored velocity `(0, -18/100)`, within
the bounds. -/
theorem C19_resting_velocity_witness :
    Gentle E1 [(zeroUninit ℝ, launch_input)] (initial_world : World ℝ)
    ∧ (draw E1 (set_cursor 0 0
        (main_loop E1 [(zeroUninit ℝ, launch_input)] (initial_world : World ℝ)))).canon_out = 0
    ∧ (draw E1 (set_cursor 0 0
        (main_loop E1 [(zeroUninit ℝ, launch_input)]
          (initial_world : World ℝ)))).canon_y_velocity = -(18 / 100)
    ∧ -1 ≤ (draw E1 (set_cursor 0 0
        (main_loop E1 [(zeroUninit ℝ, launch_input)]
          (initial_world : World ℝ)))).canon_y_velocity
    ∧ (draw E1 (set_cursor 0 0
        (main_loop E1 [(zeroUninit ℝ, launch_input)]
          (initial_world : World ℝ)))).canon_y_velocity ≤ 1 := by
  have hg : Gentle E1 [(zeroUninit ℝ, launch_input)] (initial_world : World ℝ) :=
    first_iteration_gentle (fun k => (k : ℝ) / 100) (zeroUninit ℝ)
  have h := (C19_resting_velocity E1 [(zeroUninit ℝ, launch_input)] hg).2.1 0 0
  have e : draw E1 (set_cursor 0 0
      (main_loop E1 [(zeroUninit ℝ, launch_input)] (initial_world : World ℝ)))
      = settle_state E1 (zeroUninit ℝ) := by
    rw [main_loop_single]
    rfl
  rw [e] at h ⊢
  have hf := settle_state_fields (fun k => (k : ℝ) / 100) (zeroUninit ℝ)
  have hy : (settle_state E1 (zeroUninit ℝ)).canon_y_velocity = -(18 / 100) := by
    obtain ⟨r, hr⟩ := hf.2.2.1
    refine hr.trans ?_
    push_cast
    ring
  have hx : (settle_state E1 (zeroUninit ℝ)).canon_x_velocity = 0 := hf.2.1
  have h0 : (settle_state E1 (zeroUninit ℝ)).canon_out = 0 := by
    refine hf.2.2.2.mpr ?_
    have hx2 : (settle_state (realEnv (fun k => (k : ℝ) / 100)) (zeroUninit ℝ)).canon_x_velocity
        = 0 := hx
    have hy2 : (settle_state (realEnv (fun k => (k : ℝ) / 100)) (zeroUninit ℝ)).canon_y_velocity
        = -(18 / 100) := hy
    rw [hx2, hy2]
    norm_num
  exact ⟨hg, h0, hy, (h h0).2.2.1, (h h0).2.2.2⟩

end Theorems

end AngryBirds
